import Mathlib

/-!
# MELA dispatcher (`Mela.cc`): a shallow embedding

The class `Mela` orchestrates matrix-element evaluations: it owns the
self-defined coupling tables, selects a back end, integrates over unmeasured
kinematics and applies normalisation constants.

Modelling conventions

* `float` / `double` values are exact rationals (`ℚ`); rounding is not
  modelled.  Values that may be not-a-number or infinite (normalisation
  constants, decay angles) use `FloatVal`.  The one place where the precision
  of `float` is followed is the stored normalisation constant:
  `storedConstant32` gives the value of `setConstant` in the arithmetic of the
  source, next to `storedConstant`, its value in exact arithmetic.
* Pointers to candidates are `Option MELACandidate` (null is `none`); a
  candidate is the record of what the dispatcher reads from it.
* External collaborators (the numeric generator `newZZMatrixElement`, the
  analytic PDF library, `TUtil`, `PDGHelpers`, `TSpline3`, libm) are the fields
  of `Externals`.
* The array sizes of `TCouplingsBase.hh` are the fields of `Dims`.
* Logging statements are omitted.
-/

namespace TVar

/-- Matrix-element engines named in `Mela.cc`; `other` stands for any further
enumerator of the header. -/
inductive MatrixElement where
  | MCFM | JHUGen | ANALYTICAL
  | other (tag : Nat)
  deriving DecidableEq, Repr

/-- Production modes named in `Mela.cc`. -/
inductive Production where
  | ZZGG | ZZQQB | ZZINDEPENDENT
  | JQCD | JJQCD | JJVBF | JJEW | JJEWQCD
  | JJQCD_S | JJVBF_S | JJEW_S | JJEWQCD_S
  | JJQCD_TU | JJVBF_TU | JJEW_TU | JJEWQCD_TU
  | Had_ZH | Had_WH | Lep_ZH | Lep_WH
  | Had_ZH_S | Had_WH_S | Lep_ZH_S | Lep_WH_S
  | Had_ZH_TU | Had_WH_TU | Lep_ZH_TU | Lep_WH_TU
  | GammaH | ttH | bbH
  | other (tag : Nat)
  deriving DecidableEq, Repr

/-- Process hypotheses (and discriminant types) named in `Mela.cc`. -/
inductive Process where
  | HSMHiggs | H0minus | H0hplus | H0_g1prime2
  | H0_Zgs | H0_gsgs | H0_Zgs_PS | H0_gsgs_PS | H0_Zgsg1prime2
  | D_g1g4 | D_g1g4_pi_2 | D_g1g2 | D_g1g2_pi_2 | D_g1g1prime2
  | D_zzzg | D_zzgg | D_zzzg_PS | D_zzgg_PS | D_zzzg_g1prime2 | D_zzzg_g1prime2_pi_2
  | H2_g1 | H2_g1g5 | H2_g2 | H2_g3 | H2_g4 | H2_g5 | H2_g6 | H2_g7 | H2_g8 | H2_g9 | H2_g10
  | bkgZZ | bkgWW | bkgZGamma | bkgZJets | bkgZZ_SMHiggs
  | SelfDefine_spin0 | SelfDefine_spin1 | SelfDefine_spin2
  | D_gg10
  | other (tag : Nat)
  deriving DecidableEq, Repr

/-- Systematics selector of `computePM4l`. -/
inductive SuperMelaSyst where
  | SMSyst_None | SMSyst_ScaleUp | SMSyst_ScaleDown | SMSyst_ResUp | SMSyst_ResDown
  deriving DecidableEq, Repr

/-- Fermion mass removal schemes read by `getConstant_JHUGenUndecayed`. -/
inductive FermionMassRemoval where
  | NoRemoval | ConserveDifermionMass | MomentumToEnergy
  deriving DecidableEq, Repr

/-- Propagator scheme handed through by `getXPropagator`. -/
inductive ResonancePropagatorScheme where
  | NoPropagator | RunningWidth | FixedWidth | CPS
  deriving DecidableEq, Repr

end TVar

/-- A `float`/`double` that may be not-a-number or infinite. -/
inductive FloatVal where
  | fin (q : ℚ)
  | inf (negative : Bool)
  | nan
  deriving DecidableEq, Repr

namespace FloatVal

/-- Model of `std::isnan`. -/
def isnan : FloatVal → Bool
  | nan => true
  | _ => false

/-- Model of `std::isinf`. -/
def isinf : FloatVal → Bool
  | inf _ => true
  | _ => false

/-- Model of `x <= 0.` (false for not-a-number). -/
def leZero : FloatVal → Bool
  | fin q => decide (q ≤ 0)
  | inf negative => negative
  | nan => false

/-- Sign of a finite value, as needed by the product. -/
def signNeg (q : ℚ) : Bool := decide (q < 0)

/-- IEEE product. -/
def mul : FloatVal → FloatVal → FloatVal
  | fin a, fin b => fin (a * b)
  | fin a, inf n => if a = 0 then nan else inf (xor (signNeg a) n)
  | inf n, fin b => if b = 0 then nan else inf (xor n (signNeg b))
  | inf n, inf m => inf (xor n m)
  | _, _ => nan

/-- IEEE sum. -/
def add : FloatVal → FloatVal → FloatVal
  | fin a, fin b => fin (a + b)
  | fin _, inf n => inf n
  | inf n, fin _ => inf n
  | inf n, inf m => if n = m then inf n else nan
  | _, _ => nan

end FloatVal

/-- The four components of a `TLorentzVector`. -/
structure TLorentzVector where
  X : ℚ
  Y : ℚ
  Z : ℚ
  T : ℚ
  deriving DecidableEq, Repr

namespace TLorentzVector

/-- Component-wise sum (`operator+`). -/
def add (a b : TLorentzVector) : TLorentzVector :=
  ⟨a.X + b.X, a.Y + b.Y, a.Z + b.Z, a.T + b.T⟩

/-- Model of `SetXYZT`. -/
def SetXYZT (_v : TLorentzVector) (x y z t : ℚ) : TLorentzVector := ⟨x, y, z, t⟩

end TLorentzVector

/-- The null four-vector `TLorentzVector(0, 0, 0, 0)`. -/
def nullVector : TLorentzVector := ⟨0, 0, 0, 0⟩

/-- What the dispatcher reads from a `MELAParticle` that is a daughter or an
associated jet. -/
structure MELAParticle where
  id : Int
  p4 : TLorentzVector
  passSelection : Bool
  deriving DecidableEq, Repr

/-- A sorted intermediate boson: its id, its mass `m()` and its daughters. -/
structure MELABoson where
  id : Int
  m : ℚ
  daughters : List MELAParticle
  deriving DecidableEq, Repr

namespace MELABoson

/-- Model of `getNDaughters`. -/
def getNDaughters (v : MELABoson) : Nat := v.daughters.length

/-- Model of `getDaughter(i)` (null when out of range). -/
def getDaughter (v : MELABoson) (i : Nat) : Option MELAParticle := v.daughters.get? i

end MELABoson

/-- What the dispatcher reads from a `MELACandidate`. -/
structure MELACandidate where
  p4 : TLorentzVector
  m : ℚ
  sortedV0 : MELABoson
  sortedV1 : MELABoson
  associatedJets : List MELAParticle
  deriving DecidableEq, Repr

namespace MELACandidate

/-- Model of `getSortedV(i)` for `i` in `0, 1`. -/
def getSortedV (c : MELACandidate) (i : Nat) : MELABoson :=
  if i = 0 then c.sortedV0 else c.sortedV1

/-- Model of `getNAssociatedJets`. -/
def getNAssociatedJets (c : MELACandidate) : Nat := c.associatedJets.length

/-- Writing the four-momentum of associated jet `i` through a pointer to it. -/
def setJetP4 (c : MELACandidate) (i : Nat) (p : TLorentzVector) : MELACandidate :=
  { c with associatedJets := c.associatedJets.modify (fun j => { j with p4 := p }) i }

/-- Model of `addAssociatedJets`. -/
def addAssociatedJets (c : MELACandidate) (j : MELAParticle) : MELACandidate :=
  { c with associatedJets := c.associatedJets ++ [j] }

end MELACandidate

/-! ## Coupling tables -/

/-- Array sizes declared in `TCouplingsBase.hh` and `TVar.hh`, which are not
among the sources at hand. -/
structure Dims where
  nSupportedHiggses : Nat
  SIZE_HGG : Nat
  SIZE_HQQ : Nat
  SIZE_HVV : Nat
  SIZE_HVV_LAMBDAQSQ : Nat
  SIZE_HVV_CQSQ : Nat
  SIZE_ZVV : Nat
  SIZE_ZQQ : Nat
  SIZE_GVV : Nat
  SIZE_GGG : Nat
  SIZE_GQQ : Nat
  deriving DecidableEq, Repr

/-- A C array `double t[n][2]`. -/
abbrev Tab2 (n : Nat) := Fin n → Fin 2 → ℚ

/-- A C array `double t[h][n][2]`. -/
abbrev Tab3 (h n : Nat) := Fin h → Fin n → Fin 2 → ℚ

/-- The assignment `t[i][j] = v`. -/
def set2 {a b : Nat} (t : Fin a → Fin b → ℚ) (i j : Nat) (v : ℚ) : Fin a → Fin b → ℚ :=
  fun x y => if x.val = i ∧ y.val = j then v else t x y

/-- The assignment `t[i][j][k] = v`. -/
def set3 {a b c : Nat} (t : Fin a → Fin b → Fin c → ℚ) (i j k : Nat) (v : ℚ) :
    Fin a → Fin b → Fin c → ℚ :=
  fun x y z => if x.val = i ∧ y.val = j ∧ z.val = k then v else t x y z

/-- The read `t[i][j]` (0 outside the array). -/
def get2 {a b : Nat} (t : Fin a → Fin b → ℚ) (i j : Nat) : ℚ :=
  if h : i < a ∧ j < b then t ⟨i, h.1⟩ ⟨j, h.2⟩ else 0

/-- The read `t[i][j][k]` (0 outside the array). -/
def get3 {a b c : Nat} (t : Fin a → Fin b → Fin c → ℚ) (i j k : Nat) : ℚ :=
  if h : i < a ∧ j < b ∧ k < c then t ⟨i, h.1⟩ ⟨j, h.2.1⟩ ⟨k, h.2.2⟩ else 0

/-- The loop `for (int i=0; i<n; i++) body(i)`. -/
def forRange {σ : Type} (n : Nat) (body : Nat → σ → σ) (s : σ) : σ :=
  (List.range n).foldl (fun acc i => body i acc) s

/-- The spin-0 members `selfDH*` of `Mela`, which `set_SpinZeroCouplings`
receives. -/
structure Spin0Couplings (d : Dims) where
  selfDHggcoupl : Tab3 d.nSupportedHiggses d.SIZE_HGG
  selfDHg4g4coupl : Tab3 d.nSupportedHiggses d.SIZE_HGG
  selfDHqqcoupl : Tab3 d.nSupportedHiggses d.SIZE_HQQ
  selfDHbbcoupl : Tab3 d.nSupportedHiggses d.SIZE_HQQ
  selfDHttcoupl : Tab3 d.nSupportedHiggses d.SIZE_HQQ
  selfDHb4b4coupl : Tab3 d.nSupportedHiggses d.SIZE_HQQ
  selfDHt4t4coupl : Tab3 d.nSupportedHiggses d.SIZE_HQQ
  selfDHzzcoupl : Tab3 d.nSupportedHiggses d.SIZE_HVV
  selfDHwwcoupl : Tab3 d.nSupportedHiggses d.SIZE_HVV
  selfDHzzLambda_qsq : Fin d.nSupportedHiggses → Fin d.SIZE_HVV_LAMBDAQSQ → Fin d.SIZE_HVV_CQSQ → ℚ
  selfDHwwLambda_qsq : Fin d.nSupportedHiggses → Fin d.SIZE_HVV_LAMBDAQSQ → Fin d.SIZE_HVV_CQSQ → ℚ
  selfDHzzCLambda_qsq : Fin d.nSupportedHiggses → Fin d.SIZE_HVV_CQSQ → ℚ
  selfDHwwCLambda_qsq : Fin d.nSupportedHiggses → Fin d.SIZE_HVV_CQSQ → ℚ
  differentiate_HWW_HZZ : Bool

/-- The spin-1 members `selfDZ*`, which `set_SpinOneCouplings` receives. -/
structure Spin1Couplings (d : Dims) where
  selfDZqqcoupl : Tab2 d.SIZE_ZQQ
  selfDZvvcoupl : Tab2 d.SIZE_ZVV

/-- The spin-2 members `selfDG*`, which `set_SpinTwoCouplings` receives. -/
structure Spin2Couplings (d : Dims) where
  selfDGqqcoupl : Tab2 d.SIZE_GQQ
  selfDGggcoupl : Tab2 d.SIZE_GGG
  selfDGvvcoupl : Tab2 d.SIZE_GVV

/-- All self-defined coupling members of `Mela`. -/
structure SelfDCouplings (d : Dims) where
  spin0 : Spin0Couplings d
  spin1 : Spin1Couplings d
  spin2 : Spin2Couplings d

/-- The spin-0 part of `Mela::reset_SelfDCouplings` (lines 244-270). -/
def resetSpin0 {d : Dims} (c : Spin0Couplings d) : Spin0Couplings d :=
  let c := { c with differentiate_HWW_HZZ := false }
  forRange d.nSupportedHiggses (fun jh c =>
    let c := forRange 2 (fun im c =>
      let c := forRange d.SIZE_HGG (fun ic c =>
        { c with selfDHggcoupl := set3 c.selfDHggcoupl jh ic im 0 }) c
      let c := forRange d.SIZE_HGG (fun ic c =>
        { c with selfDHg4g4coupl := set3 c.selfDHg4g4coupl jh ic im 0 }) c
      let c := forRange d.SIZE_HQQ (fun ic c =>
        { c with selfDHqqcoupl := set3 c.selfDHqqcoupl jh ic im 0 }) c
      let c := forRange d.SIZE_HQQ (fun ic c =>
        { c with selfDHbbcoupl := set3 c.selfDHbbcoupl jh ic im 0 }) c
      let c := forRange d.SIZE_HQQ (fun ic c =>
        { c with selfDHttcoupl := set3 c.selfDHttcoupl jh ic im 0 }) c
      let c := forRange d.SIZE_HQQ (fun ic c =>
        { c with selfDHb4b4coupl := set3 c.selfDHb4b4coupl jh ic im 0 }) c
      let c := forRange d.SIZE_HQQ (fun ic c =>
        { c with selfDHt4t4coupl := set3 c.selfDHt4t4coupl jh ic im 0 }) c
      forRange d.SIZE_HVV (fun ic c =>
        let c := { c with selfDHzzcoupl := set3 c.selfDHzzcoupl jh ic im 0 }
        { c with selfDHwwcoupl := set3 c.selfDHwwcoupl jh ic im 0 }) c) c
    forRange d.SIZE_HVV_CQSQ (fun ik c =>
      let c := { c with selfDHzzCLambda_qsq := set2 c.selfDHzzCLambda_qsq jh ik 0 }
      let c := { c with selfDHwwCLambda_qsq := set2 c.selfDHwwCLambda_qsq jh ik 0 }
      forRange d.SIZE_HVV_LAMBDAQSQ (fun ic c =>
        let c := { c with selfDHzzLambda_qsq := set3 c.selfDHzzLambda_qsq jh ic ik 100 }
        { c with selfDHwwLambda_qsq := set3 c.selfDHwwLambda_qsq jh ic ik 100 }) c) c) c

/-- The spin-1 part of `Mela::reset_SelfDCouplings` (lines 273-276). -/
def resetSpin1 {d : Dims} (c : Spin1Couplings d) : Spin1Couplings d :=
  forRange 2 (fun im c =>
    let c := forRange d.SIZE_ZVV (fun ic c =>
      { c with selfDZvvcoupl := set2 c.selfDZvvcoupl ic im 0 }) c
    forRange d.SIZE_ZQQ (fun ic c =>
      { c with selfDZqqcoupl := set2 c.selfDZqqcoupl ic im 0 }) c) c

/-- The spin-2 part of `Mela::reset_SelfDCouplings` (lines 279-283). -/
def resetSpin2 {d : Dims} (c : Spin2Couplings d) : Spin2Couplings d :=
  forRange 2 (fun im c =>
    let c := forRange d.SIZE_GVV (fun ic c =>
      { c with selfDGvvcoupl := set2 c.selfDGvvcoupl ic im 0 }) c
    let c := forRange d.SIZE_GGG (fun ic c =>
      { c with selfDGggcoupl := set2 c.selfDGggcoupl ic im 0 }) c
    forRange d.SIZE_GQQ (fun ic c =>
      { c with selfDGqqcoupl := set2 c.selfDGqqcoupl ic im 0 }) c) c

/-- The effect of `Mela::reset_SelfDCouplings` on the coupling members. -/
def resetCouplings {d : Dims} (c : SelfDCouplings d) : SelfDCouplings d :=
  { spin0 := resetSpin0 c.spin0, spin1 := resetSpin1 c.spin1, spin2 := resetSpin2 c.spin2 }

/-- The reset state in closed form: every coupling 0, every form-factor scale
100, `differentiate_HWW_HZZ` false. -/
def defaultCouplings (d : Dims) : SelfDCouplings d :=
  { spin0 :=
      { selfDHggcoupl := fun _ _ _ => 0, selfDHg4g4coupl := fun _ _ _ => 0,
        selfDHqqcoupl := fun _ _ _ => 0, selfDHbbcoupl := fun _ _ _ => 0,
        selfDHttcoupl := fun _ _ _ => 0, selfDHb4b4coupl := fun _ _ _ => 0,
        selfDHt4t4coupl := fun _ _ _ => 0,
        selfDHzzcoupl := fun _ _ _ => 0, selfDHwwcoupl := fun _ _ _ => 0,
        selfDHzzLambda_qsq := fun _ _ _ => 100, selfDHwwLambda_qsq := fun _ _ _ => 100,
        selfDHzzCLambda_qsq := fun _ _ => 0, selfDHwwCLambda_qsq := fun _ _ => 0,
        differentiate_HWW_HZZ := false },
    spin1 := { selfDZqqcoupl := fun _ _ => 0, selfDZvvcoupl := fun _ _ => 0 },
    spin2 :=
      { selfDGqqcoupl := fun _ _ => 0, selfDGggcoupl := fun _ _ => 0,
        selfDGvvcoupl := fun _ _ => 0 } }

/-! ## External collaborators and the state of the dispatcher -/

/-- The selector `(process, engine, production)`. -/
structure Selector where
  myModel_ : TVar.Process
  myME_ : TVar.MatrixElement
  myProduction_ : TVar.Production
  deriving DecidableEq, Repr

/-- The couplings that a `set_Spin*Couplings` call hands to the generator before
an evaluation; `none` when no such call precedes the evaluation (the generator
resets its own copy after each evaluation, see the remark at line 239). -/
inductive Handed (d : Dims) where
  | none
  | spinZero (c : Spin0Couplings d)
  | spinOne (c : Spin1Couplings d)
  | spinTwo (c : Spin2Couplings d)

/-- The cross-section entry points of `newZZMatrixElement` that `Mela` calls. -/
inductive XSEntry where
  | computeXS
  | computeProdXS_JJH
  | computeProdXS_JH
  | computeProdXS_VH (includeHiggsDecay : Bool)
  | computeProdXS_ttH (topProcess topDecay : Int)
  | computeProdXS_VVHVV
  deriving DecidableEq, Repr

/-- The calibration handles `pAvgSmooth_*` created by `getPConstantHandles`. -/
inductive PConstantHandle where
  | JHUGen_JQCD_HSMHiggs (iarray : Nat)
  | JHUGen_JJQCD_HSMHiggs (iarray : Nat)
  | JHUGen_JJVBF_HSMHiggs (iarray : Nat)
  | MCFM_JJQCD_bkgZJets_2l2q
  | JHUGen_ZZGG_HSMHiggs_4mu | JHUGen_ZZGG_HSMHiggs_4e | JHUGen_ZZGG_HSMHiggs_2mu2e
  | MCFM_ZZGG_HSMHiggs_4mu | MCFM_ZZGG_HSMHiggs_4e | MCFM_ZZGG_HSMHiggs_2mu2e
  | MCFM_ZZGG_bkgZZ_4mu | MCFM_ZZGG_bkgZZ_4e | MCFM_ZZGG_bkgZZ_2mu2e
  | MCFM_ZZQQB_bkgZZ_4mu | MCFM_ZZQQB_bkgZZ_4e | MCFM_ZZQQB_bkgZZ_2mu2e
  deriving DecidableEq, Repr

/-- The record `MelaIO` of the generator: what the last evaluation wrote
(`weights`) and the stored normalisation constant. -/
structure MelaIORecord where
  weights : List ℚ
  MEConst : ℚ
  deriving DecidableEq, Repr

/-- The part of `newZZMatrixElement` that `Mela` reads and writes. -/
structure ZZMEState where
  process : Selector
  currentCand : Option MELACandidate
  record : MelaIORecord
  deriving DecidableEq, Repr

/-- The five angles written by `TUtil::computeAngles`. -/
structure DecayAngles where
  costhetastar : FloatVal
  costheta1 : FloatVal
  costheta2 : FloatVal
  Phi : FloatVal
  Phi1 : FloatVal
  deriving DecidableEq, Repr

/-- The eight outputs of `Mela::computeDecayAngles`. -/
structure DecayOutputs where
  qH : ℚ
  m1 : ℚ
  m2 : ℚ
  costheta1 : FloatVal
  costheta2 : FloatVal
  Phi : FloatVal
  costhetastar : FloatVal
  Phi1 : FloatVal
  deriving DecidableEq, Repr

/-- The PDF objects that the member `pdf` can point to. -/
inductive PdfRef where
  | qqZZmodel | ggSpin0Model | spin1Model | spin2Model
  deriving DecidableEq, Repr

/-- The coupling lists of the scalar PDF factory written at lines 1415-1467. -/
inductive ScalarList where
  | g1List | g2List | g3List | g4List
  | gzgs1List | gzgs2List | gzgs3List | gzgs4List
  | ggsgs2List | ggsgs3List | ggsgs4List
  deriving DecidableEq, Repr

/-- The parameters of the scalar PDF factory written at lines 1415-1467:
`couplings.<l>[i][im]`, `couplings.Lambda_z<n>qsq[q]` and `couplings.cLambda_qsq[q]`. -/
inductive ScalarParam where
  | coupling (l : ScalarList) (i im : Nat)
  | Lambda_zqsq (n q : Nat)
  | cLambda_qsq (q : Nat)
  deriving DecidableEq, Repr

/-- State of `ggSpin0Model` as far as `Mela` drives it. -/
structure ScalarPdfState where
  paramsConst : Bool
  hypotheses : List (Nat × Nat × ℚ)
  params : ScalarParam → ℚ

/-- State of `spin1Model` as far as `Mela` drives it. -/
structure VectorPdfState where
  configured : Option TVar.Process
  g1Val : ℚ
  g2Val : ℚ

/-- State of `spin2Model` as far as `Mela` drives it: `bList` is keyed by
`(ig, im)`, `tensorPolarization` by the index given to `setTensorPolarization`. -/
structure TensorPdfState where
  paramsConst : Bool
  hypotheses : List (Nat × ℚ)
  bList : Nat × Nat → ℚ
  tensorPolarization : Nat → ℚ

/-- The `RooRealVar` observables set by `computeP`. -/
structure Observables where
  mzz : FloatVal
  z1mass : FloatVal
  z2mass : FloatVal
  costhetastar : FloatVal
  costheta1 : FloatVal
  costheta2 : FloatVal
  phi : FloatVal
  phi1 : FloatVal
  Y_const : Bool

/-- The analytic side of `Mela`: the member `pdf`, the three PDF factories and
the observables. -/
structure AnaState where
  pdf : Option PdfRef
  ggSpin0Model : ScalarPdfState
  spin1Model : VectorPdfState
  spin2Model : TensorPdfState
  rrv : Observables

/-- The external functions the dispatcher calls. -/
structure Externals (d : Dims) where
  /-- An evaluation by `newZZMatrixElement`: the probability and what it records. -/
  xs : XSEntry → Selector → Option MELACandidate → Handed d → ℚ × List ℚ
  /-- The generator call `get_XPropagator`. -/
  get_XPropagator : TVar.ResonancePropagatorScheme → Option MELACandidate → ℚ
  /-- The generator call `Calculate4Momentum`: the four daughter momenta. -/
  Calculate4Momentum : FloatVal → FloatVal → FloatVal → FloatVal → FloatVal → FloatVal →
    FloatVal → FloatVal → Fin 4 → TLorentzVector
  /-- `TUtil::computeAngles` on four (momentum, id) pairs. -/
  computeAngles : TLorentzVector × Int → TLorentzVector × Int → TLorentzVector × Int →
    TLorentzVector × Int → DecayAngles
  /-- `TUtil::ConvertVectorFormat` on a daughter collection. -/
  ConvertVectorFormat : List (Int × TLorentzVector) → Option MELACandidate
  /-- `TUtil::scaleMomentumToEnergy`. -/
  scaleMomentumToEnergy : TLorentzVector → TLorentzVector
  /-- `TUtil::computeFakeJet (realJet, others)`. -/
  computeFakeJet : TLorentzVector → TLorentzVector → TLorentzVector
  /-- The global `TUtil::JetMassScheme`. -/
  JetMassScheme : TVar.FermionMassRemoval
  isALepton : Int → Bool
  isAJet : Int → Bool
  isAZBoson : Int → Bool
  isAPhoton : Int → Bool
  /-- `MelaPConstant::Eval` on the generator record. -/
  handleEval : PConstantHandle → List ℚ → FloatVal
  /-- `pdf->getVal()`. -/
  pdfGetVal : AnaState → ℚ
  /-- The value of `pdf->createIntegral (costhetastar, phi1)`. -/
  pdfIntegral : AnaState → ℚ
  /-- Whether `spin1Model->configure (model)` returns non-zero. -/
  spin1Configure : TVar.Process → Bool
  /-- `super->M4lProb (m)` for the decay channel set before. -/
  M4lProb : String → ℚ → ℚ × ℚ
  GetSigShapeSystematic : String → ℚ
  GetSigShapeParameter : String → ℚ
  /-- `TRandom3::Gaus (mean, sigma)`: the draw and the next generator state. -/
  Gaus : Nat → ℚ → ℚ → ℚ × Nat
  /-- `TSpline3 ("b1e1", first, last)` through the grid, evaluated at a point. -/
  spline : List ℚ → List ℚ → ℚ → ℚ → ℚ → ℚ
  sqrt : ℚ → ℚ
  sinh : ℚ → ℚ
  exp : ℚ → ℚ
  acos : FloatVal → FloatVal
  /-- `TMath::Pi()`. -/
  Pi : ℚ
  /-- `TLorentzVector::Eta`. -/
  Eta : TLorentzVector → ℚ

/-- The data members of a `Mela` instance. -/
structure Mela (d : Dims) where
  LHCsqrts : ℚ
  myModel_ : TVar.Process
  myME_ : TVar.MatrixElement
  myProduction_ : TVar.Production
  auxiliaryProb : ℚ
  melaCand : Option MELACandidate
  coupl : SelfDCouplings d
  ZZME : ZZMEState
  ana : AnaState
  superChannel : String
  myRandomNumber : Nat

namespace Mela

variable {d : Dims}

/-- `Mela::setProcess` (lines 191-205). -/
def setProcess (s : Mela d) (myModel : TVar.Process) (myME : TVar.MatrixElement)
    (myProduction : TVar.Production) : Mela d :=
  let s := { s with myME_ := myME }
  let s := { s with myProduction_ := myProduction }
  let s :=
    if s.myME_ = TVar.MatrixElement.JHUGen then
      if s.myProduction_ = TVar.Production.Had_ZH_S then { s with myProduction_ := TVar.Production.Had_ZH }
      else if s.myProduction_ = TVar.Production.Had_WH_S then { s with myProduction_ := TVar.Production.Had_WH }
      else if s.myProduction_ = TVar.Production.Lep_ZH_S then { s with myProduction_ := TVar.Production.Lep_ZH }
      else if s.myProduction_ = TVar.Production.Lep_WH_S then { s with myProduction_ := TVar.Production.Lep_WH }
      else if s.myProduction_ = TVar.Production.JJVBF_S then { s with myProduction_ := TVar.Production.JJVBF }
      else if s.myProduction_ = TVar.Production.JJQCD_S then { s with myProduction_ := TVar.Production.JJQCD }
      else s
    else s
  let s := { s with myModel_ := myModel }
  { s with ZZME := { s.ZZME with process := ⟨s.myModel_, s.myME_, s.myProduction_⟩ } }

/-- `Mela::setCurrentCandidate`. -/
def setCurrentCandidate (s : Mela d) (cand : Option MELACandidate) : Mela d :=
  { s with ZZME := { s.ZZME with currentCand := cand } }

/-- `Mela::getCurrentCandidate`. -/
def getCurrentCandidate (s : Mela d) : Option MELACandidate := s.ZZME.currentCand

/-- `Mela::reset_SelfDCouplings` (lines 240-286). -/
def reset_SelfDCouplings (s : Mela d) : Mela d := { s with coupl := resetCouplings s.coupl }

/-- `Mela::reset_CandRef`. -/
def reset_CandRef (s : Mela d) : Mela d := { s with melaCand := none }

/-- `Mela::getPAux`. -/
def getPAux (s : Mela d) : ℚ := s.auxiliaryProb

/-- `Mela::reset_PAux`. -/
def reset_PAux (s : Mela d) : Mela d := { s with auxiliaryProb := 1 }

/-- The opening of an evaluation entry point: `reset_PAux (); melaCand = getCurrentCandidate ();`. -/
def beginEvaluation (s : Mela d) : Mela d :=
  let s := s.reset_PAux
  { s with melaCand := s.getCurrentCandidate }

/-- The shared cleanup `reset_SelfDCouplings (); reset_CandRef ();`. -/
def endEvaluation (s : Mela d) : Mela d :=
  let s := s.reset_SelfDCouplings
  s.reset_CandRef

/-- The statement `if (useConstant) computeConstant (prob);` given `computeConstant`. -/
def applyConstant (computeConstant : Mela d → ℚ → Mela d × ℚ) (useConstant : Bool) (r : Mela d × ℚ) :
    Mela d × ℚ :=
  if useConstant then computeConstant r.1 r.2 else r

/-- An evaluation by the generator through entry point `e`, after the couplings
`h` were handed over: the record of the generator is rewritten. -/
def evalXS (ext : Externals d) (s : Mela d) (e : XSEntry) (h : Handed d) : Mela d × ℚ :=
  let r := ext.xs e s.ZZME.process s.ZZME.currentCand h
  ({ s with ZZME := { s.ZZME with record := { s.ZZME.record with weights := r.2 } } }, r.1)

/-- The argument pair `(dau != 0 ? dau->p4 : nullVector, dau != 0 ? dau->id : -9000)`. -/
def daughterArg (p : Option MELAParticle) : TLorentzVector × Int :=
  match p with
  | some q => (q.p4, q.id)
  | none => (nullVector, -9000)

/-- The guard `if (!(x == x)) x = 0`. -/
def protectNaN (x : FloatVal) : FloatVal := if x.isnan then FloatVal.fin 0 else x

/-- `Mela::computeDecayAngles` (lines 319-361). -/
def computeDecayAngles (ext : Externals d) (s : Mela d) : Mela d × DecayOutputs :=
  let zero : DecayOutputs :=
    ⟨0, 0, 0, FloatVal.fin 0, FloatVal.fin 0, FloatVal.fin 0, FloatVal.fin 0, FloatVal.fin 0⟩
  let s := if s.melaCand = none then { s with melaCand := s.getCurrentCandidate } else s
  match s.melaCand with
  | some cand =>
    let o := { zero with qH := cand.m, m1 := (cand.getSortedV 0).m, m2 := (cand.getSortedV 1).m }
    let o :=
      if (cand.getSortedV 0).getNDaughters ≥ 1 ∧ (cand.getSortedV 1).getNDaughters ≥ 1 then
        let a := ext.computeAngles
          (daughterArg ((cand.getSortedV 0).getDaughter 0))
          (daughterArg ((cand.getSortedV 0).getDaughter 1))
          (daughterArg ((cand.getSortedV 1).getDaughter 0))
          (daughterArg ((cand.getSortedV 1).getDaughter 1))
        { o with costhetastar := a.costhetastar, costheta1 := a.costheta1,
                 costheta2 := a.costheta2, Phi := a.Phi, Phi1 := a.Phi1 }
      else o
    let o := { o with costhetastar := protectNaN o.costhetastar }
    let o := { o with costheta1 := protectNaN o.costheta1 }
    let o := { o with costheta2 := protectNaN o.costheta2 }
    let o := { o with Phi := protectNaN o.Phi }
    let o := { o with Phi1 := protectNaN o.Phi1 }
    (s, o)
  | none => (s, zero)

end Mela

/-! ## Analytic PDFs -/

namespace ScalarPdfState

/-- Model of `makeParamsConst`. -/
def makeParamsConst (m : ScalarPdfState) (b : Bool) : ScalarPdfState := { m with paramsConst := b }

/-- Model of `resetHypotheses`. -/
def resetHypotheses (m : ScalarPdfState) : ScalarPdfState := { m with hypotheses := [] }

/-- Model of `addHypothesis (ig, ilam, iphase)`. -/
def addHypothesis (m : ScalarPdfState) (ig ilam : Nat) (iphase : ℚ) : ScalarPdfState :=
  { m with hypotheses := m.hypotheses ++ [(ig, ilam, iphase)] }

end ScalarPdfState

namespace TensorPdfState

/-- Model of `makeParamsConst`. -/
def makeParamsConst (m : TensorPdfState) (b : Bool) : TensorPdfState := { m with paramsConst := b }

/-- Model of `resetHypotheses`. -/
def resetHypotheses (m : TensorPdfState) : TensorPdfState := { m with hypotheses := [] }

/-- Model of `addHypothesis (ig, initval)`. -/
def addHypothesis (m : TensorPdfState) (ig : Nat) (initval : ℚ) : TensorPdfState :=
  { m with hypotheses := m.hypotheses ++ [(ig, initval)] }

/-- Model of `setTensorPolarization (index, value)`. -/
def setTensorPolarization (m : TensorPdfState) (i : Nat) (v : ℚ) : TensorPdfState :=
  { m with tensorPolarization := Function.update m.tensorPolarization i v }

end TensorPdfState

/-- The targets of the assignments at lines 1415-1460: entry `k` is the list and
the position that receives `selfDHzzcoupl[0][k][im]`. -/
def hvvTarget : List (ScalarList × Nat) :=
  [ (ScalarList.g1List, 0), (ScalarList.g2List, 0), (ScalarList.g3List, 0), (ScalarList.g4List, 0),
    (ScalarList.gzgs2List, 0), (ScalarList.gzgs3List, 0), (ScalarList.gzgs4List, 0),
    (ScalarList.ggsgs2List, 0), (ScalarList.ggsgs3List, 0), (ScalarList.ggsgs4List, 0),
    (ScalarList.g1List, 1), (ScalarList.g1List, 2), (ScalarList.g1List, 3), (ScalarList.g1List, 4),
    (ScalarList.g1List, 5),
    (ScalarList.g2List, 1), (ScalarList.g2List, 2), (ScalarList.g2List, 3), (ScalarList.g2List, 4),
    (ScalarList.g2List, 5),
    (ScalarList.g3List, 1), (ScalarList.g3List, 2), (ScalarList.g3List, 3), (ScalarList.g3List, 4),
    (ScalarList.g3List, 5),
    (ScalarList.g4List, 1), (ScalarList.g4List, 2), (ScalarList.g4List, 3), (ScalarList.g4List, 4),
    (ScalarList.g4List, 5),
    (ScalarList.gzgs1List, 0),
    (ScalarList.g1List, 6), (ScalarList.g1List, 7), (ScalarList.g2List, 6), (ScalarList.g2List, 7),
    (ScalarList.g3List, 6), (ScalarList.g3List, 7), (ScalarList.g4List, 6), (ScalarList.g4List, 7) ]

namespace Mela

variable {d : Dims}

/-- The spin-0 models accepted at lines 1382-1386. -/
def isAnaSpin0Model (p : TVar.Process) : Bool :=
  p = TVar.Process.HSMHiggs
  || p = TVar.Process.H0minus || p = TVar.Process.D_g1g4 || p = TVar.Process.D_g1g4_pi_2
  || p = TVar.Process.H0hplus || p = TVar.Process.D_g1g2 || p = TVar.Process.D_g1g2_pi_2
  || p = TVar.Process.H0_g1prime2 || p = TVar.Process.D_g1g1prime2
  || p = TVar.Process.SelfDefine_spin0

/-- The spin-2 models accepted at lines 1484-1495. -/
def isAnaSpin2Model (p : TVar.Process) : Bool :=
  p = TVar.Process.H2_g1 || p = TVar.Process.H2_g1g5 || p = TVar.Process.H2_g2
  || p = TVar.Process.H2_g3 || p = TVar.Process.H2_g4 || p = TVar.Process.H2_g5
  || p = TVar.Process.H2_g6 || p = TVar.Process.H2_g7 || p = TVar.Process.H2_g8
  || p = TVar.Process.H2_g9 || p = TVar.Process.H2_g10 || p = TVar.Process.SelfDefine_spin2

/-- The vector-boson-associated production modes tested at lines 832, 1137, 1380. -/
def isVHProduction (p : TVar.Production) : Bool :=
  p = TVar.Production.Lep_ZH || p = TVar.Production.Lep_WH || p = TVar.Production.Had_ZH
  || p = TVar.Production.Had_WH || p = TVar.Production.GammaH

/-- Lines 1388-1470: configuration of `ggSpin0Model`. -/
def configureSpin0 (ext : Externals d) (s : Mela d) : ScalarPdfState :=
  let p := s.myModel_
  let m := s.ana.ggSpin0Model
  let m := m.makeParamsConst false
  let m := m.resetHypotheses
  let m :=
    if p = TVar.Process.HSMHiggs || p = TVar.Process.D_g1g1prime2
      || p = TVar.Process.D_g1g2 || p = TVar.Process.D_g1g2_pi_2
      || p = TVar.Process.D_g1g4 || p = TVar.Process.D_g1g4_pi_2
      || p = TVar.Process.D_zzzg_g1prime2 || p = TVar.Process.D_zzzg_g1prime2_pi_2
      || p = TVar.Process.D_zzzg || p = TVar.Process.D_zzzg_PS
      || p = TVar.Process.D_zzgg || p = TVar.Process.D_zzgg_PS
    then m.addHypothesis 0 0 0 else m
  let m := if p = TVar.Process.H0_g1prime2 || p = TVar.Process.D_g1g1prime2
    then m.addHypothesis 0 2 0 else m
  let m := if p = TVar.Process.H0hplus || p = TVar.Process.D_g1g2 || p = TVar.Process.D_g1g2_pi_2
    then m.addHypothesis 1 0 (if p = TVar.Process.D_g1g2_pi_2 then ext.Pi else 0) else m
  let m := if p = TVar.Process.H0minus || p = TVar.Process.D_g1g4 || p = TVar.Process.D_g1g4_pi_2
    then m.addHypothesis 3 0 (if p = TVar.Process.D_g1g4_pi_2 then ext.Pi else 0) else m
  let m := if p = TVar.Process.H0_Zgsg1prime2 || p = TVar.Process.D_zzzg_g1prime2
      || p = TVar.Process.D_zzzg_g1prime2_pi_2
    then m.addHypothesis 4 2 (if p = TVar.Process.D_zzzg_g1prime2_pi_2 then ext.Pi else 0) else m
  let m := if p = TVar.Process.H0_Zgs || p = TVar.Process.D_zzzg then m.addHypothesis 5 0 0 else m
  let m := if p = TVar.Process.H0_Zgs_PS || p = TVar.Process.D_zzzg_PS then m.addHypothesis 7 0 0 else m
  let m := if p = TVar.Process.H0_gsgs || p = TVar.Process.D_zzgg then m.addHypothesis 8 0 0 else m
  let m := if p = TVar.Process.H0_gsgs_PS || p = TVar.Process.D_zzgg_PS then m.addHypothesis 10 0 0 else m
  let params :=
    if p = TVar.Process.SelfDefine_spin0 then
      let c := s.coupl.spin0
      let f := forRange 2 (fun im f =>
        hvvTarget.enum.foldl (fun f t =>
          Function.update f (ScalarParam.coupling t.2.1 t.2.2 im) (get3 c.selfDHzzcoupl 0 t.1 im)) f)
        m.params
      forRange d.SIZE_HVV_CQSQ (fun qoqtqz f =>
        let f := Function.update f (ScalarParam.Lambda_zqsq 1 qoqtqz) (get3 c.selfDHzzLambda_qsq 0 0 qoqtqz)
        let f := Function.update f (ScalarParam.Lambda_zqsq 2 qoqtqz) (get3 c.selfDHzzLambda_qsq 0 1 qoqtqz)
        let f := Function.update f (ScalarParam.Lambda_zqsq 3 qoqtqz) (get3 c.selfDHzzLambda_qsq 0 2 qoqtqz)
        let f := Function.update f (ScalarParam.Lambda_zqsq 4 qoqtqz) (get3 c.selfDHzzLambda_qsq 0 3 qoqtqz)
        Function.update f (ScalarParam.cLambda_qsq qoqtqz) (get2 c.selfDHzzCLambda_qsq 0 qoqtqz)) f
    else m.params
  let m := { m with params := params }
  m.makeParamsConst true

/-- Lines 1501-1518: the hypotheses added to `spin2Model` for the model `p`. -/
def spin2Hypotheses (p : TVar.Process) (m : TensorPdfState) : TensorPdfState :=
  let m := if p = TVar.Process.H2_g1 || p = TVar.Process.H2_g1g5 then m.addHypothesis 0 1 else m
  let m := if p = TVar.Process.H2_g1g5 || p = TVar.Process.H2_g5 then m.addHypothesis 4 1 else m
  let m := if p = TVar.Process.H2_g2 then m.addHypothesis 1 1 else m
  let m := if p = TVar.Process.H2_g3 then m.addHypothesis 2 1 else m
  let m := if p = TVar.Process.H2_g4 then m.addHypothesis 3 1 else m
  let m := if p = TVar.Process.H2_g5 then m.addHypothesis 4 1 else m
  let m := if p = TVar.Process.H2_g6 then m.addHypothesis 5 1 else m
  let m := if p = TVar.Process.H2_g7 then m.addHypothesis 6 1 else m
  let m := if p = TVar.Process.H2_g8 then m.addHypothesis 7 1 else m
  let m := if p = TVar.Process.H2_g9 then m.addHypothesis 8 1 else m
  if p = TVar.Process.H2_g10 then m.addHypothesis 10 1 else m

/-- Lines 1531-1544: the value given to `setTensorPolarization (2, .)` for the
self-defined spin-2 model, `2.*fmp/(fmm+fpp+2.*fmp)`. -/
def selfDPolarization (ext : Externals d) (c : Spin2Couplings d) : ℚ :=
  let c1 := 2 * get2 c.selfDGggcoupl 0 0 + 2 * get2 c.selfDGggcoupl 1 0
  let c2 := -(1 / 2) * get2 c.selfDGggcoupl 0 0 + get2 c.selfDGggcoupl 2 0
    + 2 * get2 c.selfDGggcoupl 3 0
  let c5 : ℚ := 0
  let fppReal := 1 / ext.sqrt 6 * (c1 / 4 * 2 + 2 * c2)
  let fppImag := 1 / ext.sqrt 6 * c5
  let fmmReal := 1 / ext.sqrt 6 * (c1 / 4 * 2 + 2 * c2)
  let fmmImag := 1 / ext.sqrt 6 * c5
  let fmpReal := 1 / 4 * c1 * 2
  let fmpImag : ℚ := 0
  let fpp := fppImag * fppImag + fppReal * fppReal
  let fmm := fmmImag * fmmImag + fmmReal * fmmReal
  let fmp := fmpImag * fmpImag + fmpReal * fmpReal
  2 * fmp / (fmm + fpp + 2 * fmp)

/-- Lines 1497-1556: configuration of `spin2Model`; the flag is `noPass`. -/
def configureSpin2 (ext : Externals d) (s : Mela d) : TensorPdfState × Bool :=
  let p := s.myModel_
  let m := s.ana.spin2Model
  let m := m.makeParamsConst false
  let m := m.resetHypotheses
  let m := spin2Hypotheses p m
  let c := s.coupl.spin2
  let noPass : Bool :=
    p = TVar.Process.SelfDefine_spin2
      && (List.range d.SIZE_GVV).any (fun i => decide (get2 c.selfDGvvcoupl i 1 ≠ 0))
  let bList :=
    if p = TVar.Process.SelfDefine_spin2 ∧ noPass = false then
      forRange d.SIZE_GVV (fun ig f =>
        forRange 2 (fun im f => Function.update f (ig, im) (get2 c.selfDGvvcoupl ig im)) f) m.bList
    else m.bList
  let m := { m with bList := bList }
  if noPass then (m, noPass)
  else
    let m :=
      if s.myProduction_ = TVar.Production.ZZQQB then
        (m.setTensorPolarization 1 1).setTensorPolarization 2 0
      else if p = TVar.Process.SelfDefine_spin2 then
        (m.setTensorPolarization 1 0).setTensorPolarization 2 (selfDPolarization ext c)
      else
        (m.setTensorPolarization 1 0).setTensorPolarization 2 1
    (m.makeParamsConst true, noPass)

/-- `Mela::configureAnalyticalPDFs` (lines 1372-1564): the new state and the
returned flag `!noPass`. -/
def configureAnalyticalPDFs (ext : Externals d) (s : Mela d) : Mela d × Bool :=
  if s.myModel_ = TVar.Process.bkgZZ then
    ({ s with ana := { s.ana with pdf := some PdfRef.qqZZmodel } }, true)
  else if s.myProduction_ = TVar.Production.JJQCD ∨ s.myProduction_ = TVar.Production.JJVBF then
    (s, true)
  else if isVHProduction s.myProduction_ then
    (s, true)
  else if isAnaSpin0Model s.myModel_ then
    ({ s with ana := { s.ana with pdf := some PdfRef.ggSpin0Model,
                                  ggSpin0Model := configureSpin0 ext s } }, true)
  else
    -- the call `spin1Model->configure (myModel_)` is made on reaching this test
    let s := { s with ana := { s.ana with
      spin1Model := { s.ana.spin1Model with configured := some s.myModel_ } } }
    if ext.spin1Configure s.myModel_ = false then
      let s := { s with ana := { s.ana with pdf := some PdfRef.spin1Model } }
      if s.myModel_ = TVar.Process.SelfDefine_spin1 then
        let noPass : Bool :=
          (List.range d.SIZE_ZVV).any (fun i => decide (get2 s.coupl.spin1.selfDZvvcoupl i 1 ≠ 0))
        if noPass then (s, false)
        else
          ({ s with ana := { s.ana with spin1Model := { s.ana.spin1Model with
              g1Val := get2 s.coupl.spin1.selfDZvvcoupl 0 0,
              g2Val := get2 s.coupl.spin1.selfDZvvcoupl 1 0 } } }, true)
      else (s, true)
    else if isAnaSpin2Model s.myModel_ then
      let r := configureSpin2 ext s
      ({ s with ana := { s.ana with pdf := some PdfRef.spin2Model, spin2Model := r.1 } }, !r.2)
    else if s.myME_ = TVar.MatrixElement.ANALYTICAL then
      (s, false)
    else (s, true)

end Mela

/-! ## Normalisation constants -/

namespace FloatVal

/-- The finite value (0 for the others); used only behind the guard of
`setConstant`. -/
def toRat : FloatVal → ℚ
  | fin q => q
  | _ => 0

end FloatVal

namespace Mela

variable {d : Dims}

/-- `Mela::getConstant`: reads the constant stored in the generator record. -/
def getConstant (s : Mela d) : ℚ := s.ZZME.record.MEConst

/-- The read `V->getDaughter (i)->id`; every call site is behind a test that the
boson has two daughters. -/
def daughterId (v : MELABoson) (i : Nat) : Int :=
  match v.getDaughter i with
  | some p => p.id
  | none => 0

/-- The index `iarray` chosen from `TUtil::JetMassScheme` (lines 1640-1641). -/
def schemeIndex (ext : Externals d) : Nat :=
  if ext.JetMassScheme = TVar.FermionMassRemoval.ConserveDifermionMass then 0
  else if ext.JetMassScheme = TVar.FermionMassRemoval.MomentumToEnergy then 1
  else 0

/-- The Gaussian term `exp (-pow ((var - a) / b, 2))`. -/
def gaussTerm (ext : Externals d) (var a b : ℚ) : ℚ := ext.exp (-(((var - a) / b) ^ 2))

/-- The empirical correction of lines 1664-1741. -/
def sqrtsCorrection (ext : Externals d) (prod : TVar.Production) (LHCsqrts var : ℚ) : ℚ :=
  if prod = TVar.Production.JJVBF ∧ LHCsqrts = 7 then
    if var > 73 then 1 + (67 / 100) * gaussTerm ext var 73 22 else 1 + 67 / 100
  else if prod = TVar.Production.JJVBF ∧ LHCsqrts = 8 then
    if var > 73 then 1 + (53 / 100) * gaussTerm ext var 73 21 else 1 + 53 / 100
  else if prod = TVar.Production.JJVBF ∧ LHCsqrts = 13 then
    if var > 73 then 1 + (2 / 10) * gaussTerm ext var 73 22 else 1 + 2 / 10
  else if prod = TVar.Production.JJQCD ∧ LHCsqrts = 8 then
    if var > 80 then
      1 + (-(24 / 100)) * gaussTerm ext var 80 9 + (8 / 100) * gaussTerm ext var 100 20
    else 1 + (-(24 / 100)) + (8 / 100) * gaussTerm ext var 100 20
  else if prod = TVar.Production.JQCD ∧ LHCsqrts = 7 then
    if var > 80 ∧ var < 1500 then
      1 + (-(1 / 2)) * gaussTerm ext var 80 9 + (-(35352 / 100000)) * gaussTerm ext var 1500 268
    else if var > 80 then 1 + (-(1 / 2)) * gaussTerm ext var 80 9 + (-(35352 / 100000))
    else 1 + (-(1 / 2)) + (-(35352 / 100000)) * gaussTerm ext var 1500 268
  else if prod = TVar.Production.JQCD ∧ LHCsqrts = 8 then
    if var > 80 ∧ var < 1500 then
      1 + (-(2 / 10)) * gaussTerm ext var 80 9 + (-(792 / 10000)) * gaussTerm ext var 1500 615
    else if var > 80 then 1 + (-(2 / 10)) * gaussTerm ext var 80 9 + (-(792 / 10000))
    else 1 + (-(2 / 10)) + (-(792 / 10000)) * gaussTerm ext var 1500 615
  else if prod = TVar.Production.JQCD ∧ LHCsqrts = 13 then
    if var < 1530 then
      8444 / 10000 + (15 / 100) * gaussTerm ext var 320 300 + (179 / 1000) * gaussTerm ext var 1530 212
    else 8444 / 10000 + (15 / 100) * gaussTerm ext var 320 300 + 179 / 1000
  else 1

/-- `Mela::getConstant_JHUGenUndecayed` (lines 1631-1745). -/
def getConstant_JHUGenUndecayed (ext : Externals d) (s : Mela d) : FloatVal :=
  match s.melaCand with
  | none => FloatVal.fin 1
  | some cand =>
    let iarray := schemeIndex ext
    let pchandle : Option PConstantHandle :=
      if s.myProduction_ = TVar.Production.JQCD then some (PConstantHandle.JHUGen_JQCD_HSMHiggs iarray)
      else if s.myProduction_ = TVar.Production.JJQCD then some (PConstantHandle.JHUGen_JJQCD_HSMHiggs iarray)
      else if s.myProduction_ = TVar.Production.JJVBF then some (PConstantHandle.JHUGen_JJVBF_HSMHiggs iarray)
      else none
    match pchandle with
    | none => FloatVal.fin 1
    | some h =>
      let constant := ext.handleEval h s.ZZME.record.weights
      let correction := sqrtsCorrection ext s.myProduction_ s.LHCsqrts cand.m
      FloatVal.mul constant (FloatVal.fin correction)

/-- The loop of lines 1832-1837 and 1880-1885 over the two possible handles. -/
def sumHandles (ext : Externals d) (s : Mela d) (pchandle : List (Option PConstantHandle)) : FloatVal :=
  let r := pchandle.foldl (fun (acc : FloatVal × Bool) h =>
      match h with
      | some h => (FloatVal.add acc.1 (ext.handleEval h s.ZZME.record.weights), false)
      | none => acc) (FloatVal.fin 0, true)
  if r.2 then FloatVal.fin 1 else r.1

/-- The handles selected by `getConstant_4l` (lines 1762-1830). -/
def handles_4l (s : Mela d) (is4mu is4e is2mu2e : Bool) : List (Option PConstantHandle) :=
  if s.myME_ = TVar.MatrixElement.JHUGen then
    if s.myProduction_ = TVar.Production.ZZGG then
      if s.myModel_ = TVar.Process.HSMHiggs ∨ s.myModel_ = TVar.Process.H0minus
          ∨ s.myModel_ = TVar.Process.H0hplus ∨ s.myModel_ = TVar.Process.H0_g1prime2
          ∨ s.myModel_ = TVar.Process.H0_Zgsg1prime2 ∨ s.myModel_ = TVar.Process.H0_Zgs
          ∨ s.myModel_ = TVar.Process.H0_Zgs_PS ∨ s.myModel_ = TVar.Process.H0_gsgs
          ∨ s.myModel_ = TVar.Process.H0_gsgs_PS ∨ s.myModel_ = TVar.Process.SelfDefine_spin0 then
        if is2mu2e then [some PConstantHandle.JHUGen_ZZGG_HSMHiggs_2mu2e, none]
        else if is4mu then [some PConstantHandle.JHUGen_ZZGG_HSMHiggs_4mu, none]
        else if is4e then [some PConstantHandle.JHUGen_ZZGG_HSMHiggs_4e, none]
        else [none, none]
      else [none, none]
    else [none, none]
  else if s.myME_ = TVar.MatrixElement.MCFM then
    if s.myProduction_ = TVar.Production.ZZQQB then
      if s.myModel_ = TVar.Process.bkgZZ then
        if is2mu2e then [some PConstantHandle.MCFM_ZZQQB_bkgZZ_2mu2e, none]
        else if is4mu then [some PConstantHandle.MCFM_ZZQQB_bkgZZ_4mu, none]
        else if is4e then [some PConstantHandle.MCFM_ZZQQB_bkgZZ_4e, none]
        else [none, none]
      else [none, none]
    else if s.myProduction_ = TVar.Production.ZZGG then
      if s.myModel_ = TVar.Process.bkgZZ then
        if is2mu2e then [some PConstantHandle.MCFM_ZZGG_bkgZZ_2mu2e, none]
        else if is4mu then [some PConstantHandle.MCFM_ZZGG_bkgZZ_4mu, none]
        else if is4e then [some PConstantHandle.MCFM_ZZGG_bkgZZ_4e, none]
        else [none, none]
      else if s.myModel_ = TVar.Process.HSMHiggs then
        if is2mu2e then [some PConstantHandle.MCFM_ZZGG_HSMHiggs_2mu2e, none]
        else if is4mu then [some PConstantHandle.MCFM_ZZGG_HSMHiggs_4mu, none]
        else if is4e then [some PConstantHandle.MCFM_ZZGG_HSMHiggs_4e, none]
        else [none, none]
      else if s.myModel_ = TVar.Process.bkgZZ_SMHiggs then
        if is2mu2e then
          [some PConstantHandle.MCFM_ZZGG_bkgZZ_2mu2e, some PConstantHandle.MCFM_ZZGG_HSMHiggs_2mu2e]
        else if is4mu then
          [some PConstantHandle.MCFM_ZZGG_bkgZZ_4mu, some PConstantHandle.MCFM_ZZGG_HSMHiggs_4mu]
        else if is4e then
          [some PConstantHandle.MCFM_ZZGG_bkgZZ_4e, some PConstantHandle.MCFM_ZZGG_HSMHiggs_4e]
        else [none, none]
      else [none, none]
    else if s.myProduction_ = TVar.Production.JJQCD then
      if s.myModel_ = TVar.Process.bkgZJets then [some PConstantHandle.MCFM_JJQCD_bkgZJets_2l2q, none]
      else [none, none]
    else [none, none]
  else [none, none]

/-- The product `idprod` of the four absolute daughter ids (lines 1752-1756). -/
def idprod (cand : MELACandidate) : Int :=
  |daughterId (cand.getSortedV 0) 0| * |daughterId (cand.getSortedV 0) 1|
    * |daughterId (cand.getSortedV 1) 0| * |daughterId (cand.getSortedV 1) 1|

/-- `Mela::getConstant_4l` (lines 1746-1838). -/
def getConstant_4l (ext : Externals d) (s : Mela d) : FloatVal :=
  match s.melaCand with
  | none => FloatVal.fin 1
  | some cand =>
    let is4mu : Bool := idprod cand = 28561
    let is4e : Bool := idprod cand = 14641 || idprod cand = 50625
    let is2mu2e : Bool := idprod cand = 20449 || idprod cand = 27225 || idprod cand = 38025
    sumHandles ext s (handles_4l s is4mu is4e is2mu2e)

/-- The handles selected by `getConstant_2l2q` (lines 1848-1878). -/
def handles_2l2q (s : Mela d) : List (Option PConstantHandle) :=
  if s.myME_ = TVar.MatrixElement.JHUGen then
    if s.myProduction_ = TVar.Production.ZZGG then
      if s.myModel_ = TVar.Process.HSMHiggs then [some PConstantHandle.JHUGen_ZZGG_HSMHiggs_2mu2e, none]
      else [none, none]
    else [none, none]
  else if s.myME_ = TVar.MatrixElement.MCFM then
    if s.myProduction_ = TVar.Production.ZZQQB then
      if s.myModel_ = TVar.Process.bkgZZ then [some PConstantHandle.MCFM_ZZQQB_bkgZZ_2mu2e, none]
      else [none, none]
    else if s.myProduction_ = TVar.Production.ZZGG then
      if s.myModel_ = TVar.Process.bkgZZ then [some PConstantHandle.MCFM_ZZGG_bkgZZ_2mu2e, none]
      else if s.myModel_ = TVar.Process.HSMHiggs then [some PConstantHandle.MCFM_ZZGG_HSMHiggs_2mu2e, none]
      else if s.myModel_ = TVar.Process.bkgZZ_SMHiggs then
        [some PConstantHandle.MCFM_ZZGG_bkgZZ_2mu2e, some PConstantHandle.MCFM_ZZGG_HSMHiggs_2mu2e]
      else [none, none]
    else if s.myProduction_ = TVar.Production.JJQCD then
      if s.myModel_ = TVar.Process.bkgZJets then [some PConstantHandle.MCFM_JJQCD_bkgZJets_2l2q, none]
      else [none, none]
    else [none, none]
  else [none, none]

/-- `Mela::getConstant_2l2q` (lines 1839-1886). -/
def getConstant_2l2q (ext : Externals d) (s : Mela d) : FloatVal :=
  match s.melaCand with
  | none => FloatVal.fin 1
  | some _ => sumHandles ext s (handles_2l2q s)

/-- The value of `constant` before the validity check of `setConstant`
(lines 1577-1625). -/
def rawConstant (ext : Externals d) (s : Mela d) : FloatVal :=
  match s.melaCand with
  | none => FloatVal.fin 1
  | some cand =>
    let V0 := cand.getSortedV 0
    let V1 := cand.getSortedV 1
    if s.myME_ = TVar.MatrixElement.JHUGen ∧
        (s.myProduction_ = TVar.Production.JQCD
          ∨ s.myProduction_ = TVar.Production.JJQCD ∨ s.myProduction_ = TVar.Production.JJVBF
          ∨ s.myProduction_ = TVar.Production.Lep_ZH ∨ s.myProduction_ = TVar.Production.Had_ZH
          ∨ s.myProduction_ = TVar.Production.Lep_WH ∨ s.myProduction_ = TVar.Production.Had_WH
          ∨ s.myProduction_ = TVar.Production.GammaH
          ∨ s.myProduction_ = TVar.Production.ttH ∨ s.myProduction_ = TVar.Production.bbH) then
      getConstant_JHUGenUndecayed ext s
    else if V0.getNDaughters = 2 ∧ V1.getNDaughters = 2
        ∧ ext.isALepton (daughterId V0 0) = true ∧ ext.isALepton (daughterId V0 1) = true
        ∧ ext.isALepton (daughterId V1 0) = true ∧ ext.isALepton (daughterId V1 1) = true then
      getConstant_4l ext s
    else if V0.getNDaughters = 2 ∧ V1.getNDaughters = 2
        ∧ ((ext.isALepton (daughterId V0 0) = true ∧ ext.isALepton (daughterId V0 1) = true
            ∧ ext.isAJet (daughterId V1 0) = true ∧ ext.isAJet (daughterId V1 1) = true)
          ∨ (ext.isALepton (daughterId V1 0) = true ∧ ext.isALepton (daughterId V1 1) = true
            ∧ ext.isAJet (daughterId V0 0) = true ∧ ext.isAJet (daughterId V0 1) = true)) then
      getConstant_2l2q ext s
    else FloatVal.fin 1

/-- The validity check of lines 1626-1627 in exact arithmetic: what is stored
for the value `c` when the reciprocal is taken without rounding.  The value in
the single-precision arithmetic of the source is `storedConstant32`. -/
def storedConstant (c : FloatVal) : ℚ :=
  if c.isnan || c.isinf || c.leZero then 0 else 1 / c.toRat

/-- `Mela::setConstant` (lines 1576-1630), in exact arithmetic. -/
def setConstant (ext : Externals d) (s : Mela d) : Mela d :=
  let constant := storedConstant (rawConstant ext s)
  { s with ZZME := { s.ZZME with record := { s.ZZME.record with MEConst := constant } } }

/-- `Mela::computeConstant` (lines 1570-1575), in exact arithmetic. -/
def computeConstant (ext : Externals d) (s : Mela d) (prob : ℚ) : Mela d × ℚ :=
  let s := setConstant ext s
  let pConst := s.getConstant
  (s, prob * pConst)

end Mela

/-! ## Decay probabilities -/

namespace Mela

variable {d : Dims}

/-- The couplings handed over before `computeXS` in `computeP` (lines 512-529). -/
def handedForComputeP (s : Mela d) : Handed d :=
  if s.myME_ = TVar.MatrixElement.MCFM ∨ s.myModel_ = TVar.Process.SelfDefine_spin0 then
    Handed.spinZero s.coupl.spin0
  else if s.myModel_ = TVar.Process.SelfDefine_spin1 then Handed.spinOne s.coupl.spin1
  else if s.myModel_ = TVar.Process.SelfDefine_spin2 then Handed.spinTwo s.coupl.spin2
  else Handed.none

/-- The couplings handed over by `if (myModel_ == SelfDefine_spin0) set_SpinZeroCouplings`. -/
def handedIfSelfDSpin0 (s : Mela d) : Handed d :=
  if s.myModel_ = TVar.Process.SelfDefine_spin0 then Handed.spinZero s.coupl.spin0 else Handed.none

/-- The daughter collection built at lines 583-590 from the reconstructed
momenta `pDauVec`. -/
def gridDaughters (cand : MELACandidate) (pDauVec : Fin 4 → TLorentzVector) :
    List (Int × TLorentzVector) :=
  forRange 2 (fun iv acc =>
    forRange (min 2 (cand.getSortedV iv).getNDaughters) (fun idau acc =>
      acc ++ [(daughterId (cand.getSortedV iv) idau, pDauVec (Fin.ofNat (2 * iv + idau)))]) acc) []

/-- The temporary candidate of the grid point `(hs_val, phi1_val)` (lines 583-611). -/
def gridCandidate (ext : Externals d) (cand : MELACandidate) (o : DecayOutputs)
    (hs_val phi1_val : ℚ) : Option MELACandidate :=
  let pDauVec := ext.Calculate4Momentum (FloatVal.fin o.qH) (FloatVal.fin o.m1) (FloatVal.fin o.m2)
    (ext.acos (FloatVal.fin hs_val)) (ext.acos o.costheta1) (ext.acos o.costheta2)
    (FloatVal.fin phi1_val) o.Phi
  ext.ConvertVectorFormat (gridDaughters cand pDauVec)

/-- The grid average of lines 565-624. -/
def gridAverage (ext : Externals d) (s : Mela d) (cand : MELACandidate) (o : DecayOutputs) :
    Mela d × ℚ :=
  let prob : ℚ := 0
  let gridsize_hs : Nat := 5
  let hs_min : ℚ := 0
  let hs_max : ℚ := 1
  let hs_step : ℚ := (hs_max - hs_min) / gridsize_hs
  let gridsize_phi1 : Nat := 5
  let phi1_min : ℚ := 0
  let phi1_max : ℚ := ext.Pi
  let phi1_step : ℚ := (phi1_max - phi1_min) / gridsize_phi1
  let r := forRange (gridsize_hs + 1) (fun i_hs (acc : Mela d × ℚ) =>
    let hs_val := hs_min + i_hs * hs_step
    forRange (gridsize_phi1 + 1) (fun i_phi1 (acc : Mela d × ℚ) =>
      let phi1_val := phi1_min + i_phi1 * phi1_step
      let cand_tmp := gridCandidate ext cand o hs_val phi1_val
      let s := acc.1.setCurrentCandidate cand_tmp
      let r := evalXS ext s XSEntry.computeXS Handed.none
      let s := r.1.setCurrentCandidate r.1.melaCand
      (s, acc.2 + r.2)) acc) (s, prob)
  (r.1, r.2 / (((gridsize_hs + 1) * (gridsize_phi1 + 1) : Nat) : ℚ))

/-- Writing the observables (lines 487-495). -/
def setObservables (s : Mela d) (o : DecayOutputs) : Mela d :=
  { s with ana := { s.ana with rrv :=
      { costhetastar := o.costhetastar, costheta1 := o.costheta1, costheta2 := o.costheta2,
        phi := o.Phi, phi1 := o.Phi1, z1mass := FloatVal.fin o.m1, z2mass := FloatVal.fin o.m2,
        mzz := FloatVal.fin o.qH, Y_const := true } } }

/-- The call `Y_rrv->setConstant (false)`. -/
def releaseY (s : Mela d) : Mela d :=
  { s with ana := { s.ana with rrv := { s.ana.rrv with Y_const := false } } }

/-- The analytic branch of `computeP` (lines 482-508). -/
def computeP_analytic (ext : Externals d) (s : Mela d) (prob : ℚ) : Mela d × ℚ :=
  let a := computeDecayAngles ext s
  let s := setObservables a.1 a.2
  let c := configureAnalyticalPDFs ext s
  let prob :=
    if c.2 then
      if c.1.myProduction_ = TVar.Production.ZZINDEPENDENT then ext.pdfIntegral c.1.ana
      else ext.pdfGetVal c.1.ana
    else prob
  (releaseY c.1, prob)

/-- The test of line 511 for the grid average. -/
def isGridAverageCase (s : Mela d) : Bool :=
  decide (s.myME_ = TVar.MatrixElement.MCFM) && decide (s.myProduction_ = TVar.Production.ZZINDEPENDENT)
    && (decide (s.myModel_ = TVar.Process.bkgZZ) || decide (s.myModel_ = TVar.Process.bkgWW)
        || decide (s.myModel_ = TVar.Process.bkgZGamma))

/-- The generator branch of `computeP` (lines 510-626). -/
def computeP_generator (ext : Externals d) (s : Mela d) (cand : MELACandidate) : Mela d × ℚ :=
  if ¬ (isGridAverageCase s = true) then
    evalXS ext s XSEntry.computeXS (handedForComputeP s)
  else
    let a := computeDecayAngles ext s
    gridAverage ext a.1 cand a.2

/-- The body of `computeP` for a candidate that is not null (lines 478-628). -/
def computeP_body (ext : Externals d) (s : Mela d) (cand : MELACandidate) (prob : ℚ)
    (useConstant : Bool) : Mela d × ℚ :=
  let r : Mela d × ℚ :=
    if s.myME_ = TVar.MatrixElement.ANALYTICAL then computeP_analytic ext s prob
    else if s.myME_ = TVar.MatrixElement.JHUGen ∨ s.myME_ = TVar.MatrixElement.MCFM then
      computeP_generator ext s cand
    else (s, prob)
  applyConstant (computeConstant ext) useConstant r

/-- `Mela::computeP (prob, useConstant)` (lines 469-634): the new state and the
value of `prob` on return. -/
def computeP (ext : Externals d) (s : Mela d) (prob : ℚ) (useConstant : Bool) : Mela d × ℚ :=
  let s := s.beginEvaluation
  let r : Mela d × ℚ :=
    match s.melaCand with
    | none => (s, prob)
    | some cand => computeP_body ext s cand prob useConstant
  (r.1.endEvaluation, r.2)

/-- The copy loop `selfDHzzcoupl[jh][ic][im] = a[jh][ic][im]; selfDHwwcoupl[jh][ic][im] = b[jh][ic][im]`
shared by the wrappers (lines 384-391, 734-741, 813-820, 1112-1119). -/
def copyHVV (c : Spin0Couplings d) (a b : Tab3 d.nSupportedHiggses d.SIZE_HVV) : Spin0Couplings d :=
  forRange d.nSupportedHiggses (fun jh c =>
    forRange 2 (fun im c =>
      forRange d.SIZE_HVV (fun ic c =>
        let c := { c with selfDHzzcoupl := set3 c.selfDHzzcoupl jh ic im (get3 a jh ic im) }
        { c with selfDHwwcoupl := set3 c.selfDHwwcoupl jh ic im (get3 b jh ic im) }) c) c) c

/-- `Mela::computeP_selfDspin0` (lines 364-397). -/
def computeP_selfDspin0 (ext : Externals d) (s : Mela d)
    (selfDHvvcoupl_input : Tab3 d.nSupportedHiggses d.SIZE_HVV) (prob : ℚ) (useConstant : Bool) :
    Mela d × ℚ :=
  let c := s.coupl.spin0
  let c :=
    if s.myME_ = TVar.MatrixElement.JHUGen then
      forRange d.nSupportedHiggses (fun jh c =>
        let c := { c with selfDHqqcoupl := set3 c.selfDHqqcoupl jh 0 0 1 }
        { c with selfDHggcoupl := set3 c.selfDHggcoupl jh 0 0 1 }) c
    else if s.myME_ = TVar.MatrixElement.MCFM then
      forRange d.nSupportedHiggses (fun jh c =>
        let c := { c with selfDHttcoupl := set3 c.selfDHttcoupl jh 0 0 1 }
        { c with selfDHbbcoupl := set3 c.selfDHbbcoupl jh 0 0 1 }) c
    else c
  let c := copyHVV c selfDHvvcoupl_input selfDHvvcoupl_input
  computeP ext { s with coupl := { s.coupl with spin0 := c } } prob useConstant

/-- The three tables `coupl_mix`, `coupl_1`, `coupl_2` of `computeD_CP`
(lines 643-716). -/
def couplD_CP (d : Dims) (myType : TVar.Process) :
    Tab3 d.nSupportedHiggses d.SIZE_HVV × Tab3 d.nSupportedHiggses d.SIZE_HVV
      × Tab3 d.nSupportedHiggses d.SIZE_HVV :=
  let z : Tab3 d.nSupportedHiggses d.SIZE_HVV := fun _ _ _ => 0
  let mk (ic im : Nat) (v : ℚ) :=
    (set3 (set3 z 0 0 0 1) 0 ic im v, set3 z 0 0 0 1, set3 z 0 ic im v)
  match myType with
  | TVar.Process.D_g1g4 => mk 3 0 (2521 / 1000)
  | TVar.Process.D_g1g4_pi_2 => mk 3 1 (2521 / 1000)
  | TVar.Process.D_g1g2 => mk 1 0 (1638 / 1000)
  | TVar.Process.D_g1g2_pi_2 => mk 1 1 (1638 / 1000)
  | TVar.Process.D_g1g1prime2 => mk 11 0 (1204601 / 100)
  | TVar.Process.D_zzzg => mk 4 0 (688 / 10000)
  | TVar.Process.D_zzgg => mk 7 0 (-(898 / 10000))
  | TVar.Process.D_zzzg_PS => mk 6 0 (855 / 10000)
  | TVar.Process.D_zzgg_PS => mk 9 0 (-(907 / 10000))
  | TVar.Process.D_zzzg_g1prime2 => mk 30 0 (-(7591914 / 1000))
  | TVar.Process.D_zzzg_g1prime2_pi_2 => mk 30 1 (-(7591914 / 1000))
  | _ => (z, z, z)

/-- `Mela::computeD_CP` (lines 637-725).  The locals `pMix`, `p1`, `p2` are
uninitialised in the source; their initial values are the arguments here. -/
def computeD_CP (ext : Externals d) (s : Mela d) (myME : TVar.MatrixElement)
    (myType : TVar.Process) (pMix p1 p2 : ℚ) : Mela d × ℚ :=
  let t := couplD_CP d myType
  let s := s.setProcess TVar.Process.SelfDefine_spin0 myME TVar.Production.ZZGG
  let rMix := computeP_selfDspin0 ext s t.1 pMix true
  let r1 := computeP_selfDspin0 ext rMix.1 t.2.1 p1 true
  let r2 := computeP_selfDspin0 ext r1.1 t.2.2 p2 true
  (r2.1, rMix.2 - r1.2 - r2.2)

end Mela

/-! ## Production probabilities -/

namespace Mela

variable {d : Dims}

/-- The production modes accepted by `computeProdDecP` (lines 762-770). -/
def isProdDecProduction (p : TVar.Production) : Bool :=
  p = TVar.Production.Had_WH || p = TVar.Production.Had_ZH
  || p = TVar.Production.Had_WH_S || p = TVar.Production.Had_ZH_S
  || p = TVar.Production.Had_WH_TU || p = TVar.Production.Had_ZH_TU
  || p = TVar.Production.Lep_ZH || p = TVar.Production.Lep_WH
  || p = TVar.Production.Lep_ZH_S || p = TVar.Production.Lep_WH_S
  || p = TVar.Production.Lep_ZH_TU || p = TVar.Production.Lep_WH_TU
  || p = TVar.Production.JJVBF || p = TVar.Production.JJEW || p = TVar.Production.JJEWQCD
  || p = TVar.Production.JJQCD
  || p = TVar.Production.JJVBF_S || p = TVar.Production.JJEW_S || p = TVar.Production.JJEWQCD_S
  || p = TVar.Production.JJQCD_S
  || p = TVar.Production.JJVBF_TU || p = TVar.Production.JJEW_TU || p = TVar.Production.JJEWQCD_TU
  || p = TVar.Production.JJQCD_TU

/-- `Mela::computeProdDecP (prob, useConstant)` (lines 747-802). -/
def computeProdDecP (ext : Externals d) (s : Mela d) (_prob : ℚ) (useConstant : Bool) : Mela d × ℚ :=
  let s := s.beginEvaluation
  let hasFailed : Bool := false
  let hasFailed := if s.myME_ ≠ TVar.MatrixElement.MCFM then true else hasFailed
  let hasFailed := if ¬ (isProdDecProduction s.myProduction_ = true) then true else hasFailed
  let hasFailed := if s.melaCand = none then true else hasFailed
  let r : Mela d × ℚ :=
    if hasFailed then (s, 0)
    else
      applyConstant (computeConstant ext) useConstant
        (evalXS ext s XSEntry.computeProdXS_VVHVV (Handed.spinZero s.coupl.spin0))
  (r.1.endEvaluation, r.2)

/-- `Mela::computeProdP_VH (prob, includeHiggsDecay, useConstant)` (lines 1127-1163). -/
def computeProdP_VH (ext : Externals d) (s : Mela d) (prob : ℚ) (includeHiggsDecay useConstant : Bool) :
    Mela d × ℚ :=
  let s := s.beginEvaluation
  let r : Mela d × ℚ :=
    match s.melaCand with
    | none => (s, prob)
    | some _ =>
      if isVHProduction s.myProduction_ then
        applyConstant (computeConstant ext) useConstant
          (evalXS ext s (XSEntry.computeProdXS_VH includeHiggsDecay) (handedIfSelfDSpin0 s))
      else (s, prob)
  (r.1.endEvaluation, r.2)

/-- `Mela::computeProdP_ttH` (lines 1166-1200). -/
def computeProdP_ttH (ext : Externals d) (s : Mela d) (prob : ℚ) (topProcess topDecay : Int)
    (useConstant : Bool) : Mela d × ℚ :=
  let s := s.beginEvaluation
  let r : Mela d × ℚ :=
    match s.melaCand with
    | none => (s, prob)
    | some _ =>
      applyConstant (computeConstant ext) useConstant
        (evalXS ext s (XSEntry.computeProdXS_ttH topProcess topDecay) (handedIfSelfDSpin0 s))
  (r.1.endEvaluation, r.2)

/-- `Mela::getXPropagator` (lines 1202-1207). -/
def getXPropagator (ext : Externals d) (s : Mela d) (scheme : TVar.ResonancePropagatorScheme) :
    Mela d × ℚ :=
  let prop : ℚ := 0
  let s := { s with melaCand := s.getCurrentCandidate }
  let prop := if s.melaCand ≠ none then ext.get_XPropagator scheme s.ZZME.currentCand else prop
  (s.reset_CandRef, prop)

/-- `TLorentzVector::Pt`. -/
def Pt (ext : Externals d) (v : TLorentzVector) : ℚ := ext.sqrt (v.X ^ 2 + v.Y ^ 2)

/-- `TLorentzVector::P`. -/
def P (ext : Externals d) (v : TLorentzVector) : ℚ := ext.sqrt (v.X ^ 2 + v.Y ^ 2 + v.Z ^ 2)

/-- The beam limit `1000.*LHCsqrts/2.`. -/
def beamThreshold (LHCsqrts : ℚ) : ℚ := 1000 * LHCsqrts / 2

/-- The search for the first selected jet (lines 848-857): `(njets, firstJetIndex, jet1)`. -/
def findFirstJet (cand : MELACandidate) : Nat × Nat × TLorentzVector :=
  forRange cand.getNAssociatedJets (fun ip (acc : Nat × Nat × TLorentzVector) =>
    match cand.associatedJets.get? ip with
    | some j =>
      if j.passSelection then
        let njets := acc.1 + 1
        if njets = 1 then (njets, ip, j.p4) else (njets, acc.2)
      else acc
    | none => acc) (0, 0, nullVector)

/-- The adjustment of the companion jet to the beam limit (lines 863-879). -/
def rescaleFakeJet (ext : Externals d) (LHCsqrts : ℚ) (higgs jet1massless jet2massless : TLorentzVector) :
    TLorentzVector :=
  let threshold := beamThreshold LHCsqrts
  let pTotal := (higgs.add jet1massless).add jet2massless
  let sysZ := pTotal.Z
  if |sysZ| > threshold then
    let maxpz2 := threshold - higgs.Z - jet1massless.Z
    if |maxpz2| > 0 then
      let ratio := jet2massless.Z / maxpz2
      let absp := ext.sqrt ((Pt ext jet2massless) ^ 2 + (jet2massless.Z * ratio) ^ 2)
      jet2massless.SetXYZT jet2massless.X jet2massless.Y (jet2massless.Z * ratio) absp
    else
      jet2massless.SetXYZT jet2massless.X jet2massless.Y 0 (Pt ext jet2massless)
  else jet2massless

/-- The momentum given to the fake jet for pseudorapidity `eta` (lines 921-924,
993-996). -/
def fakeJetAt (ext : Externals d) (jet2massless : TLorentzVector) (jet2temp_eta : ℚ) : TLorentzVector :=
  let jet2temp_sinh_eta := ext.sinh jet2temp_eta
  let jet2temp_pz := Pt ext jet2massless * jet2temp_sinh_eta
  let p : TLorentzVector := ⟨jet2massless.X, jet2massless.Y, jet2temp_pz, 0⟩
  { p with T := P ext p }

/-- What the missing-jet integration keeps fixed: the momenta, the copy of the
candidate and the position of the fake jet in it. -/
structure FakeJetContext where
  higgs : TLorentzVector
  jet1massless : TLorentzVector
  jet2massless : TLorentzVector
  candCopy : MELACandidate
  fakeIndex : Nat

/-- One sample of the integration (lines 917-949, 988-1022): the fake jet, which
the copy of the candidate points to, is moved to `eta`; the generator is
evaluated unless the system exceeds the beam limit, in which case the sample
is 0. -/
def sampleAt (ext : Externals d) (ctx : FakeJetContext) (s : Mela d) (jet2temp_eta : ℚ) : Mela d × ℚ :=
  let prob_temp : ℚ := 0
  let fake := fakeJetAt ext ctx.jet2massless jet2temp_eta
  let s := s.setCurrentCandidate (some (ctx.candCopy.setJetP4 ctx.fakeIndex fake))
  let threshold := beamThreshold s.LHCsqrts
  let pTotal := (ctx.higgs.add ctx.jet1massless).add fake
  let sys := (pTotal.T + |pTotal.Z|) / 2
  if |sys| < threshold then evalXS ext s XSEntry.computeProdXS_JJH (handedIfSelfDSpin0 s)
  else (s, prob_temp)

end Mela

/-! ## Missing-jet integration -/

/-- The variables of the refinement loop (lines 952-1031); `st` is the state
the sample evaluations act on. -/
structure RefineState (σ : Type) where
  st : σ
  nGrid : Nat
  etaArray : List ℚ
  pArray : List ℚ
  iG : Nat
  ctr_iter : Nat

/-- The copy `xGrid[iter] = etaArray[iter]` for `iter < nGrid` (lines 962-967). -/
def fillGrid (nGrid : Nat) (a : List ℚ) : List ℚ := (List.range nGrid).map (fun iter => a.getD iter 0)

/-- One pass through the body of the refinement loop, including the loop
increment; `none` when the loop condition `iG < nGrid-1` fails.  In the
rejecting branch the decrement `iG--` and the increment `iG++` cancel. -/
def refineStep {σ : Type} (spline : List ℚ → List ℚ → ℚ → ℚ → ℚ → ℚ) (smp : σ → ℚ → σ × ℚ)
    (r : RefineState σ) : Option (RefineState σ) :=
  if r.iG + 1 < r.nGrid then
    if r.pArray.getD r.iG 0 = r.pArray.getD (r.iG + 1) 0 then some { r with iG := r.iG + 1 }
    else if r.etaArray.getD r.iG 0 = r.etaArray.getD (r.iG + 1) 0 then some { r with iG := r.iG + 1 }
    else
      let grid_precision : ℚ := 15 / 100
      let ctr_iter := r.ctr_iter + 1
      let xGrid := fillGrid r.nGrid r.etaArray
      let yGrid := fillGrid r.nGrid r.pArray
      let derivative_first := (yGrid.getD 1 0 - yGrid.getD 0 0) / (xGrid.getD 1 0 - xGrid.getD 0 0)
      let derivative_last := (yGrid.getD (r.nGrid - 1) 0 - yGrid.getD (r.nGrid - 2) 0)
        / (xGrid.getD (r.nGrid - 1) 0 - xGrid.getD (r.nGrid - 2) 0)
      let x_middle := (xGrid.getD r.iG 0 + xGrid.getD (r.iG + 1) 0) * (1 / 2)
      let y_middle := (yGrid.getD r.iG 0 + yGrid.getD (r.iG + 1) 0) * (1 / 2)
      let y_sp := spline xGrid yGrid derivative_first derivative_last x_middle
      let y_sp := if y_sp < 0 then 0 else y_sp
      if |y_sp - y_middle| < grid_precision * |y_middle|
          ∨ |xGrid.getD (r.iG + 1) 0 - xGrid.getD r.iG 0| < 1 / 1000 then
        some { r with pArray := r.pArray.insertIdx (r.iG + 1) y_sp,
                      etaArray := r.etaArray.insertIdx (r.iG + 1) x_middle,
                      iG := r.iG + 2, nGrid := r.nGrid + 1, ctr_iter := ctr_iter }
      else
        let e := smp r.st x_middle
        some { r with st := e.1, etaArray := r.etaArray.insertIdx (r.iG + 1) x_middle,
                      pArray := r.pArray.insertIdx (r.iG + 1) e.2,
                      iG := r.iG, nGrid := r.nGrid + 1, ctr_iter := ctr_iter }
  else none

/-- The refinement loop run for at most `fuel` passes: the variables at loop
exit, or `none` if the loop has not exited by then. -/
def refineLoop {σ : Type} (spline : List ℚ → List ℚ → ℚ → ℚ → ℚ → ℚ) (smp : σ → ℚ → σ × ℚ) :
    Nat → RefineState σ → Option (RefineState σ)
  | 0, _ => none
  | fuel + 1, r =>
    match refineStep spline smp r with
    | none => some r
    | some r' => refineLoop spline smp fuel r'

/-- Number of passes that an interval of width `n / 1000` (rounded down) can
cause: 1 below the floor `1e-3`, and one more than twice the cost of a half
above it. -/
def widthCost (n : Nat) : Nat := if n = 0 then 1 else 2 ^ (Nat.log 2 n + 2) - 1

/-- Number of passes that the interval from `a` to `b` can cause. -/
def pairCost (a b : ℚ) : Nat := widthCost ⌊|b - a| * 1000⌋₊

/-- Sum of `pairCost` over the adjacent pairs of a list. -/
def gridCost : List ℚ → Nat
  | a :: b :: t => pairCost a b + gridCost (b :: t)
  | _ => 0

/-- A number of passes that suffices for the refinement loop to exit. -/
def refineBound {σ : Type} (r : RefineState σ) : Nat := gridCost (r.etaArray.drop r.iG) + 1

/-- The refinement loop of lines 952-1031, run to its exit (`refineBound` passes
suffice, see `refineLoop_bound`). -/
def refine {σ : Type} (spline : List ℚ → List ℚ → ℚ → ℚ → ℚ → ℚ) (smp : σ → ℚ → σ × ℚ)
    (r : RefineState σ) : RefineState σ :=
  (refineLoop spline smp (refineBound r) r).getD r

/-- The first loop of the trimming (lines 1036-1042). -/
def findGFirst (nGrid : Nat) (pArray : List ℚ) : Nat :=
  match (List.range' 1 (nGrid - 1)).find? (fun iG =>
      decide (pArray.getD iG 0 > 0 ∧ pArray.getD (iG - 1) 0 = 0)) with
  | some iG => iG - 1
  | none => 0

/-- The second loop of the trimming (lines 1036, 1043-1048). -/
def findGLast (nGrid : Nat) (pArray : List ℚ) : Nat :=
  match (List.range (nGrid - 1)).reverse.find? (fun iG =>
      decide (pArray.getD iG 0 > 0 ∧ pArray.getD (iG + 1) 0 = 0)) with
  | some iG => iG + 1
  | none => nGrid - 1

/-- The accumulation of lines 1049-1057: the value of `auxiliaryProb` before the
division by the primary probability. -/
def integrateGrid (etaArray pArray : List ℚ) (iGFirst iGLast : Nat) : ℚ :=
  let dEtaGrid := etaArray.getD iGLast 0 - etaArray.getD iGFirst 0
  (List.range' iGFirst (iGLast - 1 - iGFirst)).foldl (fun auxiliaryProb iG =>
    let dEta := etaArray.getD (iG + 1) 0 - etaArray.getD iG 0
    let sumProb := pArray.getD iG 0 + pArray.getD (iG + 1) 0
    let sumProb := sumProb * (1 / 2)
    let dEta := dEta / dEtaGrid
    let addProb := sumProb * dEta
    auxiliaryProb + addProb) 0

namespace Mela

variable {d : Dims}

/-- The half-width `eta_max` of the scan (lines 912-913). -/
def etaMax (ext : Externals d) (jet2massless : TLorentzVector) : ℚ :=
  let eta_max : ℚ := 10
  if Pt ext jet2massless > 0 then max eta_max ((12 / 10) * |ext.Eta jet2massless|) else eta_max

/-- The abscissa of sample `iter` of the initial scan (line 919). -/
def scanEta (nGrid : Nat) (eta_min eta_max : ℚ) (iter : Nat) : ℚ :=
  (iter : ℚ) * (eta_max - eta_min) / ((nGrid : ℚ) - 1) + eta_min

/-- The initial scan of lines 909-950: 11 equally spaced samples. -/
def initialScan (ext : Externals d) (ctx : FakeJetContext) (s : Mela d) : RefineState (Mela d) :=
  let nGrid : Nat := 11
  let eta_max := etaMax ext ctx.jet2massless
  let eta_min := -eta_max
  forRange nGrid (fun iter (r : RefineState (Mela d)) =>
    let jet2temp_eta := scanEta nGrid eta_min eta_max iter
    let e := sampleAt ext ctx r.st jet2temp_eta
    { r with st := e.1, etaArray := r.etaArray ++ [jet2temp_eta], pArray := r.pArray ++ [e.2] })
    ⟨s, nGrid, [], [], 0, 0⟩

/-- The copy of the candidate handed to the generator (lines 884-888): the
first jet carries the massless momentum, the fake jet is appended. -/
def fakeJetContext (cand : MELACandidate) (firstJetIndex : Nat)
    (jet1massless jet2massless : TLorentzVector) : FakeJetContext :=
  -- the copy shares its jets with the original: both see the new momentum
  let candShared := cand.setJetP4 firstJetIndex jet1massless
  let fakeJet : MELAParticle := ⟨0, jet2massless, true⟩
  ⟨cand.p4, jet1massless, jet2massless, candShared.addAssociatedJets fakeJet,
    candShared.getNAssociatedJets⟩

/-- Lines 1035-1057: trimming and integration of the final grid. -/
def auxiliaryIntegral (g : RefineState (Mela d)) : ℚ :=
  let iGFirst := findGFirst g.nGrid g.pArray
  let iGLast := findGLast g.nGrid g.pArray
  integrateGrid g.etaArray g.pArray iGFirst iGLast

/-- Line 1067: `if (fabs (prob) > 0) auxiliaryProb /= prob;`. -/
def normaliseAux (s : Mela d) (prob : ℚ) : Mela d :=
  if |prob| > 0 then { s with auxiliaryProb := s.auxiliaryProb / prob } else s

/-- Lines 884-889: the first jet of the candidate gets the massless momentum
(through the copy, which shares its jets with the original) and the copy
becomes the current candidate of the generator. -/
def enterFakeJet (s : Mela d) (cand : MELACandidate) (firstJetIndex : Nat)
    (jet1massless : TLorentzVector) (ctx : FakeJetContext) : Mela d :=
  let s := { s with melaCand := some (cand.setJetP4 firstJetIndex jet1massless) }
  s.setCurrentCandidate (some ctx.candCopy)

/-- Lines 1059-1062: the momentum of the first jet is restored (in the original
as well), the original becomes the current candidate again and `melaCand` is
read back from the generator. -/
def leaveFakeJet (s : Mela d) (cand : MELACandidate) (firstJetIndex : Nat)
    (jet1 jet1massless : TLorentzVector) : Mela d :=
  let candOriginal := (cand.setJetP4 firstJetIndex jet1massless).setJetP4 firstJetIndex jet1
  let s := s.setCurrentCandidate (some candOriginal)
  { s with melaCand := s.getCurrentCandidate }

/-- Lines 884-907: the evaluation of the primary probability on the copy with
the fake jet. -/
def primaryEval (ext : Externals d) (s : Mela d) (cand : MELACandidate) (firstJetIndex : Nat)
    (jet1massless jet2massless : TLorentzVector) : Mela d × ℚ :=
  let ctx := fakeJetContext cand firstJetIndex jet1massless jet2massless
  let s := enterFakeJet s cand firstJetIndex jet1massless ctx
  evalXS ext s XSEntry.computeProdXS_JJH (handedIfSelfDSpin0 s)

/-- Lines 909-1031: the grid after the initial scan and the refinement. -/
def finalGrid (ext : Externals d) (s : Mela d) (cand : MELACandidate) (firstJetIndex : Nat)
    (jet1massless jet2massless : TLorentzVector) : RefineState (Mela d) :=
  let ctx := fakeJetContext cand firstJetIndex jet1massless jet2massless
  refine ext.spline (sampleAt ext ctx)
    (initialScan ext ctx (primaryEval ext s cand firstJetIndex jet1massless jet2massless).1)

/-- The missing-jet branch of `computeProdP` (lines 883-1068), entered with the
candidate `cand`, the index and momentum of its only selected jet and the two
massless jets. -/
def missingJetIntegration (ext : Externals d) (s : Mela d) (cand : MELACandidate)
    (firstJetIndex : Nat) (jet1 jet1massless jet2massless : TLorentzVector) : Mela d × ℚ :=
  let r := primaryEval ext s cand firstJetIndex jet1massless jet2massless
  let g := finalGrid ext s cand firstJetIndex jet1massless jet2massless
  let s := { g.st with auxiliaryProb := auxiliaryIntegral g }
  let s := leaveFakeJet s cand firstJetIndex jet1 jet1massless
  (normaliseAux s r.2, r.2)

/-- The test `myProduction_ == TVar::JJQCD || myProduction_ == TVar::JJVBF`. -/
def isTwoJetProduction (p : TVar.Production) : Bool :=
  p = TVar.Production.JJQCD || p = TVar.Production.JJVBF

/-- Lines 847-857: the jet search, made for the two-jet production modes only. -/
def jetSearch (s : Mela d) (cand : MELACandidate) : Nat × Nat × TLorentzVector :=
  if isTwoJetProduction s.myProduction_ then findFirstJet cand else (0, 0, nullVector)

/-- The flag `isJet2Fake` (lines 839, 858-861). -/
def isJet2Fake (s : Mela d) (cand : MELACandidate) : Bool :=
  isTwoJetProduction s.myProduction_ && decide ((jetSearch s cand).1 = 1)

/-- Lines 859-880 followed by the integration of lines 883-1068. -/
def computeProdP_fake (ext : Externals d) (s : Mela d) (cand : MELACandidate) : Mela d × ℚ :=
  let higgs := cand.p4
  let j := jetSearch s cand
  let jet1massless := ext.scaleMomentumToEnergy j.2.2
  let jet2massless := ext.computeFakeJet jet1massless higgs
  let jet2massless := rescaleFakeJet ext s.LHCsqrts higgs jet1massless jet2massless
  missingJetIntegration ext s cand j.2.1 j.2.2 jet1massless jet2massless

/-- The body of `computeProdP` for a candidate that is not null (lines 838-1094). -/
def computeProdP_body (ext : Externals d) (s : Mela d) (cand : MELACandidate) (prob : ℚ)
    (useConstant : Bool) : Mela d × ℚ :=
  let r : Mela d × ℚ :=
    if isJet2Fake s cand then computeProdP_fake ext s cand
    else if isTwoJetProduction s.myProduction_ then
      evalXS ext s XSEntry.computeProdXS_JJH (handedIfSelfDSpin0 s)
    else if s.myProduction_ = TVar.Production.JQCD then
      evalXS ext s XSEntry.computeProdXS_JH Handed.none
    else (s, prob)
  applyConstant (computeConstant ext) useConstant r

/-- `Mela::computeProdP (prob, useConstant)` (lines 826-1101). -/
def computeProdP (ext : Externals d) (s : Mela d) (prob : ℚ) (useConstant : Bool) : Mela d × ℚ :=
  if s.myProduction_ = TVar.Production.ttH ∨ s.myProduction_ = TVar.Production.bbH then
    computeProdP_ttH ext s prob 2 0 useConstant
  else if isVHProduction s.myProduction_ then
    computeProdP_VH ext s prob false useConstant
  else
    let s := s.beginEvaluation
    let r : Mela d × ℚ :=
      match s.melaCand with
      | none => (s, prob)
      | some cand => computeProdP_body ext s cand prob useConstant
    (r.1.endEvaluation, r.2)

end Mela

/-! ## SuperMELA and the gg discriminant -/

namespace Mela

variable {d : Dims}

/-- The test of lines 1220 and 1278 on a sorted boson: it has two daughters and
is a Z boson or a photon. -/
def isZOrPhotonPair (ext : Externals d) (v : MELABoson) : Bool :=
  decide (v.getNDaughters = 2) && (ext.isAZBoson v.id || ext.isAPhoton v.id)

/-- The decay channel chosen at lines 1283-1290, if any. -/
def decayChannel (cand : MELACandidate) : Option String :=
  let id00 := |daughterId (cand.getSortedV 0) 0|
  let id01 := |daughterId (cand.getSortedV 0) 1|
  let id10 := |daughterId (cand.getSortedV 1) 0|
  let id11 := |daughterId (cand.getSortedV 1) 1|
  if id00 = 11 ∧ id10 = 11 ∧ id01 = 11 ∧ id11 = 11 then some "4e"
  else if id00 = 13 ∧ id10 = 13 ∧ id01 = 13 ∧ id11 = 13 then some "4mu"
  else if (id00 = 11 ∧ id01 = 11 ∧ id10 = 13 ∧ id11 = 13)
      ∨ (id00 = 13 ∧ id01 = 13 ∧ id10 = 11 ∧ id11 = 11) then some "2e2mu"
  else none

/-- The body of `computePM4l` for a candidate that is not null (lines 1273-1315). -/
def computePM4l_body (ext : Externals d) (s : Mela d) (cand : MELACandidate)
    (syst : TVar.SuperMelaSyst) (prob : ℚ) : Mela d × ℚ :=
  if isZOrPhotonPair ext (cand.getSortedV 0) && isZOrPhotonPair ext (cand.getSortedV 1) then
    match decayChannel cand with
    | none => (s, prob)
    | some ch =>
      let s := { s with superChannel := ch }
      let mZZ := cand.m
      if syst = TVar.SuperMelaSyst.SMSyst_None then
        let m4lP := ext.M4lProb s.superChannel mZZ
        if s.myModel_ = TVar.Process.HSMHiggs then (s, m4lP.1)
        else if s.myModel_ = TVar.Process.bkgZZ then (s, m4lP.2)
        else (s, prob)
      else
        let meanErr := ext.GetSigShapeSystematic "meanCB"
        let sigmaErr := ext.GetSigShapeSystematic "sigmaCB"
        let sigmaCB := ext.GetSigShapeParameter "sigmaCB"
        let g : ℚ × Nat :=
          if syst = TVar.SuperMelaSyst.SMSyst_ScaleUp then (mZZ * (1 + meanErr), s.myRandomNumber)
          else if syst = TVar.SuperMelaSyst.SMSyst_ScaleDown then
            (mZZ * (1 - meanErr), s.myRandomNumber)
          else if syst = TVar.SuperMelaSyst.SMSyst_ResUp ∨ syst = TVar.SuperMelaSyst.SMSyst_ResDown then
            ext.Gaus s.myRandomNumber mZZ (sigmaErr * sigmaCB)
          else (mZZ, s.myRandomNumber)
        let s := { s with myRandomNumber := g.2 }
        let m4lP := ext.M4lProb s.superChannel g.1
        if s.myModel_ = TVar.Process.HSMHiggs then (s, m4lP.1)
        else if s.myModel_ = TVar.Process.bkgZZ then (s, m4lP.2)
        else (s, prob)
  else (s, prob)

/-- `Mela::computePM4l` (lines 1267-1320). -/
def computePM4l (ext : Externals d) (s : Mela d) (syst : TVar.SuperMelaSyst) : Mela d × ℚ :=
  let prob : ℚ := -99
  let s := s.beginEvaluation
  let r : Mela d × ℚ :=
    match s.melaCand with
    | none => (s, prob)
    | some cand => computePM4l_body ext s cand syst prob
  (r.1.endEvaluation, r.2)

/-- `Mela::constructDggr` (lines 1323-1336). -/
def constructDggr (ext : Externals d) (bkg_VAMCFM_noscale ggzz_VAMCFM_noscale ggHZZ_prob_pure_noscale
    ggHZZ_prob_int_noscale widthScale : ℚ) : ℚ :=
  let total_sig_ME := widthScale * ggHZZ_prob_pure_noscale
    + ext.sqrt widthScale * ggHZZ_prob_int_noscale + ggzz_VAMCFM_noscale
  let total_bkg_ME := bkg_VAMCFM_noscale
  let kd_denominator := total_sig_ME + total_bkg_ME
  if kd_denominator > 0 then total_sig_ME / (total_sig_ME + total_bkg_ME) else -99

/-- The body of `computeD_gg` for a candidate that is not null (lines 1350-1364).
The float locals are uninitialised in the source; every `computeP` call here
assigns its output, because the engine is MCFM and the candidate is not null,
so they start at 0. -/
def computeD_gg_body (ext : Externals d) (s : Mela d) (myME : TVar.MatrixElement) : Mela d × ℚ :=
  let s := s.setProcess TVar.Process.bkgZZ myME TVar.Production.ZZGG
  let r1 := computeP ext s 0 false
  let s := r1.1.setProcess TVar.Process.HSMHiggs myME TVar.Production.ZZGG
  let r2 := computeP ext s 0 false
  let s := r2.1.setProcess TVar.Process.bkgZZ_SMHiggs myME TVar.Production.ZZGG
  let r3 := computeP ext s 0 false
  let s := setConstant ext r3.1
  let ggScale := s.getConstant
  let ggzz_VAMCFM_noscale := if ggScale > 0 then r1.2 / ggScale else r1.2
  let ggHZZ_prob_pure_noscale := if ggScale > 0 then r2.2 / ggScale else r2.2
  let bkgHZZ_prob_noscale := if ggScale > 0 then r3.2 / ggScale else r3.2
  let ggHZZ_prob_int_noscale := bkgHZZ_prob_noscale - ggHZZ_prob_pure_noscale - ggzz_VAMCFM_noscale
  let s := s.setProcess TVar.Process.bkgZZ myME TVar.Production.ZZQQB
  let r4 := computeP ext s 0 true
  (r4.1, constructDggr ext r4.2 ggzz_VAMCFM_noscale ggHZZ_prob_pure_noscale
    ggHZZ_prob_int_noscale 10)

/-- `Mela::computeD_gg` (lines 1337-1369). -/
def computeD_gg (ext : Externals d) (s : Mela d) (myME : TVar.MatrixElement) (myType : TVar.Process) :
    Mela d × ℚ :=
  let prob : ℚ := -99
  if myME ≠ TVar.MatrixElement.MCFM ∨ myType ≠ TVar.Process.D_gg10 then
    (s, prob)
  else
    let s := { s with melaCand := s.getCurrentCandidate }
    let r : Mela d × ℚ :=
      match s.melaCand with
      | none => (s, prob)
      | some _ => computeD_gg_body ext s myME
    (r.1.endEvaluation, r.2)

end Mela

/-! ## Quantities used in the statements -/

namespace Mela

variable {d : Dims}

/-- The states that give a sample evaluation the same inputs as `s`: same beam
energy, same selector in the generator, same model and same coupling tables. -/
def SameInputs (st s : Mela d) : Prop :=
  st.LHCsqrts = s.LHCsqrts ∧ st.ZZME.process = s.ZZME.process ∧ st.myModel_ = s.myModel_
    ∧ st.coupl = s.coupl

end Mela

/-- The span-normalised trapezoidal sum in the words of the specification: the
sum for `k` from `iGFirst` to `iGLast - 1` of
`(p k + p (k+1)) / 2 * (eta (k+1) - eta k)`, divided by `eta iGLast - eta iGFirst`. -/
def specTrapezoid (etaArray pArray : List ℚ) (iGFirst iGLast : Nat) : ℚ :=
  ((List.range' iGFirst (iGLast - iGFirst)).map (fun k =>
      (pArray.getD k 0 + pArray.getD (k + 1) 0) / 2
        * (etaArray.getD (k + 1) 0 - etaArray.getD k 0))).sum
    / (etaArray.getD iGLast 0 - etaArray.getD iGFirst 0)


/-! ## State transformers used in the statements on repeated evaluation -/

namespace Mela

variable {d : Dims}

/-- The state `s` with the stored constant of the generator record replaced. -/
def withMEConst (k : ℚ) (s : Mela d) : Mela d :=
  { s with ZZME := { s.ZZME with record := { s.ZZME.record with MEConst := k } } }

/-- The state `s` with the weights of the generator record replaced. -/
def withWeights (w : List ℚ) (s : Mela d) : Mela d :=
  { s with ZZME := { s.ZZME with record := { s.ZZME.record with weights := w } } }

/-- The state `s` after the caller has written the coupling tables `c`. -/
def withCoupl (c : SelfDCouplings d) (s : Mela d) : Mela d := { s with coupl := c }

/-- The state `s` after the opening statements of an entry point that reads
the candidate `m`: `auxiliaryProb = 1` and `melaCand = m`. -/
def reenter (m : Option MELACandidate) (s : Mela d) : Mela d :=
  { s with auxiliaryProb := 1, melaCand := m }

/-- The state `s` without what an evaluation by the generator can change: the
auxiliary probability, the candidate reference, the current candidate of the
generator and the weights of its record. -/
def core (s : Mela d) : Mela d :=
  { s with auxiliaryProb := 0, melaCand := none,
           ZZME := { s.ZZME with currentCand := none,
                                 record := { s.ZZME.record with weights := [] } } }

/-- The evaluation selected by `computeProdP_body`, before the constant is applied. -/
def prodSelect (ext : Externals d) (cand : MELACandidate) (prob : ℚ) (s : Mela d) : Mela d × ℚ :=
  if isJet2Fake s cand then computeProdP_fake ext s cand
  else if isTwoJetProduction s.myProduction_ then
    evalXS ext s XSEntry.computeProdXS_JJH (handedIfSelfDSpin0 s)
  else if s.myProduction_ = TVar.Production.JQCD then
    evalXS ext s XSEntry.computeProdXS_JH Handed.none
  else (s, prob)

/-- The evaluation selected by `computeP_body`, before the constant is applied. -/
def decaySelect (ext : Externals d) (cand : MELACandidate) (prob : ℚ) (s : Mela d) : Mela d × ℚ :=
  if s.myME_ = TVar.MatrixElement.ANALYTICAL then computeP_analytic ext s prob
  else if s.myME_ = TVar.MatrixElement.JHUGen ∨ s.myME_ = TVar.MatrixElement.MCFM then
    computeP_generator ext s cand
  else (s, prob)

/-- The shape `if (melaCand != 0) { body }` of the entry points: for a null
candidate the state and `prob` are left as they are. -/
def guarded (prob : ℚ) (body : MELACandidate → Mela d → Mela d × ℚ) (b : Mela d) : Mela d × ℚ :=
  match b.melaCand with
  | none => (b, prob)
  | some cand => body cand b

/-- The shape `reset_PAux (); melaCand = getCurrentCandidate (); G;
reset_SelfDCouplings (); reset_CandRef ();` of the entry points. -/
def entry (G : Mela d → Mela d × ℚ) (s : Mela d) : Mela d × ℚ :=
  ((G s.beginEvaluation).1.endEvaluation, (G s.beginEvaluation).2)

end Mela

/-- A transformation of a parameter table that writes fixed values to fixed
keys: `W a` is the value written to key `a`, if any. -/
def ConstWrite {α : Type} (U : (α → ℚ) → (α → ℚ)) : Prop :=
  ∃ W : α → Option ℚ, ∀ f a, U f a = (W a).getD (f a)

/-- The variables of the refinement loop with `f` applied to the state. -/
def RefineState.mapSt {σ : Type} (f : σ → σ) (r : RefineState σ) : RefineState σ :=
  { r with st := f r.st }

/-! ## Concrete inputs -/

namespace Example

/-- Array sizes of a release of the package: two resonances, 39 HVV operators. -/
def dims : Dims := ⟨2, 3, 2, 39, 4, 3, 2, 2, 10, 5, 2⟩

/-- A lepton daughter. -/
def lepton (id : Int) : MELAParticle := ⟨id, ⟨0, 0, 0, 1⟩, true⟩

/-- A candidate of mass 120 with four muons and one selected jet that balances
its momentum. -/
def cand : MELACandidate :=
  { p4 := ⟨-30, 0, -40, 130⟩, m := 120,
    sortedV0 := ⟨23, 91, [lepton 13, lepton (-13)]⟩,
    sortedV1 := ⟨23, 30, [lepton 13, lepton (-13)]⟩,
    associatedJets := [⟨0, ⟨30, 0, 40, 50⟩, true⟩] }

/-- Stub collaborators: the generator returns the real part of the first HZZ
coupling it is handed, and 1 when it is handed no spin-0 couplings; the fake
jet of `cand` has no momentum left to carry. -/
def ext : Externals dims :=
  { xs := fun _ _ _ h =>
      match h with
      | Handed.spinZero c => (get3 c.selfDHzzcoupl 0 0 0, [])
      | _ => (1, []),
    get_XPropagator := fun _ _ => 1,
    Calculate4Momentum := fun _ _ _ _ _ _ _ _ _ => nullVector,
    computeAngles := fun _ _ _ _ =>
      ⟨FloatVal.fin 0, FloatVal.fin 0, FloatVal.fin 0, FloatVal.fin 0, FloatVal.fin 0⟩,
    ConvertVectorFormat := fun _ => none,
    scaleMomentumToEnergy := fun v => v,
    computeFakeJet := fun _ _ => nullVector,
    JetMassScheme := TVar.FermionMassRemoval.ConserveDifermionMass,
    isALepton := fun id => decide (id.natAbs = 11 ∨ id.natAbs = 13 ∨ id.natAbs = 15),
    isAJet := fun id => decide (id.natAbs ≤ 5 ∨ id = 21),
    isAZBoson := fun id => decide (id = 23),
    isAPhoton := fun id => decide (id = 22),
    handleEval := fun _ _ => FloatVal.fin 1,
    pdfGetVal := fun _ => 1,
    pdfIntegral := fun _ => 1,
    spin1Configure := fun _ => true,
    M4lProb := fun _ _ => (1, 1),
    GetSigShapeSystematic := fun _ => 0,
    GetSigShapeParameter := fun _ => 1,
    Gaus := fun g m _ => (m, g + 1),
    spline := fun _ _ _ _ _ => 0,
    sqrt := fun x => x,
    sinh := fun x => x,
    exp := fun _ => 1,
    acos := fun x => x,
    Pi := 355 / 113,
    Eta := fun _ => 0 }

/-- The state of the analytic side before any configuration. -/
def ana : AnaState :=
  { pdf := none,
    ggSpin0Model := ⟨true, [], fun _ => 0⟩,
    spin1Model := ⟨none, 0, 0⟩,
    spin2Model := ⟨true, [], fun _ => 0, fun _ => 0⟩,
    rrv := ⟨FloatVal.fin 0, FloatVal.fin 0, FloatVal.fin 0, FloatVal.fin 0, FloatVal.fin 0,
      FloatVal.fin 0, FloatVal.fin 0, FloatVal.fin 0, false⟩ }

/-- An instance at 13 TeV after `setProcess (HSMHiggs, MCFM, ZZGG)`, with the
candidate `cand` current and the coupling tables in their reset state. -/
def mela : Mela dims :=
  { LHCsqrts := 13,
    myModel_ := TVar.Process.HSMHiggs,
    myME_ := TVar.MatrixElement.MCFM,
    myProduction_ := TVar.Production.ZZGG,
    auxiliaryProb := 0,
    melaCand := none,
    coupl := defaultCouplings dims,
    ZZME := ⟨⟨TVar.Process.HSMHiggs, TVar.MatrixElement.MCFM, TVar.Production.ZZGG⟩, some cand, ⟨[], 1⟩⟩,
    ana := ana,
    superChannel := "4mu",
    myRandomNumber := 35797 }

/-- The instance `mela` after the caller wrote `selfDHzzcoupl[0][0][0] = 1` and
called `computeDecayAngles` directly, which leaves `melaCand` set. -/
def melaDirty : Mela dims :=
  { mela with
    melaCand := some cand,
    coupl := { mela.coupl with spin0 := { mela.coupl.spin0 with
      selfDHzzcoupl := set3 mela.coupl.spin0.selfDHzzcoupl 0 0 0 1 } } }

/-- The instance `mela` after `setProcess (HSMHiggs, JHUGen, JJVBF)`. -/
def melaVBF : Mela dims := mela.setProcess TVar.Process.HSMHiggs TVar.MatrixElement.JHUGen TVar.Production.JJVBF

/-- The abscissae of the initial scan for `eta_max = 10`. -/
def etaScan : List ℚ := [-10, -8, -6, -4, -2, 0, 2, 4, 6, 8, 10]

/-- The samples of a generator that returns 1 at every pseudorapidity. -/
def pConstant : List ℚ := [1, 1, 1, 1, 1, 1, 1, 1, 1, 1, 1]

/-- Samples with a non-zero first sample and a zero inside. -/
def pInteriorZero : List ℚ := [1, 0, 1, 1, 1, 1, 1, 1, 1, 1, 1]

/-- A spline stand-in that returns 1/2 at every abscissa. -/
def splineHalf : List ℚ → List ℚ → ℚ → ℚ → ℚ → ℚ := fun _ _ _ _ _ => 1 / 2

/-- A generator stand-in without state that returns 0 at every abscissa. -/
def sampleZero : Unit → ℚ → Unit × ℚ := fun u _ => (u, 0)

/-- The grid after the first pass of the refinement of `etaScan` and
`pInteriorZero` with `splineHalf`: the midpoint -9 is accepted. -/
def refinedOnce : RefineState Unit :=
  ⟨(), 12, [-10, -9, -8, -6, -4, -2, 0, 2, 4, 6, 8, 10], [1, 1 / 2, 0, 1, 1, 1, 1, 1, 1, 1, 1, 1], 2, 1⟩

/-- The abscissae at the exit of that refinement. -/
def etaRefined : List ℚ := [-10, -9, -8, -7, -6, -4, -2, 0, 2, 4, 6, 8, 10]

/-- The samples at the exit of that refinement. -/
def pRefined : List ℚ := [1, 1 / 2, 0, 1 / 2, 1, 1, 1, 1, 1, 1, 1, 1, 1]

/-- The integration context of `cand`: its jet is massless already and the
fake jet is the null vector. -/
def ctx : Mela.FakeJetContext := Mela.fakeJetContext cand 0 ⟨30, 0, 40, 50⟩ nullVector

/-- A Higgs candidate, an observed massless jet and an inferred companion whose
longitudinal momenta add up to 5000 GeV, above the beam limit 4000 GeV of an
8 TeV instance. -/
def higgsForward : TLorentzVector := ⟨0, 0, 3000, 3005⟩

/-- The observed massless jet of the forward system. -/
def jet1Forward : TLorentzVector := ⟨30, 0, 0, 30⟩

/-- The inferred companion of the forward system. -/
def jet2Forward : TLorentzVector := ⟨-30, 0, 2000, 2001⟩

end Example

/-! ## Auxiliary definitions for the selector -/

namespace Mela

/-- The production mode that `setProcess` leaves in `myProduction_` for the
arguments `(myME, myProduction)`: the `if` chain of lines 195-202 on its own. -/
def storedProduction (myME : TVar.MatrixElement) (myProduction : TVar.Production) :
    TVar.Production :=
  if myME = TVar.MatrixElement.JHUGen then
    if myProduction = TVar.Production.Had_ZH_S then TVar.Production.Had_ZH
    else if myProduction = TVar.Production.Had_WH_S then TVar.Production.Had_WH
    else if myProduction = TVar.Production.Lep_ZH_S then TVar.Production.Lep_ZH
    else if myProduction = TVar.Production.Lep_WH_S then TVar.Production.Lep_WH
    else if myProduction = TVar.Production.JJVBF_S then TVar.Production.JJVBF
    else if myProduction = TVar.Production.JJQCD_S then TVar.Production.JJQCD
    else myProduction
  else myProduction

/-- The result of the call of `TUtil::computeAngles` at lines 345-351 for the
candidate `cand`. -/
def anglesOf {d : Dims} (ext : Externals d) (cand : MELACandidate) : DecayAngles :=
  ext.computeAngles
    (daughterArg ((cand.getSortedV 0).getDaughter 0))
    (daughterArg ((cand.getSortedV 0).getDaughter 1))
    (daughterArg ((cand.getSortedV 1).getDaughter 0))
    (daughterArg ((cand.getSortedV 1).getDaughter 1))

/-- The test of lines 1580-1596 of `setConstant`: an undecayed-Higgs selector
of JHUGen. -/
abbrev isUndecayedSelector {d : Dims} (s : Mela d) : Prop :=
  s.myME_ = TVar.MatrixElement.JHUGen ∧
    (s.myProduction_ = TVar.Production.JQCD
      ∨ s.myProduction_ = TVar.Production.JJQCD ∨ s.myProduction_ = TVar.Production.JJVBF
      ∨ s.myProduction_ = TVar.Production.Lep_ZH ∨ s.myProduction_ = TVar.Production.Had_ZH
      ∨ s.myProduction_ = TVar.Production.Lep_WH ∨ s.myProduction_ = TVar.Production.Had_WH
      ∨ s.myProduction_ = TVar.Production.GammaH
      ∨ s.myProduction_ = TVar.Production.ttH ∨ s.myProduction_ = TVar.Production.bbH)

/-- The test of lines 1597-1605 of `setConstant`: both sorted bosons have two
daughters and all four are leptons. -/
abbrev is4lFinalState {d : Dims} (ext : Externals d) (cand : MELACandidate) : Prop :=
  (cand.getSortedV 0).getNDaughters = 2 ∧ (cand.getSortedV 1).getNDaughters = 2
    ∧ ext.isALepton (daughterId (cand.getSortedV 0) 0) = true
    ∧ ext.isALepton (daughterId (cand.getSortedV 0) 1) = true
    ∧ ext.isALepton (daughterId (cand.getSortedV 1) 0) = true
    ∧ ext.isALepton (daughterId (cand.getSortedV 1) 1) = true

/-- The test of lines 1606-1624 of `setConstant`: both sorted bosons have two
daughters, two leptons on one side and two jets on the other. -/
abbrev is2l2qFinalState {d : Dims} (ext : Externals d) (cand : MELACandidate) : Prop :=
  (cand.getSortedV 0).getNDaughters = 2 ∧ (cand.getSortedV 1).getNDaughters = 2
    ∧ ((ext.isALepton (daughterId (cand.getSortedV 0) 0) = true
          ∧ ext.isALepton (daughterId (cand.getSortedV 0) 1) = true
          ∧ ext.isAJet (daughterId (cand.getSortedV 1) 0) = true
          ∧ ext.isAJet (daughterId (cand.getSortedV 1) 1) = true)
      ∨ (ext.isALepton (daughterId (cand.getSortedV 1) 0) = true
          ∧ ext.isALepton (daughterId (cand.getSortedV 1) 1) = true
          ∧ ext.isAJet (daughterId (cand.getSortedV 0) 0) = true
          ∧ ext.isAJet (daughterId (cand.getSortedV 0) 1) = true))

/-- The handles that `getConstant_4l` selects for the candidate `cand`
(lines 1752-1830). -/
def handlesOf4l {d : Dims} (s : Mela d) (cand : MELACandidate) : List (Option PConstantHandle) :=
  handles_4l s (decide (idprod cand = 28561))
    (decide (idprod cand = 14641) || decide (idprod cand = 50625))
    (decide (idprod cand = 20449) || decide (idprod cand = 27225) || decide (idprod cand = 38025))

/-- The state on which `computeP`, called on `s`, calls
`configureAnalyticalPDFs` (lines 475-497): after the opening of the entry
point, with the observables written. -/
def analyticInput {d : Dims} (ext : Externals d) (s : Mela d) : Mela d :=
  setObservables s.beginEvaluation (computeDecayAngles ext s.beginEvaluation).2

end Mela

/-! ## Further concrete inputs -/

namespace Example

/-- The instance `mela` when the generator holds no current candidate. -/
def melaEmpty : Mela dims := { mela with ZZME := { mela.ZZME with currentCand := none } }

/-- An angle routine that gives not-a-number for `costhetastar` and `costheta2`. -/
def extNaNAngles : Externals dims :=
  { ext with computeAngles := fun _ _ _ _ =>
      ⟨FloatVal.nan, FloatVal.fin (1 / 2), FloatVal.nan, FloatVal.fin (-1), FloatVal.fin 2⟩ }

/-- The candidate `cand` when its second sorted boson has no daughter. -/
def candUndecayed : MELACandidate := { cand with sortedV1 := ⟨23, 30, []⟩ }

/-- The instance `mela` with `candUndecayed` as the current candidate. -/
def melaUndecayed : Mela dims :=
  { mela with ZZME := { mela.ZZME with currentCand := some candUndecayed } }

/-- Calibration handles of which the one of MCFM gg → ZZ background in the 4mu
channel evaluates to not-a-number, the signal one to 2, and the others to -1. -/
def extHandles : Externals dims :=
  { ext with handleEval := fun h _ =>
      match h with
      | PConstantHandle.MCFM_ZZGG_HSMHiggs_4mu => FloatVal.fin 2
      | PConstantHandle.MCFM_ZZGG_bkgZZ_4mu => FloatVal.nan
      | PConstantHandle.MCFM_ZZQQB_bkgZZ_4mu => FloatVal.inf false
      | PConstantHandle.JHUGen_ZZGG_HSMHiggs_4mu => FloatVal.fin 0
      | _ => FloatVal.fin (-1) }

/-- The instance `melaDirty` (candidate reference set, four muons) after
`setProcess (bkgZZ, MCFM, ZZGG)`. -/
def melaBkg : Mela dims :=
  melaDirty.setProcess TVar.Process.bkgZZ TVar.MatrixElement.MCFM TVar.Production.ZZGG

/-- The instance `melaDirty` after `setProcess (bkgZZ, MCFM, ZZQQB)`. -/
def melaBkgQQB : Mela dims :=
  melaDirty.setProcess TVar.Process.bkgZZ TVar.MatrixElement.MCFM TVar.Production.ZZQQB

/-- The instance `melaDirty` after `setProcess (HSMHiggs, JHUGen, ZZGG)`. -/
def melaJHUGen : Mela dims :=
  melaDirty.setProcess TVar.Process.HSMHiggs TVar.MatrixElement.JHUGen TVar.Production.ZZGG

/-- The instance `melaDirty` after `setProcess (bkgZJets, MCFM, JJQCD)`. -/
def melaZJets : Mela dims :=
  melaDirty.setProcess TVar.Process.bkgZJets TVar.MatrixElement.MCFM TVar.Production.JJQCD

/-- The instance `melaDirty` after `setProcess (HSMHiggs, JHUGen, ttH)`. -/
def melaTTH : Mela dims :=
  melaDirty.setProcess TVar.Process.HSMHiggs TVar.MatrixElement.JHUGen TVar.Production.ttH

/-- The instance `melaDirty` after `setProcess (H0minus, MCFM, ZZGG)`, for
which the source lists no handle. -/
def melaH0minus : Mela dims :=
  melaDirty.setProcess TVar.Process.H0minus TVar.MatrixElement.MCFM TVar.Production.ZZGG

/-- The instance `melaDirty` with the candidate reference on `candUndecayed`. -/
def melaDirtyUndecayed : Mela dims := { melaDirty with melaCand := some candUndecayed }

/-- The candidate `cand` when its second sorted boson decays to a quark pair. -/
def cand2l2q : MELACandidate :=
  { cand with sortedV1 := ⟨23, 30, [⟨1, ⟨0, 0, 0, 1⟩, true⟩, ⟨-1, ⟨0, 0, 0, 1⟩, true⟩]⟩ }

/-- The instance `melaH0minus` with the candidate reference on `cand2l2q`. -/
def melaH0minus2l2q : Mela dims := { melaH0minus with melaCand := some cand2l2q }

/-- Analytic PDFs that are told apart by their values (7 for the background
shape, 3, 11 and 13 for the spin-0, spin-1 and spin-2 PDFs), and a spin-1
factory that accepts `SelfDefine_spin1` only. -/
def extPdf : Externals dims :=
  { ext with
    pdfGetVal := fun a =>
      match a.pdf with
      | some PdfRef.qqZZmodel => 7
      | some PdfRef.ggSpin0Model => 3
      | some PdfRef.spin1Model => 11
      | some PdfRef.spin2Model => 13
      | none => 0,
    spin1Configure := fun p => decide (p ≠ TVar.Process.SelfDefine_spin1) }

/-- The instance `mela` after `setProcess (bkgZZ, ANALYTICAL, ZZGG)`. -/
def melaAnaBkg : Mela dims :=
  mela.setProcess TVar.Process.bkgZZ TVar.MatrixElement.ANALYTICAL TVar.Production.ZZGG

/-- The instance left by `computeP` on `melaAnaBkg`, after
`setProcess (HSMHiggs, ANALYTICAL, JJVBF)`. -/
def melaStaleVBF : Mela dims :=
  (Mela.computeP extPdf melaAnaBkg 0 false).1.setProcess TVar.Process.HSMHiggs
    TVar.MatrixElement.ANALYTICAL TVar.Production.JJVBF

/-- The instance left by `computeP` on `melaAnaBkg`, after
`setProcess (HSMHiggs, ANALYTICAL, Had_ZH)`. -/
def melaStaleVH : Mela dims :=
  (Mela.computeP extPdf melaAnaBkg 0 false).1.setProcess TVar.Process.HSMHiggs
    TVar.MatrixElement.ANALYTICAL TVar.Production.Had_ZH

/-- The instance left by `computeP` on `melaAnaBkg`, after
`setProcess (bkgWW, ANALYTICAL, ZZGG)`: a process without analytic PDF under a
production mode that is neither two-jet nor vector-boson-associated. -/
def melaStaleWW : Mela dims :=
  (Mela.computeP extPdf melaAnaBkg 0 false).1.setProcess TVar.Process.bkgWW
    TVar.MatrixElement.ANALYTICAL TVar.Production.ZZGG

/-- The instance `mela`, on which no analytic PDF was ever selected, after
`setProcess (HSMHiggs, ANALYTICAL, JJVBF)`. -/
def melaFreshVBF : Mela dims :=
  mela.setProcess TVar.Process.HSMHiggs TVar.MatrixElement.ANALYTICAL TVar.Production.JJVBF

/-- The instance `mela` after the caller wrote the spin-1 coupling
`selfDZvvcoupl[0] = 1 + i` and called `setProcess (SelfDefine_spin1, ANALYTICAL, ZZGG)`. -/
def melaSpin1Complex : Mela dims :=
  ({ mela with coupl := { mela.coupl with spin1 := { mela.coupl.spin1 with
      selfDZvvcoupl := set2 (set2 mela.coupl.spin1.selfDZvvcoupl 0 0 1) 0 1 1 } } }).setProcess
    TVar.Process.SelfDefine_spin1 TVar.MatrixElement.ANALYTICAL TVar.Production.ZZGG

/-- The instance `mela` after the caller wrote the spin-2 coupling
`selfDGvvcoupl[0] = 1 + i` and called `setProcess (SelfDefine_spin2, ANALYTICAL, ZZGG)`. -/
def melaSpin2Complex : Mela dims :=
  ({ mela with coupl := { mela.coupl with spin2 := { mela.coupl.spin2 with
      selfDGvvcoupl := set2 (set2 mela.coupl.spin2.selfDGvvcoupl 0 0 1) 0 1 1 } } }).setProcess
    TVar.Process.SelfDefine_spin2 TVar.MatrixElement.ANALYTICAL TVar.Production.ZZGG

/-- The instance `melaDirty` after `setProcess (HSMHiggs, MCFM, Had_ZH_S)`. -/
def melaProdDec : Mela dims :=
  melaDirty.setProcess TVar.Process.HSMHiggs TVar.MatrixElement.MCFM TVar.Production.Had_ZH_S

end Example

/-! ## Further entry points and auxiliary definitions -/

namespace MELABoson

/-- The assignment `V->getDaughter (i)->id = id`. -/
def setDaughterId (v : MELABoson) (i : Nat) (id : Int) : MELABoson :=
  { v with daughters := v.daughters.modify (fun p => { p with id := id }) i }

end MELABoson

/-- Rounding of a rational to the nearest integer, to the even one of the two
when it lies halfway. -/
def roundHalfEven (x : ℚ) : ℤ :=
  if x - ⌊x⌋ < 1 / 2 then ⌊x⌋
  else if 1 / 2 < x - ⌊x⌋ then ⌊x⌋ + 1
  else if ⌊x⌋ % 2 = 0 then ⌊x⌋ else ⌊x⌋ + 1

namespace FloatVal

/-- Rounding to an IEEE binary format with `prec` significant bits, least
exponent `emin` (below `2 ^ emin` the spacing stays that of the least binade:
the subnormal values) and overflow to infinity when the rounded magnitude
reaches `2 ^ emax`; rounding is to nearest, ties to even.  The sign of a zero
is not represented. -/
def roundBinary (prec : Nat) (emin emax : ℤ) : FloatVal → FloatVal
  | fin q =>
    let e : ℤ := max (Int.log 2 |q|) emin
    let ulp : ℚ := 2 ^ (e - ((prec : ℤ) - 1))
    let r : ℚ := (roundHalfEven (q / ulp) : ℚ) * ulp
    if (2 : ℚ) ^ emax ≤ |r| then inf (decide (q < 0)) else fin r
  | inf negative => inf negative
  | nan => nan

/-- The conversion to the C++ type `float` (IEEE binary32). -/
def toFloat32 (x : FloatVal) : FloatVal := roundBinary 24 (-126) 128 x

/-- The rounding of a result of `double` arithmetic (IEEE binary64). -/
def toDouble (x : FloatVal) : FloatVal := roundBinary 53 (-1022) 1024 x

end FloatVal

/-- The variables of the refinement loop of lines 952-1031 after `n` passes
through its body, or at its exit when it exits earlier. -/
def refineIterate {σ : Type} (spline : List ℚ → List ℚ → ℚ → ℚ → ℚ → ℚ) (smp : σ → ℚ → σ × ℚ) :
    Nat → RefineState σ → RefineState σ
  | 0, r => r
  | n + 1, r => (refineStep spline smp (refineIterate spline smp n r)).getD
      (refineIterate spline smp n r)

/-- The invariant of the grid of the missing-jet integration: both arrays have
length `nGrid`, at least 11, and the abscissae increase strictly from
`-eta_max` to `eta_max`. -/
def GridInvariant {σ : Type} (eta_max : ℚ) (r : RefineState σ) : Prop :=
  r.etaArray.length = r.nGrid ∧ r.pArray.length = r.nGrid ∧ 11 ≤ r.nGrid
    ∧ r.etaArray.Pairwise (fun a b => a < b)
    ∧ r.etaArray.getD 0 0 = -eta_max ∧ r.etaArray.getD (r.nGrid - 1) 0 = eta_max

namespace Mela

variable {d : Dims}

/-- The three evaluations of lines 1352-1354 of `computeD_gg` for engine MCFM:
`computeP` for the processes bkgZZ, HSMHiggs and bkgZZ_SMHiggs under
production ZZGG, each from the state the previous one left. -/
def ggEvaluations (ext : Externals d) (s : Mela d) : (Mela d × ℚ) × (Mela d × ℚ) × (Mela d × ℚ) :=
  let s := { s with melaCand := s.getCurrentCandidate }
  let s := s.setProcess TVar.Process.bkgZZ TVar.MatrixElement.MCFM TVar.Production.ZZGG
  let r1 := computeP ext s 0 false
  let s := r1.1.setProcess TVar.Process.HSMHiggs TVar.MatrixElement.MCFM TVar.Production.ZZGG
  let r2 := computeP ext s 0 false
  let s := r2.1.setProcess TVar.Process.bkgZZ_SMHiggs TVar.MatrixElement.MCFM TVar.Production.ZZGG
  let r3 := computeP ext s 0 false
  (r1, r2, r3)

/-- The evaluation of line 1362 of `computeD_gg`: `computeP` with the constant
for bkgZZ under production ZZQQB, after `setConstant` of line 1354. -/
def qqEvaluation (ext : Externals d) (s : Mela d) : Mela d × ℚ :=
  computeP ext ((setConstant ext (ggEvaluations ext s).2.2.1).setProcess TVar.Process.bkgZZ
    TVar.MatrixElement.MCFM TVar.Production.ZZQQB) 0 true

/-- The write of the ids of the two daughters of the second sorted boson
through the candidate reference (lines 1252 and 1254); the object is the
current candidate of the generator, which sees the write. -/
def writeV1DaughterIds (s : Mela d) (cand : MELACandidate) (id0 id1 : Int) : Mela d :=
  let c : MELACandidate :=
    { cand with sortedV1 := (cand.sortedV1.setDaughterId 0 id0).setDaughterId 1 id1 }
  { s with melaCand := some c, ZZME := { s.ZZME with currentCand := some c } }

/-- `Mela::compute4FermionWeight` (lines 1210-1264).  The result is `none` when
the routine dereferences a null `melaCand` (lines 1252 and 1254).  The array
`id_original` and the two float locals are uninitialised in the source; their
initial contents are the arguments `id_original` and `dXsec`. -/
def compute4FermionWeight (ext : Externals d) (s : Mela d) (w : ℚ)
    (id_original : Nat → Nat → Int) (dXsec : ℚ × ℚ) : Option (Mela d × ℚ) :=
  let s := s.beginEvaluation
  match s.melaCand with
  | none => some (s.endEvaluation, w)
  | some cand =>
    let hasFailed : Bool := false
    -- the loop of lines 1217-1222, which stops at the first vetoed boson
    let l : ℚ × Bool × (Nat → Nat → Int) :=
      if ¬ (isZOrPhotonPair ext (cand.getSortedV 0) = true) then (1, true, id_original)
      else
        let id_original : Nat → Nat → Int := fun iv ivd =>
          if iv = 0 then daughterId (cand.getSortedV 0) ivd else id_original iv ivd
        if ¬ (isZOrPhotonPair ext (cand.getSortedV 1) = true) then (1, true, id_original)
        else
          (w, hasFailed, fun iv ivd =>
            if iv = 1 then daughterId (cand.getSortedV 1) ivd else id_original iv ivd)
    let w := l.1
    let hasFailed := l.2.1
    let id_original := l.2.2
    let notLeptons : Bool :=
      !ext.isALepton (id_original 0 0) || !ext.isALepton (id_original 0 1)
        || !ext.isALepton (id_original 1 0) || !ext.isALepton (id_original 1 1)
    let w := if notLeptons then 0 else w
    let hasFailed := if notLeptons then true else hasFailed
    if hasFailed then some (s.endEvaluation, w)
    else
      let r1 := computeP ext s dXsec.1 false
      match r1.1.melaCand with
      | none => none
      | some c1 =>
        let s := writeV1DaughterIds r1.1 c1 (id_original 0 0 * (1 - 2 * 0))
          (id_original 0 0 * (1 - 2 * 1))
        let r2 := computeP ext s dXsec.2 false
        match r2.1.melaCand with
        | none => none
        | some c2 =>
          let s := writeV1DaughterIds r2.1 c2 (id_original 1 0) (id_original 1 1)
          let w := r2.2 / r1.2
          let w := if w > 5 then 25 / w else w
          some (s.endEvaluation, w)

/-- The first evaluation of `computeD_CP` (lines 719-720), with the mixed table. -/
def D_CP_mix (ext : Externals d) (s : Mela d) (myME : TVar.MatrixElement)
    (myType : TVar.Process) (pMix : ℚ) : Mela d × ℚ :=
  computeP_selfDspin0 ext
    (s.setProcess TVar.Process.SelfDefine_spin0 myME TVar.Production.ZZGG)
    (couplD_CP d myType).1 pMix true

/-- The second evaluation of `computeD_CP` (line 721), with the first pure table. -/
def D_CP_first (ext : Externals d) (s : Mela d) (myME : TVar.MatrixElement)
    (myType : TVar.Process) (pMix p1 : ℚ) : Mela d × ℚ :=
  computeP_selfDspin0 ext (D_CP_mix ext s myME myType pMix).1 (couplD_CP d myType).2.1 p1 true

/-- The third evaluation of `computeD_CP` (line 722), with the second pure table. -/
def D_CP_second (ext : Externals d) (s : Mela d) (myME : TVar.MatrixElement)
    (myType : TVar.Process) (pMix p1 p2 : ℚ) : Mela d × ℚ :=
  computeP_selfDspin0 ext (D_CP_first ext s myME myType pMix p1).1 (couplD_CP d myType).2.2 p2
    true

/-- The four factors of `idprod` (lines 1753-1756): the absolute ids of the
daughters of the two sorted bosons. -/
def daughterFlavours (cand : MELACandidate) : List Int :=
  [|daughterId (cand.getSortedV 0) 0|, |daughterId (cand.getSortedV 0) 1|,
    |daughterId (cand.getSortedV 1) 0|, |daughterId (cand.getSortedV 1) 1|]

/-- The choice of the collision energy that keys the calibration files
(lines 1891-1899 of `getPConstantHandles`). -/
def chsqrts (LHCsqrts : ℚ) : ℚ :=
  let possible_sqrts : List ℚ := [7, 8, 13]
  let sqrts_index : Nat := 0
  let sqrtsdiff : ℚ := 99
  let r := forRange 3 (fun isq (acc : Nat × ℚ) =>
    let diff := |LHCsqrts - possible_sqrts.getD isq 0|
    if diff < acc.2 then (isq, diff) else acc) (sqrts_index, sqrtsdiff)
  possible_sqrts.getD r.1 0

/-- Lines 1577 and 1626-1627 of `Mela::setConstant` in the arithmetic of the
source: the value `c` obtained from the handles is held in the `float` variable
`constant`, the test is made on that variable, and `1./constant`, a quotient
of `double` arithmetic, is converted to `float` by the assignment.  The result
is the value handed to `setMEConst` at line 1629; `storedConstant` is the same
computation in exact arithmetic. -/
def storedConstant32 (c : FloatVal) : FloatVal :=
  let constant := c.toFloat32
  if constant.isnan || constant.isinf || constant.leZero then FloatVal.fin 0
  else (FloatVal.fin (1 / constant.toRat)).toDouble.toFloat32

/-- The value that `Mela::setConstant` hands to `setMEConst` (line 1629), in the
arithmetic of the source. -/
def setConstant32 (ext : Externals d) (s : Mela d) : FloatVal :=
  storedConstant32 (rawConstant ext s)

/-- `Mela::computeConstant` (lines 1570-1575) in the arithmetic of the source:
the value of the `float` parameter `prob` on return, for its value on entry. -/
def computeConstant32 (ext : Externals d) (s : Mela d) (prob : FloatVal) : FloatVal :=
  let pConst := (setConstant32 ext s).toFloat32
  (FloatVal.mul prob pConst).toFloat32

/-- The grid of the missing-jet integration after the initial scan of lines
909-950 and `n` passes of the refinement loop of lines 952-1031. -/
def gridAfter (ext : Externals d) (ctx : FakeJetContext) (s : Mela d) (n : Nat) :
    RefineState (Mela d) :=
  refineIterate ext.spline (sampleAt ext ctx) n (initialScan ext ctx s)

/-- The state with which `computeP_selfDspin0` calls `computeP` (lines 370-391). -/
def enter_selfDspin0 (s : Mela d) (selfDHvvcoupl_input : Tab3 d.nSupportedHiggses d.SIZE_HVV) :
    Mela d :=
  let c := s.coupl.spin0
  let c :=
    if s.myME_ = TVar.MatrixElement.JHUGen then
      forRange d.nSupportedHiggses (fun jh c =>
        let c := { c with selfDHqqcoupl := set3 c.selfDHqqcoupl jh 0 0 1 }
        { c with selfDHggcoupl := set3 c.selfDHggcoupl jh 0 0 1 }) c
    else if s.myME_ = TVar.MatrixElement.MCFM then
      forRange d.nSupportedHiggses (fun jh c =>
        let c := { c with selfDHttcoupl := set3 c.selfDHttcoupl jh 0 0 1 }
        { c with selfDHbbcoupl := set3 c.selfDHbbcoupl jh 0 0 1 }) c
    else c
  let c := copyHVV c selfDHvvcoupl_input selfDHvvcoupl_input
  { s with coupl := { s.coupl with spin0 := c } }

/-- The state with which `computeP_selfDspin1` with quark couplings calls
`computeP` (lines 404-407). -/
def enter_selfDspin1 (s : Mela d) (selfDZqqcoupl_input : Tab2 d.SIZE_ZQQ)
    (selfDZvvcoupl_input : Tab2 d.SIZE_ZVV) : Mela d :=
  let c := forRange 2 (fun im c =>
    let c := forRange d.SIZE_ZQQ (fun ic c =>
      { c with selfDZqqcoupl := set2 c.selfDZqqcoupl ic im (get2 selfDZqqcoupl_input ic im) }) c
    forRange d.SIZE_ZVV (fun ic c =>
      { c with selfDZvvcoupl := set2 c.selfDZvvcoupl ic im (get2 selfDZvvcoupl_input ic im) }) c)
    s.coupl.spin1
  { s with coupl := { s.coupl with spin1 := c } }

/-- `Mela::computeP_selfDspin1` with quark couplings (lines 398-413). -/
def computeP_selfDspin1 (ext : Externals d) (s : Mela d) (selfDZqqcoupl_input : Tab2 d.SIZE_ZQQ)
    (selfDZvvcoupl_input : Tab2 d.SIZE_ZVV) (prob : ℚ) (useConstant : Bool) : Mela d × ℚ :=
  computeP ext (enter_selfDspin1 s selfDZqqcoupl_input selfDZvvcoupl_input) prob useConstant

/-- The state with which the overload of `computeP_selfDspin1` without quark
couplings calls `computeP` (lines 419-425). -/
def enter_selfDspin1_vv (s : Mela d) (selfDZvvcoupl_input : Tab2 d.SIZE_ZVV) : Mela d :=
  let c := s.coupl.spin1
  let c := { c with selfDZqqcoupl := set2 c.selfDZqqcoupl 0 0 1 }
  let c := { c with selfDZqqcoupl := set2 c.selfDZqqcoupl 1 0 1 }
  let c := forRange 2 (fun im c =>
    forRange d.SIZE_ZVV (fun ic c =>
      { c with selfDZvvcoupl := set2 c.selfDZvvcoupl ic im (get2 selfDZvvcoupl_input ic im) }) c) c
  { s with coupl := { s.coupl with spin1 := c } }

/-- The overload of `Mela::computeP_selfDspin1` without quark couplings
(lines 414-431). -/
def computeP_selfDspin1_vv (ext : Externals d) (s : Mela d)
    (selfDZvvcoupl_input : Tab2 d.SIZE_ZVV) (prob : ℚ) (useConstant : Bool) : Mela d × ℚ :=
  computeP ext (enter_selfDspin1_vv s selfDZvvcoupl_input) prob useConstant

/-- The state with which `computeP_selfDspin2` with quark couplings calls
`computeP` (lines 439-443). -/
def enter_selfDspin2 (s : Mela d) (selfDGggcoupl_input : Tab2 d.SIZE_GGG)
    (selfDGqqcoupl_input : Tab2 d.SIZE_GQQ) (selfDGvvcoupl_input : Tab2 d.SIZE_GVV) : Mela d :=
  let c := forRange 2 (fun im c =>
    let c := forRange d.SIZE_GGG (fun ic c =>
      { c with selfDGggcoupl := set2 c.selfDGggcoupl ic im (get2 selfDGggcoupl_input ic im) }) c
    let c := forRange d.SIZE_GQQ (fun ic c =>
      { c with selfDGqqcoupl := set2 c.selfDGqqcoupl ic im (get2 selfDGqqcoupl_input ic im) }) c
    forRange d.SIZE_GVV (fun ic c =>
      { c with selfDGvvcoupl := set2 c.selfDGvvcoupl ic im (get2 selfDGvvcoupl_input ic im) }) c)
    s.coupl.spin2
  { s with coupl := { s.coupl with spin2 := c } }

/-- `Mela::computeP_selfDspin2` with quark couplings (lines 432-449). -/
def computeP_selfDspin2 (ext : Externals d) (s : Mela d) (selfDGggcoupl_input : Tab2 d.SIZE_GGG)
    (selfDGqqcoupl_input : Tab2 d.SIZE_GQQ) (selfDGvvcoupl_input : Tab2 d.SIZE_GVV) (prob : ℚ)
    (useConstant : Bool) : Mela d × ℚ :=
  computeP ext (enter_selfDspin2 s selfDGggcoupl_input selfDGqqcoupl_input selfDGvvcoupl_input)
    prob useConstant

/-- The state with which the overload of `computeP_selfDspin2` without quark
couplings calls `computeP` (lines 456-462). -/
def enter_selfDspin2_vv (s : Mela d) (selfDGggcoupl_input : Tab2 d.SIZE_GGG)
    (selfDGvvcoupl_input : Tab2 d.SIZE_GVV) : Mela d :=
  let c := s.coupl.spin2
  let c := { c with selfDGqqcoupl := set2 c.selfDGqqcoupl 0 0 1 }
  let c := { c with selfDGqqcoupl := set2 c.selfDGqqcoupl 1 0 1 }
  let c := forRange 2 (fun im c =>
    let c := forRange d.SIZE_GGG (fun ic c =>
      { c with selfDGggcoupl := set2 c.selfDGggcoupl ic im (get2 selfDGggcoupl_input ic im) }) c
    forRange d.SIZE_GVV (fun ic c =>
      { c with selfDGvvcoupl := set2 c.selfDGvvcoupl ic im (get2 selfDGvvcoupl_input ic im) }) c) c
  { s with coupl := { s.coupl with spin2 := c } }

/-- The overload of `Mela::computeP_selfDspin2` without quark couplings
(lines 450-468). -/
def computeP_selfDspin2_vv (ext : Externals d) (s : Mela d)
    (selfDGggcoupl_input : Tab2 d.SIZE_GGG) (selfDGvvcoupl_input : Tab2 d.SIZE_GVV) (prob : ℚ)
    (useConstant : Bool) : Mela d × ℚ :=
  computeP ext (enter_selfDspin2_vv s selfDGggcoupl_input selfDGvvcoupl_input) prob useConstant

end Mela

namespace Example

/-- A second candidate, of mass 200, with two electrons and two muons. -/
def candB : MELACandidate :=
  { p4 := ⟨0, 0, 0, 200⟩, m := 200,
    sortedV0 := ⟨23, 90, [lepton 11, lepton (-11)]⟩,
    sortedV1 := ⟨23, 60, [lepton 13, lepton (-13)]⟩,
    associatedJets := [] }

/-- The instance `mela` after `setProcess (HSMHiggs, JHUGen, JJVBF)` when its
candidate has no jet: `candB` is current. -/
def melaVBFNoJet : Mela dims :=
  { melaVBF with ZZME := { melaVBF.ZZME with currentCand := some candB } }

/-- The candidate `cand` with three muons and one electron. -/
def cand3mu1e : MELACandidate := { cand with sortedV1 := ⟨23, 30, [lepton 13, lepton (-11)]⟩ }

/-- The instance `melaZJets`, whose selector is (bkgZJets, MCFM, JJQCD), with
the candidate reference on `cand3mu1e`. -/
def melaZJets3mu1e : Mela dims := { melaZJets with melaCand := some cand3mu1e }

/-- The instance `melaDirty`, whose selector is (HSMHiggs, MCFM, ZZGG), with
the candidate reference on `cand3mu1e`. -/
def melaDirty3mu1e : Mela dims := { melaDirty with melaCand := some cand3mu1e }

/-- An angle routine that reports the id of the first daughter it is given as
`costheta1`. -/
def extAngleId : Externals dims :=
  { ext with computeAngles := fun a _ _ _ =>
      ⟨FloatVal.fin 0, FloatVal.fin a.2, FloatVal.fin 0, FloatVal.fin 0, FloatVal.fin 0⟩ }

/-- The instance `mela` with a stale auxiliary probability. -/
def melaAux : Mela dims := { mela with auxiliaryProb := 7 }

/-- Collaborators whose calibration handles all evaluate to `2 ^ (-130)`, a
subnormal value of the type `float`. -/
def extTiny : Externals dims :=
  { ext with handleEval := fun _ _ => FloatVal.fin (2 ^ (-130 : ℤ)) }

end Example

/-! ## Lemmas on loops and on the reset of the coupling tables -/

set_option linter.unusedTactic false
set_option linter.unreachableTactic false

theorem forRange_zero {σ : Type} (body : Nat → σ → σ) (s : σ) : forRange 0 body s = s := by
  simp [forRange]

theorem forRange_succ {σ : Type} (n : Nat) (body : Nat → σ → σ) (s : σ) :
    forRange (n + 1) body s = body n (forRange n body s) := by
  simp [forRange, List.range_succ, List.foldl_append]

/-- A property kept by every pass of a loop holds after the loop. -/
theorem forRange_keep {σ : Type} (Q : σ → Prop) {n : Nat} {body : Nat → σ → σ}
    (h : ∀ j s, Q s → Q (body j s)) {s : σ} (hs : Q s) : Q (forRange n body s) := by
  induction n with
  | zero => simpa [forRange_zero] using hs
  | succ k ih => rw [forRange_succ]; exact h _ _ ih

/-- A property established by pass `i` and kept by every pass holds after the loop. -/
theorem forRange_hit {σ : Type} (Q : σ → Prop) {n i : Nat} {body : Nat → σ → σ} (hi : i < n)
    (hest : ∀ s, Q (body i s)) (h : ∀ j s, Q s → Q (body j s)) (s : σ) :
    Q (forRange n body s) := by
  induction n with
  | zero => omega
  | succ k ih =>
    rw [forRange_succ]
    by_cases hik : i = k
    · subst hik; exact hest _
    · exact h _ _ (ih (by omega))

theorem resetSpin0_selfDHggcoupl {d : Dims} (c : Spin0Couplings d) (a : Fin d.nSupportedHiggses)
    (b : Fin d.SIZE_HGG) (e : Fin 2) : (resetSpin0 c).selfDHggcoupl a b e = 0 := by
  unfold resetSpin0
  refine forRange_hit (fun s : Spin0Couplings d => s.selfDHggcoupl a b e = 0) a.isLt (fun s => ?_) (fun j s h => ?_) _
  · refine forRange_keep (fun s : Spin0Couplings d => s.selfDHggcoupl a b e = 0) (fun _ _ h => ?_) ?_
    ·
      repeat' first
        | assumption
        | refine forRange_keep (fun s : Spin0Couplings d => s.selfDHggcoupl a b e = 0) (fun _ _ _ => ?_) ?_
        | simp_all [set3, set2]
    · refine forRange_hit (fun s : Spin0Couplings d => s.selfDHggcoupl a b e = 0) e.isLt (fun s => ?_) (fun j s h => ?_) _
      · iterate 7 refine forRange_keep (fun s : Spin0Couplings d => s.selfDHggcoupl a b e = 0) (fun _ _ h => by simp_all [set3, set2]) ?_
        refine forRange_hit (fun s : Spin0Couplings d => s.selfDHggcoupl a b e = 0) b.isLt (fun s => ?_) (fun j s h => ?_) _
        · simp [set3]
        · simp_all [set3]
      ·
        repeat' first
          | assumption
          | refine forRange_keep (fun s : Spin0Couplings d => s.selfDHggcoupl a b e = 0) (fun _ _ _ => ?_) ?_
          | simp_all [set3, set2]
  ·
    repeat' first
      | assumption
      | refine forRange_keep (fun s : Spin0Couplings d => s.selfDHggcoupl a b e = 0) (fun _ _ _ => ?_) ?_
      | simp_all [set3, set2]

theorem resetSpin0_selfDHg4g4coupl {d : Dims} (c : Spin0Couplings d) (a : Fin d.nSupportedHiggses)
    (b : Fin d.SIZE_HGG) (e : Fin 2) : (resetSpin0 c).selfDHg4g4coupl a b e = 0 := by
  unfold resetSpin0
  refine forRange_hit (fun s : Spin0Couplings d => s.selfDHg4g4coupl a b e = 0) a.isLt (fun s => ?_) (fun j s h => ?_) _
  · refine forRange_keep (fun s : Spin0Couplings d => s.selfDHg4g4coupl a b e = 0) (fun _ _ h => ?_) ?_
    ·
      repeat' first
        | assumption
        | refine forRange_keep (fun s : Spin0Couplings d => s.selfDHg4g4coupl a b e = 0) (fun _ _ _ => ?_) ?_
        | simp_all [set3, set2]
    · refine forRange_hit (fun s : Spin0Couplings d => s.selfDHg4g4coupl a b e = 0) e.isLt (fun s => ?_) (fun j s h => ?_) _
      · iterate 6 refine forRange_keep (fun s : Spin0Couplings d => s.selfDHg4g4coupl a b e = 0) (fun _ _ h => by simp_all [set3, set2]) ?_
        refine forRange_hit (fun s : Spin0Couplings d => s.selfDHg4g4coupl a b e = 0) b.isLt (fun s => ?_) (fun j s h => ?_) _
        · simp [set3]
        · simp_all [set3]
      ·
        repeat' first
          | assumption
          | refine forRange_keep (fun s : Spin0Couplings d => s.selfDHg4g4coupl a b e = 0) (fun _ _ _ => ?_) ?_
          | simp_all [set3, set2]
  ·
    repeat' first
      | assumption
      | refine forRange_keep (fun s : Spin0Couplings d => s.selfDHg4g4coupl a b e = 0) (fun _ _ _ => ?_) ?_
      | simp_all [set3, set2]

theorem resetSpin0_selfDHqqcoupl {d : Dims} (c : Spin0Couplings d) (a : Fin d.nSupportedHiggses)
    (b : Fin d.SIZE_HQQ) (e : Fin 2) : (resetSpin0 c).selfDHqqcoupl a b e = 0 := by
  unfold resetSpin0
  refine forRange_hit (fun s : Spin0Couplings d => s.selfDHqqcoupl a b e = 0) a.isLt (fun s => ?_) (fun j s h => ?_) _
  · refine forRange_keep (fun s : Spin0Couplings d => s.selfDHqqcoupl a b e = 0) (fun _ _ h => ?_) ?_
    ·
      repeat' first
        | assumption
        | refine forRange_keep (fun s : Spin0Couplings d => s.selfDHqqcoupl a b e = 0) (fun _ _ _ => ?_) ?_
        | simp_all [set3, set2]
    · refine forRange_hit (fun s : Spin0Couplings d => s.selfDHqqcoupl a b e = 0) e.isLt (fun s => ?_) (fun j s h => ?_) _
      · iterate 5 refine forRange_keep (fun s : Spin0Couplings d => s.selfDHqqcoupl a b e = 0) (fun _ _ h => by simp_all [set3, set2]) ?_
        refine forRange_hit (fun s : Spin0Couplings d => s.selfDHqqcoupl a b e = 0) b.isLt (fun s => ?_) (fun j s h => ?_) _
        · simp [set3]
        · simp_all [set3]
      ·
        repeat' first
          | assumption
          | refine forRange_keep (fun s : Spin0Couplings d => s.selfDHqqcoupl a b e = 0) (fun _ _ _ => ?_) ?_
          | simp_all [set3, set2]
  ·
    repeat' first
      | assumption
      | refine forRange_keep (fun s : Spin0Couplings d => s.selfDHqqcoupl a b e = 0) (fun _ _ _ => ?_) ?_
      | simp_all [set3, set2]

theorem resetSpin0_selfDHbbcoupl {d : Dims} (c : Spin0Couplings d) (a : Fin d.nSupportedHiggses)
    (b : Fin d.SIZE_HQQ) (e : Fin 2) : (resetSpin0 c).selfDHbbcoupl a b e = 0 := by
  unfold resetSpin0
  refine forRange_hit (fun s : Spin0Couplings d => s.selfDHbbcoupl a b e = 0) a.isLt (fun s => ?_) (fun j s h => ?_) _
  · refine forRange_keep (fun s : Spin0Couplings d => s.selfDHbbcoupl a b e = 0) (fun _ _ h => ?_) ?_
    ·
      repeat' first
        | assumption
        | refine forRange_keep (fun s : Spin0Couplings d => s.selfDHbbcoupl a b e = 0) (fun _ _ _ => ?_) ?_
        | simp_all [set3, set2]
    · refine forRange_hit (fun s : Spin0Couplings d => s.selfDHbbcoupl a b e = 0) e.isLt (fun s => ?_) (fun j s h => ?_) _
      · iterate 4 refine forRange_keep (fun s : Spin0Couplings d => s.selfDHbbcoupl a b e = 0) (fun _ _ h => by simp_all [set3, set2]) ?_
        refine forRange_hit (fun s : Spin0Couplings d => s.selfDHbbcoupl a b e = 0) b.isLt (fun s => ?_) (fun j s h => ?_) _
        · simp [set3]
        · simp_all [set3]
      ·
        repeat' first
          | assumption
          | refine forRange_keep (fun s : Spin0Couplings d => s.selfDHbbcoupl a b e = 0) (fun _ _ _ => ?_) ?_
          | simp_all [set3, set2]
  ·
    repeat' first
      | assumption
      | refine forRange_keep (fun s : Spin0Couplings d => s.selfDHbbcoupl a b e = 0) (fun _ _ _ => ?_) ?_
      | simp_all [set3, set2]

theorem resetSpin0_selfDHttcoupl {d : Dims} (c : Spin0Couplings d) (a : Fin d.nSupportedHiggses)
    (b : Fin d.SIZE_HQQ) (e : Fin 2) : (resetSpin0 c).selfDHttcoupl a b e = 0 := by
  unfold resetSpin0
  refine forRange_hit (fun s : Spin0Couplings d => s.selfDHttcoupl a b e = 0) a.isLt (fun s => ?_) (fun j s h => ?_) _
  · refine forRange_keep (fun s : Spin0Couplings d => s.selfDHttcoupl a b e = 0) (fun _ _ h => ?_) ?_
    ·
      repeat' first
        | assumption
        | refine forRange_keep (fun s : Spin0Couplings d => s.selfDHttcoupl a b e = 0) (fun _ _ _ => ?_) ?_
        | simp_all [set3, set2]
    · refine forRange_hit (fun s : Spin0Couplings d => s.selfDHttcoupl a b e = 0) e.isLt (fun s => ?_) (fun j s h => ?_) _
      · iterate 3 refine forRange_keep (fun s : Spin0Couplings d => s.selfDHttcoupl a b e = 0) (fun _ _ h => by simp_all [set3, set2]) ?_
        refine forRange_hit (fun s : Spin0Couplings d => s.selfDHttcoupl a b e = 0) b.isLt (fun s => ?_) (fun j s h => ?_) _
        · simp [set3]
        · simp_all [set3]
      ·
        repeat' first
          | assumption
          | refine forRange_keep (fun s : Spin0Couplings d => s.selfDHttcoupl a b e = 0) (fun _ _ _ => ?_) ?_
          | simp_all [set3, set2]
  ·
    repeat' first
      | assumption
      | refine forRange_keep (fun s : Spin0Couplings d => s.selfDHttcoupl a b e = 0) (fun _ _ _ => ?_) ?_
      | simp_all [set3, set2]

theorem resetSpin0_selfDHb4b4coupl {d : Dims} (c : Spin0Couplings d) (a : Fin d.nSupportedHiggses)
    (b : Fin d.SIZE_HQQ) (e : Fin 2) : (resetSpin0 c).selfDHb4b4coupl a b e = 0 := by
  unfold resetSpin0
  refine forRange_hit (fun s : Spin0Couplings d => s.selfDHb4b4coupl a b e = 0) a.isLt (fun s => ?_) (fun j s h => ?_) _
  · refine forRange_keep (fun s : Spin0Couplings d => s.selfDHb4b4coupl a b e = 0) (fun _ _ h => ?_) ?_
    ·
      repeat' first
        | assumption
        | refine forRange_keep (fun s : Spin0Couplings d => s.selfDHb4b4coupl a b e = 0) (fun _ _ _ => ?_) ?_
        | simp_all [set3, set2]
    · refine forRange_hit (fun s : Spin0Couplings d => s.selfDHb4b4coupl a b e = 0) e.isLt (fun s => ?_) (fun j s h => ?_) _
      · iterate 2 refine forRange_keep (fun s : Spin0Couplings d => s.selfDHb4b4coupl a b e = 0) (fun _ _ h => by simp_all [set3, set2]) ?_
        refine forRange_hit (fun s : Spin0Couplings d => s.selfDHb4b4coupl a b e = 0) b.isLt (fun s => ?_) (fun j s h => ?_) _
        · simp [set3]
        · simp_all [set3]
      ·
        repeat' first
          | assumption
          | refine forRange_keep (fun s : Spin0Couplings d => s.selfDHb4b4coupl a b e = 0) (fun _ _ _ => ?_) ?_
          | simp_all [set3, set2]
  ·
    repeat' first
      | assumption
      | refine forRange_keep (fun s : Spin0Couplings d => s.selfDHb4b4coupl a b e = 0) (fun _ _ _ => ?_) ?_
      | simp_all [set3, set2]

theorem resetSpin0_selfDHt4t4coupl {d : Dims} (c : Spin0Couplings d) (a : Fin d.nSupportedHiggses)
    (b : Fin d.SIZE_HQQ) (e : Fin 2) : (resetSpin0 c).selfDHt4t4coupl a b e = 0 := by
  unfold resetSpin0
  refine forRange_hit (fun s : Spin0Couplings d => s.selfDHt4t4coupl a b e = 0) a.isLt (fun s => ?_) (fun j s h => ?_) _
  · refine forRange_keep (fun s : Spin0Couplings d => s.selfDHt4t4coupl a b e = 0) (fun _ _ h => ?_) ?_
    ·
      repeat' first
        | assumption
        | refine forRange_keep (fun s : Spin0Couplings d => s.selfDHt4t4coupl a b e = 0) (fun _ _ _ => ?_) ?_
        | simp_all [set3, set2]
    · refine forRange_hit (fun s : Spin0Couplings d => s.selfDHt4t4coupl a b e = 0) e.isLt (fun s => ?_) (fun j s h => ?_) _
      · iterate 1 refine forRange_keep (fun s : Spin0Couplings d => s.selfDHt4t4coupl a b e = 0) (fun _ _ h => by simp_all [set3, set2]) ?_
        refine forRange_hit (fun s : Spin0Couplings d => s.selfDHt4t4coupl a b e = 0) b.isLt (fun s => ?_) (fun j s h => ?_) _
        · simp [set3]
        · simp_all [set3]
      ·
        repeat' first
          | assumption
          | refine forRange_keep (fun s : Spin0Couplings d => s.selfDHt4t4coupl a b e = 0) (fun _ _ _ => ?_) ?_
          | simp_all [set3, set2]
  ·
    repeat' first
      | assumption
      | refine forRange_keep (fun s : Spin0Couplings d => s.selfDHt4t4coupl a b e = 0) (fun _ _ _ => ?_) ?_
      | simp_all [set3, set2]

theorem resetSpin0_selfDHzzcoupl {d : Dims} (c : Spin0Couplings d) (a : Fin d.nSupportedHiggses)
    (b : Fin d.SIZE_HVV) (e : Fin 2) : (resetSpin0 c).selfDHzzcoupl a b e = 0 := by
  unfold resetSpin0
  refine forRange_hit (fun s : Spin0Couplings d => s.selfDHzzcoupl a b e = 0) a.isLt (fun s => ?_) (fun j s h => ?_) _
  · refine forRange_keep (fun s : Spin0Couplings d => s.selfDHzzcoupl a b e = 0) (fun _ _ h => ?_) ?_
    ·
      repeat' first
        | assumption
        | refine forRange_keep (fun s : Spin0Couplings d => s.selfDHzzcoupl a b e = 0) (fun _ _ _ => ?_) ?_
        | simp_all [set3, set2]
    · refine forRange_hit (fun s : Spin0Couplings d => s.selfDHzzcoupl a b e = 0) e.isLt (fun s => ?_) (fun j s h => ?_) _
      · refine forRange_hit (fun s : Spin0Couplings d => s.selfDHzzcoupl a b e = 0) b.isLt (fun s => ?_) (fun j s h => ?_) _
        · simp [set3]
        · simp_all [set3]
      ·
        repeat' first
          | assumption
          | refine forRange_keep (fun s : Spin0Couplings d => s.selfDHzzcoupl a b e = 0) (fun _ _ _ => ?_) ?_
          | simp_all [set3, set2]
  ·
    repeat' first
      | assumption
      | refine forRange_keep (fun s : Spin0Couplings d => s.selfDHzzcoupl a b e = 0) (fun _ _ _ => ?_) ?_
      | simp_all [set3, set2]

theorem resetSpin0_selfDHwwcoupl {d : Dims} (c : Spin0Couplings d) (a : Fin d.nSupportedHiggses)
    (b : Fin d.SIZE_HVV) (e : Fin 2) : (resetSpin0 c).selfDHwwcoupl a b e = 0 := by
  unfold resetSpin0
  refine forRange_hit (fun s : Spin0Couplings d => s.selfDHwwcoupl a b e = 0) a.isLt (fun s => ?_) (fun j s h => ?_) _
  · refine forRange_keep (fun s : Spin0Couplings d => s.selfDHwwcoupl a b e = 0) (fun _ _ h => ?_) ?_
    ·
      repeat' first
        | assumption
        | refine forRange_keep (fun s : Spin0Couplings d => s.selfDHwwcoupl a b e = 0) (fun _ _ _ => ?_) ?_
        | simp_all [set3, set2]
    · refine forRange_hit (fun s : Spin0Couplings d => s.selfDHwwcoupl a b e = 0) e.isLt (fun s => ?_) (fun j s h => ?_) _
      · refine forRange_hit (fun s : Spin0Couplings d => s.selfDHwwcoupl a b e = 0) b.isLt (fun s => ?_) (fun j s h => ?_) _
        · simp [set3]
        · simp_all [set3]
      ·
        repeat' first
          | assumption
          | refine forRange_keep (fun s : Spin0Couplings d => s.selfDHwwcoupl a b e = 0) (fun _ _ _ => ?_) ?_
          | simp_all [set3, set2]
  ·
    repeat' first
      | assumption
      | refine forRange_keep (fun s : Spin0Couplings d => s.selfDHwwcoupl a b e = 0) (fun _ _ _ => ?_) ?_
      | simp_all [set3, set2]

theorem resetSpin0_selfDHzzLambda_qsq {d : Dims} (c : Spin0Couplings d) (a : Fin d.nSupportedHiggses)
    (b : Fin d.SIZE_HVV_LAMBDAQSQ) (e : Fin d.SIZE_HVV_CQSQ) : (resetSpin0 c).selfDHzzLambda_qsq a b e = 100 := by
  unfold resetSpin0
  refine forRange_hit (fun s : Spin0Couplings d => s.selfDHzzLambda_qsq a b e = 100) a.isLt (fun s => ?_) (fun j s h => ?_) _
  · refine forRange_hit (fun s : Spin0Couplings d => s.selfDHzzLambda_qsq a b e = 100) e.isLt (fun s => ?_) (fun j s h => ?_) _
    · refine forRange_hit (fun s : Spin0Couplings d => s.selfDHzzLambda_qsq a b e = 100) b.isLt (fun s => ?_) (fun j s h => ?_) _
      · simp [set3]
      · simp_all [set3]
    ·
      repeat' first
        | assumption
        | refine forRange_keep (fun s : Spin0Couplings d => s.selfDHzzLambda_qsq a b e = 100) (fun _ _ _ => ?_) ?_
        | simp_all [set3, set2]
  ·
    repeat' first
      | assumption
      | refine forRange_keep (fun s : Spin0Couplings d => s.selfDHzzLambda_qsq a b e = 100) (fun _ _ _ => ?_) ?_
      | simp_all [set3, set2]

theorem resetSpin0_selfDHwwLambda_qsq {d : Dims} (c : Spin0Couplings d) (a : Fin d.nSupportedHiggses)
    (b : Fin d.SIZE_HVV_LAMBDAQSQ) (e : Fin d.SIZE_HVV_CQSQ) : (resetSpin0 c).selfDHwwLambda_qsq a b e = 100 := by
  unfold resetSpin0
  refine forRange_hit (fun s : Spin0Couplings d => s.selfDHwwLambda_qsq a b e = 100) a.isLt (fun s => ?_) (fun j s h => ?_) _
  · refine forRange_hit (fun s : Spin0Couplings d => s.selfDHwwLambda_qsq a b e = 100) e.isLt (fun s => ?_) (fun j s h => ?_) _
    · refine forRange_hit (fun s : Spin0Couplings d => s.selfDHwwLambda_qsq a b e = 100) b.isLt (fun s => ?_) (fun j s h => ?_) _
      · simp [set3]
      · simp_all [set3]
    ·
      repeat' first
        | assumption
        | refine forRange_keep (fun s : Spin0Couplings d => s.selfDHwwLambda_qsq a b e = 100) (fun _ _ _ => ?_) ?_
        | simp_all [set3, set2]
  ·
    repeat' first
      | assumption
      | refine forRange_keep (fun s : Spin0Couplings d => s.selfDHwwLambda_qsq a b e = 100) (fun _ _ _ => ?_) ?_
      | simp_all [set3, set2]

theorem resetSpin0_selfDHzzCLambda_qsq {d : Dims} (c : Spin0Couplings d) (a : Fin d.nSupportedHiggses)
    (e : Fin d.SIZE_HVV_CQSQ) : (resetSpin0 c).selfDHzzCLambda_qsq a e = 0 := by
  unfold resetSpin0
  refine forRange_hit (fun s : Spin0Couplings d => s.selfDHzzCLambda_qsq a e = 0) a.isLt (fun s => ?_) (fun j s h => ?_) _
  · refine forRange_hit (fun s : Spin0Couplings d => s.selfDHzzCLambda_qsq a e = 0) e.isLt (fun s => ?_) (fun j s h => ?_) _
    · refine forRange_keep (fun s : Spin0Couplings d => s.selfDHzzCLambda_qsq a e = 0) (fun _ _ h => by simp_all [set3, set2]) ?_
      simp [set2]
    ·
      repeat' first
        | assumption
        | refine forRange_keep (fun s : Spin0Couplings d => s.selfDHzzCLambda_qsq a e = 0) (fun _ _ _ => ?_) ?_
        | simp_all [set3, set2]
  ·
    repeat' first
      | assumption
      | refine forRange_keep (fun s : Spin0Couplings d => s.selfDHzzCLambda_qsq a e = 0) (fun _ _ _ => ?_) ?_
      | simp_all [set3, set2]

theorem resetSpin0_selfDHwwCLambda_qsq {d : Dims} (c : Spin0Couplings d) (a : Fin d.nSupportedHiggses)
    (e : Fin d.SIZE_HVV_CQSQ) : (resetSpin0 c).selfDHwwCLambda_qsq a e = 0 := by
  unfold resetSpin0
  refine forRange_hit (fun s : Spin0Couplings d => s.selfDHwwCLambda_qsq a e = 0) a.isLt (fun s => ?_) (fun j s h => ?_) _
  · refine forRange_hit (fun s : Spin0Couplings d => s.selfDHwwCLambda_qsq a e = 0) e.isLt (fun s => ?_) (fun j s h => ?_) _
    · refine forRange_keep (fun s : Spin0Couplings d => s.selfDHwwCLambda_qsq a e = 0) (fun _ _ h => by simp_all [set3, set2]) ?_
      simp [set2]
    ·
      repeat' first
        | assumption
        | refine forRange_keep (fun s : Spin0Couplings d => s.selfDHwwCLambda_qsq a e = 0) (fun _ _ _ => ?_) ?_
        | simp_all [set3, set2]
  ·
    repeat' first
      | assumption
      | refine forRange_keep (fun s : Spin0Couplings d => s.selfDHwwCLambda_qsq a e = 0) (fun _ _ _ => ?_) ?_
      | simp_all [set3, set2]

theorem resetSpin0_differentiate {d : Dims} (c : Spin0Couplings d) :
    (resetSpin0 c).differentiate_HWW_HZZ = false := by
  unfold resetSpin0
  refine forRange_keep (fun s : Spin0Couplings d => s.differentiate_HWW_HZZ = false) (fun _ _ h => ?_) rfl
  repeat' first
    | assumption
    | refine forRange_keep (fun s : Spin0Couplings d => s.differentiate_HWW_HZZ = false) (fun _ _ _ => ?_) ?_
    | simp_all [set3, set2]

theorem resetSpin1_selfDZvvcoupl {d : Dims} (c : Spin1Couplings d) (b : Fin d.SIZE_ZVV) (e : Fin 2) :
    (resetSpin1 c).selfDZvvcoupl b e = 0 := by
  unfold resetSpin1
  refine forRange_hit (fun s : Spin1Couplings d => s.selfDZvvcoupl b e = 0) e.isLt (fun s => ?_) (fun j s h => ?_) _
  · iterate 1 refine forRange_keep (fun s : Spin1Couplings d => s.selfDZvvcoupl b e = 0) (fun _ _ h => by simp_all [set3, set2]) ?_
    refine forRange_hit (fun s : Spin1Couplings d => s.selfDZvvcoupl b e = 0) b.isLt (fun s => ?_) (fun j s h => ?_) _
    · simp [set2]
    · simp_all [set2]
  ·
    repeat' first
      | assumption
      | refine forRange_keep (fun s : Spin1Couplings d => s.selfDZvvcoupl b e = 0) (fun _ _ _ => ?_) ?_
      | simp_all [set3, set2]

theorem resetSpin1_selfDZqqcoupl {d : Dims} (c : Spin1Couplings d) (b : Fin d.SIZE_ZQQ) (e : Fin 2) :
    (resetSpin1 c).selfDZqqcoupl b e = 0 := by
  unfold resetSpin1
  refine forRange_hit (fun s : Spin1Couplings d => s.selfDZqqcoupl b e = 0) e.isLt (fun s => ?_) (fun j s h => ?_) _
  · refine forRange_hit (fun s : Spin1Couplings d => s.selfDZqqcoupl b e = 0) b.isLt (fun s => ?_) (fun j s h => ?_) _
    · simp [set2]
    · simp_all [set2]
  ·
    repeat' first
      | assumption
      | refine forRange_keep (fun s : Spin1Couplings d => s.selfDZqqcoupl b e = 0) (fun _ _ _ => ?_) ?_
      | simp_all [set3, set2]

theorem resetSpin2_selfDGvvcoupl {d : Dims} (c : Spin2Couplings d) (b : Fin d.SIZE_GVV) (e : Fin 2) :
    (resetSpin2 c).selfDGvvcoupl b e = 0 := by
  unfold resetSpin2
  refine forRange_hit (fun s : Spin2Couplings d => s.selfDGvvcoupl b e = 0) e.isLt (fun s => ?_) (fun j s h => ?_) _
  · iterate 2 refine forRange_keep (fun s : Spin2Couplings d => s.selfDGvvcoupl b e = 0) (fun _ _ h => by simp_all [set3, set2]) ?_
    refine forRange_hit (fun s : Spin2Couplings d => s.selfDGvvcoupl b e = 0) b.isLt (fun s => ?_) (fun j s h => ?_) _
    · simp [set2]
    · simp_all [set2]
  ·
    repeat' first
      | assumption
      | refine forRange_keep (fun s : Spin2Couplings d => s.selfDGvvcoupl b e = 0) (fun _ _ _ => ?_) ?_
      | simp_all [set3, set2]

theorem resetSpin2_selfDGggcoupl {d : Dims} (c : Spin2Couplings d) (b : Fin d.SIZE_GGG) (e : Fin 2) :
    (resetSpin2 c).selfDGggcoupl b e = 0 := by
  unfold resetSpin2
  refine forRange_hit (fun s : Spin2Couplings d => s.selfDGggcoupl b e = 0) e.isLt (fun s => ?_) (fun j s h => ?_) _
  · iterate 1 refine forRange_keep (fun s : Spin2Couplings d => s.selfDGggcoupl b e = 0) (fun _ _ h => by simp_all [set3, set2]) ?_
    refine forRange_hit (fun s : Spin2Couplings d => s.selfDGggcoupl b e = 0) b.isLt (fun s => ?_) (fun j s h => ?_) _
    · simp [set2]
    · simp_all [set2]
  ·
    repeat' first
      | assumption
      | refine forRange_keep (fun s : Spin2Couplings d => s.selfDGggcoupl b e = 0) (fun _ _ _ => ?_) ?_
      | simp_all [set3, set2]

theorem resetSpin2_selfDGqqcoupl {d : Dims} (c : Spin2Couplings d) (b : Fin d.SIZE_GQQ) (e : Fin 2) :
    (resetSpin2 c).selfDGqqcoupl b e = 0 := by
  unfold resetSpin2
  refine forRange_hit (fun s : Spin2Couplings d => s.selfDGqqcoupl b e = 0) e.isLt (fun s => ?_) (fun j s h => ?_) _
  · refine forRange_hit (fun s : Spin2Couplings d => s.selfDGqqcoupl b e = 0) b.isLt (fun s => ?_) (fun j s h => ?_) _
    · simp [set2]
    · simp_all [set2]
  ·
    repeat' first
      | assumption
      | refine forRange_keep (fun s : Spin2Couplings d => s.selfDGqqcoupl b e = 0) (fun _ _ _ => ?_) ?_
      | simp_all [set3, set2]

theorem resetSpin0_eq {d : Dims} (c : Spin0Couplings d) : resetSpin0 c = (defaultCouplings d).spin0 := by
  have h1 := resetSpin0_selfDHggcoupl c
  have h2 := resetSpin0_selfDHg4g4coupl c
  have h3 := resetSpin0_selfDHqqcoupl c
  have h4 := resetSpin0_selfDHbbcoupl c
  have h5 := resetSpin0_selfDHttcoupl c
  have h6 := resetSpin0_selfDHb4b4coupl c
  have h7 := resetSpin0_selfDHt4t4coupl c
  have h8 := resetSpin0_selfDHzzcoupl c
  have h9 := resetSpin0_selfDHwwcoupl c
  have h10 := resetSpin0_selfDHzzLambda_qsq c
  have h11 := resetSpin0_selfDHwwLambda_qsq c
  have h12 := resetSpin0_selfDHzzCLambda_qsq c
  have h13 := resetSpin0_selfDHwwCLambda_qsq c
  have h14 := resetSpin0_differentiate c
  cases h : resetSpin0 c
  rw [h] at h1 h2 h3 h4 h5 h6 h7 h8 h9 h10 h11 h12 h13 h14
  simp only [defaultCouplings, Spin0Couplings.mk.injEq]
  simp only at h1 h2 h3 h4 h5 h6 h7 h8 h9 h10 h11 h12 h13 h14
  exact ⟨funext fun x => funext fun y => funext fun z => h1 x y z,
    funext fun x => funext fun y => funext fun z => h2 x y z,
    funext fun x => funext fun y => funext fun z => h3 x y z,
    funext fun x => funext fun y => funext fun z => h4 x y z,
    funext fun x => funext fun y => funext fun z => h5 x y z,
    funext fun x => funext fun y => funext fun z => h6 x y z,
    funext fun x => funext fun y => funext fun z => h7 x y z,
    funext fun x => funext fun y => funext fun z => h8 x y z,
    funext fun x => funext fun y => funext fun z => h9 x y z,
    funext fun x => funext fun y => funext fun z => h10 x y z,
    funext fun x => funext fun y => funext fun z => h11 x y z,
    funext fun x => funext fun y => h12 x y,
    funext fun x => funext fun y => h13 x y, h14⟩

theorem resetSpin1_eq {d : Dims} (c : Spin1Couplings d) : resetSpin1 c = (defaultCouplings d).spin1 := by
  have h1 := resetSpin1_selfDZqqcoupl c
  have h2 := resetSpin1_selfDZvvcoupl c
  cases h : resetSpin1 c
  rw [h] at h1 h2
  simp only [defaultCouplings, Spin1Couplings.mk.injEq]
  simp only at h1 h2
  exact ⟨funext fun x => funext fun y => h1 x y, funext fun x => funext fun y => h2 x y⟩

theorem resetSpin2_eq {d : Dims} (c : Spin2Couplings d) : resetSpin2 c = (defaultCouplings d).spin2 := by
  have h1 := resetSpin2_selfDGqqcoupl c
  have h2 := resetSpin2_selfDGggcoupl c
  have h3 := resetSpin2_selfDGvvcoupl c
  cases h : resetSpin2 c
  rw [h] at h1 h2 h3
  simp only [defaultCouplings, Spin2Couplings.mk.injEq]
  simp only at h1 h2 h3
  exact ⟨funext fun x => funext fun y => h1 x y, funext fun x => funext fun y => h2 x y,
    funext fun x => funext fun y => h3 x y⟩

/-- The reset yields the closed-form default state, whatever the prior state. -/
theorem resetCouplings_eq {d : Dims} (c : SelfDCouplings d) : resetCouplings c = defaultCouplings d := by
  unfold resetCouplings
  rw [resetSpin0_eq, resetSpin1_eq, resetSpin2_eq]

/-! ## The cleanup at the end of the evaluation entry points -/

namespace Mela

variable {d : Dims}

theorem reset_SelfDCouplings_coupl (s : Mela d) :
    s.reset_SelfDCouplings.coupl = defaultCouplings d := by
  simp [reset_SelfDCouplings, resetCouplings_eq]

theorem endEvaluation_coupl (s : Mela d) : s.endEvaluation.coupl = defaultCouplings d :=
  reset_SelfDCouplings_coupl s

theorem endEvaluation_melaCand (s : Mela d) : s.endEvaluation.melaCand = none := rfl

theorem endEvaluation_ZZME (s : Mela d) : s.endEvaluation.ZZME = s.ZZME := rfl

theorem endEvaluation_auxiliaryProb (s : Mela d) : s.endEvaluation.auxiliaryProb = s.auxiliaryProb := rfl

theorem computeP_coupl (ext : Externals d) (s : Mela d) (prob : ℚ) (useConstant : Bool) :
    (computeP ext s prob useConstant).1.coupl = defaultCouplings d :=
  endEvaluation_coupl _

theorem computeP_melaCand (ext : Externals d) (s : Mela d) (prob : ℚ) (useConstant : Bool) :
    (computeP ext s prob useConstant).1.melaCand = none := rfl

theorem computeProdP_ttH_coupl (ext : Externals d) (s : Mela d) (prob : ℚ) (tp td : Int)
    (useConstant : Bool) : (computeProdP_ttH ext s prob tp td useConstant).1.coupl = defaultCouplings d :=
  endEvaluation_coupl _

theorem computeProdP_VH_coupl (ext : Externals d) (s : Mela d) (prob : ℚ) (inc useConstant : Bool) :
    (computeProdP_VH ext s prob inc useConstant).1.coupl = defaultCouplings d :=
  endEvaluation_coupl _

theorem computeProdP_coupl (ext : Externals d) (s : Mela d) (prob : ℚ) (useConstant : Bool) :
    (computeProdP ext s prob useConstant).1.coupl = defaultCouplings d := by
  unfold computeProdP
  split
  · exact computeProdP_ttH_coupl ext s prob 2 0 useConstant
  · split
    · exact computeProdP_VH_coupl ext s prob false useConstant
    · exact endEvaluation_coupl _

theorem computeProdP_melaCand (ext : Externals d) (s : Mela d) (prob : ℚ) (useConstant : Bool) :
    (computeProdP ext s prob useConstant).1.melaCand = none := by
  unfold computeProdP
  split
  · rfl
  · split <;> rfl

/-- Claim C1: whatever the state on entry and whatever the selector, when
`computeP`, `computeProdP`, `computeProdDecP`, `computeProdP_VH`,
`computeProdP_ttH`, `computePM4l` or `computeD_CP` returns, the coupling tables
equal the state that `reset_SelfDCouplings` produces (from any state `s0`). -/
theorem couplings_reset_after_evaluation (ext : Externals d) (s s0 : Mela d) (prob : ℚ)
    (useConstant includeHiggsDecay : Bool) (topProcess topDecay : Int)
    (syst : TVar.SuperMelaSyst) (myME : TVar.MatrixElement) (myType : TVar.Process)
    (pMix p1 p2 : ℚ) :
    (computeP ext s prob useConstant).1.coupl = s0.reset_SelfDCouplings.coupl
    ∧ (computeProdP ext s prob useConstant).1.coupl = s0.reset_SelfDCouplings.coupl
    ∧ (computeProdDecP ext s prob useConstant).1.coupl = s0.reset_SelfDCouplings.coupl
    ∧ (computeProdP_VH ext s prob includeHiggsDecay useConstant).1.coupl
        = s0.reset_SelfDCouplings.coupl
    ∧ (computeProdP_ttH ext s prob topProcess topDecay useConstant).1.coupl
        = s0.reset_SelfDCouplings.coupl
    ∧ (computePM4l ext s syst).1.coupl = s0.reset_SelfDCouplings.coupl
    ∧ (computeD_CP ext s myME myType pMix p1 p2).1.coupl = s0.reset_SelfDCouplings.coupl := by
  rw [reset_SelfDCouplings_coupl]
  exact ⟨computeP_coupl _ _ _ _, computeProdP_coupl _ _ _ _, endEvaluation_coupl _,
    computeProdP_VH_coupl _ _ _ _ _, computeProdP_ttH_coupl _ _ _ _ _ _, endEvaluation_coupl _,
    computeP_coupl _ _ _ _⟩

end Mela

namespace Mela

variable {d : Dims}

/-- With an engine other than MCFM or a type other than `D_gg10`, `computeD_gg`
returns at line 1345: the state is untouched and `prob` is -99. -/
theorem computeD_gg_early_return (ext : Externals d) (s : Mela d) (myME : TVar.MatrixElement)
    (myType : TVar.Process) (h : myME ≠ TVar.MatrixElement.MCFM ∨ myType ≠ TVar.Process.D_gg10) :
    computeD_gg ext s myME myType = (s, -99) := by
  simp [computeD_gg, h]

/-- Claim C2 (the code at the failing input): called with engine JHUGen,
`computeD_gg` sets `prob` to -99 and returns with the caller-written coupling
still in the table and the candidate reference still set; neither cleanup
step has run. -/
theorem computeD_gg_skips_cleanup :
    (computeD_gg Example.ext Example.melaDirty TVar.MatrixElement.JHUGen TVar.Process.D_gg10).2 = -99
    ∧ get3 (computeD_gg Example.ext Example.melaDirty TVar.MatrixElement.JHUGen
        TVar.Process.D_gg10).1.coupl.spin0.selfDHzzcoupl 0 0 0 = 1
    ∧ (computeD_gg Example.ext Example.melaDirty TVar.MatrixElement.JHUGen
        TVar.Process.D_gg10).1.coupl ≠ Example.melaDirty.reset_SelfDCouplings.coupl
    ∧ (computeD_gg Example.ext Example.melaDirty TVar.MatrixElement.JHUGen
        TVar.Process.D_gg10).1.melaCand = some Example.cand := by
  rw [computeD_gg_early_return _ _ _ _ (Or.inl (by decide))]
  refine ⟨rfl, ?_, ?_, rfl⟩
  · simp [Example.melaDirty, set3, get3, Example.dims]
  · rw [reset_SelfDCouplings_coupl]
    intro h
    have h2 := congrArg (fun c => get3 c.spin0.selfDHzzcoupl 0 0 0) h
    simp [Example.melaDirty, set3, get3, defaultCouplings, Example.dims] at h2

end Mela

/-! ## The candidate reference -/

/-- A loop invariant that may depend on the pass number. -/
theorem forRange_induction {σ : Type} (Inv : Nat → σ → Prop) {n : Nat} {body : Nat → σ → σ} {s : σ}
    (h0 : Inv 0 s) (hstep : ∀ i t, i < n → Inv i t → Inv (i + 1) (body i t)) :
    Inv n (forRange n body s) := by
  induction n with
  | zero => simpa [forRange_zero] using h0
  | succ k ih =>
    rw [forRange_succ]
    exact hstep k _ (Nat.lt_succ_self k) (ih (fun i t hi => hstep i t (Nat.lt_succ_of_lt hi)))

theorem modify_p4_eq_self (l : List MELAParticle) (i : Nat) (j : MELAParticle)
    (h : l.get? i = some j) : l.modify (fun q => { q with p4 := j.p4 }) i = l := by
  apply List.ext_getElem?
  intro n
  rw [List.getElem?_modify]
  by_cases hn : i = n
  · subst hn
    simp only [List.get?_eq_getElem?] at h
    simp [h]
  · simp [hn]

namespace Mela

variable {d : Dims}

/-- The jet found by the search of lines 848-857 is the jet at the index found. -/
theorem findFirstJet_spec (cand : MELACandidate) (h : 1 ≤ (findFirstJet cand).1) :
    ∃ j, cand.associatedJets.get? (findFirstJet cand).2.1 = some j
      ∧ j.p4 = (findFirstJet cand).2.2 := by
  have key : (fun acc : Nat × Nat × TLorentzVector =>
      1 ≤ acc.1 → ∃ j, cand.associatedJets.get? acc.2.1 = some j ∧ j.p4 = acc.2.2)
      (findFirstJet cand) := by
    unfold findFirstJet
    refine forRange_keep (fun acc : Nat × Nat × TLorentzVector =>
      1 ≤ acc.1 → ∃ j, cand.associatedJets.get? acc.2.1 = some j ∧ j.p4 = acc.2.2)
      (fun ip acc hacc => ?_) (fun h => absurd h (by decide))
    cases hj : cand.associatedJets.get? ip with
    | none => simpa [hj] using hacc
    | some j =>
      by_cases hp : j.passSelection = true
      · by_cases h1 : acc.1 + 1 = 1
        · simp only [hj, hp, h1, if_true]
          intro _
          exact ⟨j, rfl, rfl⟩
        · simp only [hj, hp, h1, if_true, if_false]
          intro _
          exact hacc (by omega)
      · simpa [hj, hp] using hacc
  exact key h

/-- Writing the massless momentum into the first jet and then its original
momentum back leaves the candidate as it was. -/
theorem restore_first_jet (cand : MELACandidate) (p : TLorentzVector)
    (h : 1 ≤ (findFirstJet cand).1) :
    (cand.setJetP4 (findFirstJet cand).2.1 p).setJetP4 (findFirstJet cand).2.1
      (findFirstJet cand).2.2 = cand := by
  obtain ⟨j, hj, hp⟩ := findFirstJet_spec cand h
  simp only [MELACandidate.setJetP4, List.modify_modify_eq]
  have : ((fun q : MELAParticle => { q with p4 := (findFirstJet cand).2.2 })
      ∘ fun q : MELAParticle => { q with p4 := p })
      = fun q : MELAParticle => { q with p4 := j.p4 } := by
    funext q; simp [hp]
  rw [this, modify_p4_eq_self _ _ _ hj]

theorem computeConstant_currentCand (ext : Externals d) (s : Mela d) (prob : ℚ) :
    (computeConstant ext s prob).1.ZZME.currentCand = s.ZZME.currentCand := rfl

theorem applyConstant_currentCand (ext : Externals d) (useConstant : Bool) (r : Mela d × ℚ) :
    (applyConstant (computeConstant ext) useConstant r).1.ZZME.currentCand = r.1.ZZME.currentCand := by
  cases useConstant <;> rfl

theorem normaliseAux_ZZME (s : Mela d) (prob : ℚ) : (normaliseAux s prob).ZZME = s.ZZME := by
  unfold normaliseAux
  split <;> rfl

theorem missingJetIntegration_currentCand (ext : Externals d) (s : Mela d) (cand : MELACandidate)
    (i : Nat) (jet1 jet1massless jet2massless : TLorentzVector) :
    (missingJetIntegration ext s cand i jet1 jet1massless jet2massless).1.ZZME.currentCand
      = some ((cand.setJetP4 i jet1massless).setJetP4 i jet1) := by
  unfold missingJetIntegration
  dsimp only
  rw [normaliseAux_ZZME]
  rfl

theorem isTwoJetProduction_iff (p : TVar.Production) :
    isTwoJetProduction p = true ↔ p = TVar.Production.JJQCD ∨ p = TVar.Production.JJVBF := by
  simp [isTwoJetProduction]

/-- On the missing-jet path, `computeProdP` returns with the candidate it found
on entry as the current candidate of the generator. -/
theorem computeProdP_fake_currentCand (ext : Externals d) (s : Mela d) (prob : ℚ)
    (useConstant : Bool) (cand : MELACandidate)
    (hprod : s.myProduction_ = TVar.Production.JJQCD ∨ s.myProduction_ = TVar.Production.JJVBF)
    (hcur : s.ZZME.currentCand = some cand) (hjet : (findFirstJet cand).1 = 1) :
    (computeProdP ext s prob useConstant).1.ZZME.currentCand = some cand := by
  have hnot1 : ¬ (s.myProduction_ = TVar.Production.ttH ∨ s.myProduction_ = TVar.Production.bbH) := by
    rcases hprod with h | h <;> simp [h]
  have hnot2 : ¬ (isVHProduction s.myProduction_ = true) := by
    rcases hprod with h | h <;> simp [h, isVHProduction]
  have htwo : isTwoJetProduction s.beginEvaluation.myProduction_ = true :=
    (isTwoJetProduction_iff _).2 hprod
  have hsearch : jetSearch s.beginEvaluation cand = findFirstJet cand := by
    unfold jetSearch
    rw [if_pos htwo]
  have hfake : isJet2Fake s.beginEvaluation cand = true := by
    unfold isJet2Fake
    rw [htwo, hsearch]
    simp [hjet]
  have hmc : s.beginEvaluation.melaCand = some cand := hcur
  rw [computeProdP, if_neg hnot1, if_neg hnot2]
  dsimp only
  rw [endEvaluation_ZZME, hmc]
  show (computeProdP_body ext s.beginEvaluation cand prob useConstant).1.ZZME.currentCand = some cand
  rw [computeProdP_body, applyConstant_currentCand, if_pos hfake, computeProdP_fake]
  rw [missingJetIntegration_currentCand, hsearch]
  exact congrArg some (restore_first_jet cand _ (by omega))

/-- Claim C3: when `computeP`, `computeProdP`, `computeProdDecP`,
`computeProdP_VH`, `computeProdP_ttH`, `computePM4l` or `getXPropagator`
returns, `melaCand` is null, whatever the state on entry; and when `computeProdP`
runs the missing-jet integration (two-jet production, a current candidate with
exactly one selected jet), the current candidate of the generator on return is
the original candidate, which differs from every copy with an added jet. -/
theorem candidate_reference_cleared (ext : Externals d) (s : Mela d) (prob : ℚ)
    (useConstant includeHiggsDecay : Bool) (topProcess topDecay : Int)
    (syst : TVar.SuperMelaSyst) (scheme : TVar.ResonancePropagatorScheme) :
    (computeP ext s prob useConstant).1.melaCand = none
    ∧ (computeProdP ext s prob useConstant).1.melaCand = none
    ∧ (computeProdDecP ext s prob useConstant).1.melaCand = none
    ∧ (computeProdP_VH ext s prob includeHiggsDecay useConstant).1.melaCand = none
    ∧ (computeProdP_ttH ext s prob topProcess topDecay useConstant).1.melaCand = none
    ∧ (computePM4l ext s syst).1.melaCand = none
    ∧ (getXPropagator ext s scheme).1.melaCand = none
    ∧ ∀ cand : MELACandidate,
        (s.myProduction_ = TVar.Production.JJQCD ∨ s.myProduction_ = TVar.Production.JJVBF) →
        s.ZZME.currentCand = some cand → (findFirstJet cand).1 = 1 →
        (computeProdP ext s prob useConstant).1.ZZME.currentCand = some cand
        ∧ ∀ (k : Nat) (p : TLorentzVector) (fakeJet : MELAParticle),
            some cand ≠ some ((cand.setJetP4 k p).addAssociatedJets fakeJet) := by
  refine ⟨computeP_melaCand _ _ _ _, computeProdP_melaCand _ _ _ _, ?_, rfl, rfl, ?_, ?_, ?_⟩
  · rfl
  · rfl
  · rfl
  · intro cand hprod hcur hjet
    refine ⟨computeProdP_fake_currentCand ext s prob useConstant cand hprod hcur hjet, ?_⟩
    · intro k p fakeJet h
      have h2 := congrArg (fun c => c.associatedJets.length) (Option.some.inj h)
      simp [MELACandidate.setJetP4, MELACandidate.addAssociatedJets] at h2

/-- Claim C3 at a concrete instance: a 13 TeV instance set to JHUGen JJVBF whose
candidate has exactly one selected jet runs the missing-jet integration and
returns with the original candidate current. -/
theorem candidate_reference_cleared_witness :
    (Example.melaVBF.myProduction_ = TVar.Production.JJQCD
        ∨ Example.melaVBF.myProduction_ = TVar.Production.JJVBF)
    ∧ Example.melaVBF.ZZME.currentCand = some Example.cand
    ∧ (findFirstJet Example.cand).1 = 1
    ∧ (computeProdP Example.ext Example.melaVBF 0 false).1.melaCand = none
    ∧ (computeProdP Example.ext Example.melaVBF 0 false).1.ZZME.currentCand = some Example.cand :=
  have h1 : Example.melaVBF.myProduction_ = TVar.Production.JJQCD
      ∨ Example.melaVBF.myProduction_ = TVar.Production.JJVBF := Or.inr rfl
  have h2 : Example.melaVBF.ZZME.currentCand = some Example.cand := rfl
  have h3 : (findFirstJet Example.cand).1 = 1 := by decide
  have h := candidate_reference_cleared Example.ext Example.melaVBF 0 false false 0 0
    TVar.SuperMelaSyst.SMSyst_None TVar.ResonancePropagatorScheme.NoPropagator
  ⟨h1, h2, h3, h.2.1, (h.2.2.2.2.2.2.2 Example.cand h1 h2 h3).1⟩

end Mela

/-! ## The grid average -/

namespace Mela

variable {d : Dims}

theorem computeDecayAngles_fst (ext : Externals d) (s : Mela d) (c : MELACandidate)
    (h : s.melaCand = some c) : (computeDecayAngles ext s).1 = s := by
  unfold computeDecayAngles
  simp [h]

end Mela

/-! ## Termination of the refinement loop -/

theorem drop_insertIdx_succ {α : Type} (x : α) : ∀ (l : List α) (i : Nat), i ≤ l.length →
    (l.insertIdx i x).drop (i + 1) = l.drop i
  | l, 0, _ => by simp
  | [], i + 1, h => by simp at h
  | a :: l, i + 1, h => by
    simpa using drop_insertIdx_succ x l i (by simpa using h)

theorem drop_insertIdx_pred {α : Type} (x : α) : ∀ (l : List α) (i : Nat) (h : i < l.length),
    (l.insertIdx (i + 1) x).drop i = l[i] :: x :: l.drop (i + 1)
  | [], i, h => by simp at h
  | a :: l, 0, _ => by simp
  | a :: l, i + 1, h => by
    simpa using drop_insertIdx_pred x l i (by simpa using h)

theorem widthCost_pos (n : Nat) : 1 ≤ widthCost n := by
  unfold widthCost
  split
  · exact le_refl 1
  · have : 1 ≤ 2 ^ (Nat.log 2 n + 1) := Nat.one_le_two_pow
    have h2 : 2 ^ (Nat.log 2 n + 2) = 2 * 2 ^ (Nat.log 2 n + 1) := by ring
    omega

/-- Halving a width of at least `1e-3` leaves room for both halves and the pass
that split it. -/
theorem widthCost_half (n : Nat) (h : 1 ≤ n) : 2 * widthCost (n / 2) + 1 ≤ widthCost n := by
  unfold widthCost
  rw [if_neg (by omega : ¬ n = 0)]
  by_cases h2 : n / 2 = 0
  · rw [if_pos h2]
    have : 1 ≤ 2 ^ (Nat.log 2 n) := Nat.one_le_two_pow
    have e : 2 ^ (Nat.log 2 n + 2) = 4 * 2 ^ (Nat.log 2 n) := by ring
    omega
  · rw [if_neg h2, Nat.log_div_base]
    have hn : 2 ≤ n := by omega
    have hpos : 0 < Nat.log 2 n := Nat.log_pos (by decide) hn
    have e : Nat.log 2 n - 1 + 2 = Nat.log 2 n + 1 := by omega
    rw [e]
    have e2 : 2 ^ (Nat.log 2 n + 2) = 2 * 2 ^ (Nat.log 2 n + 1) := by ring
    have : 1 ≤ 2 ^ (Nat.log 2 n + 1) := Nat.one_le_two_pow
    omega

theorem pairCost_pos (a b : ℚ) : 1 ≤ pairCost a b := widthCost_pos _

/-- Splitting an interval of width at least `1e-3` at its midpoint. -/
theorem pairCost_midpoint (a b : ℚ) (h : ¬ |b - a| < 1 / 1000) :
    pairCost a ((a + b) * (1 / 2)) + pairCost ((a + b) * (1 / 2)) b + 1 ≤ pairCost a b := by
  have hw : (1 : ℚ) ≤ |b - a| * 1000 := by
    have := not_lt.1 h
    linarith
  have hN : 1 ≤ ⌊|b - a| * 1000⌋₊ := Nat.le_floor (by simpa using hw)
  have e1 : |(a + b) * (1 / 2) - a| * 1000 = |b - a| * 1000 / ((2 : ℕ) : ℚ) := by
    have : (a + b) * (1 / 2) - a = (b - a) / 2 := by ring
    rw [this, abs_div]
    norm_num
    ring
  have e2 : |b - (a + b) * (1 / 2)| * 1000 = |b - a| * 1000 / ((2 : ℕ) : ℚ) := by
    have : b - (a + b) * (1 / 2) = (b - a) / 2 := by ring
    rw [this, abs_div]
    norm_num
    ring
  unfold pairCost
  rw [e1, e2, Nat.floor_div_nat]
  have := widthCost_half _ hN
  omega

theorem gridCost_cons_cons (a b : ℚ) (t : List ℚ) :
    gridCost (a :: b :: t) = pairCost a b + gridCost (b :: t) := rfl

/-- Every pass of the refinement loop lowers the cost of the pairs still to be
examined, and keeps the grid size equal to the length of the abscissa array. -/
theorem refineStep_decreases {σ : Type} (spline : List ℚ → List ℚ → ℚ → ℚ → ℚ → ℚ)
    (smp : σ → ℚ → σ × ℚ) (r r' : RefineState σ) (hlen : r.etaArray.length = r.nGrid)
    (hstep : refineStep spline smp r = some r') :
    r'.etaArray.length = r'.nGrid
      ∧ gridCost (r'.etaArray.drop r'.iG) + 1 ≤ gridCost (r.etaArray.drop r.iG) := by
  unfold refineStep at hstep
  by_cases hcond : r.iG + 1 < r.nGrid
  · rw [if_pos hcond] at hstep
    have h0 : r.iG < r.etaArray.length := by omega
    have h1 : r.iG + 1 < r.etaArray.length := by omega
    have hdrop : r.etaArray.drop r.iG
        = r.etaArray[r.iG] :: r.etaArray[r.iG + 1] :: r.etaArray.drop (r.iG + 1 + 1) := by
      rw [List.drop_eq_getElem_cons h0, List.drop_eq_getElem_cons h1]
    have hdrop1 : r.etaArray.drop (r.iG + 1)
        = r.etaArray[r.iG + 1] :: r.etaArray.drop (r.iG + 1 + 1) :=
      List.drop_eq_getElem_cons h1
    have hcont : gridCost (r.etaArray.drop (r.iG + 1)) + 1 ≤ gridCost (r.etaArray.drop r.iG) := by
      rw [hdrop, hdrop1, gridCost_cons_cons]
      have := pairCost_pos r.etaArray[r.iG] r.etaArray[r.iG + 1]
      omega
    by_cases hp : r.pArray.getD r.iG 0 = r.pArray.getD (r.iG + 1) 0
    · rw [if_pos hp] at hstep
      cases Option.some.inj hstep
      exact ⟨hlen, hcont⟩
    · rw [if_neg hp] at hstep
      by_cases he : r.etaArray.getD r.iG 0 = r.etaArray.getD (r.iG + 1) 0
      · rw [if_pos he] at hstep
        cases Option.some.inj hstep
        exact ⟨hlen, hcont⟩
      · rw [if_neg he] at hstep
        have hx0 : (fillGrid r.nGrid r.etaArray).getD r.iG 0 = r.etaArray[r.iG] := by
          simp [fillGrid, List.getD_eq_getElem?_getD, h0, show r.iG < r.nGrid by omega,
            List.getElem?_eq_getElem]
        have hx1 : (fillGrid r.nGrid r.etaArray).getD (r.iG + 1) 0 = r.etaArray[r.iG + 1] := by
          simp [fillGrid, List.getD_eq_getElem?_getD, h1, hcond, List.getElem?_eq_getElem]
        dsimp only at hstep
        rw [hx0, hx1] at hstep
        have hacc : ∀ (y : ℚ) (c : Nat) (st : σ),
            some ({ r with pArray := r.pArray.insertIdx (r.iG + 1) y,
                           etaArray := r.etaArray.insertIdx (r.iG + 1)
                             ((r.etaArray[r.iG] + r.etaArray[r.iG + 1]) * (1 / 2)),
                           iG := r.iG + 2, nGrid := r.nGrid + 1, ctr_iter := c, st := st } :
                RefineState σ) = some r' →
            r'.etaArray.length = r'.nGrid
              ∧ gridCost (r'.etaArray.drop r'.iG) + 1 ≤ gridCost (r.etaArray.drop r.iG) := by
          intro y c st h
          cases Option.some.inj h
          refine ⟨by simp [List.length_insertIdx _ _ (le_of_lt h1), hlen], ?_⟩
          show gridCost ((r.etaArray.insertIdx (r.iG + 1) _).drop (r.iG + 1 + 1)) + 1 ≤ _
          rw [drop_insertIdx_succ _ _ _ (le_of_lt h1)]
          exact hcont
        have hrejct : ∀ (y : ℚ) (c : Nat) (st : σ),
            ¬ |r.etaArray[r.iG + 1] - r.etaArray[r.iG]| < 1 / 1000 →
            some ({ r with pArray := r.pArray.insertIdx (r.iG + 1) y,
                           etaArray := r.etaArray.insertIdx (r.iG + 1)
                             ((r.etaArray[r.iG] + r.etaArray[r.iG + 1]) * (1 / 2)),
                           iG := r.iG, nGrid := r.nGrid + 1, ctr_iter := c, st := st } :
                RefineState σ) = some r' →
            r'.etaArray.length = r'.nGrid
              ∧ gridCost (r'.etaArray.drop r'.iG) + 1 ≤ gridCost (r.etaArray.drop r.iG) := by
          intro y c st hw h
          cases Option.some.inj h
          refine ⟨by simp [List.length_insertIdx _ _ (le_of_lt h1), hlen], ?_⟩
          show gridCost ((r.etaArray.insertIdx (r.iG + 1) _).drop r.iG) + 1 ≤ _
          rw [drop_insertIdx_pred _ _ _ h0, hdrop, hdrop1, gridCost_cons_cons, gridCost_cons_cons,
            gridCost_cons_cons]
          have := pairCost_midpoint _ _ hw
          omega
        split at hstep <;> split at hstep
        · exact hacc _ _ _ hstep
        · rename_i hrej
          exact hrejct _ _ _ (fun h => hrej (Or.inr h)) hstep
        · exact hacc _ _ _ hstep
        · rename_i hrej
          exact hrejct _ _ _ (fun h => hrej (Or.inr h)) hstep
  · rw [if_neg hcond] at hstep
    exact absurd hstep (by simp)

theorem refineLoop_succ_of_some {σ : Type} (spline : List ℚ → List ℚ → ℚ → ℚ → ℚ → ℚ)
    (smp : σ → ℚ → σ × ℚ) : ∀ (fuel : Nat) (r r' : RefineState σ),
    refineLoop spline smp fuel r = some r' → refineLoop spline smp (fuel + 1) r = some r'
  | 0, _, _, h => by simp [refineLoop] at h
  | fuel + 1, r, r', h => by
    rw [refineLoop] at h ⊢
    cases hs : refineStep spline smp r with
    | none => rw [hs] at h; exact h
    | some r1 =>
      rw [hs] at h
      exact refineLoop_succ_of_some spline smp fuel r1 r' h

theorem refineLoop_mono {σ : Type} (spline : List ℚ → List ℚ → ℚ → ℚ → ℚ → ℚ)
    (smp : σ → ℚ → σ × ℚ) (r r' : RefineState σ) (f g : Nat) (hfg : f ≤ g)
    (h : refineLoop spline smp f r = some r') : refineLoop spline smp g r = some r' := by
  induction hfg with
  | refl => exact h
  | step _ ih => exact refineLoop_succ_of_some spline smp _ r r' ih

/-- With more passes allowed than the cost of the pairs still to be examined,
the refinement loop exits. -/
theorem refineLoop_exits {σ : Type} (spline : List ℚ → List ℚ → ℚ → ℚ → ℚ → ℚ)
    (smp : σ → ℚ → σ × ℚ) : ∀ (n : Nat) (r : RefineState σ), r.etaArray.length = r.nGrid →
    gridCost (r.etaArray.drop r.iG) ≤ n → ∀ fuel, n < fuel →
    ∃ r', refineLoop spline smp fuel r = some r' ∧ refineStep spline smp r' = none
      ∧ r'.etaArray.length = r'.nGrid := by
  intro n
  induction n with
  | zero =>
    intro r hlen hcost fuel hfuel
    obtain ⟨f, rfl⟩ : ∃ f, fuel = f + 1 := ⟨fuel - 1, by omega⟩
    cases hs : refineStep spline smp r with
    | none => exact ⟨r, by rw [refineLoop, hs], hs, hlen⟩
    | some r1 =>
      have := (refineStep_decreases spline smp r r1 hlen hs).2
      omega
  | succ k ih =>
    intro r hlen hcost fuel hfuel
    obtain ⟨f, rfl⟩ : ∃ f, fuel = f + 1 := ⟨fuel - 1, by omega⟩
    cases hs : refineStep spline smp r with
    | none => exact ⟨r, by rw [refineLoop, hs], hs, hlen⟩
    | some r1 =>
      have hd := refineStep_decreases spline smp r r1 hlen hs
      obtain ⟨r', h1, h2, h3⟩ := ih r1 hd.1 (by omega) f (by omega)
      exact ⟨r', by rw [refineLoop, hs]; exact h1, h2, h3⟩

/-- `refineBound` passes suffice. -/
theorem refineLoop_bound {σ : Type} (spline : List ℚ → List ℚ → ℚ → ℚ → ℚ → ℚ)
    (smp : σ → ℚ → σ × ℚ) (r : RefineState σ) (hlen : r.etaArray.length = r.nGrid) :
    refineLoop spline smp (refineBound r) r = some (refine spline smp r)
      ∧ refineStep spline smp (refine spline smp r) = none
      ∧ (refine spline smp r).etaArray.length = (refine spline smp r).nGrid := by
  obtain ⟨r', h1, h2, h3⟩ := refineLoop_exits spline smp _ r hlen (le_refl _) (refineBound r)
    (by unfold refineBound; omega)
  have e : refine spline smp r = r' := by
    unfold refine
    rw [h1]
    rfl
  rw [e]
  exact ⟨h1, h2, h3⟩

/-- Claim C9: from every initial grid of 11 abscissae (increasing or not), for
every generator response `smp` and every spline `spline`, the refinement loop
exits: it has exited after `refineBound` passes, a number computed from the
widths of the initial intervals alone, and allowing more passes gives the same
final grid. -/
theorem refinement_terminates {σ : Type} (spline : List ℚ → List ℚ → ℚ → ℚ → ℚ → ℚ)
    (smp : σ → ℚ → σ × ℚ) (st : σ) (eta p : List ℚ) (hlen : eta.length = 11) :
    ∃ r', refineStep spline smp r' = none
      ∧ ∀ fuel, refineBound (⟨st, 11, eta, p, 0, 0⟩ : RefineState σ) ≤ fuel →
          refineLoop spline smp fuel ⟨st, 11, eta, p, 0, 0⟩ = some r' := by
  have h := refineLoop_bound spline smp (⟨st, 11, eta, p, 0, 0⟩ : RefineState σ) hlen
  exact ⟨_, h.2.1, fun fuel hf => refineLoop_mono spline smp _ _ _ _ hf h.1⟩

/-- Claim C9 at the scan from -10 to 10 with samples that have a zero inside. -/
theorem refinement_terminates_witness :
    Example.etaScan.length = 11
    ∧ ∃ r', refineStep Example.ext.spline (fun (u : Unit) (_ : ℚ) => (u, (0 : ℚ))) r' = none
      ∧ ∀ fuel, refineBound (⟨(), 11, Example.etaScan, Example.pInteriorZero, 0, 0⟩ : RefineState Unit)
            ≤ fuel →
          refineLoop Example.ext.spline (fun (u : Unit) (_ : ℚ) => (u, (0 : ℚ))) fuel
            ⟨(), 11, Example.etaScan, Example.pInteriorZero, 0, 0⟩ = some r' :=
  ⟨rfl, refinement_terminates Example.ext.spline (fun (u : Unit) (_ : ℚ) => (u, (0 : ℚ))) ()
    Example.etaScan Example.pInteriorZero rfl⟩

/-! ## The integration with a constant generator -/

/-- When all samples are equal, a pass of the refinement loop only advances. -/
theorem refineStep_of_equal {σ : Type} (spline : List ℚ → List ℚ → ℚ → ℚ → ℚ → ℚ)
    (smp : σ → ℚ → σ × ℚ) (r : RefineState σ)
    (heq : ∀ i, r.pArray.getD i 0 = r.pArray.getD (i + 1) 0 ∨ r.nGrid ≤ i + 1) :
    refineStep spline smp r
      = if r.iG + 1 < r.nGrid then some { r with iG := r.iG + 1 } else none := by
  unfold refineStep
  split
  · rename_i h
    rcases heq r.iG with h1 | h1
    · rw [if_pos h1]
    · omega
  · rfl

/-- When all samples are equal, the refinement loop changes nothing but `iG`. -/
theorem refineLoop_of_equal {σ : Type} (spline : List ℚ → List ℚ → ℚ → ℚ → ℚ → ℚ)
    (smp : σ → ℚ → σ × ℚ) : ∀ (fuel : Nat) (r r' : RefineState σ),
    (∀ i, r.pArray.getD i 0 = r.pArray.getD (i + 1) 0 ∨ r.nGrid ≤ i + 1) →
    refineLoop spline smp fuel r = some r' →
    r' = { r with iG := r'.iG }
  | 0, _, _, _, h => by simp [refineLoop] at h
  | fuel + 1, r, r', heq, h => by
    rw [refineLoop, refineStep_of_equal spline smp r heq] at h
    by_cases hc : r.iG + 1 < r.nGrid
    · rw [if_pos hc] at h
      exact refineLoop_of_equal spline smp fuel { r with iG := r.iG + 1 } r' heq h
    · rw [if_neg hc] at h
      cases Option.some.inj h
      rfl

theorem refine_of_equal {σ : Type} (spline : List ℚ → List ℚ → ℚ → ℚ → ℚ → ℚ)
    (smp : σ → ℚ → σ × ℚ) (r : RefineState σ) (hlen : r.etaArray.length = r.nGrid)
    (heq : ∀ i, r.pArray.getD i 0 = r.pArray.getD (i + 1) 0 ∨ r.nGrid ≤ i + 1) :
    refine spline smp r = { r with iG := (refine spline smp r).iG } :=
  refineLoop_of_equal spline smp _ r _ heq (refineLoop_bound spline smp r hlen).1

theorem getD_replicate (n : Nat) (c : ℚ) (i : Nat) (h : i < n) :
    (List.replicate n c).getD i 0 = c := by
  rw [List.getD_eq_getElem _ _ (by simpa using h)]
  simp

/-- The trimming keeps the whole grid when all samples are equal. -/
theorem findGFirst_replicate (n : Nat) (c : ℚ) : findGFirst n (List.replicate n c) = 0 := by
  unfold findGFirst
  have : (List.range' 1 (n - 1)).find? (fun iG =>
      decide ((List.replicate n c).getD iG 0 > 0 ∧ (List.replicate n c).getD (iG - 1) 0 = 0)) = none := by
    rw [List.find?_eq_none]
    intro iG hmem
    have hm := List.mem_range'_1.1 hmem
    rw [getD_replicate n c iG (by omega), getD_replicate n c (iG - 1) (by omega)]
    simp only [decide_eq_true_eq, not_and]
    intro h1 h2
    rw [h2] at h1
    exact absurd h1 (lt_irrefl 0)
  rw [this]

theorem findGLast_replicate (n : Nat) (c : ℚ) : findGLast n (List.replicate n c) = n - 1 := by
  unfold findGLast
  have : (List.range (n - 1)).reverse.find? (fun iG =>
      decide ((List.replicate n c).getD iG 0 > 0 ∧ (List.replicate n c).getD (iG + 1) 0 = 0)) = none := by
    rw [List.find?_eq_none]
    intro iG hmem
    have hm := List.mem_range.1 (List.mem_reverse.1 hmem)
    rw [getD_replicate n c iG (by omega), getD_replicate n c (iG + 1) (by omega)]
    simp only [decide_eq_true_eq, not_and]
    intro h1 h2
    rw [h2] at h1
    exact absurd h1 (lt_irrefl 0)
  rw [this]

namespace Mela

variable {d : Dims}

theorem evalXS_sameInputs (ext : Externals d) (st s : Mela d) (e : XSEntry) (h : Handed d)
    (hs : SameInputs st s) : SameInputs (evalXS ext st e h).1 s := hs

theorem sampleAt_sameInputs (ext : Externals d) (ctx : FakeJetContext) (st s : Mela d) (eta : ℚ)
    (hs : SameInputs st s) : SameInputs (sampleAt ext ctx st eta).1 s := by
  unfold sampleAt
  dsimp only
  split
  · exact hs
  · exact hs

/-- The value of a sample depends on the state only through the inputs named in
`SameInputs`. -/
theorem sampleAt_snd_congr (ext : Externals d) (ctx : FakeJetContext) (st s : Mela d) (eta : ℚ)
    (hs : SameInputs st s) : (sampleAt ext ctx st eta).2 = (sampleAt ext ctx s eta).2 := by
  obtain ⟨h1, h2, h3, h4⟩ := hs
  unfold sampleAt
  simp only [setCurrentCandidate, evalXS, handedIfSelfDSpin0, h1, h2, h3, h4]
  split <;> rfl

/-- The initial scan: 11 samples at the abscissae `scanEta`, each the value of
`sampleAt` for the inputs of the state on entry. -/
theorem initialScan_spec (ext : Externals d) (ctx : FakeJetContext) (s : Mela d) :
    (initialScan ext ctx s).nGrid = 11 ∧ (initialScan ext ctx s).iG = 0
    ∧ (initialScan ext ctx s).ctr_iter = 0
    ∧ SameInputs (initialScan ext ctx s).st s
    ∧ (initialScan ext ctx s).etaArray
        = (List.range 11).map (scanEta 11 (-etaMax ext ctx.jet2massless) (etaMax ext ctx.jet2massless))
    ∧ (initialScan ext ctx s).pArray
        = (List.range 11).map (fun k => (sampleAt ext ctx s
            (scanEta 11 (-etaMax ext ctx.jet2massless) (etaMax ext ctx.jet2massless) k)).2) := by
  unfold initialScan
  dsimp only
  refine forRange_induction (fun k (r : RefineState (Mela d)) =>
      r.nGrid = 11 ∧ r.iG = 0 ∧ r.ctr_iter = 0 ∧ SameInputs r.st s
      ∧ r.etaArray = (List.range k).map
          (scanEta 11 (-etaMax ext ctx.jet2massless) (etaMax ext ctx.jet2massless))
      ∧ r.pArray = (List.range k).map (fun k => (sampleAt ext ctx s
          (scanEta 11 (-etaMax ext ctx.jet2massless) (etaMax ext ctx.jet2massless) k)).2))
    ⟨rfl, rfl, rfl, ⟨rfl, rfl, rfl, rfl⟩, rfl, rfl⟩ (fun k r _ hr => ?_)
  obtain ⟨h1, h2, h3, h4, h5, h6⟩ := hr
  refine ⟨h1, h2, h3, sampleAt_sameInputs ext ctx r.st s _ h4, ?_, ?_⟩
  · simp only [h5, List.range_succ, List.map_append, List.map_cons, List.map_nil]
  · simp only [h6, List.range_succ, List.map_append, List.map_cons, List.map_nil,
      sampleAt_snd_congr ext ctx r.st s _ h4]

/-- With samples that are all equal, the grid after the refinement is the
initial scan and the trimming retains all of it. -/
theorem refine_constant_scan (ext : Externals d) (ctx : FakeJetContext) (s : Mela d) (c : ℚ)
    (hconst : ∀ eta, (sampleAt ext ctx s eta).2 = c) :
    (refine ext.spline (sampleAt ext ctx) (initialScan ext ctx s)).nGrid = 11
    ∧ (refine ext.spline (sampleAt ext ctx) (initialScan ext ctx s)).ctr_iter = 0
    ∧ (refine ext.spline (sampleAt ext ctx) (initialScan ext ctx s)).pArray = List.replicate 11 c
    ∧ (refine ext.spline (sampleAt ext ctx) (initialScan ext ctx s)).etaArray
        = (List.range 11).map (scanEta 11 (-etaMax ext ctx.jet2massless) (etaMax ext ctx.jet2massless))
    ∧ findGFirst 11 (refine ext.spline (sampleAt ext ctx) (initialScan ext ctx s)).pArray = 0
    ∧ findGLast 11 (refine ext.spline (sampleAt ext ctx) (initialScan ext ctx s)).pArray = 10 := by
  obtain ⟨h1, _, h3, _, h5, h6⟩ := initialScan_spec ext ctx s
  have hp : (initialScan ext ctx s).pArray = List.replicate 11 c := by
    rw [h6]
    simp only [hconst]
    rfl
  have hlen : (initialScan ext ctx s).etaArray.length = (initialScan ext ctx s).nGrid := by
    rw [h5, h1]; rfl
  have heq : ∀ i, (initialScan ext ctx s).pArray.getD i 0 = (initialScan ext ctx s).pArray.getD (i + 1) 0
      ∨ (initialScan ext ctx s).nGrid ≤ i + 1 := by
    intro i
    by_cases hi : i + 1 < 11
    · left
      rw [hp, getD_replicate 11 c i (by omega), getD_replicate 11 c (i + 1) hi]
    · right
      rw [h1]; omega
  have hr := refine_of_equal ext.spline (sampleAt ext ctx) (initialScan ext ctx s) hlen heq
  have e1 : (refine ext.spline (sampleAt ext ctx) (initialScan ext ctx s)).nGrid = 11 := by
    rw [hr]; exact h1
  have e2 : (refine ext.spline (sampleAt ext ctx) (initialScan ext ctx s)).ctr_iter = 0 := by
    rw [hr]; exact h3
  have e3 : (refine ext.spline (sampleAt ext ctx) (initialScan ext ctx s)).pArray = List.replicate 11 c := by
    rw [hr]; exact hp
  have e4 : (refine ext.spline (sampleAt ext ctx) (initialScan ext ctx s)).etaArray
      = (List.range 11).map (scanEta 11 (-etaMax ext ctx.jet2massless) (etaMax ext ctx.jet2massless)) := by
    rw [hr]; exact h5
  refine ⟨e1, e2, e3, e4, ?_, ?_⟩
  · rw [e3]; exact findGFirst_replicate 11 c
  · rw [e3]; exact findGLast_replicate 11 c

/-- In the concrete instance every sample is 1: the fake jet has no momentum,
the system stays below the beam limit and the stub generator returns 1. -/
theorem example_samples_constant (st : Mela Example.dims) (hs : SameInputs st Example.melaVBF)
    (eta : ℚ) : (sampleAt Example.ext Example.ctx st eta).2 = 1 := by
  rw [sampleAt_snd_congr Example.ext Example.ctx st Example.melaVBF eta hs]
  have hthr : beamThreshold Example.melaVBF.LHCsqrts = 6500 := by
    simp [beamThreshold, Example.melaVBF, Example.mela, setProcess]
    norm_num
  have hfake : fakeJetAt Example.ext Example.ctx.jet2massless eta = nullVector := by
    simp [fakeJetAt, Pt, P, Example.ext, Example.ctx, fakeJetContext, nullVector]
  unfold sampleAt
  dsimp only
  rw [hfake]
  have hsys : |(((Example.ctx.higgs.add Example.ctx.jet1massless).add nullVector).T
      + |((Example.ctx.higgs.add Example.ctx.jet1massless).add nullVector).Z|) / 2| < 6500 := by
    simp [Example.ctx, fakeJetContext, Example.cand, TLorentzVector.add, nullVector]
    norm_num [abs_lt]
  simp only [setCurrentCandidate]
  rw [if_pos (by rw [hthr]; exact hsys)]
  rfl

end Mela

namespace Mela

variable {d : Dims}

theorem example_etaMax : etaMax Example.ext Example.ctx.jet2massless = 10 := by
  simp [etaMax, Pt, Example.ext, Example.ctx, fakeJetContext, nullVector]

theorem example_scan : (List.range 11).map (scanEta 11 (-10) 10) = Example.etaScan := by
  simp [List.range, List.range.loop, scanEta, Example.etaScan]
  norm_num

/-- The accumulation of the code on the scan from -10 to 10 with all samples
equal to 1, between the indices 0 and 10. -/
theorem integrateGrid_example : integrateGrid Example.etaScan Example.pConstant 0 10 = 9 / 10 := by
  simp [integrateGrid, Example.etaScan, Example.pConstant, List.range']
  norm_num

theorem specTrapezoid_example : specTrapezoid Example.etaScan Example.pConstant 0 10 = 1 := by
  simp [specTrapezoid, Example.etaScan, Example.pConstant, List.range']
  norm_num

/-- The final grid of the concrete instance, from any state with its inputs. -/
theorem example_final_grid (st : Mela Example.dims) (hs : SameInputs st Example.melaVBF) :
    (refine Example.ext.spline (sampleAt Example.ext Example.ctx)
        (initialScan Example.ext Example.ctx st)).nGrid = 11
    ∧ (refine Example.ext.spline (sampleAt Example.ext Example.ctx)
        (initialScan Example.ext Example.ctx st)).pArray = Example.pConstant
    ∧ (refine Example.ext.spline (sampleAt Example.ext Example.ctx)
        (initialScan Example.ext Example.ctx st)).etaArray = Example.etaScan := by
  obtain ⟨h1, _, h3, h4, _, _⟩ := refine_constant_scan Example.ext Example.ctx st 1
    (example_samples_constant st hs)
  refine ⟨h1, h3, ?_⟩
  rw [h4, example_etaMax, example_scan]

theorem example_auxiliaryIntegral (st : Mela Example.dims) (hs : SameInputs st Example.melaVBF) :
    auxiliaryIntegral (refine Example.ext.spline (sampleAt Example.ext Example.ctx)
        (initialScan Example.ext Example.ctx st)) = 9 / 10 := by
  obtain ⟨h1, h2, h3⟩ := example_final_grid st hs
  unfold auxiliaryIntegral
  dsimp only
  rw [h1, h2, h3]
  have e1 : findGFirst 11 Example.pConstant = 0 := findGFirst_replicate 11 1
  have e2 : findGLast 11 Example.pConstant = 10 := findGLast_replicate 11 1
  rw [e1, e2, integrateGrid_example]

/-- The two results of the missing-jet branch: the primary probability, and the
integral of the final grid divided by it unless it is 0. -/
theorem missingJetIntegration_results (ext : Externals d) (s : Mela d) (cand : MELACandidate)
    (i : Nat) (jet1 jet1massless jet2massless : TLorentzVector) :
    (missingJetIntegration ext s cand i jet1 jet1massless jet2massless).2
        = (primaryEval ext s cand i jet1massless jet2massless).2
    ∧ (missingJetIntegration ext s cand i jet1 jet1massless jet2massless).1.auxiliaryProb
        = if |(primaryEval ext s cand i jet1massless jet2massless).2| > 0 then
            auxiliaryIntegral (finalGrid ext s cand i jet1massless jet2massless)
              / (primaryEval ext s cand i jet1massless jet2massless).2
          else auxiliaryIntegral (finalGrid ext s cand i jet1massless jet2massless) := by
  have h2 : (missingJetIntegration ext s cand i jet1 jet1massless jet2massless).2
      = (primaryEval ext s cand i jet1massless jet2massless).2 := by
    unfold missingJetIntegration
    dsimp only
  refine ⟨h2, ?_⟩
  unfold missingJetIntegration normaliseAux
  dsimp only
  split
  · simp only [leaveFakeJet, setCurrentCandidate, getCurrentCandidate]
  · simp only [leaveFakeJet, setCurrentCandidate, getCurrentCandidate]

/-- Claim C6 (the code at the failing input): for a candidate with one selected
jet and a generator that returns 1 at every sample, `computeProdP` leaves 9/10
in the auxiliary probability, the trapezoidal sum without its last pair, where
the span-normalised trapezoidal sum over all adjacent pairs of the retained
range is 1. -/
theorem trapezoid_omits_last_pair :
    integrateGrid Example.etaScan Example.pConstant 0 10 = 9 / 10
    ∧ specTrapezoid Example.etaScan Example.pConstant 0 10 = 1
    ∧ (computeProdP Example.ext Example.melaVBF 0 false).2 = 1
    ∧ (computeProdP Example.ext Example.melaVBF 0 false).1.getPAux = 9 / 10 := by
  have hbody : computeProdP Example.ext Example.melaVBF 0 false
      = ((missingJetIntegration Example.ext Example.melaVBF.beginEvaluation Example.cand 0
            ⟨30, 0, 40, 50⟩ ⟨30, 0, 40, 50⟩ nullVector).1.endEvaluation,
         (missingJetIntegration Example.ext Example.melaVBF.beginEvaluation Example.cand 0
            ⟨30, 0, 40, 50⟩ ⟨30, 0, 40, 50⟩ nullVector).2) := by
    have hj : jetSearch Example.melaVBF.beginEvaluation Example.cand = (1, 0, ⟨30, 0, 40, 50⟩) := by
      decide
    have hf : isJet2Fake Example.melaVBF.beginEvaluation Example.cand = true := by decide
    have hr : rescaleFakeJet Example.ext Example.melaVBF.beginEvaluation.LHCsqrts Example.cand.p4
        ⟨30, 0, 40, 50⟩ nullVector = nullVector := by
      unfold rescaleFakeJet
      dsimp only
      rw [if_neg]
      simp [beamThreshold, Example.melaVBF, Example.mela, setProcess, beginEvaluation,
        reset_PAux, Example.cand, TLorentzVector.add, nullVector]
      norm_num
    rw [computeProdP, if_neg (by decide), if_neg (by decide)]
    dsimp only
    rw [show Example.melaVBF.beginEvaluation.melaCand = some Example.cand from rfl]
    show (Mela.endEvaluation (computeProdP_body Example.ext Example.melaVBF.beginEvaluation Example.cand
      0 false).1, (computeProdP_body Example.ext Example.melaVBF.beginEvaluation Example.cand
      0 false).2) = _
    rw [computeProdP_body, if_pos hf, applyConstant, if_neg (by decide), computeProdP_fake]
    rw [hj]
    rw [show Example.ext.scaleMomentumToEnergy ⟨30, 0, 40, 50⟩ = ⟨30, 0, 40, 50⟩ from rfl,
      show Example.ext.computeFakeJet ⟨30, 0, 40, 50⟩ Example.cand.p4 = nullVector from rfl, hr]
  have hres := missingJetIntegration_results Example.ext Example.melaVBF.beginEvaluation Example.cand 0
    ⟨30, 0, 40, 50⟩ ⟨30, 0, 40, 50⟩ nullVector
  have hprob : (missingJetIntegration Example.ext Example.melaVBF.beginEvaluation Example.cand 0
      ⟨30, 0, 40, 50⟩ ⟨30, 0, 40, 50⟩ nullVector).2 = 1 := by
    rw [hres.1]
    rfl
  refine ⟨integrateGrid_example, specTrapezoid_example, ?_, ?_⟩
  · rw [hbody]
    exact hprob
  · rw [hbody]
    show (missingJetIntegration Example.ext Example.melaVBF.beginEvaluation Example.cand 0
            ⟨30, 0, 40, 50⟩ ⟨30, 0, 40, 50⟩ nullVector).1.auxiliaryProb = 9 / 10
    rw [hres.2, ← hres.1, hprob, if_pos (by norm_num)]
    have hgrid : auxiliaryIntegral (finalGrid Example.ext Example.melaVBF.beginEvaluation Example.cand 0
        ⟨30, 0, 40, 50⟩ nullVector) = 9 / 10 :=
      example_auxiliaryIntegral _ ⟨rfl, rfl, rfl, rfl⟩
    rw [hgrid]
    norm_num

end Mela

/-! ## Trimming and the beam limit -/

theorem refineStep_first_accept : refineStep Example.splineHalf Example.sampleZero
    ⟨(), 11, Example.etaScan, Example.pInteriorZero, 0, 0⟩ = some Example.refinedOnce := by
  simp [refineStep, fillGrid, Example.etaScan, Example.pInteriorZero, Example.splineHalf,
    Example.refinedOnce, List.range, List.range.loop, List.insertIdx, List.modifyTailIdx]
  norm_num

theorem refineStep_second_accept : refineStep Example.splineHalf Example.sampleZero
    Example.refinedOnce = some ⟨(), 13, Example.etaRefined, Example.pRefined, 4, 2⟩ := by
  simp [refineStep, fillGrid, Example.etaRefined, Example.pRefined, Example.splineHalf,
    Example.refinedOnce, List.range, List.range.loop, List.insertIdx, List.modifyTailIdx]
  norm_num

theorem refineStep_advance (k : Nat) (h1 : 4 ≤ k) (h2 : k < 12) :
    refineStep Example.splineHalf Example.sampleZero
        ⟨(), 13, Example.etaRefined, Example.pRefined, k, 2⟩
      = some ⟨(), 13, Example.etaRefined, Example.pRefined, k + 1, 2⟩ := by
  interval_cases k <;> simp [refineStep, Example.pRefined]

theorem refineStep_exit : refineStep Example.splineHalf Example.sampleZero
    ⟨(), 13, Example.etaRefined, Example.pRefined, 12, 2⟩ = none := by
  simp [refineStep]

/-- The refinement of `etaScan` and `pInteriorZero` with `splineHalf` exits
after eleven passes with the grid `etaRefined`, `pRefined`. -/
theorem refineLoop_example : refineLoop Example.splineHalf Example.sampleZero 11
    ⟨(), 11, Example.etaScan, Example.pInteriorZero, 0, 0⟩
    = some ⟨(), 13, Example.etaRefined, Example.pRefined, 12, 2⟩ := by
  rw [refineLoop, refineStep_first_accept]
  dsimp only
  rw [refineLoop, refineStep_second_accept]
  dsimp only
  rw [refineLoop, refineStep_advance 4 (by omega) (by omega)]
  dsimp only
  rw [refineLoop, refineStep_advance 5 (by omega) (by omega)]
  dsimp only
  rw [refineLoop, refineStep_advance 6 (by omega) (by omega)]
  dsimp only
  rw [refineLoop, refineStep_advance 7 (by omega) (by omega)]
  dsimp only
  rw [refineLoop, refineStep_advance 8 (by omega) (by omega)]
  dsimp only
  rw [refineLoop, refineStep_advance 9 (by omega) (by omega)]
  dsimp only
  rw [refineLoop, refineStep_advance 10 (by omega) (by omega)]
  dsimp only
  rw [refineLoop, refineStep_advance 11 (by omega) (by omega)]
  dsimp only
  rw [refineLoop, refineStep_exit]

theorem refine_example : refine Example.splineHalf Example.sampleZero
    ⟨(), 11, Example.etaScan, Example.pInteriorZero, 0, 0⟩
    = ⟨(), 13, Example.etaRefined, Example.pRefined, 12, 2⟩ := by
  have hb := (refineLoop_bound Example.splineHalf Example.sampleZero
    (⟨(), 11, Example.etaScan, Example.pInteriorZero, 0, 0⟩ : RefineState Unit) rfl).1
  have h1 := refineLoop_mono _ _ _ _ _ _ (le_max_left 11 (refineBound
    (⟨(), 11, Example.etaScan, Example.pInteriorZero, 0, 0⟩ : RefineState Unit))) refineLoop_example
  have h2 := refineLoop_mono _ _ _ _ _ _ (le_max_right 11 (refineBound
    (⟨(), 11, Example.etaScan, Example.pInteriorZero, 0, 0⟩ : RefineState Unit))) hb
  rw [h1] at h2
  exact (Option.some.inj h2).symm

theorem pRefined_nonneg : ∀ x ∈ Example.pRefined, 0 ≤ x := by
  intro x hx
  simp only [Example.pRefined, List.mem_cons, List.mem_singleton, List.not_mem_nil,
    or_false] at hx
  rcases hx with h | h | h | h | h | h | h | h | h | h | h | h | h <;> rw [h] <;> norm_num

theorem findGFirst_pRefined : findGFirst 13 Example.pRefined = 2 := by
  simp [findGFirst, Example.pRefined, List.range', List.find?]

theorem findGLast_pRefined : findGLast 13 Example.pRefined = 2 := by
  simp [findGLast, Example.pRefined, List.range, List.range.loop, List.find?]

/-- Claim C8 (the code at the failing input): for the non-negative samples
`1, 0, 1, 1, ...` the trimming gives `iGFirst = 1` and `iGLast = 1`; the sample
at index 0, below `iGFirst`, and the sample at index 2, above `iGLast`, are 1,
not 0.  The same happens on a grid that the refinement produces: from the
scan `etaScan` with these samples and a spline value of 1/2 the refinement
exits with the non-negative samples `pRefined`, for which the trimming gives
`iGFirst = iGLast = 2`, with the samples at indices 0 and 4 equal to 1, and
the integration over that range gives 0. -/
theorem trim_excludes_nonzero_samples :
    (∀ x ∈ Example.pInteriorZero, 0 ≤ x)
    ∧ findGFirst 11 Example.pInteriorZero = 1
    ∧ findGLast 11 Example.pInteriorZero = 1
    ∧ Example.pInteriorZero.getD 0 0 = 1
    ∧ Example.pInteriorZero.getD 2 0 = 1
    ∧ (refine Example.splineHalf Example.sampleZero
        ⟨(), 11, Example.etaScan, Example.pInteriorZero, 0, 0⟩).pArray = Example.pRefined
    ∧ (refine Example.splineHalf Example.sampleZero
        ⟨(), 11, Example.etaScan, Example.pInteriorZero, 0, 0⟩).nGrid = 13
    ∧ (∀ x ∈ Example.pRefined, 0 ≤ x)
    ∧ findGFirst 13 Example.pRefined = 2
    ∧ findGLast 13 Example.pRefined = 2
    ∧ Example.pRefined.getD 0 0 = 1
    ∧ Example.pRefined.getD 4 0 = 1
    ∧ integrateGrid Example.etaRefined Example.pRefined 2 2 = 0 := by
  refine ⟨?_, ?_, ?_, rfl, rfl, ?_, ?_, pRefined_nonneg, findGFirst_pRefined, findGLast_pRefined,
    rfl, rfl, ?_⟩
  · intro x hx
    simp only [Example.pInteriorZero, List.mem_cons, List.mem_singleton, List.not_mem_nil,
      or_false] at hx
    rcases hx with h | h | h | h | h | h | h | h | h | h | h <;> rw [h] <;> norm_num
  · decide
  · decide
  · rw [refine_example]
  · rw [refine_example]
  · simp [integrateGrid, List.range']

namespace Mela

/-- Claim C10 (the code at the failing input): at 8 TeV the beam limit is 4000;
for a system with total `pz = 5000` the adjustment multiplies the `pz` of the
companion by `pz / maxpz2 = 2000 / 1000 = 2`, so the companion gets `pz = 4000`
and the total becomes 7000, further above the limit than before. -/
theorem rescale_exceeds_beam_limit :
    beamThreshold 8 = 4000
    ∧ ((Example.higgsForward.add Example.jet1Forward).add Example.jet2Forward).Z = 5000
    ∧ (rescaleFakeJet Example.ext 8 Example.higgsForward Example.jet1Forward Example.jet2Forward).Z
        = 4000
    ∧ |((Example.higgsForward.add Example.jet1Forward).add
          (rescaleFakeJet Example.ext 8 Example.higgsForward Example.jet1Forward
            Example.jet2Forward)).Z| = 7000 := by
  have hz : (rescaleFakeJet Example.ext 8 Example.higgsForward Example.jet1Forward
      Example.jet2Forward).Z = 4000 := by
    unfold rescaleFakeJet
    dsimp only
    rw [if_pos, if_pos]
    · simp [TLorentzVector.SetXYZT, Example.jet2Forward, Example.higgsForward, Example.jet1Forward,
        beamThreshold]
      norm_num
    · simp [Example.jet2Forward, Example.higgsForward, Example.jet1Forward, beamThreshold]
      norm_num
    · simp [Example.jet2Forward, Example.higgsForward, Example.jet1Forward, beamThreshold,
        TLorentzVector.add]
      norm_num
  refine ⟨by norm_num [beamThreshold], ?_, hz, ?_⟩
  · simp [Example.jet2Forward, Example.higgsForward, Example.jet1Forward, TLorentzVector.add]
    norm_num
  · have : ((Example.higgsForward.add Example.jet1Forward).add
        (rescaleFakeJet Example.ext 8 Example.higgsForward Example.jet1Forward
          Example.jet2Forward)).Z = 7000 := by
      show (Example.higgsForward.Z + Example.jet1Forward.Z)
        + (rescaleFakeJet Example.ext 8 Example.higgsForward Example.jet1Forward
          Example.jet2Forward).Z = 7000
      rw [hz]
      norm_num [Example.higgsForward, Example.jet1Forward]
    rw [this]
    norm_num

end Mela

/-! ## Repeated evaluation -/

/-- A loop commutes with a map that commutes with its body. -/
theorem forRange_map {σ : Type} (f : σ → σ) {n : Nat} {body : Nat → σ → σ}
    (h : ∀ i t, body i (f t) = f (body i t)) (s : σ) :
    forRange n body (f s) = f (forRange n body s) := by
  induction n with
  | zero => simp [forRange_zero]
  | succ k ih => rw [forRange_succ, forRange_succ, ih, h]

/-- Peeling the first pass of a loop. -/
theorem forRange_succ_left {σ : Type} (n : Nat) (body : Nat → σ → σ) (s : σ) :
    forRange (n + 1) body s = forRange n (fun i => body (i + 1)) (body 0 s) := by
  induction n generalizing s with
  | zero => simp [forRange_succ, forRange_zero]
  | succ k ih => rw [forRange_succ, ih, forRange_succ]

/-- Two runs of a loop with at least one pass agree when their first passes agree. -/
theorem forRange_congr_first {σ : Type} (n : Nat) (body : Nat → σ → σ) (s t : σ)
    (h : body 0 s = body 0 t) : forRange (n + 1) body s = forRange (n + 1) body t := by
  rw [forRange_succ_left, forRange_succ_left, h]

namespace Mela

variable {d : Dims}

theorem rawConstant_withMEConst (ext : Externals d) (k : ℚ) (y : Mela d) :
    rawConstant ext (withMEConst k y) = rawConstant ext y := rfl

theorem computeConstant_withMEConst (ext : Externals d) (k : ℚ) (y : Mela d) (p : ℚ) :
    computeConstant ext (withMEConst k y) p = computeConstant ext y p := rfl

theorem computeConstant_fst (ext : Externals d) (y : Mela d) (p : ℚ) :
    (computeConstant ext y p).1 = withMEConst (storedConstant (rawConstant ext y)) y := rfl

theorem reenter_withMEConst (m : Option MELACandidate) (k : ℚ) (y : Mela d) :
    reenter m (withMEConst k y) = withMEConst k (reenter m y) := rfl

/-- A state is determined by its core and the four components left out of it. -/
theorem eq_of_core (y b : Mela d) (h : core y = core b) :
    y = { b with auxiliaryProb := y.auxiliaryProb, melaCand := y.melaCand,
                 ZZME := { b.ZZME with currentCand := y.ZZME.currentCand,
                                       record := { b.ZZME.record with
                                         weights := y.ZZME.record.weights } } } := by
  obtain ⟨y1, y2, y3, y4, y5, y6, y7, ⟨z1, z2, ⟨w1, w2⟩⟩, y9, y10, y11⟩ := y
  obtain ⟨b1, b2, b3, b4, b5, b6, b7, ⟨c1, c2, ⟨v1, v2⟩⟩, b9, b10, b11⟩ := b
  simp only [core, Mela.mk.injEq, ZZMEState.mk.injEq, MelaIORecord.mk.injEq] at h
  obtain ⟨h1, h2, h3, h4, -, -, h7, ⟨h8, -, -, h9⟩, h10, h11, h12⟩ := h
  subst h1 h2 h3 h4 h7 h8 h9 h10 h11 h12
  rfl

/-- Re-entering from a state with the core of `b`, the current candidate of `b`
and `auxiliaryProb = 1` in `b`: the state is `b` up to the weights. -/
theorem reenter_of_core (y b : Mela d) (h : core y = core b)
    (hc : y.ZZME.currentCand = b.ZZME.currentCand) (ha : b.auxiliaryProb = 1) :
    reenter b.melaCand y = withWeights y.ZZME.record.weights b := by
  rw [eq_of_core y b h]
  simp only [reenter, withWeights, hc, ← ha]

/-- The statement `if (useConstant) computeConstant (prob)` after a body `R`
that passes the stored constant through and that reproduces its result when
re-entered from the state it left. -/
theorem applyConstant_idem (ext : Externals d) (useConstant : Bool) (R : Mela d → Mela d × ℚ)
    (b : Mela d) (m : Option MELACandidate)
    (hcomm : ∀ k x, x.melaCand = m → R (withMEConst k x) = (withMEConst k (R x).1, (R x).2))
    (hidem : R (reenter m (R b).1) = R b) :
    applyConstant (computeConstant ext) useConstant
        (R (reenter m (applyConstant (computeConstant ext) useConstant (R b)).1))
      = applyConstant (computeConstant ext) useConstant (R b) := by
  cases useConstant
  · simp only [applyConstant, Bool.false_eq_true, if_false]
    rw [hidem]
  · simp only [applyConstant, if_true]
    rw [computeConstant_fst, reenter_withMEConst, hcomm _ _ rfl, hidem, computeConstant_withMEConst]

theorem applyConstant_coupl (ext : Externals d) (useConstant : Bool) (r : Mela d × ℚ) :
    (applyConstant (computeConstant ext) useConstant r).1.coupl = r.1.coupl := by
  cases useConstant <;> rfl

theorem applyConstant_core (ext : Externals d) (useConstant : Bool) (r : Mela d × ℚ) :
    core (applyConstant (computeConstant ext) useConstant r).1
      = withMEConst (applyConstant (computeConstant ext) useConstant r).1.ZZME.record.MEConst
          (core r.1) := by
  cases useConstant <;> rfl

/-- Leaving an entry point, writing the tables it had before the cleanup and
entering the next one: only `auxiliaryProb` and `melaCand` are written. -/
theorem beginEvaluation_endEvaluation (g : Mela d) (c : SelfDCouplings d) (h : g.coupl = c) :
    (withCoupl c g.endEvaluation).beginEvaluation = reenter g.ZZME.currentCand g := by
  obtain ⟨g1, g2, g3, g4, g5, g6, g7, g8, g9, g10, g11⟩ := g
  simp only at h
  subst h
  simp only [withCoupl, endEvaluation, beginEvaluation, reset_SelfDCouplings, reset_CandRef,
    reset_PAux, getCurrentCandidate, reenter]

theorem withCoupl_self (c : SelfDCouplings d) (y : Mela d) (h : y.coupl = c) :
    withCoupl c y = y := by
  obtain ⟨y1, y2, y3, y4, y5, y6, y7, y8, y9, y10, y11⟩ := y
  simp only at h
  subst h
  rfl

/-- An entry point of the form `begin; G; cleanup` reproduces the result of its
body when called again from the state it left with the tables written again,
if its body leaves the tables and the current candidate as they were and
reproduces its result when re-entered. -/
theorem entry_idem (G : Mela d → Mela d × ℚ) (s : Mela d)
    (hc : (G s.beginEvaluation).1.coupl = s.coupl)
    (hcc : (G s.beginEvaluation).1.ZZME.currentCand = s.ZZME.currentCand)
    (hi : G (reenter s.ZZME.currentCand (G s.beginEvaluation).1) = G s.beginEvaluation) :
    G (withCoupl s.coupl (G s.beginEvaluation).1.endEvaluation).beginEvaluation
      = G s.beginEvaluation := by
  rw [beginEvaluation_endEvaluation _ _ hc, hcc, hi]

/-! ### Evaluations by the generator -/

theorem evalXS_withMEConst (ext : Externals d) (k : ℚ) (x : Mela d) (e : XSEntry) (h : Handed d) :
    evalXS ext (withMEConst k x) e h = (withMEConst k (evalXS ext x e h).1, (evalXS ext x e h).2) :=
  rfl

theorem evalXS_withWeights (ext : Externals d) (w : List ℚ) (x : Mela d) (e : XSEntry)
    (h : Handed d) : evalXS ext (withWeights w x) e h = evalXS ext x e h := rfl

theorem core_evalXS (ext : Externals d) (x : Mela d) (e : XSEntry) (h : Handed d) :
    core (evalXS ext x e h).1 = core x := rfl

theorem computeDecayAngles_snd_congr (ext : Externals d) (x y : Mela d) (c : MELACandidate)
    (hx : x.melaCand = some c) (hy : y.melaCand = some c) :
    (computeDecayAngles ext x).2 = (computeDecayAngles ext y).2 := by
  unfold computeDecayAngles
  simp [hx, hy]

/-! ### The grid average -/

theorem gridAverage_withMEConst (ext : Externals d) (k : ℚ) (x : Mela d) (cand : MELACandidate)
    (o : DecayOutputs) :
    gridAverage ext (withMEConst k x) cand o
      = (withMEConst k (gridAverage ext x cand o).1, (gridAverage ext x cand o).2) := by
  unfold gridAverage
  dsimp only
  have key := @forRange_map (Mela d × ℚ) (fun acc : Mela d × ℚ => (withMEConst k acc.1, acc.2))
    (5 + 1)
    (fun i_hs (acc : Mela d × ℚ) =>
      forRange (5 + 1) (fun i_phi1 (acc : Mela d × ℚ) =>
        let phi1_val := (0 : ℚ) + i_phi1 * ((ext.Pi - 0) / ((5 : Nat) : ℚ))
        let cand_tmp := gridCandidate ext cand o ((0 : ℚ) + i_hs * ((1 - 0) / ((5 : Nat) : ℚ))) phi1_val
        let s := acc.1.setCurrentCandidate cand_tmp
        let r := evalXS ext s XSEntry.computeXS Handed.none
        let s := r.1.setCurrentCandidate r.1.melaCand
        (s, acc.2 + r.2)) acc)
    (fun i t => forRange_map (fun acc : Mela d × ℚ => (withMEConst k acc.1, acc.2))
      (fun j u => rfl) t) (x, (0 : ℚ))
  rw [key]

theorem gridAverage_withWeights (ext : Externals d) (w : List ℚ) (x : Mela d) (cand : MELACandidate)
    (o : DecayOutputs) : gridAverage ext (withWeights w x) cand o = gridAverage ext x cand o := by
  unfold gridAverage
  dsimp only
  rw [forRange_congr_first 5 _ (withWeights w x, (0 : ℚ)) (x, (0 : ℚ))
    (forRange_congr_first 5 _ _ _ rfl)]

theorem core_gridStep (ext : Externals d) (y : Mela d) (c m : Option MELACandidate) (e : XSEntry)
    (h : Handed d) :
    core ((evalXS ext (y.setCurrentCandidate c) e h).1.setCurrentCandidate m) = core y := rfl

theorem core_gridAverage (ext : Externals d) (x : Mela d) (cand : MELACandidate) (o : DecayOutputs) :
    core (gridAverage ext x cand o).1 = core x := by
  unfold gridAverage
  dsimp only
  refine forRange_keep (fun acc : Mela d × ℚ => core acc.1 = core x) (fun i acc hacc => ?_) rfl
  refine forRange_keep (fun acc : Mela d × ℚ => core acc.1 = core x) (fun j acc hacc => ?_) hacc
  dsimp only
  rw [core_gridStep]
  exact hacc

theorem gridAverage_currentCand (ext : Externals d) (x : Mela d) (cand : MELACandidate)
    (o : DecayOutputs) : (gridAverage ext x cand o).1.ZZME.currentCand = x.melaCand := by
  have key : (fun acc : Mela d × ℚ => acc.1.melaCand = x.melaCand
        ∧ (1 ≤ 5 + 1 → acc.1.ZZME.currentCand = x.melaCand))
      (forRange (5 + 1) (fun i_hs (acc : Mela d × ℚ) =>
        forRange (5 + 1) (fun i_phi1 (acc : Mela d × ℚ) =>
          let phi1_val := (0 : ℚ) + i_phi1 * ((ext.Pi - 0) / ((5 : Nat) : ℚ))
          let cand_tmp := gridCandidate ext cand o ((0 : ℚ) + i_hs * ((1 - 0) / ((5 : Nat) : ℚ))) phi1_val
          let s := acc.1.setCurrentCandidate cand_tmp
          let r := evalXS ext s XSEntry.computeXS Handed.none
          let s := r.1.setCurrentCandidate r.1.melaCand
          (s, acc.2 + r.2)) acc) (x, (0 : ℚ))) := by
    refine forRange_induction (fun n (acc : Mela d × ℚ) => acc.1.melaCand = x.melaCand
        ∧ (1 ≤ n → acc.1.ZZME.currentCand = x.melaCand))
      ⟨rfl, fun h => absurd h (by decide)⟩ (fun i acc _ hacc => ?_)
    have inner : (fun a : Mela d × ℚ => a.1.melaCand = x.melaCand
          ∧ (1 ≤ 5 + 1 → a.1.ZZME.currentCand = x.melaCand))
        (forRange (5 + 1) (fun i_phi1 (acc : Mela d × ℚ) =>
          let phi1_val := (0 : ℚ) + i_phi1 * ((ext.Pi - 0) / ((5 : Nat) : ℚ))
          let cand_tmp := gridCandidate ext cand o ((0 : ℚ) + i * ((1 - 0) / ((5 : Nat) : ℚ))) phi1_val
          let s := acc.1.setCurrentCandidate cand_tmp
          let r := evalXS ext s XSEntry.computeXS Handed.none
          let s := r.1.setCurrentCandidate r.1.melaCand
          (s, acc.2 + r.2)) acc) := by
      refine forRange_induction (fun n (a : Mela d × ℚ) => a.1.melaCand = x.melaCand
          ∧ (1 ≤ n → a.1.ZZME.currentCand = x.melaCand))
        ⟨hacc.1, fun h => absurd h (by decide)⟩ (fun j a _ ha => ?_)
      exact ⟨ha.1, fun _ => ha.1⟩
    exact ⟨inner.1, fun _ => inner.2 (by decide)⟩
  unfold gridAverage
  dsimp only
  exact key.2 (by decide)

/-! ### The generator branch of `computeP` -/

theorem computeP_generator_withMEConst (ext : Externals d) (k : ℚ) (x : Mela d)
    (cand c : MELACandidate) (hx : x.melaCand = some c) :
    computeP_generator ext (withMEConst k x) cand
      = (withMEConst k (computeP_generator ext x cand).1, (computeP_generator ext x cand).2) := by
  unfold computeP_generator
  by_cases hg : isGridAverageCase x = true
  · have hg2 : isGridAverageCase (withMEConst k x) = true := hg
    rw [if_neg (not_not.mpr hg), if_neg (not_not.mpr hg2)]
    dsimp only
    rw [computeDecayAngles_fst ext (withMEConst k x) c hx, computeDecayAngles_fst ext x c hx,
      computeDecayAngles_snd_congr ext (withMEConst k x) x c hx hx, gridAverage_withMEConst]
  · have hg2 : ¬ isGridAverageCase (withMEConst k x) = true := hg
    rw [if_pos hg, if_pos hg2]
    rfl

theorem computeP_generator_withWeights (ext : Externals d) (w : List ℚ) (x : Mela d)
    (cand c : MELACandidate) (hx : x.melaCand = some c) :
    computeP_generator ext (withWeights w x) cand = computeP_generator ext x cand := by
  unfold computeP_generator
  by_cases hg : isGridAverageCase x = true
  · have hg2 : isGridAverageCase (withWeights w x) = true := hg
    rw [if_neg (not_not.mpr hg), if_neg (not_not.mpr hg2)]
    dsimp only
    rw [computeDecayAngles_fst ext (withWeights w x) c hx, computeDecayAngles_fst ext x c hx,
      computeDecayAngles_snd_congr ext (withWeights w x) x c hx hx, gridAverage_withWeights]
  · have hg2 : ¬ isGridAverageCase (withWeights w x) = true := hg
    rw [if_pos hg, if_pos hg2]
    rfl

theorem core_computeP_generator (ext : Externals d) (x : Mela d) (cand c : MELACandidate)
    (hx : x.melaCand = some c) : core (computeP_generator ext x cand).1 = core x := by
  unfold computeP_generator
  split
  · rfl
  · dsimp only
    rw [core_gridAverage, computeDecayAngles_fst ext x c hx]

theorem computeP_generator_currentCand (ext : Externals d) (x : Mela d) (cand c : MELACandidate)
    (hx : x.melaCand = some c) (hc : x.ZZME.currentCand = some c) :
    (computeP_generator ext x cand).1.ZZME.currentCand = x.ZZME.currentCand := by
  unfold computeP_generator
  split
  · rfl
  · dsimp only
    rw [gridAverage_currentCand, computeDecayAngles_fst ext x c hx, hx, hc]

/-- The generator branch of `computeP` reproduces its result when re-entered
from the state it left. -/
theorem computeP_generator_reenter (ext : Externals d) (b : Mela d) (cand c : MELACandidate)
    (hb : b.melaCand = some c) (hc : b.ZZME.currentCand = some c) (ha : b.auxiliaryProb = 1) :
    reenter b.melaCand (computeP_generator ext b cand).1
      = withWeights (computeP_generator ext b cand).1.ZZME.record.weights b :=
  reenter_of_core _ b (core_computeP_generator ext b cand c hb)
    (computeP_generator_currentCand ext b cand c hb hc) ha

end Mela

/-! ### The refinement loop under a map of the state -/

theorem refineStep_mapSt {σ : Type} (spline : List ℚ → List ℚ → ℚ → ℚ → ℚ → ℚ)
    (smp : σ → ℚ → σ × ℚ) (f : σ → σ)
    (hsmp : ∀ st eta, smp (f st) eta = (f (smp st eta).1, (smp st eta).2)) (r : RefineState σ) :
    refineStep spline smp (r.mapSt f) = (refineStep spline smp r).map (RefineState.mapSt f) := by
  unfold refineStep
  simp only [RefineState.mapSt, hsmp]
  split_ifs <;> rfl

theorem refineLoop_mapSt {σ : Type} (spline : List ℚ → List ℚ → ℚ → ℚ → ℚ → ℚ)
    (smp : σ → ℚ → σ × ℚ) (f : σ → σ)
    (hsmp : ∀ st eta, smp (f st) eta = (f (smp st eta).1, (smp st eta).2)) :
    ∀ (fuel : Nat) (r : RefineState σ),
      refineLoop spline smp fuel (r.mapSt f)
        = (refineLoop spline smp fuel r).map (RefineState.mapSt f)
  | 0, _ => rfl
  | fuel + 1, r => by
    rw [refineLoop, refineLoop, refineStep_mapSt spline smp f hsmp]
    cases refineStep spline smp r with
    | none => rfl
    | some r1 => exact refineLoop_mapSt spline smp f hsmp fuel r1

theorem refine_mapSt {σ : Type} (spline : List ℚ → List ℚ → ℚ → ℚ → ℚ → ℚ)
    (smp : σ → ℚ → σ × ℚ) (f : σ → σ)
    (hsmp : ∀ st eta, smp (f st) eta = (f (smp st eta).1, (smp st eta).2)) (r : RefineState σ) :
    refine spline smp (r.mapSt f) = (refine spline smp r).mapSt f := by
  unfold refine
  rw [show refineBound (r.mapSt f) = refineBound r from rfl, refineLoop_mapSt spline smp f hsmp]
  cases refineLoop spline smp (refineBound r) r <;> rfl

/-- A property of the state that every sample evaluation keeps holds after a
pass of the refinement loop. -/
theorem refineStep_keep {σ : Type} (spline : List ℚ → List ℚ → ℚ → ℚ → ℚ → ℚ)
    (smp : σ → ℚ → σ × ℚ) (Q : σ → Prop) (hsmp : ∀ st eta, Q st → Q (smp st eta).1)
    (r r' : RefineState σ) (hr : Q r.st) (h : refineStep spline smp r = some r') : Q r'.st := by
  unfold refineStep at h
  dsimp only at h
  split_ifs at h <;> cases Option.some.inj h <;> first | exact hr | exact hsmp _ _ hr

theorem refineLoop_keep {σ : Type} (spline : List ℚ → List ℚ → ℚ → ℚ → ℚ → ℚ)
    (smp : σ → ℚ → σ × ℚ) (Q : σ → Prop) (hsmp : ∀ st eta, Q st → Q (smp st eta).1) :
    ∀ (fuel : Nat) (r r' : RefineState σ), Q r.st → refineLoop spline smp fuel r = some r' →
      Q r'.st
  | 0, _, _, _, h => by simp [refineLoop] at h
  | fuel + 1, r, r', hr, h => by
    rw [refineLoop] at h
    cases hs : refineStep spline smp r with
    | none =>
      rw [hs] at h
      cases Option.some.inj h
      exact hr
    | some r1 =>
      rw [hs] at h
      exact refineLoop_keep spline smp Q hsmp fuel r1 r'
        (refineStep_keep spline smp Q hsmp r r1 hr hs) h

theorem refine_keep {σ : Type} (spline : List ℚ → List ℚ → ℚ → ℚ → ℚ → ℚ)
    (smp : σ → ℚ → σ × ℚ) (Q : σ → Prop) (hsmp : ∀ st eta, Q st → Q (smp st eta).1)
    (r : RefineState σ) (hr : Q r.st) : Q (refine spline smp r).st := by
  unfold refine
  cases h : refineLoop spline smp (refineBound r) r with
  | none => exact hr
  | some r' => exact refineLoop_keep spline smp Q hsmp _ r r' hr h

namespace Mela

variable {d : Dims}

/-! ### The missing-jet integration -/

theorem sampleAt_withMEConst (ext : Externals d) (ctx : FakeJetContext) (k : ℚ) (st : Mela d)
    (eta : ℚ) :
    sampleAt ext ctx (withMEConst k st) eta
      = (withMEConst k (sampleAt ext ctx st eta).1, (sampleAt ext ctx st eta).2) := by
  unfold sampleAt
  simp only [withMEConst, setCurrentCandidate]
  split <;> rfl

theorem core_sampleAt (ext : Externals d) (ctx : FakeJetContext) (st : Mela d) (eta : ℚ) :
    core (sampleAt ext ctx st eta).1 = core st := by
  unfold sampleAt
  dsimp only
  split <;> rfl

theorem initialScan_withMEConst (ext : Externals d) (ctx : FakeJetContext) (k : ℚ) (st : Mela d) :
    initialScan ext ctx (withMEConst k st) = (initialScan ext ctx st).mapSt (withMEConst k) := by
  unfold initialScan
  dsimp only
  rw [← forRange_map (RefineState.mapSt (withMEConst k))
    (fun i t => by simp only [RefineState.mapSt, sampleAt_withMEConst])]
  rfl

theorem core_initialScan (ext : Externals d) (ctx : FakeJetContext) (st : Mela d) :
    core (initialScan ext ctx st).st = core st := by
  unfold initialScan
  dsimp only
  refine forRange_keep (fun r : RefineState (Mela d) => core r.st = core st)
    (fun i r hr => ?_) rfl
  dsimp only
  rw [core_sampleAt]
  exact hr

theorem finalGrid_withMEConst (ext : Externals d) (k : ℚ) (x : Mela d) (cand : MELACandidate)
    (i : Nat) (jet1massless jet2massless : TLorentzVector) :
    finalGrid ext (withMEConst k x) cand i jet1massless jet2massless
      = (finalGrid ext x cand i jet1massless jet2massless).mapSt (withMEConst k) := by
  unfold finalGrid
  dsimp only
  rw [show (primaryEval ext (withMEConst k x) cand i jet1massless jet2massless).1
      = withMEConst k (primaryEval ext x cand i jet1massless jet2massless).1 from rfl,
    initialScan_withMEConst, refine_mapSt _ _ _ (sampleAt_withMEConst ext _ k)]

theorem finalGrid_withWeights (ext : Externals d) (w : List ℚ) (x : Mela d) (cand : MELACandidate)
    (i : Nat) (jet1massless jet2massless : TLorentzVector) :
    finalGrid ext (withWeights w x) cand i jet1massless jet2massless
      = finalGrid ext x cand i jet1massless jet2massless := by
  unfold finalGrid
  dsimp only
  rw [show primaryEval ext (withWeights w x) cand i jet1massless jet2massless
      = primaryEval ext x cand i jet1massless jet2massless from rfl]

theorem core_finalGrid (ext : Externals d) (x : Mela d) (cand : MELACandidate)
    (i : Nat) (jet1massless jet2massless : TLorentzVector) :
    core (finalGrid ext x cand i jet1massless jet2massless).st = core x := by
  unfold finalGrid
  dsimp only
  refine refine_keep ext.spline _ (fun st : Mela d => core st = core x)
    (fun st eta h => (core_sampleAt ext _ st eta).trans h) _ ?_
  show core (initialScan ext _ (primaryEval ext x cand i jet1massless jet2massless).1).st = core x
  rw [core_initialScan]
  rfl

theorem normaliseAux_withMEConst (k : ℚ) (s : Mela d) (p : ℚ) :
    normaliseAux (withMEConst k s) p = withMEConst k (normaliseAux s p) := by
  unfold normaliseAux
  split <;> rfl

theorem core_normaliseAux (s : Mela d) (p : ℚ) : core (normaliseAux s p) = core s := by
  unfold normaliseAux
  split <;> rfl

theorem missingJetIntegration_withMEConst (ext : Externals d) (k : ℚ) (x : Mela d)
    (cand : MELACandidate) (i : Nat) (jet1 jet1massless jet2massless : TLorentzVector) :
    missingJetIntegration ext (withMEConst k x) cand i jet1 jet1massless jet2massless
      = (withMEConst k (missingJetIntegration ext x cand i jet1 jet1massless jet2massless).1,
         (missingJetIntegration ext x cand i jet1 jet1massless jet2massless).2) := by
  unfold missingJetIntegration
  dsimp only
  rw [finalGrid_withMEConst]
  rw [show (primaryEval ext (withMEConst k x) cand i jet1massless jet2massless).2
      = (primaryEval ext x cand i jet1massless jet2massless).2 from rfl]
  rw [← normaliseAux_withMEConst]
  generalize finalGrid ext x cand i jet1massless jet2massless = g
  rfl

theorem missingJetIntegration_withWeights (ext : Externals d) (w : List ℚ) (x : Mela d)
    (cand : MELACandidate) (i : Nat) (jet1 jet1massless jet2massless : TLorentzVector) :
    missingJetIntegration ext (withWeights w x) cand i jet1 jet1massless jet2massless
      = missingJetIntegration ext x cand i jet1 jet1massless jet2massless := by
  unfold missingJetIntegration
  dsimp only
  rw [finalGrid_withWeights, show primaryEval ext (withWeights w x) cand i jet1massless jet2massless
      = primaryEval ext x cand i jet1massless jet2massless from rfl]

theorem core_missingJetIntegration (ext : Externals d) (x : Mela d)
    (cand : MELACandidate) (i : Nat) (jet1 jet1massless jet2massless : TLorentzVector) :
    core (missingJetIntegration ext x cand i jet1 jet1massless jet2massless).1 = core x := by
  unfold missingJetIntegration
  dsimp only
  rw [core_normaliseAux]
  have h := core_finalGrid ext x cand i jet1massless jet2massless
  generalize finalGrid ext x cand i jet1massless jet2massless = g at h ⊢
  exact h

theorem computeProdP_fake_withMEConst (ext : Externals d) (k : ℚ) (x : Mela d)
    (cand : MELACandidate) :
    computeProdP_fake ext (withMEConst k x) cand
      = (withMEConst k (computeProdP_fake ext x cand).1, (computeProdP_fake ext x cand).2) := by
  unfold computeProdP_fake
  dsimp only
  exact missingJetIntegration_withMEConst ext k x cand _ _ _ _

theorem computeProdP_fake_withWeights (ext : Externals d) (w : List ℚ) (x : Mela d)
    (cand : MELACandidate) :
    computeProdP_fake ext (withWeights w x) cand = computeProdP_fake ext x cand := by
  unfold computeProdP_fake
  dsimp only
  exact missingJetIntegration_withWeights ext w x cand _ _ _ _

theorem core_computeProdP_fake (ext : Externals d) (x : Mela d) (cand : MELACandidate) :
    core (computeProdP_fake ext x cand).1 = core x := by
  unfold computeProdP_fake
  dsimp only
  exact core_missingJetIntegration ext x cand _ _ _ _

theorem computeProdP_fake_restores (ext : Externals d) (x : Mela d) (cand : MELACandidate)
    (hf : isJet2Fake x cand = true) :
    (computeProdP_fake ext x cand).1.ZZME.currentCand = some cand := by
  have h2 : isTwoJetProduction x.myProduction_ = true ∧ (jetSearch x cand).1 = 1 := by
    simpa [isJet2Fake] using hf
  have hsearch : jetSearch x cand = findFirstJet cand := by
    unfold jetSearch
    rw [if_pos h2.1]
  have hjet : (findFirstJet cand).1 = 1 := hsearch ▸ h2.2
  unfold computeProdP_fake
  dsimp only
  rw [missingJetIntegration_currentCand, hsearch]
  exact congrArg some (restore_first_jet cand _ (by omega))

/-! ### Entry points -/

theorem computeP_eq_entry (ext : Externals d) (s : Mela d) (prob : ℚ) (useConstant : Bool) :
    computeP ext s prob useConstant
      = entry (guarded prob (fun cand b => computeP_body ext b cand prob useConstant)) s := rfl

theorem computeProdP_ttH_eq_entry (ext : Externals d) (s : Mela d) (prob : ℚ) (tp td : Int)
    (useConstant : Bool) :
    computeProdP_ttH ext s prob tp td useConstant
      = entry (guarded prob (fun _ b => applyConstant (computeConstant ext) useConstant
          (evalXS ext b (XSEntry.computeProdXS_ttH tp td) (handedIfSelfDSpin0 b)))) s := rfl

theorem computeProdP_VH_eq_entry (ext : Externals d) (s : Mela d) (prob : ℚ)
    (includeHiggsDecay useConstant : Bool) :
    computeProdP_VH ext s prob includeHiggsDecay useConstant
      = entry (guarded prob (fun _ b =>
          if isVHProduction b.myProduction_ then
            applyConstant (computeConstant ext) useConstant
              (evalXS ext b (XSEntry.computeProdXS_VH includeHiggsDecay) (handedIfSelfDSpin0 b))
          else (b, prob))) s := rfl

theorem entry_idem_full (G : Mela d → Mela d × ℚ) (s : Mela d)
    (hc : (G s.beginEvaluation).1.coupl = s.coupl)
    (hcc : (G s.beginEvaluation).1.ZZME.currentCand = s.ZZME.currentCand)
    (hi : G (reenter s.ZZME.currentCand (G s.beginEvaluation).1) = G s.beginEvaluation) :
    entry G (withCoupl s.coupl (entry G s).1) = entry G s := by
  unfold entry
  dsimp only
  rw [entry_idem G s hc hcc hi]

/-- An entry point with a guarded body reproduces its result when called again
from the state it left with the tables written again, if its body does so
when re-entered and leaves the tables and the current candidate as they were. -/
theorem entry_guarded_idem (prob : ℚ) (body : MELACandidate → Mela d → Mela d × ℚ) (s : Mela d)
    (H : ∀ cand, s.ZZME.currentCand = some cand →
      body cand (reenter (some cand) (body cand s.beginEvaluation).1) = body cand s.beginEvaluation
      ∧ (body cand s.beginEvaluation).1.coupl = s.coupl
      ∧ (body cand s.beginEvaluation).1.ZZME.currentCand = s.ZZME.currentCand) :
    entry (guarded prob body) (withCoupl s.coupl (entry (guarded prob body) s).1)
      = entry (guarded prob body) s := by
  cases hcur : s.ZZME.currentCand with
  | none =>
    have hb : s.beginEvaluation.melaCand = none := hcur
    have hg : guarded prob body s.beginEvaluation = (s.beginEvaluation, prob) := by
      unfold guarded
      rw [hb]
    refine entry_idem_full _ s ?_ ?_ ?_
    · rw [hg]
      rfl
    · rw [hg]
      rfl
    · rw [hg, hcur]
      have hre : reenter none s.beginEvaluation = s.beginEvaluation := by
        simp only [reenter, beginEvaluation, reset_PAux, getCurrentCandidate, hcur]
      show guarded prob body (reenter none s.beginEvaluation) = (s.beginEvaluation, prob)
      rw [hre, hg]
  | some cand =>
    obtain ⟨h1, h2, h3⟩ := H cand hcur
    have hb : s.beginEvaluation.melaCand = some cand := hcur
    have hg : guarded prob body s.beginEvaluation = body cand s.beginEvaluation := by
      unfold guarded
      rw [hb]
    refine entry_idem_full _ s ?_ ?_ ?_
    · rw [hg]
      exact h2
    · rw [hg]
      exact h3
    · rw [hg, hcur]
      unfold guarded
      exact h1

/-- The bundle needed by `entry_guarded_idem` for a body `applyConstant ∘ R`. -/
theorem applyConstant_reentrant (ext : Externals d) (useConstant : Bool) (R : Mela d → Mela d × ℚ)
    (b : Mela d) (cand : MELACandidate)
    (hcomm : ∀ k x, x.melaCand = some cand →
      R (withMEConst k x) = (withMEConst k (R x).1, (R x).2))
    (hidem : R (reenter (some cand) (R b).1) = R b)
    (hcoupl : (R b).1.coupl = b.coupl)
    (hcc : (R b).1.ZZME.currentCand = b.ZZME.currentCand) :
    applyConstant (computeConstant ext) useConstant
        (R (reenter (some cand) (applyConstant (computeConstant ext) useConstant (R b)).1))
      = applyConstant (computeConstant ext) useConstant (R b)
    ∧ (applyConstant (computeConstant ext) useConstant (R b)).1.coupl = b.coupl
    ∧ (applyConstant (computeConstant ext) useConstant (R b)).1.ZZME.currentCand
        = b.ZZME.currentCand :=
  ⟨applyConstant_idem ext useConstant R b (some cand) hcomm hidem,
    (applyConstant_coupl ext useConstant _).trans hcoupl,
    (applyConstant_currentCand ext useConstant _).trans hcc⟩

/-- A body that keeps the core of the state and the current candidate, and whose
result does not depend on the weights found on entry, reproduces its result
when re-entered. -/
theorem reenter_of_eval (R : Mela d → Mela d × ℚ) (b : Mela d) (cand : MELACandidate)
    (hb : b.melaCand = some cand) (ha : b.auxiliaryProb = 1)
    (hcore : core (R b).1 = core b)
    (hcc : (R b).1.ZZME.currentCand = b.ZZME.currentCand)
    (hw : R (withWeights (R b).1.ZZME.record.weights b) = R b) :
    R (reenter (some cand) (R b).1) = R b ∧ (R b).1.coupl = b.coupl := by
  have hcoupl := congrArg Mela.coupl hcore
  refine ⟨?_, hcoupl⟩
  rw [← hb, reenter_of_core _ b hcore hcc ha, hw]

theorem entry_guarded_myProduction (prob : ℚ) (body : MELACandidate → Mela d → Mela d × ℚ)
    (s : Mela d) (h : ∀ cand b, (body cand b).1.myProduction_ = b.myProduction_) :
    (entry (guarded prob body) s).1.myProduction_ = s.myProduction_ := by
  unfold entry guarded
  cases hm : s.beginEvaluation.melaCand with
  | none => rfl
  | some cand => exact h cand s.beginEvaluation

theorem applyConstant_myProduction (ext : Externals d) (useConstant : Bool) (r : Mela d × ℚ) :
    (applyConstant (computeConstant ext) useConstant r).1.myProduction_ = r.1.myProduction_ := by
  cases useConstant <;> rfl

/-! ### `computeProdP_ttH` and `computeProdP_VH` -/

theorem evalXS_body_reentrant (ext : Externals d) (useConstant : Bool) (e : XSEntry) (s : Mela d)
    (cand : MELACandidate) (hcur : s.ZZME.currentCand = some cand) :
    applyConstant (computeConstant ext) useConstant
        (evalXS ext (reenter (some cand) (applyConstant (computeConstant ext) useConstant
            (evalXS ext s.beginEvaluation e (handedIfSelfDSpin0 s.beginEvaluation))).1) e
          (handedIfSelfDSpin0 (reenter (some cand) (applyConstant (computeConstant ext) useConstant
            (evalXS ext s.beginEvaluation e (handedIfSelfDSpin0 s.beginEvaluation))).1)))
      = applyConstant (computeConstant ext) useConstant
          (evalXS ext s.beginEvaluation e (handedIfSelfDSpin0 s.beginEvaluation))
    ∧ (applyConstant (computeConstant ext) useConstant
          (evalXS ext s.beginEvaluation e (handedIfSelfDSpin0 s.beginEvaluation))).1.coupl = s.coupl
    ∧ (applyConstant (computeConstant ext) useConstant
          (evalXS ext s.beginEvaluation e (handedIfSelfDSpin0 s.beginEvaluation))).1.ZZME.currentCand
        = s.ZZME.currentCand := by
  have hb : s.beginEvaluation.melaCand = some cand := hcur
  have h := reenter_of_eval (fun b : Mela d => evalXS ext b e (handedIfSelfDSpin0 b))
    s.beginEvaluation cand hb rfl rfl rfl rfl
  exact applyConstant_reentrant ext useConstant
    (fun b : Mela d => evalXS ext b e (handedIfSelfDSpin0 b)) s.beginEvaluation cand
    (fun k x _ => rfl) h.1 h.2 rfl

theorem computeProdP_ttH_idem (ext : Externals d) (s : Mela d) (prob : ℚ) (tp td : Int)
    (useConstant : Bool) :
    computeProdP_ttH ext (withCoupl s.coupl (computeProdP_ttH ext s prob tp td useConstant).1)
        prob tp td useConstant
      = computeProdP_ttH ext s prob tp td useConstant := by
  simp only [computeProdP_ttH_eq_entry]
  exact entry_guarded_idem prob _ s (fun cand hcur =>
    evalXS_body_reentrant ext useConstant (XSEntry.computeProdXS_ttH tp td) s cand hcur)

theorem computeProdP_VH_idem (ext : Externals d) (s : Mela d) (prob : ℚ)
    (includeHiggsDecay useConstant : Bool) :
    computeProdP_VH ext
        (withCoupl s.coupl (computeProdP_VH ext s prob includeHiggsDecay useConstant).1) prob
        includeHiggsDecay useConstant
      = computeProdP_VH ext s prob includeHiggsDecay useConstant := by
  simp only [computeProdP_VH_eq_entry]
  refine entry_guarded_idem prob _ s (fun cand hcur => ?_)
  by_cases hv : isVHProduction s.myProduction_ = true
  · have e : ∀ x : Mela d, x.myProduction_ = s.myProduction_ →
        (if isVHProduction x.myProduction_ = true then
            applyConstant (computeConstant ext) useConstant
              (evalXS ext x (XSEntry.computeProdXS_VH includeHiggsDecay) (handedIfSelfDSpin0 x))
          else (x, prob))
        = applyConstant (computeConstant ext) useConstant
              (evalXS ext x (XSEntry.computeProdXS_VH includeHiggsDecay) (handedIfSelfDSpin0 x)) := by
      intro x hx
      rw [hx, if_pos hv]
    rw [e s.beginEvaluation rfl, e _ (by cases useConstant <;> rfl)]
    exact evalXS_body_reentrant ext useConstant _ s cand hcur
  · have e : ∀ x : Mela d, x.myProduction_ = s.myProduction_ →
        (if isVHProduction x.myProduction_ = true then
            applyConstant (computeConstant ext) useConstant
              (evalXS ext x (XSEntry.computeProdXS_VH includeHiggsDecay) (handedIfSelfDSpin0 x))
          else (x, prob)) = (x, prob) := by
      intro x hx
      rw [hx, if_neg hv]
    rw [e s.beginEvaluation rfl, e (reenter (some cand) (s.beginEvaluation, prob).1) rfl]
    refine ⟨?_, rfl, rfl⟩
    have hre : reenter (some cand) s.beginEvaluation = s.beginEvaluation := by
      simp only [reenter, beginEvaluation, reset_PAux, getCurrentCandidate, hcur]
    rw [hre]

/-! ### `computeProdP` -/

theorem computeProdP_body_eq (ext : Externals d) (b : Mela d) (cand : MELACandidate) (prob : ℚ)
    (useConstant : Bool) :
    computeProdP_body ext b cand prob useConstant
      = applyConstant (computeConstant ext) useConstant (prodSelect ext cand prob b) := rfl

theorem prodSelect_withMEConst (ext : Externals d) (cand : MELACandidate) (prob k : ℚ)
    (x : Mela d) :
    prodSelect ext cand prob (withMEConst k x)
      = (withMEConst k (prodSelect ext cand prob x).1, (prodSelect ext cand prob x).2) := by
  unfold prodSelect
  by_cases h1 : isJet2Fake x cand = true
  · rw [if_pos h1, if_pos (show isJet2Fake (withMEConst k x) cand = true from h1)]
    exact computeProdP_fake_withMEConst ext k x cand
  · rw [if_neg h1, if_neg (show ¬ isJet2Fake (withMEConst k x) cand = true from h1)]
    by_cases h2 : isTwoJetProduction x.myProduction_ = true
    · rw [if_pos h2, if_pos (show isTwoJetProduction (withMEConst k x).myProduction_ = true from h2)]
      rfl
    · rw [if_neg h2,
        if_neg (show ¬ isTwoJetProduction (withMEConst k x).myProduction_ = true from h2)]
      by_cases h3 : x.myProduction_ = TVar.Production.JQCD
      · rw [if_pos h3, if_pos (show (withMEConst k x).myProduction_ = TVar.Production.JQCD from h3)]
        rfl
      · rw [if_neg h3,
          if_neg (show ¬ (withMEConst k x).myProduction_ = TVar.Production.JQCD from h3)]

theorem core_prodSelect (ext : Externals d) (cand : MELACandidate) (prob : ℚ) (x : Mela d) :
    core (prodSelect ext cand prob x).1 = core x := by
  unfold prodSelect
  split_ifs
  · exact core_computeProdP_fake ext x cand
  · rfl
  · rfl
  · rfl

theorem prodSelect_currentCand (ext : Externals d) (cand : MELACandidate) (prob : ℚ) (x : Mela d)
    (hc : x.ZZME.currentCand = some cand) :
    (prodSelect ext cand prob x).1.ZZME.currentCand = x.ZZME.currentCand := by
  unfold prodSelect
  split_ifs with h1
  · rw [computeProdP_fake_restores ext x cand h1, hc]
  · rfl
  · rfl
  · rfl

theorem prodSelect_withWeights (ext : Externals d) (cand : MELACandidate) (prob : ℚ) (x : Mela d) :
    prodSelect ext cand prob (withWeights (prodSelect ext cand prob x).1.ZZME.record.weights x)
      = prodSelect ext cand prob x := by
  generalize hw : (prodSelect ext cand prob x).1.ZZME.record.weights = w
  unfold prodSelect at hw ⊢
  by_cases h1 : isJet2Fake x cand = true
  · rw [if_pos h1, if_pos (show isJet2Fake (withWeights w x) cand = true from h1)]
    exact computeProdP_fake_withWeights ext w x cand
  · rw [if_neg h1, if_neg (show ¬ isJet2Fake (withWeights w x) cand = true from h1)]
    rw [if_neg h1] at hw
    by_cases h2 : isTwoJetProduction x.myProduction_ = true
    · rw [if_pos h2, if_pos (show isTwoJetProduction (withWeights w x).myProduction_ = true from h2)]
      rfl
    · rw [if_neg h2,
        if_neg (show ¬ isTwoJetProduction (withWeights w x).myProduction_ = true from h2)]
      rw [if_neg h2] at hw
      by_cases h3 : x.myProduction_ = TVar.Production.JQCD
      · rw [if_pos h3, if_pos (show (withWeights w x).myProduction_ = TVar.Production.JQCD from h3)]
        rfl
      · rw [if_neg h3,
          if_neg (show ¬ (withWeights w x).myProduction_ = TVar.Production.JQCD from h3)]
        rw [if_neg h3] at hw
        subst hw
        rfl

theorem computeProdP_body_reentrant (ext : Externals d) (s : Mela d) (cand : MELACandidate)
    (prob : ℚ) (useConstant : Bool) (hcur : s.ZZME.currentCand = some cand) :
    computeProdP_body ext (reenter (some cand)
        (computeProdP_body ext s.beginEvaluation cand prob useConstant).1) cand prob useConstant
      = computeProdP_body ext s.beginEvaluation cand prob useConstant
    ∧ (computeProdP_body ext s.beginEvaluation cand prob useConstant).1.coupl = s.coupl
    ∧ (computeProdP_body ext s.beginEvaluation cand prob useConstant).1.ZZME.currentCand
        = s.ZZME.currentCand := by
  have hb : s.beginEvaluation.melaCand = some cand := hcur
  have hcc := prodSelect_currentCand ext cand prob s.beginEvaluation hcur
  have h := reenter_of_eval (prodSelect ext cand prob) s.beginEvaluation cand hb rfl
    (core_prodSelect ext cand prob _) hcc (prodSelect_withWeights ext cand prob _)
  simp only [computeProdP_body_eq]
  exact applyConstant_reentrant ext useConstant (prodSelect ext cand prob) s.beginEvaluation cand
    (fun k x _ => prodSelect_withMEConst ext cand prob k x) h.1 h.2 hcc

theorem computeProdP_myProduction (ext : Externals d) (s : Mela d) (prob : ℚ)
    (useConstant : Bool) :
    (computeProdP ext s prob useConstant).1.myProduction_ = s.myProduction_ := by
  unfold computeProdP
  split_ifs
  · rw [computeProdP_ttH_eq_entry]
    exact entry_guarded_myProduction prob _ s (fun _ b => applyConstant_myProduction ext _ _)
  · rw [computeProdP_VH_eq_entry]
    refine entry_guarded_myProduction prob _ s (fun _ b => ?_)
    dsimp only
    split
    · exact applyConstant_myProduction ext _ _
    · rfl
  · refine entry_guarded_myProduction prob
      (fun cand b => computeProdP_body ext b cand prob useConstant) s (fun cand b => ?_)
    show (computeProdP_body ext b cand prob useConstant).1.myProduction_ = b.myProduction_
    rw [computeProdP_body_eq, applyConstant_myProduction]
    have hcore := congrArg Mela.myProduction_ (core_prodSelect ext cand prob b)
    exact hcore

/-- A second call of `computeProdP` from the state left by the first, with the
tables of the first call written again, returns the same state and the same
probability. -/
theorem computeProdP_idem (ext : Externals d) (s : Mela d) (prob : ℚ) (useConstant : Bool) :
    computeProdP ext (withCoupl s.coupl (computeProdP ext s prob useConstant).1) prob useConstant
      = computeProdP ext s prob useConstant := by
  have hp : (withCoupl s.coupl (computeProdP ext s prob useConstant).1).myProduction_
      = s.myProduction_ := computeProdP_myProduction ext s prob useConstant
  by_cases h1 : s.myProduction_ = TVar.Production.ttH ∨ s.myProduction_ = TVar.Production.bbH
  · have e : ∀ x : Mela d, x.myProduction_ = s.myProduction_ →
        computeProdP ext x prob useConstant = computeProdP_ttH ext x prob 2 0 useConstant := by
      intro x hx
      rw [computeProdP, hx, if_pos h1]
    rw [e _ hp, e s rfl]
    exact computeProdP_ttH_idem ext s prob 2 0 useConstant
  · by_cases h2 : isVHProduction s.myProduction_ = true
    · have e : ∀ x : Mela d, x.myProduction_ = s.myProduction_ →
          computeProdP ext x prob useConstant = computeProdP_VH ext x prob false useConstant := by
        intro x hx
        rw [computeProdP, hx, if_neg h1, if_pos h2]
      rw [e _ hp, e s rfl]
      exact computeProdP_VH_idem ext s prob false useConstant
    · have e : ∀ x : Mela d, x.myProduction_ = s.myProduction_ →
          computeProdP ext x prob useConstant
            = entry (guarded prob (fun cand b => computeProdP_body ext b cand prob useConstant)) x := by
        intro x hx
        rw [computeProdP, hx, if_neg h1, if_neg h2]
        rfl
      rw [e _ hp, e s rfl]
      exact entry_guarded_idem prob _ s (fun cand hcur =>
        computeProdP_body_reentrant ext s cand prob useConstant hcur)

end Mela

/-! ### Writes of fixed values to a parameter table -/

theorem ConstWrite.id {α : Type} : ConstWrite (fun f : α → ℚ => f) :=
  ⟨fun _ => none, fun _ _ => rfl⟩

theorem ConstWrite.update {α : Type} [DecidableEq α] (a : α) (v : ℚ) :
    ConstWrite (fun f : α → ℚ => Function.update f a v) := by
  refine ⟨fun x => if x = a then some v else none, fun f x => ?_⟩
  by_cases h : x = a
  · subst h
    simp
  · simp [Function.update_noteq h, h]

theorem ConstWrite.comp {α : Type} {U V : (α → ℚ) → (α → ℚ)} (hU : ConstWrite U)
    (hV : ConstWrite V) : ConstWrite (fun f => V (U f)) := by
  obtain ⟨WU, hWU⟩ := hU
  obtain ⟨WV, hWV⟩ := hV
  refine ⟨fun a => (WV a).orElse (fun _ => WU a), fun f a => ?_⟩
  show V (U f) a = ((WV a).orElse (fun _ => WU a)).getD (f a)
  rw [hWV, hWU]
  cases WV a <;> rfl

theorem ConstWrite.forRange {α : Type} (n : Nat) (body : Nat → (α → ℚ) → (α → ℚ))
    (h : ∀ i, ConstWrite (body i)) : ConstWrite (fun f => forRange n body f) := by
  induction n with
  | zero => simpa [forRange_zero] using (ConstWrite.id : ConstWrite (fun f : α → ℚ => f))
  | succ k ih =>
    simp only [forRange_succ]
    exact ConstWrite.comp ih (h k)

theorem ConstWrite.foldl {α β : Type} (l : List β) (step : (α → ℚ) → β → (α → ℚ))
    (h : ∀ t, ConstWrite (fun f => step f t)) : ConstWrite (fun f => l.foldl step f) := by
  induction l with
  | nil => exact ConstWrite.id
  | cons t l ih =>
    simp only [List.foldl_cons]
    exact ConstWrite.comp (h t) ih

/-- Writing the same fixed values twice is writing them once. -/
theorem ConstWrite.idem {α : Type} {U : (α → ℚ) → (α → ℚ)} (hU : ConstWrite U) (f : α → ℚ) :
    U (U f) = U f := by
  obtain ⟨W, hW⟩ := hU
  funext a
  rw [hW (U f) a, hW f a]
  cases W a <;> rfl

namespace Mela

variable {d : Dims}

/-! ### The analytic branch of `computeP` -/

theorem scalar_ite_addHypothesis_params (c : Prop) [Decidable c] (m : ScalarPdfState)
    (a b : Nat) (q : ℚ) : (if c then m.addHypothesis a b q else m).params = m.params := by
  split <;> rfl

theorem scalar_ite_addHypothesis_hypotheses (c : Prop) [Decidable c]
    (m : ScalarPdfState) (a b : Nat) (q : ℚ) :
    (if c then m.addHypothesis a b q else m).hypotheses
      = m.hypotheses ++ (if c then [(a, b, q)] else []) := by
  split <;> simp [ScalarPdfState.addHypothesis]

theorem configureSpin0_params (ext : Externals d) (x : Mela d) :
    (configureSpin0 ext x).params
      = if x.myModel_ = TVar.Process.SelfDefine_spin0 then
          (fun f => forRange d.SIZE_HVV_CQSQ (fun qoqtqz f =>
            let f := Function.update f (ScalarParam.Lambda_zqsq 1 qoqtqz)
              (get3 x.coupl.spin0.selfDHzzLambda_qsq 0 0 qoqtqz)
            let f := Function.update f (ScalarParam.Lambda_zqsq 2 qoqtqz)
              (get3 x.coupl.spin0.selfDHzzLambda_qsq 0 1 qoqtqz)
            let f := Function.update f (ScalarParam.Lambda_zqsq 3 qoqtqz)
              (get3 x.coupl.spin0.selfDHzzLambda_qsq 0 2 qoqtqz)
            let f := Function.update f (ScalarParam.Lambda_zqsq 4 qoqtqz)
              (get3 x.coupl.spin0.selfDHzzLambda_qsq 0 3 qoqtqz)
            Function.update f (ScalarParam.cLambda_qsq qoqtqz)
              (get2 x.coupl.spin0.selfDHzzCLambda_qsq 0 qoqtqz))
            (forRange 2 (fun im f =>
              hvvTarget.enum.foldl (fun f t =>
                Function.update f (ScalarParam.coupling t.2.1 t.2.2 im)
                  (get3 x.coupl.spin0.selfDHzzcoupl 0 t.1 im)) f) f))
            x.ana.ggSpin0Model.params
        else x.ana.ggSpin0Model.params := by
  unfold configureSpin0
  simp only [ScalarPdfState.makeParamsConst, scalar_ite_addHypothesis_params,
    ScalarPdfState.resetHypotheses]

theorem configureSpin0_hypotheses_congr (ext : Externals d) (x y : Mela d)
    (h : y.myModel_ = x.myModel_) :
    (configureSpin0 ext y).hypotheses = (configureSpin0 ext x).hypotheses := by
  unfold configureSpin0
  simp only [ScalarPdfState.makeParamsConst, scalar_ite_addHypothesis_hypotheses,
    ScalarPdfState.resetHypotheses, h]

/-- Configuring `ggSpin0Model` again, from the state the configuration left and
with the same model and tables, changes nothing. -/
theorem configureSpin0_idem (ext : Externals d) (x y : Mela d) (hm : y.myModel_ = x.myModel_)
    (hc : y.coupl = x.coupl) (ha : y.ana.ggSpin0Model = configureSpin0 ext x) :
    configureSpin0 ext y = configureSpin0 ext x := by
  have e1 : (configureSpin0 ext y).paramsConst = (configureSpin0 ext x).paramsConst := rfl
  have e2 := configureSpin0_hypotheses_congr ext x y hm
  have e3 : (configureSpin0 ext y).params = (configureSpin0 ext x).params := by
    rw [configureSpin0_params ext y, hm, hc, ha, configureSpin0_params ext x]
    split
    · refine ConstWrite.idem (ConstWrite.comp
        (ConstWrite.forRange 2 _ (fun im => ConstWrite.foldl _ _ (fun t => ConstWrite.update _ _)))
        (ConstWrite.forRange _ _ (fun q => ?_))) _
      exact ConstWrite.comp (ConstWrite.comp (ConstWrite.comp (ConstWrite.comp
        (ConstWrite.update _ _) (ConstWrite.update _ _)) (ConstWrite.update _ _))
        (ConstWrite.update _ _)) (ConstWrite.update _ _)
    · rfl
  cases hY : configureSpin0 ext y
  cases hX : configureSpin0 ext x
  rw [hY, hX] at e1 e2 e3
  simp only at e1 e2 e3
  subst e1 e2 e3
  rfl

theorem spin2Hypotheses_bList (p : TVar.Process) (m : TensorPdfState) :
    (spin2Hypotheses p m).bList = m.bList := by
  unfold spin2Hypotheses
  simp only [apply_ite TensorPdfState.bList, TensorPdfState.addHypothesis, ite_self]

theorem spin2Hypotheses_tensorPolarization (p : TVar.Process) (m : TensorPdfState) :
    (spin2Hypotheses p m).tensorPolarization = m.tensorPolarization := by
  unfold spin2Hypotheses
  simp only [apply_ite TensorPdfState.tensorPolarization, TensorPdfState.addHypothesis, ite_self]

theorem spin2Hypotheses_paramsConst (p : TVar.Process) (m : TensorPdfState) :
    (spin2Hypotheses p m).paramsConst = m.paramsConst := by
  unfold spin2Hypotheses
  simp only [apply_ite TensorPdfState.paramsConst, TensorPdfState.addHypothesis, ite_self]

theorem tensor_ite_addHypothesis_hypotheses (c : Prop) [Decidable c]
    (m : TensorPdfState) (a : Nat) (q : ℚ) :
    (if c then m.addHypothesis a q else m).hypotheses
      = m.hypotheses ++ (if c then [(a, q)] else []) := by
  split <;> simp [TensorPdfState.addHypothesis]

theorem spin2Hypotheses_hypotheses_congr (p : TVar.Process) (m m2 : TensorPdfState)
    (h : m.hypotheses = m2.hypotheses) :
    (spin2Hypotheses p m).hypotheses = (spin2Hypotheses p m2).hypotheses := by
  unfold spin2Hypotheses
  simp only [tensor_ite_addHypothesis_hypotheses, h]

theorem ite_pair_snd {α β : Type} (c : Prop) [Decidable c] (a a2 : α) (b : β) :
    (if c then (a, b) else (a2, b)).2 = b := by
  split <;> rfl

theorem ite_pair_fst {α β : Type} (c : Prop) [Decidable c] (a a2 : α) (b b2 : β) :
    (if c then (a, b) else (a2, b2)).1 = if c then a else a2 := by
  split <;> rfl

theorem configureSpin2_snd (ext : Externals d) (x : Mela d) :
    (configureSpin2 ext x).2
      = (decide (x.myModel_ = TVar.Process.SelfDefine_spin2)
          && (List.range d.SIZE_GVV).any
            (fun i => decide (get2 x.coupl.spin2.selfDGvvcoupl i 1 ≠ 0))) := by
  unfold configureSpin2
  simp only [ite_pair_snd]

theorem configureSpin2_bList (ext : Externals d) (x : Mela d) :
    (configureSpin2 ext x).1.bList
      = if x.myModel_ = TVar.Process.SelfDefine_spin2 ∧ (configureSpin2 ext x).2 = false then
          (fun f => forRange d.SIZE_GVV (fun ig f =>
            forRange 2 (fun im f =>
              Function.update f (ig, im) (get2 x.coupl.spin2.selfDGvvcoupl ig im)) f) f)
            x.ana.spin2Model.bList
        else x.ana.spin2Model.bList := by
  rw [configureSpin2_snd]
  unfold configureSpin2
  simp only [ite_pair_fst, apply_ite TensorPdfState.bList, TensorPdfState.makeParamsConst,
    TensorPdfState.setTensorPolarization, spin2Hypotheses_bList,
    TensorPdfState.resetHypotheses, ite_self]

theorem configureSpin2_hypotheses_congr (ext : Externals d) (x y : Mela d)
    (h : y.myModel_ = x.myModel_) :
    (configureSpin2 ext y).1.hypotheses = (configureSpin2 ext x).1.hypotheses := by
  unfold configureSpin2
  simp only [ite_pair_fst, apply_ite TensorPdfState.hypotheses, TensorPdfState.makeParamsConst,
    TensorPdfState.setTensorPolarization, TensorPdfState.resetHypotheses, ite_self, h]
  exact spin2Hypotheses_hypotheses_congr _ _ _ rfl

theorem configureSpin2_paramsConst (ext : Externals d) (x : Mela d) :
    (configureSpin2 ext x).1.paramsConst = !(configureSpin2 ext x).2 := by
  rw [configureSpin2_snd]
  unfold configureSpin2
  simp only [ite_pair_fst, apply_ite TensorPdfState.paramsConst, TensorPdfState.makeParamsConst,
    TensorPdfState.setTensorPolarization, TensorPdfState.resetHypotheses,
    spin2Hypotheses_paramsConst, ite_self]
  generalize (decide (x.myModel_ = TVar.Process.SelfDefine_spin2)
    && (List.range d.SIZE_GVV).any
      (fun i => decide (get2 x.coupl.spin2.selfDGvvcoupl i 1 ≠ 0))) = b
  cases b <;> rfl

theorem configureSpin2_tensorPolarization (ext : Externals d) (x : Mela d) :
    (configureSpin2 ext x).1.tensorPolarization
      = if (configureSpin2 ext x).2 = true then x.ana.spin2Model.tensorPolarization
        else
          (fun t : Nat → ℚ =>
            if x.myProduction_ = TVar.Production.ZZQQB then
              Function.update (Function.update t 1 1) 2 0
            else if x.myModel_ = TVar.Process.SelfDefine_spin2 then
              Function.update (Function.update t 1 0) 2 (selfDPolarization ext x.coupl.spin2)
            else Function.update (Function.update t 1 0) 2 1)
          x.ana.spin2Model.tensorPolarization := by
  rw [configureSpin2_snd]
  unfold configureSpin2
  simp only [ite_pair_fst, apply_ite TensorPdfState.tensorPolarization,
    TensorPdfState.makeParamsConst, TensorPdfState.setTensorPolarization,
    TensorPdfState.resetHypotheses, spin2Hypotheses_tensorPolarization]

/-- Configuring `spin2Model` again, from the state the configuration left and
with the same model, production and tables, changes nothing. -/
theorem configureSpin2_idem (ext : Externals d) (x y : Mela d) (hm : y.myModel_ = x.myModel_)
    (hp : y.myProduction_ = x.myProduction_) (hc : y.coupl = x.coupl)
    (ha : y.ana.spin2Model = (configureSpin2 ext x).1) :
    configureSpin2 ext y = configureSpin2 ext x := by
  have e0 : (configureSpin2 ext y).2 = (configureSpin2 ext x).2 := by
    rw [configureSpin2_snd, configureSpin2_snd, hm, hc]
  have e1 : (configureSpin2 ext y).1.paramsConst = (configureSpin2 ext x).1.paramsConst := by
    rw [configureSpin2_paramsConst, configureSpin2_paramsConst, e0]
  have e2 := configureSpin2_hypotheses_congr ext x y hm
  have e3 : (configureSpin2 ext y).1.bList = (configureSpin2 ext x).1.bList := by
    rw [configureSpin2_bList ext y, hm, hc, ha, e0, configureSpin2_bList ext x]
    split
    · exact ConstWrite.idem (ConstWrite.forRange _ _ (fun ig =>
        ConstWrite.forRange 2 _ (fun im => ConstWrite.update _ _))) _
    · rfl
  have e4 : (configureSpin2 ext y).1.tensorPolarization
      = (configureSpin2 ext x).1.tensorPolarization := by
    rw [configureSpin2_tensorPolarization ext y, hm, hp, hc, ha, e0,
      configureSpin2_tensorPolarization ext x]
    split
    · rfl
    · have hV : ConstWrite (fun t : Nat → ℚ =>
          if x.myProduction_ = TVar.Production.ZZQQB then
            Function.update (Function.update t 1 1) 2 0
          else if x.myModel_ = TVar.Process.SelfDefine_spin2 then
            Function.update (Function.update t 1 0) 2 (selfDPolarization ext x.coupl.spin2)
          else Function.update (Function.update t 1 0) 2 1) := by
        by_cases c1 : x.myProduction_ = TVar.Production.ZZQQB
        · simp only [if_pos c1]
          exact ConstWrite.comp (ConstWrite.update _ _) (ConstWrite.update _ _)
        · by_cases c2 : x.myModel_ = TVar.Process.SelfDefine_spin2
          · simp only [if_neg c1, if_pos c2]
            exact ConstWrite.comp (ConstWrite.update _ _) (ConstWrite.update _ _)
          · simp only [if_neg c1, if_neg c2]
            exact ConstWrite.comp (ConstWrite.update _ _) (ConstWrite.update _ _)
      exact hV.idem _
  cases hY : configureSpin2 ext y with
  | mk mY nY =>
    cases hX : configureSpin2 ext x with
    | mk mX nX =>
      rw [hY, hX] at e0 e1 e2 e3 e4
      simp only at e0 e1 e2 e3 e4
      obtain ⟨a1, a2, a3, a4⟩ := mY
      obtain ⟨b1, b2, b3, b4⟩ := mX
      simp only at e1 e2 e3 e4
      subst e0 e1 e2 e3 e4
      rfl

theorem configureSpin0_withMEConst (ext : Externals d) (k : ℚ) (x : Mela d) :
    configureSpin0 ext (withMEConst k x) = configureSpin0 ext x := rfl

theorem configureSpin2_withMEConst (ext : Externals d) (k : ℚ) (x : Mela d) :
    configureSpin2 ext (withMEConst k x) = configureSpin2 ext x := rfl

theorem configureAnalyticalPDFs_frame (ext : Externals d) (x : Mela d) :
    (configureAnalyticalPDFs ext x).1
      = { x with ana := { (configureAnalyticalPDFs ext x).1.ana with rrv := x.ana.rrv } } := by
  unfold configureAnalyticalPDFs
  dsimp only
  split_ifs <;> rfl

theorem configureAnalyticalPDFs_withMEConst (ext : Externals d) (k : ℚ) (x : Mela d) :
    configureAnalyticalPDFs ext (withMEConst k x)
      = (withMEConst k (configureAnalyticalPDFs ext x).1, (configureAnalyticalPDFs ext x).2) := by
  unfold configureAnalyticalPDFs
  simp only [withMEConst]
  split_ifs <;> rfl

theorem configureAnalyticalPDFs_myModel (ext : Externals d) (x : Mela d) :
    (configureAnalyticalPDFs ext x).1.myModel_ = x.myModel_ := by
  rw [configureAnalyticalPDFs_frame]

theorem configureAnalyticalPDFs_myProduction (ext : Externals d) (x : Mela d) :
    (configureAnalyticalPDFs ext x).1.myProduction_ = x.myProduction_ := by
  rw [configureAnalyticalPDFs_frame]

theorem configureAnalyticalPDFs_myME (ext : Externals d) (x : Mela d) :
    (configureAnalyticalPDFs ext x).1.myME_ = x.myME_ := by
  rw [configureAnalyticalPDFs_frame]

theorem configureAnalyticalPDFs_coupl (ext : Externals d) (x : Mela d) :
    (configureAnalyticalPDFs ext x).1.coupl = x.coupl := by
  rw [configureAnalyticalPDFs_frame]

/-- Configuring the analytic PDFs again from the state the configuration left
changes nothing and returns the same flag. -/
theorem configureAnalyticalPDFs_idem (ext : Externals d) (x : Mela d) :
    configureAnalyticalPDFs ext (configureAnalyticalPDFs ext x).1
      = configureAnalyticalPDFs ext x := by
  have hm := configureAnalyticalPDFs_myModel ext x
  have hp := configureAnalyticalPDFs_myProduction ext x
  have hme := configureAnalyticalPDFs_myME ext x
  have hc := configureAnalyticalPDFs_coupl ext x
  by_cases h1 : x.myModel_ = TVar.Process.bkgZZ
  · have e : ∀ y : Mela d, y.myModel_ = x.myModel_ → configureAnalyticalPDFs ext y
        = ({ y with ana := { y.ana with pdf := some PdfRef.qqZZmodel } }, true) := by
      intro y hm
      unfold configureAnalyticalPDFs
      rw [hm, if_pos h1]
    rw [e _ hm, e x rfl]
  · by_cases h2 : x.myProduction_ = TVar.Production.JJQCD ∨ x.myProduction_ = TVar.Production.JJVBF
    · have e : ∀ y : Mela d, y.myModel_ = x.myModel_ → y.myProduction_ = x.myProduction_ →
          configureAnalyticalPDFs ext y = (y, true) := by
        intro y hm hp
        unfold configureAnalyticalPDFs
        rw [hm, hp, if_neg h1, if_pos h2]
      rw [e _ hm hp, e x rfl rfl]
    · by_cases h3 : isVHProduction x.myProduction_ = true
      · have e : ∀ y : Mela d, y.myModel_ = x.myModel_ → y.myProduction_ = x.myProduction_ →
            configureAnalyticalPDFs ext y = (y, true) := by
          intro y hm hp
          unfold configureAnalyticalPDFs
          rw [hm, hp, if_neg h1, if_neg h2, if_pos h3]
        rw [e _ hm hp, e x rfl rfl]
      · by_cases h4 : isAnaSpin0Model x.myModel_ = true
        · have e : ∀ y : Mela d, y.myModel_ = x.myModel_ → y.myProduction_ = x.myProduction_ →
              configureAnalyticalPDFs ext y
                = ({ y with ana := { y.ana with pdf := some PdfRef.ggSpin0Model,
                                                ggSpin0Model := configureSpin0 ext y } }, true) := by
            intro y hm hp
            unfold configureAnalyticalPDFs
            rw [hm, hp, if_neg h1, if_neg h2, if_neg h3, if_pos h4]
          have hi : configureSpin0 ext (configureAnalyticalPDFs ext x).1 = configureSpin0 ext x :=
            configureSpin0_idem ext x _ hm hc (by rw [e x rfl rfl])
          rw [e _ hm hp, hi, e x rfl rfl]
        · by_cases h5 : ext.spin1Configure x.myModel_ = false
          · by_cases h6 : x.myModel_ = TVar.Process.SelfDefine_spin1
            · by_cases h7 : (List.range d.SIZE_ZVV).any
                  (fun i => decide (get2 x.coupl.spin1.selfDZvvcoupl i 1 ≠ 0)) = true
              · have e : ∀ y : Mela d, y.myModel_ = x.myModel_ → y.myProduction_ = x.myProduction_ →
                    y.myME_ = x.myME_ → y.coupl = x.coupl →
                    configureAnalyticalPDFs ext y
                      = ({ y with ana := { y.ana with
                            spin1Model := { y.ana.spin1Model with configured := some y.myModel_ },
                            pdf := some PdfRef.spin1Model } }, false) := by
                  intro y hm hp hme hc
                  have h1' : ¬ y.myModel_ = TVar.Process.bkgZZ := by rw [hm]; exact h1
                  have h2' : ¬ (y.myProduction_ = TVar.Production.JJQCD
                      ∨ y.myProduction_ = TVar.Production.JJVBF) := by rw [hp]; exact h2
                  have h3' : ¬ isVHProduction y.myProduction_ = true := by rw [hp]; exact h3
                  have h4' : ¬ isAnaSpin0Model y.myModel_ = true := by rw [hm]; exact h4
                  have h5' : ext.spin1Configure y.myModel_ = false := by rw [hm]; exact h5
                  have h6' : y.myModel_ = TVar.Process.SelfDefine_spin1 := by rw [hm]; exact h6
                  have h7' : (List.range d.SIZE_ZVV).any
                      (fun i => decide (get2 y.coupl.spin1.selfDZvvcoupl i 1 ≠ 0)) = true := by
                    rw [hc]; exact h7
                  unfold configureAnalyticalPDFs
                  dsimp only
                  rw [if_neg h1', if_neg h2', if_neg h3', if_neg h4', if_pos h5', if_pos h6', if_pos h7']
                rw [e _ hm hp hme hc, e x rfl rfl rfl rfl]
              · have e : ∀ y : Mela d, y.myModel_ = x.myModel_ → y.myProduction_ = x.myProduction_ →
                    y.myME_ = x.myME_ → y.coupl = x.coupl →
                    configureAnalyticalPDFs ext y
                      = ({ y with ana := { y.ana with
                            spin1Model := { configured := some y.myModel_,
                                            g1Val := get2 y.coupl.spin1.selfDZvvcoupl 0 0,
                                            g2Val := get2 y.coupl.spin1.selfDZvvcoupl 1 0 },
                            pdf := some PdfRef.spin1Model } }, true) := by
                  intro y hm hp hme hc
                  have h1' : ¬ y.myModel_ = TVar.Process.bkgZZ := by rw [hm]; exact h1
                  have h2' : ¬ (y.myProduction_ = TVar.Production.JJQCD
                      ∨ y.myProduction_ = TVar.Production.JJVBF) := by rw [hp]; exact h2
                  have h3' : ¬ isVHProduction y.myProduction_ = true := by rw [hp]; exact h3
                  have h4' : ¬ isAnaSpin0Model y.myModel_ = true := by rw [hm]; exact h4
                  have h5' : ext.spin1Configure y.myModel_ = false := by rw [hm]; exact h5
                  have h6' : y.myModel_ = TVar.Process.SelfDefine_spin1 := by rw [hm]; exact h6
                  have h7' : ¬ (List.range d.SIZE_ZVV).any
                      (fun i => decide (get2 y.coupl.spin1.selfDZvvcoupl i 1 ≠ 0)) = true := by
                    rw [hc]; exact h7
                  unfold configureAnalyticalPDFs
                  dsimp only
                  rw [if_neg h1', if_neg h2', if_neg h3', if_neg h4', if_pos h5', if_pos h6', if_neg h7']
                rw [e _ hm hp hme hc, e x rfl rfl rfl rfl]
            · have e : ∀ y : Mela d, y.myModel_ = x.myModel_ → y.myProduction_ = x.myProduction_ →
                  y.myME_ = x.myME_ → y.coupl = x.coupl →
                  configureAnalyticalPDFs ext y
                    = ({ y with ana := { y.ana with
                          spin1Model := { y.ana.spin1Model with configured := some y.myModel_ },
                          pdf := some PdfRef.spin1Model } }, true) := by
                intro y hm hp hme hc
                have h1' : ¬ y.myModel_ = TVar.Process.bkgZZ := by rw [hm]; exact h1
                have h2' : ¬ (y.myProduction_ = TVar.Production.JJQCD
                    ∨ y.myProduction_ = TVar.Production.JJVBF) := by rw [hp]; exact h2
                have h3' : ¬ isVHProduction y.myProduction_ = true := by rw [hp]; exact h3
                have h4' : ¬ isAnaSpin0Model y.myModel_ = true := by rw [hm]; exact h4
                have h5' : ext.spin1Configure y.myModel_ = false := by rw [hm]; exact h5
                have h6' : ¬ y.myModel_ = TVar.Process.SelfDefine_spin1 := by rw [hm]; exact h6
                unfold configureAnalyticalPDFs
                dsimp only
                rw [if_neg h1', if_neg h2', if_neg h3', if_neg h4', if_pos h5', if_neg h6']
              rw [e _ hm hp hme hc, e x rfl rfl rfl rfl]
          · by_cases h6 : isAnaSpin2Model x.myModel_ = true
            · have e : ∀ y : Mela d, y.myModel_ = x.myModel_ → y.myProduction_ = x.myProduction_ →
                  y.myME_ = x.myME_ → y.coupl = x.coupl →
                  configureAnalyticalPDFs ext y
                    = ({ y with ana := { y.ana with
                          spin1Model := { y.ana.spin1Model with configured := some y.myModel_ },
                          pdf := some PdfRef.spin2Model,
                          spin2Model := (configureSpin2 ext { y with ana := { y.ana with
                            spin1Model := { y.ana.spin1Model with configured := some y.myModel_ } } }).1 } },
                        !(configureSpin2 ext { y with ana := { y.ana with
                            spin1Model := { y.ana.spin1Model with configured := some y.myModel_ } } }).2) := by
                intro y hm hp hme hc
                have h1' : ¬ y.myModel_ = TVar.Process.bkgZZ := by rw [hm]; exact h1
                have h2' : ¬ (y.myProduction_ = TVar.Production.JJQCD
                    ∨ y.myProduction_ = TVar.Production.JJVBF) := by rw [hp]; exact h2
                have h3' : ¬ isVHProduction y.myProduction_ = true := by rw [hp]; exact h3
                have h4' : ¬ isAnaSpin0Model y.myModel_ = true := by rw [hm]; exact h4
                have h5' : ¬ ext.spin1Configure y.myModel_ = false := by rw [hm]; exact h5
                have h6' : isAnaSpin2Model y.myModel_ = true := by rw [hm]; exact h6
                unfold configureAnalyticalPDFs
                dsimp only
                rw [if_neg h1', if_neg h2', if_neg h3', if_neg h4', if_neg h5', if_pos h6']
              have hi : configureSpin2 ext { (configureAnalyticalPDFs ext x).1 with ana :=
                    { (configureAnalyticalPDFs ext x).1.ana with spin1Model :=
                      { (configureAnalyticalPDFs ext x).1.ana.spin1Model with
                        configured := some (configureAnalyticalPDFs ext x).1.myModel_ } } }
                  = configureSpin2 ext { x with ana := { x.ana with
                      spin1Model := { x.ana.spin1Model with configured := some x.myModel_ } } } :=
                configureSpin2_idem ext _ _ hm hp hc (by rw [e x rfl rfl rfl rfl])
              rw [e _ hm hp hme hc, hi, e x rfl rfl rfl rfl]
            · by_cases h7 : x.myME_ = TVar.MatrixElement.ANALYTICAL
              · have e : ∀ y : Mela d, y.myModel_ = x.myModel_ → y.myProduction_ = x.myProduction_ →
                    y.myME_ = x.myME_ → y.coupl = x.coupl →
                    configureAnalyticalPDFs ext y
                      = ({ y with ana := { y.ana with
                            spin1Model := { y.ana.spin1Model with configured := some y.myModel_ } } },
                          false) := by
                  intro y hm hp hme hc
                  have h1' : ¬ y.myModel_ = TVar.Process.bkgZZ := by rw [hm]; exact h1
                  have h2' : ¬ (y.myProduction_ = TVar.Production.JJQCD
                      ∨ y.myProduction_ = TVar.Production.JJVBF) := by rw [hp]; exact h2
                  have h3' : ¬ isVHProduction y.myProduction_ = true := by rw [hp]; exact h3
                  have h4' : ¬ isAnaSpin0Model y.myModel_ = true := by rw [hm]; exact h4
                  have h5' : ¬ ext.spin1Configure y.myModel_ = false := by rw [hm]; exact h5
                  have h6' : ¬ isAnaSpin2Model y.myModel_ = true := by rw [hm]; exact h6
                  have h7' : y.myME_ = TVar.MatrixElement.ANALYTICAL := by rw [hme]; exact h7
                  unfold configureAnalyticalPDFs
                  dsimp only
                  rw [if_neg h1', if_neg h2', if_neg h3', if_neg h4', if_neg h5', if_neg h6', if_pos h7']
                rw [e _ hm hp hme hc, e x rfl rfl rfl rfl]
              · have e : ∀ y : Mela d, y.myModel_ = x.myModel_ → y.myProduction_ = x.myProduction_ →
                    y.myME_ = x.myME_ → y.coupl = x.coupl →
                    configureAnalyticalPDFs ext y
                      = ({ y with ana := { y.ana with
                            spin1Model := { y.ana.spin1Model with configured := some y.myModel_ } } },
                          true) := by
                  intro y hm hp hme hc
                  have h1' : ¬ y.myModel_ = TVar.Process.bkgZZ := by rw [hm]; exact h1
                  have h2' : ¬ (y.myProduction_ = TVar.Production.JJQCD
                      ∨ y.myProduction_ = TVar.Production.JJVBF) := by rw [hp]; exact h2
                  have h3' : ¬ isVHProduction y.myProduction_ = true := by rw [hp]; exact h3
                  have h4' : ¬ isAnaSpin0Model y.myModel_ = true := by rw [hm]; exact h4
                  have h5' : ¬ ext.spin1Configure y.myModel_ = false := by rw [hm]; exact h5
                  have h6' : ¬ isAnaSpin2Model y.myModel_ = true := by rw [hm]; exact h6
                  have h7' : ¬ y.myME_ = TVar.MatrixElement.ANALYTICAL := by rw [hme]; exact h7
                  unfold configureAnalyticalPDFs
                  dsimp only
                  rw [if_neg h1', if_neg h2', if_neg h3', if_neg h4', if_neg h5', if_neg h6', if_neg h7']
                rw [e _ hm hp hme hc, e x rfl rfl rfl rfl]

theorem configureAnalyticalPDFs_rrv (ext : Externals d) (x : Mela d) :
    (configureAnalyticalPDFs ext x).1.ana.rrv = x.ana.rrv := by
  rw [configureAnalyticalPDFs_frame]

theorem reenter_self (y : Mela d) (m : Option MELACandidate) (h1 : y.auxiliaryProb = 1)
    (h2 : y.melaCand = m) : reenter m y = y := by
  obtain ⟨y1, y2, y3, y4, y5, y6, y7, y8, y9, y10, y11⟩ := y
  simp only at h1 h2
  subst h1 h2
  rfl

theorem setObservables_releaseY (y : Mela d) (o : DecayOutputs)
    (h : y.ana.rrv = (setObservables y o).ana.rrv) : setObservables (releaseY y) o = y := by
  obtain ⟨y1, y2, y3, y4, y5, y6, y7, y8, ⟨a1, a2, a3, a4, a5⟩, y10, y11⟩ := y
  simp only [setObservables] at h
  subst h
  rfl

theorem computeP_analytic_eq (ext : Externals d) (x : Mela d) (prob : ℚ) (c : MELACandidate)
    (hx : x.melaCand = some c) :
    computeP_analytic ext x prob
      = (releaseY (configureAnalyticalPDFs ext
            (setObservables x (computeDecayAngles ext x).2)).1,
          if (configureAnalyticalPDFs ext (setObservables x (computeDecayAngles ext x).2)).2 then
            if (configureAnalyticalPDFs ext
                (setObservables x (computeDecayAngles ext x).2)).1.myProduction_
                = TVar.Production.ZZINDEPENDENT then
              ext.pdfIntegral (configureAnalyticalPDFs ext
                (setObservables x (computeDecayAngles ext x).2)).1.ana
            else ext.pdfGetVal (configureAnalyticalPDFs ext
                (setObservables x (computeDecayAngles ext x).2)).1.ana
          else prob) := by
  unfold computeP_analytic
  dsimp only
  rw [computeDecayAngles_fst ext x c hx]

theorem computeP_analytic_withMEConst (ext : Externals d) (k : ℚ) (x : Mela d) (prob : ℚ)
    (c : MELACandidate) (hx : x.melaCand = some c) :
    computeP_analytic ext (withMEConst k x) prob
      = (withMEConst k (computeP_analytic ext x prob).1, (computeP_analytic ext x prob).2) := by
  rw [computeP_analytic_eq ext (withMEConst k x) prob c hx, computeP_analytic_eq ext x prob c hx,
    computeDecayAngles_snd_congr ext (withMEConst k x) x c hx hx]
  rw [show setObservables (withMEConst k x) (computeDecayAngles ext x).2
      = withMEConst k (setObservables x (computeDecayAngles ext x).2) from rfl,
    configureAnalyticalPDFs_withMEConst]
  rfl

/-- The analytic branch of `computeP` reproduces its result when re-entered
from the state it left. -/
theorem computeP_analytic_reentrant (ext : Externals d) (b : Mela d) (prob : ℚ)
    (c : MELACandidate) (hb : b.melaCand = some c) (ha : b.auxiliaryProb = 1) :
    computeP_analytic ext (reenter (some c) (computeP_analytic ext b prob).1) prob
      = computeP_analytic ext b prob
    ∧ (computeP_analytic ext b prob).1.coupl = b.coupl
    ∧ (computeP_analytic ext b prob).1.ZZME.currentCand = b.ZZME.currentCand
    ∧ (computeP_analytic ext b prob).1.myME_ = b.myME_ := by
  have hf := configureAnalyticalPDFs_frame ext (setObservables b (computeDecayAngles ext b).2)
  have hidem := configureAnalyticalPDFs_idem ext (setObservables b (computeDecayAngles ext b).2)
  have hrrv := configureAnalyticalPDFs_rrv ext (setObservables b (computeDecayAngles ext b).2)
  rw [computeP_analytic_eq ext b prob c hb]
  generalize hC : configureAnalyticalPDFs ext (setObservables b (computeDecayAngles ext b).2) = C
    at hf hidem hrrv ⊢
  have hmc : (releaseY C.1).melaCand = some c := by
    rw [hf]
    exact hb
  have hau : (releaseY C.1).auxiliaryProb = 1 := by
    rw [hf]
    exact ha
  refine ⟨?_, by rw [hf]; rfl, by rw [hf]; rfl, by rw [hf]; rfl⟩
  dsimp only
  rw [reenter_self _ _ hau hmc, computeP_analytic_eq ext _ prob c hmc,
    computeDecayAngles_snd_congr ext (releaseY C.1) b c hmc hb,
    setObservables_releaseY C.1 _ hrrv, hidem]

/-! ### `computeP` -/

theorem computeP_body_eq (ext : Externals d) (b : Mela d) (cand : MELACandidate) (prob : ℚ)
    (useConstant : Bool) :
    computeP_body ext b cand prob useConstant
      = applyConstant (computeConstant ext) useConstant (decaySelect ext cand prob b) := rfl

theorem decaySelect_withMEConst (ext : Externals d) (cand : MELACandidate) (prob k : ℚ)
    (x : Mela d) (hx : x.melaCand = some cand) :
    decaySelect ext cand prob (withMEConst k x)
      = (withMEConst k (decaySelect ext cand prob x).1, (decaySelect ext cand prob x).2) := by
  unfold decaySelect
  by_cases h1 : x.myME_ = TVar.MatrixElement.ANALYTICAL
  · rw [if_pos h1, if_pos (show (withMEConst k x).myME_ = TVar.MatrixElement.ANALYTICAL from h1)]
    exact computeP_analytic_withMEConst ext k x prob cand hx
  · rw [if_neg h1,
      if_neg (show ¬ (withMEConst k x).myME_ = TVar.MatrixElement.ANALYTICAL from h1)]
    by_cases h2 : x.myME_ = TVar.MatrixElement.JHUGen ∨ x.myME_ = TVar.MatrixElement.MCFM
    · rw [if_pos h2, if_pos (show (withMEConst k x).myME_ = TVar.MatrixElement.JHUGen
          ∨ (withMEConst k x).myME_ = TVar.MatrixElement.MCFM from h2)]
      exact computeP_generator_withMEConst ext k x cand cand hx
    · rw [if_neg h2, if_neg (show ¬ ((withMEConst k x).myME_ = TVar.MatrixElement.JHUGen
          ∨ (withMEConst k x).myME_ = TVar.MatrixElement.MCFM) from h2)]

theorem decaySelect_reentrant (ext : Externals d) (b : Mela d) (cand : MELACandidate) (prob : ℚ)
    (hb : b.melaCand = some cand) (hcur : b.ZZME.currentCand = some cand)
    (ha : b.auxiliaryProb = 1) :
    decaySelect ext cand prob (reenter (some cand) (decaySelect ext cand prob b).1)
      = decaySelect ext cand prob b
    ∧ (decaySelect ext cand prob b).1.coupl = b.coupl
    ∧ (decaySelect ext cand prob b).1.ZZME.currentCand = b.ZZME.currentCand := by
  by_cases h1 : b.myME_ = TVar.MatrixElement.ANALYTICAL
  · have e : ∀ x : Mela d, x.myME_ = b.myME_ →
        decaySelect ext cand prob x = computeP_analytic ext x prob := by
      intro x hx
      unfold decaySelect
      rw [hx, if_pos h1]
    obtain ⟨r1, r2, r3, r4⟩ := computeP_analytic_reentrant ext b prob cand hb ha
    rw [e b rfl, e _ (show (reenter (some cand) (computeP_analytic ext b prob).1).myME_ = b.myME_
      from r4)]
    exact ⟨r1, r2, r3⟩
  · by_cases h2 : b.myME_ = TVar.MatrixElement.JHUGen ∨ b.myME_ = TVar.MatrixElement.MCFM
    · have e : ∀ x : Mela d, x.myME_ = b.myME_ →
          decaySelect ext cand prob x = computeP_generator ext x cand := by
        intro x hx
        unfold decaySelect
        rw [hx, if_neg h1, if_pos h2]
      have hcc := computeP_generator_currentCand ext b cand cand hb hcur
      have hcore := core_computeP_generator ext b cand cand hb
      have hre := computeP_generator_reenter ext b cand cand hb hcur ha
      rw [hb] at hre
      rw [e b rfl, hre,
        e (withWeights (computeP_generator ext b cand).1.ZZME.record.weights b) rfl,
        computeP_generator_withWeights ext _ b cand cand hb]
      have hcoupl := congrArg Mela.coupl hcore
      exact ⟨rfl, hcoupl, hcc⟩
    · have e : ∀ x : Mela d, x.myME_ = b.myME_ → decaySelect ext cand prob x = (x, prob) := by
        intro x hx
        unfold decaySelect
        rw [hx, if_neg h1, if_neg h2]
      rw [e b rfl]
      dsimp only
      rw [reenter_self b _ ha hb, e b rfl]
      exact ⟨rfl, rfl, rfl⟩

theorem computeP_body_reentrant (ext : Externals d) (s : Mela d) (cand : MELACandidate)
    (prob : ℚ) (useConstant : Bool) (hcur : s.ZZME.currentCand = some cand) :
    computeP_body ext (reenter (some cand)
        (computeP_body ext s.beginEvaluation cand prob useConstant).1) cand prob useConstant
      = computeP_body ext s.beginEvaluation cand prob useConstant
    ∧ (computeP_body ext s.beginEvaluation cand prob useConstant).1.coupl = s.coupl
    ∧ (computeP_body ext s.beginEvaluation cand prob useConstant).1.ZZME.currentCand
        = s.ZZME.currentCand := by
  obtain ⟨r1, r2, r3⟩ := decaySelect_reentrant ext s.beginEvaluation cand prob hcur hcur rfl
  simp only [computeP_body_eq]
  exact applyConstant_reentrant ext useConstant (decaySelect ext cand prob) s.beginEvaluation cand
    (fun k x hx => decaySelect_withMEConst ext cand prob k x hx) r1 r2 r3

/-- A second call of `computeP` from the state left by the first, with the
tables of the first call written again, returns the same state and the same
probability. -/
theorem computeP_idem (ext : Externals d) (s : Mela d) (prob : ℚ) (useConstant : Bool) :
    computeP ext (withCoupl s.coupl (computeP ext s prob useConstant).1) prob useConstant
      = computeP ext s prob useConstant := by
  simp only [computeP_eq_entry]
  exact entry_guarded_idem prob _ s (fun cand hcur =>
    computeP_body_reentrant ext s cand prob useConstant hcur)

/-- With engine MCFM outside the grid-average case and `useConstant` false,
`computeP` is one `computeXS` evaluation with the spin-0 tables handed over. -/
theorem computeP_direct (ext : Externals d) (s : Mela d) (prob : ℚ) (cand : MELACandidate)
    (hcur : s.ZZME.currentCand = some cand) (hme : s.myME_ = TVar.MatrixElement.MCFM)
    (hg : ¬ isGridAverageCase s = true) :
    computeP ext s prob false
      = ((evalXS ext s.beginEvaluation XSEntry.computeXS
            (Handed.spinZero s.coupl.spin0)).1.endEvaluation,
         (ext.xs XSEntry.computeXS s.ZZME.process (some cand)
            (Handed.spinZero s.coupl.spin0)).1) := by
  have hb : s.beginEvaluation.melaCand = some cand := hcur
  have h1 : ¬ s.beginEvaluation.myME_ = TVar.MatrixElement.ANALYTICAL := by
    show ¬ s.myME_ = TVar.MatrixElement.ANALYTICAL
    rw [hme]
    decide
  have h2 : s.beginEvaluation.myME_ = TVar.MatrixElement.JHUGen
      ∨ s.beginEvaluation.myME_ = TVar.MatrixElement.MCFM := Or.inr hme
  have h3 : ¬ isGridAverageCase s.beginEvaluation = true := hg
  have h4 : handedForComputeP s.beginEvaluation = Handed.spinZero s.coupl.spin0 := by
    have hme2 : s.beginEvaluation.myME_ = TVar.MatrixElement.MCFM := hme
    unfold handedForComputeP
    rw [if_pos (Or.inl hme2)]
    rfl
  rw [computeP_eq_entry]
  unfold entry guarded
  rw [hb]
  dsimp only
  rw [computeP_body_eq]
  unfold decaySelect computeP_generator
  rw [if_neg h1, if_pos h2, if_pos h3, h4]
  have hcur2 : s.beginEvaluation.ZZME.currentCand = some cand := hcur
  simp only [applyConstant, Bool.false_eq_true, if_false, evalXS, hcur2]
  rfl

/-- Claim C4 as stated fails: on an instance whose table holds a coupling
written by the caller, with a generator that returns that coupling, the first
`computeP` returns 1 and the second, with the same candidate, selector and
flag, returns 0, because the first call ends by resetting the tables. -/
theorem repeated_evaluation_after_coupling_write :
    (computeP Example.ext Example.melaDirty 0 false).2 = 1
    ∧ (computeP Example.ext (computeP Example.ext Example.melaDirty 0 false).1 0 false).2 = 0
    ∧ (computeP Example.ext Example.melaDirty 0 false).1.ZZME.currentCand
        = Example.melaDirty.ZZME.currentCand
    ∧ (computeP Example.ext Example.melaDirty 0 false).1.ZZME.process
        = Example.melaDirty.ZZME.process := by
  have h1 := computeP_direct Example.ext Example.melaDirty 0 Example.cand rfl rfl (by decide)
  have hc : (computeP Example.ext Example.melaDirty 0 false).1.coupl
      = defaultCouplings Example.dims := computeP_coupl _ _ _ _
  have hcur : (computeP Example.ext Example.melaDirty 0 false).1.ZZME.currentCand
      = some Example.cand := by
    rw [h1]
    rfl
  have hme : (computeP Example.ext Example.melaDirty 0 false).1.myME_
      = TVar.MatrixElement.MCFM := by
    rw [h1]
    rfl
  have hg : ¬ isGridAverageCase (computeP Example.ext Example.melaDirty 0 false).1 = true := by
    rw [h1]
    decide
  have h2 := computeP_direct Example.ext (computeP Example.ext Example.melaDirty 0 false).1 0
    Example.cand hcur hme hg
  refine ⟨?_, ?_, hcur, ?_⟩
  · rw [h1]
    simp [Example.ext, Example.melaDirty, set3, get3, Example.dims]
  · rw [h2, hc]
    simp [Example.ext, defaultCouplings, get3, Example.dims]
  · rw [h1]
    rfl

/-- Claim C4, amended: when `computeP` (or `computeProdP`, on every path, the
missing-jet integration included) is called a second time from the state the
first call left, with the same value in `prob` on entry, the same
`useConstant` flag and the coupling tables holding what they held when the
first call started, it returns the same probability and the same auxiliary
probability and leaves the same state; if the tables were in their reset state
when the first call started, nothing has to be written again. -/
theorem repeated_evaluation_same_tables (ext : Externals d) (s : Mela d) (prob : ℚ)
    (useConstant : Bool) :
    ((computeP ext (withCoupl s.coupl (computeP ext s prob useConstant).1) prob useConstant).2
        = (computeP ext s prob useConstant).2
      ∧ (computeP ext (withCoupl s.coupl (computeP ext s prob useConstant).1) prob
            useConstant).1.getPAux
          = (computeP ext s prob useConstant).1.getPAux
      ∧ (computeP ext (withCoupl s.coupl (computeP ext s prob useConstant).1) prob
            useConstant).1
          = (computeP ext s prob useConstant).1)
    ∧ ((computeProdP ext (withCoupl s.coupl (computeProdP ext s prob useConstant).1) prob
            useConstant).2
          = (computeProdP ext s prob useConstant).2
      ∧ (computeProdP ext (withCoupl s.coupl (computeProdP ext s prob useConstant).1) prob
            useConstant).1.getPAux
          = (computeProdP ext s prob useConstant).1.getPAux
      ∧ (computeProdP ext (withCoupl s.coupl (computeProdP ext s prob useConstant).1) prob
            useConstant).1
          = (computeProdP ext s prob useConstant).1)
    ∧ (s.coupl = defaultCouplings d →
        (computeP ext (computeP ext s prob useConstant).1 prob useConstant).2
            = (computeP ext s prob useConstant).2
        ∧ (computeP ext (computeP ext s prob useConstant).1 prob useConstant).1.getPAux
            = (computeP ext s prob useConstant).1.getPAux
        ∧ (computeProdP ext (computeProdP ext s prob useConstant).1 prob useConstant).2
            = (computeProdP ext s prob useConstant).2
        ∧ (computeProdP ext (computeProdP ext s prob useConstant).1 prob useConstant).1.getPAux
            = (computeProdP ext s prob useConstant).1.getPAux) := by
  have h1 := computeP_idem ext s prob useConstant
  have h2 := computeProdP_idem ext s prob useConstant
  refine ⟨⟨congrArg Prod.snd h1, congrArg (fun r => r.1.getPAux) h1, congrArg Prod.fst h1⟩,
    ⟨congrArg Prod.snd h2, congrArg (fun r => r.1.getPAux) h2, congrArg Prod.fst h2⟩, fun hs => ?_⟩
  have e1 : withCoupl s.coupl (computeP ext s prob useConstant).1
      = (computeP ext s prob useConstant).1 :=
    withCoupl_self _ _ ((computeP_coupl ext s prob useConstant).trans hs.symm)
  have e2 : withCoupl s.coupl (computeProdP ext s prob useConstant).1
      = (computeProdP ext s prob useConstant).1 :=
    withCoupl_self _ _ ((computeProdP_coupl ext s prob useConstant).trans hs.symm)
  rw [e1] at h1
  rw [e2] at h2
  exact ⟨congrArg Prod.snd h1, congrArg (fun r => r.1.getPAux) h1,
    congrArg Prod.snd h2, congrArg (fun r => r.1.getPAux) h2⟩

/-- Claim C4, amended, at the instance that runs the missing-jet integration,
whose tables are in their reset state, and at the instance with a coupling
written by the caller, once that coupling is written again. -/
theorem repeated_evaluation_same_tables_witness :
    Example.melaVBF.coupl = defaultCouplings Example.dims
    ∧ (computeProdP Example.ext (computeProdP Example.ext Example.melaVBF 0 false).1 0 false).2
        = (computeProdP Example.ext Example.melaVBF 0 false).2
    ∧ (computeProdP Example.ext
          (computeProdP Example.ext Example.melaVBF 0 false).1 0 false).1.getPAux
        = (computeProdP Example.ext Example.melaVBF 0 false).1.getPAux
    ∧ (computeP Example.ext (withCoupl Example.melaDirty.coupl
          (computeP Example.ext Example.melaDirty 0 false).1) 0 false).2
        = (computeP Example.ext Example.melaDirty 0 false).2 :=
  ⟨rfl,
    ((repeated_evaluation_same_tables Example.ext Example.melaVBF 0 false).2.2 rfl).2.2.1,
    ((repeated_evaluation_same_tables Example.ext Example.melaVBF 0 false).2.2 rfl).2.2.2,
    (repeated_evaluation_same_tables Example.ext Example.melaDirty 0 false).1.1⟩

end Mela

/-! ## The normalisation of the auxiliary probability -/

namespace Mela

variable {d : Dims}

theorem applyConstant_auxiliaryProb (ext : Externals d) (useConstant : Bool) (r : Mela d × ℚ) :
    (applyConstant (computeConstant ext) useConstant r).1.auxiliaryProb = r.1.auxiliaryProb := by
  cases useConstant <;> rfl

end Mela

/-! ## Normalisation constants -/

namespace Mela

variable {d : Dims}

theorem storedConstant_fin_pos (q : ℚ) (h : 0 < q) : storedConstant (FloatVal.fin q) = 1 / q := by
  simp [storedConstant, FloatVal.isnan, FloatVal.isinf, FloatVal.leZero, FloatVal.toRat, h]

theorem storedConstant_fin_nonpos (q : ℚ) (h : q ≤ 0) : storedConstant (FloatVal.fin q) = 0 := by
  simp [storedConstant, FloatVal.isnan, FloatVal.isinf, FloatVal.leZero, h]

theorem storedConstant_nan : storedConstant FloatVal.nan = 0 := by
  simp [storedConstant, FloatVal.isnan]

theorem storedConstant_inf (n : Bool) : storedConstant (FloatVal.inf n) = 0 := by
  simp [storedConstant, FloatVal.isnan, FloatVal.isinf]

theorem setConstant_getConstant (ext : Externals d) (s : Mela d) :
    (setConstant ext s).getConstant = storedConstant (rawConstant ext s) := rfl

theorem computeConstant_snd (ext : Externals d) (s : Mela d) (prob : ℚ) :
    (computeConstant ext s prob).2 = prob * storedConstant (rawConstant ext s) := rfl

theorem setConstant_eq (ext : Externals d) (s : Mela d) :
    setConstant ext s = withMEConst (storedConstant (rawConstant ext s)) s := rfl

theorem rawConstant_melaDirty :
    rawConstant Example.extHandles Example.melaDirty = FloatVal.fin 2 := by
  simp [rawConstant, Example.melaDirty, Example.mela, Example.cand, MELACandidate.getSortedV,
    MELABoson.getNDaughters, daughterId, MELABoson.getDaughter, Example.lepton,
    Example.extHandles, Example.ext, getConstant_4l, idprod, handles_4l, sumHandles, FloatVal.add]

theorem rawConstant_melaJHUGen :
    rawConstant Example.extHandles Example.melaJHUGen = FloatVal.fin 0 := by
  simp [rawConstant, Example.melaJHUGen, setProcess, Example.melaDirty, Example.mela,
    Example.cand, MELACandidate.getSortedV,
    MELABoson.getNDaughters, daughterId, MELABoson.getDaughter, Example.lepton,
    Example.extHandles, Example.ext, getConstant_4l, idprod, handles_4l, sumHandles, FloatVal.add]

theorem rawConstant_melaZJets :
    rawConstant Example.extHandles Example.melaZJets = FloatVal.fin (-1) := by
  simp [rawConstant, Example.melaZJets, setProcess, Example.melaDirty, Example.mela,
    Example.cand, MELACandidate.getSortedV,
    MELABoson.getNDaughters, daughterId, MELABoson.getDaughter, Example.lepton,
    Example.extHandles, Example.ext, getConstant_4l, idprod, handles_4l, sumHandles, FloatVal.add]

theorem rawConstant_melaBkg :
    rawConstant Example.extHandles Example.melaBkg = FloatVal.nan := by
  decide

theorem rawConstant_melaBkgQQB :
    rawConstant Example.extHandles Example.melaBkgQQB = FloatVal.inf false := by
  decide

end Mela

/-! ### Single precision -/

theorem roundHalfEven_intCast (n : ℤ) : roundHalfEven (n : ℚ) = n := by
  simp [roundHalfEven]

theorem roundHalfEven_ge (n : ℤ) (x : ℚ) (h : (n : ℚ) ≤ x) : n ≤ roundHalfEven x := by
  have hf : n ≤ ⌊x⌋ := Int.le_floor.mpr h
  unfold roundHalfEven
  split_ifs <;> omega

theorem roundHalfEven_le (m : ℤ) (x : ℚ) (h : x ≤ (m : ℚ)) : roundHalfEven x ≤ m := by
  rcases eq_or_lt_of_le h with e | hlt
  · rw [e, roundHalfEven_intCast]
  · have hf : ⌊x⌋ < m := Int.floor_lt.mpr hlt
    unfold roundHalfEven
    split_ifs <;> omega

namespace FloatVal

theorem two_zpow_pos (z : ℤ) : (0 : ℚ) < 2 ^ z := zpow_pos (by norm_num) z

theorem log_two_abs (q : ℚ) (hq : 0 < q) (k : ℤ) : (2 : ℚ) ^ k ≤ q ↔ k ≤ Int.log 2 |q| := by
  rw [abs_of_pos hq]
  have := @Int.zpow_le_iff_le_log ℚ _ _ 2 (by norm_num) k q hq
  simpa using this

theorem log_two_abs_lt (q : ℚ) (hq : 0 < q) (k : ℤ) : q < (2 : ℚ) ^ k ↔ Int.log 2 |q| < k := by
  rw [abs_of_pos hq]
  have := @Int.lt_zpow_iff_log_lt ℚ _ _ 2 (by norm_num) k q hq
  simpa using this

/-- The rounded value lies between two multiples of the spacing that enclose
the value; it is infinite only if the upper one reaches the overflow bound. -/
theorem roundBinary_sandwich (prec : Nat) (emin emax : ℤ) (q : ℚ) (hq : 0 < q) (e : ℤ)
    (he : max (Int.log 2 |q|) emin = e) (a b : ℤ) (ha : 0 ≤ a)
    (hab : (a : ℚ) * 2 ^ (e - ((prec : ℤ) - 1)) ≤ q)
    (hb : q ≤ (b : ℚ) * 2 ^ (e - ((prec : ℤ) - 1))) :
    (∃ r, roundBinary prec emin emax (fin q) = fin r
        ∧ (a : ℚ) * 2 ^ (e - ((prec : ℤ) - 1)) ≤ r ∧ r ≤ (b : ℚ) * 2 ^ (e - ((prec : ℤ) - 1))
        ∧ r < 2 ^ emax)
      ∨ (roundBinary prec emin emax (fin q) = inf false
        ∧ (2 : ℚ) ^ emax ≤ (b : ℚ) * 2 ^ (e - ((prec : ℤ) - 1))) := by
  have hu : (0 : ℚ) < 2 ^ (e - ((prec : ℤ) - 1)) := two_zpow_pos _
  have h1 : a ≤ roundHalfEven (q / 2 ^ (e - ((prec : ℤ) - 1))) :=
    roundHalfEven_ge _ _ ((le_div_iff₀ hu).mpr hab)
  have h2 : roundHalfEven (q / 2 ^ (e - ((prec : ℤ) - 1))) ≤ b :=
    roundHalfEven_le _ _ ((div_le_iff₀ hu).mpr hb)
  have c1 : (a : ℚ) ≤ (roundHalfEven (q / 2 ^ (e - ((prec : ℤ) - 1))) : ℚ) := by exact_mod_cast h1
  have c2 : (roundHalfEven (q / 2 ^ (e - ((prec : ℤ) - 1))) : ℚ) ≤ (b : ℚ) := by exact_mod_cast h2
  have c0 : (0 : ℚ) ≤ (a : ℚ) := by exact_mod_cast ha
  have hr0 : (0 : ℚ) ≤ (roundHalfEven (q / 2 ^ (e - ((prec : ℤ) - 1))) : ℚ)
      * 2 ^ (e - ((prec : ℤ) - 1)) := mul_nonneg (le_trans c0 c1) hu.le
  have hlo := mul_le_mul_of_nonneg_right c1 hu.le
  have hhi := mul_le_mul_of_nonneg_right c2 hu.le
  have hneg : decide (q < 0) = false := by simp [hq.le]
  unfold roundBinary
  simp only [he, abs_of_nonneg hr0, hneg]
  by_cases hov : (2 : ℚ) ^ emax
      ≤ (roundHalfEven (q / 2 ^ (e - ((prec : ℤ) - 1))) : ℚ) * 2 ^ (e - ((prec : ℤ) - 1))
  · right
    rw [if_pos hov]
    exact ⟨rfl, le_trans hov hhi⟩
  · left
    rw [if_neg hov]
    exact ⟨_, rfl, hlo, hhi, not_le.mp hov⟩

theorem roundBinary_zero (prec : Nat) (emin emax : ℤ) :
    roundBinary prec emin emax (fin 0) = fin 0 := by
  have h : ¬ (2 : ℚ) ^ emax ≤ 0 := not_le.mpr (two_zpow_pos emax)
  simp [roundBinary, roundHalfEven, h]

/-- A power of two within the range of the exponent is kept, or overflows. -/
theorem roundBinary_zpow (prec : Nat) (emin emax : ℤ) (z : ℤ) (hp : 1 ≤ prec)
    (h1 : emin - ((prec : ℤ) - 1) ≤ z) :
    roundBinary prec emin emax (fin ((2 : ℚ) ^ z))
      = if (2 : ℚ) ^ emax ≤ 2 ^ z then inf false else fin (2 ^ z) := by
  have hq : (0 : ℚ) < 2 ^ z := two_zpow_pos z
  have hlog : Int.log 2 |(2 : ℚ) ^ z| = z := by
    rw [abs_of_pos hq]
    have := @Int.log_zpow ℚ _ _ 2 (by norm_num) z
    simpa using this
  have hm : 0 ≤ z - max z emin + ((prec : ℤ) - 1) := by
    have hp2 : (1 : ℤ) ≤ (prec : ℤ) := by exact_mod_cast hp
    rcases le_total z emin with h | h
    · rw [max_eq_right h]; omega
    · rw [max_eq_left h]; omega
  obtain ⟨m, hmm⟩ := Int.eq_ofNat_of_zero_le hm
  have hval : (((2 : ℤ) ^ m : ℤ) : ℚ) * 2 ^ (max z emin - ((prec : ℤ) - 1)) = 2 ^ z := by
    push_cast
    rw [← zpow_natCast, ← zpow_add₀ (by norm_num : (2 : ℚ) ≠ 0), ← hmm]
    congr 1
    ring
  rcases roundBinary_sandwich prec emin emax _ hq (max z emin) (by rw [hlog]) ((2 : ℤ) ^ m)
      ((2 : ℤ) ^ m) (by positivity) (le_of_eq hval) (le_of_eq hval.symm) with
    ⟨r, e1, e2, e3, e4⟩ | ⟨e1, e2⟩
  · rw [hval] at e2 e3
    have hr : r = 2 ^ z := le_antisymm e3 e2
    rw [e1, hr, if_neg (not_le.mpr (hr ▸ e4))]
  · rw [hval] at e2
    rw [e1, if_pos e2]

/-- A value at or beyond the overflow bound becomes infinite. -/
theorem roundBinary_overflow (prec : Nat) (emin emax : ℤ) (q : ℚ) (hp : 1 ≤ prec)
    (he : emin ≤ emax) (h : (2 : ℚ) ^ emax ≤ q) :
    roundBinary prec emin emax (fin q) = inf false := by
  have hq : (0 : ℚ) < q := lt_of_lt_of_le (two_zpow_pos emax) h
  have hl : emax ≤ Int.log 2 |q| := (log_two_abs q hq emax).mp h
  have hmax : max (Int.log 2 |q|) emin = Int.log 2 |q| := max_eq_left (le_trans he hl)
  have hlow : (2 : ℚ) ^ Int.log 2 |q| ≤ q := (log_two_abs q hq _).mpr (le_refl _)
  have hup : q < (2 : ℚ) ^ (Int.log 2 |q| + 1) :=
    (log_two_abs_lt q hq _).mpr (by omega)
  obtain ⟨m, hm⟩ : ∃ m : ℕ, prec = m + 1 := ⟨prec - 1, by omega⟩
  have hva : (((2 : ℤ) ^ m : ℤ) : ℚ) * 2 ^ (Int.log 2 |q| - ((prec : ℤ) - 1))
      = 2 ^ Int.log 2 |q| := by
    push_cast
    rw [← zpow_natCast, ← zpow_add₀ (by norm_num : (2 : ℚ) ≠ 0), hm]
    congr 1
    push_cast
    ring
  have hvb : (((2 : ℤ) ^ (m + 1) : ℤ) : ℚ) * 2 ^ (Int.log 2 |q| - ((prec : ℤ) - 1))
      = 2 ^ (Int.log 2 |q| + 1) := by
    push_cast
    rw [← zpow_natCast, ← zpow_add₀ (by norm_num : (2 : ℚ) ≠ 0), hm]
    congr 1
    push_cast
    ring
  rcases roundBinary_sandwich prec emin emax q hq _ hmax ((2 : ℤ) ^ m) ((2 : ℤ) ^ (m + 1))
      (by positivity) (by rw [hva]; exact hlow) (by rw [hvb]; exact hup.le) with
    ⟨r, _, e2, _, e4⟩ | ⟨e1, _⟩
  · rw [hva] at e2
    have : (2 : ℚ) ^ emax ≤ 2 ^ Int.log 2 |q| :=
      zpow_le_zpow_right₀ (by norm_num) hl
    exact absurd (lt_of_le_of_lt (le_trans this e2) e4) (lt_irrefl _)
  · exact e1

/-- Rounding does not take a value below a power of two that it reaches. -/
theorem roundBinary_ge_zpow (prec : Nat) (emin emax : ℤ) (q : ℚ) (k : ℤ) (hp : 1 ≤ prec)
    (hk : emin ≤ k) (h : (2 : ℚ) ^ k ≤ q) :
    roundBinary prec emin emax (fin q) = inf false
      ∨ ∃ r, roundBinary prec emin emax (fin q) = fin r ∧ (2 : ℚ) ^ k ≤ r := by
  have hq : (0 : ℚ) < q := lt_of_lt_of_le (two_zpow_pos k) h
  have hl : k ≤ Int.log 2 |q| := (log_two_abs q hq k).mp h
  have hmax : max (Int.log 2 |q|) emin = Int.log 2 |q| := max_eq_left (le_trans hk hl)
  have hlow : (2 : ℚ) ^ Int.log 2 |q| ≤ q := (log_two_abs q hq _).mpr (le_refl _)
  have hup : q < (2 : ℚ) ^ (Int.log 2 |q| + 1) :=
    (log_two_abs_lt q hq _).mpr (by omega)
  obtain ⟨m, hm⟩ : ∃ m : ℕ, prec = m + 1 := ⟨prec - 1, by omega⟩
  have hva : (((2 : ℤ) ^ m : ℤ) : ℚ) * 2 ^ (Int.log 2 |q| - ((prec : ℤ) - 1))
      = 2 ^ Int.log 2 |q| := by
    push_cast
    rw [← zpow_natCast, ← zpow_add₀ (by norm_num : (2 : ℚ) ≠ 0), hm]
    congr 1
    push_cast
    ring
  have hvb : (((2 : ℤ) ^ (m + 1) : ℤ) : ℚ) * 2 ^ (Int.log 2 |q| - ((prec : ℤ) - 1))
      = 2 ^ (Int.log 2 |q| + 1) := by
    push_cast
    rw [← zpow_natCast, ← zpow_add₀ (by norm_num : (2 : ℚ) ≠ 0), hm]
    congr 1
    push_cast
    ring
  rcases roundBinary_sandwich prec emin emax q hq _ hmax ((2 : ℤ) ^ m) ((2 : ℤ) ^ (m + 1))
      (by positivity) (by rw [hva]; exact hlow) (by rw [hvb]; exact hup.le) with
    ⟨r, e1, e2, _, _⟩ | ⟨e1, _⟩
  · rw [hva] at e2
    exact Or.inr ⟨r, e1, le_trans (zpow_le_zpow_right₀ (by norm_num) hl) e2⟩
  · exact Or.inl e1

/-- Below the least binade the rounded value lies between the multiples of the
least spacing that enclose the value. -/
theorem roundBinary_subnormal (prec : Nat) (emin emax : ℤ) (q : ℚ) (hq : 0 < q)
    (hlt : q < (2 : ℚ) ^ emin) (a b : ℤ) (ha : 0 ≤ a)
    (hab : (a : ℚ) * 2 ^ (emin - ((prec : ℤ) - 1)) ≤ q)
    (hb : q ≤ (b : ℚ) * 2 ^ (emin - ((prec : ℤ) - 1)))
    (hbm : (b : ℚ) * 2 ^ (emin - ((prec : ℤ) - 1)) < 2 ^ emax) :
    ∃ r, roundBinary prec emin emax (fin q) = fin r
      ∧ (a : ℚ) * 2 ^ (emin - ((prec : ℤ) - 1)) ≤ r
      ∧ r ≤ (b : ℚ) * 2 ^ (emin - ((prec : ℤ) - 1)) := by
  have hl : Int.log 2 |q| < emin := (log_two_abs_lt q hq emin).mp hlt
  have hmax : max (Int.log 2 |q|) emin = emin := max_eq_right hl.le
  rcases roundBinary_sandwich prec emin emax q hq emin hmax a b ha hab hb with
    ⟨r, e1, e2, e3, _⟩ | ⟨_, e2⟩
  · exact ⟨r, e1, e2, e3⟩
  · exact absurd (lt_of_le_of_lt e2 hbm) (lt_irrefl _)

theorem roundHalfEven_small (x : ℚ) (h0 : 0 ≤ x) (h1 : x < 1 / 2) : roundHalfEven x = 0 := by
  have hf : ⌊x⌋ = 0 := Int.floor_eq_zero_iff.mpr ⟨h0, by linarith⟩
  unfold roundHalfEven
  rw [hf, if_pos (by simpa using h1)]

/-- A positive value below half the least spacing becomes zero. -/
theorem roundBinary_underflow (prec : Nat) (emin emax : ℤ) (q : ℚ) (hq : 0 < q)
    (hlt : q < (2 : ℚ) ^ (emin - (prec : ℤ))) :
    roundBinary prec emin emax (fin q) = fin 0 := by
  have hlt2 : q < (2 : ℚ) ^ emin :=
    lt_of_lt_of_le hlt (zpow_le_zpow_right₀ (by norm_num) (by omega))
  have hl : Int.log 2 |q| < emin := (log_two_abs_lt q hq emin).mp hlt2
  have hmax : max (Int.log 2 |q|) emin = emin := max_eq_right hl.le
  have hu : (0 : ℚ) < 2 ^ (emin - ((prec : ℤ) - 1)) := two_zpow_pos _
  have hhalf : q / 2 ^ (emin - ((prec : ℤ) - 1)) < 1 / 2 := by
    rw [div_lt_iff₀ hu]
    have e : (1 / 2 : ℚ) * 2 ^ (emin - ((prec : ℤ) - 1)) = 2 ^ (emin - (prec : ℤ)) := by
      have : emin - ((prec : ℤ) - 1) = (emin - (prec : ℤ)) + 1 := by ring
      rw [this, zpow_add₀ (by norm_num : (2 : ℚ) ≠ 0), zpow_one]
      ring
    rw [e]
    exact hlt
  have hr := roundHalfEven_small _ (div_nonneg hq.le hu.le) hhalf
  have h : ¬ (2 : ℚ) ^ emax ≤ 0 := not_le.mpr (two_zpow_pos emax)
  unfold roundBinary
  simp only [hmax, hr]
  simp [h]

/-- A value that is not positive is not positive after rounding. -/
theorem roundBinary_nonpos (prec : Nat) (emin emax : ℤ) (q : ℚ) (hq : q ≤ 0) :
    (roundBinary prec emin emax (fin q)).isinf = true
      ∨ (roundBinary prec emin emax (fin q)).leZero = true := by
  have hu : (0 : ℚ) < 2 ^ (max (Int.log 2 |q|) emin - ((prec : ℤ) - 1)) := two_zpow_pos _
  have hn : roundHalfEven (q / 2 ^ (max (Int.log 2 |q|) emin - ((prec : ℤ) - 1))) ≤ 0 :=
    roundHalfEven_le 0 _ (by
      have := div_nonpos_of_nonpos_of_nonneg hq hu.le
      simpa using this)
  have hn2 : (roundHalfEven (q / 2 ^ (max (Int.log 2 |q|) emin - ((prec : ℤ) - 1))) : ℚ) ≤ 0 := by
    exact_mod_cast hn
  unfold roundBinary
  dsimp only
  split_ifs
  · exact Or.inl rfl
  · right
    simp only [leZero, decide_eq_true_eq]
    exact mul_nonpos_of_nonpos_of_nonneg hn2 hu.le

/-- Rounding does not take a value above a power of two that it does not
exceed. -/
theorem roundBinary_le_zpow (prec : Nat) (emin emax : ℤ) (q : ℚ) (k : ℤ) (hq : 0 < q)
    (hk : emin ≤ k) (hk2 : k < emax) (h : q ≤ (2 : ℚ) ^ k) :
    ∃ r, roundBinary prec emin emax (fin q) = fin r ∧ 0 ≤ r ∧ r ≤ (2 : ℚ) ^ k := by
  have hl : Int.log 2 |q| ≤ k := by
    have : q < (2 : ℚ) ^ (k + 1) :=
      lt_of_le_of_lt h (zpow_lt_zpow_right₀ (by norm_num) (by omega))
    have := (log_two_abs_lt q hq (k + 1)).mp this
    omega
  have he : max (Int.log 2 |q|) emin ≤ k := max_le hl hk
  have hm : 0 ≤ k - max (Int.log 2 |q|) emin + ((prec : ℤ) - 1) + 1 := by
    have : (0 : ℤ) ≤ (prec : ℤ) := Int.natCast_nonneg _
    omega
  obtain ⟨m, hmm⟩ := Int.eq_ofNat_of_zero_le hm
  have hvb : (((2 : ℤ) ^ m : ℤ) : ℚ) * 2 ^ (max (Int.log 2 |q|) emin - ((prec : ℤ) - 1))
      = 2 ^ (k + 1) := by
    push_cast
    rw [← zpow_natCast, ← zpow_add₀ (by norm_num : (2 : ℚ) ≠ 0), ← hmm]
    congr 1
    ring
  by_cases hprec : (prec : ℤ) - 1 + (k - max (Int.log 2 |q|) emin) < 0
  · -- fewer than one significant bit: cannot occur for a precision of at least 1
    have : (0 : ℤ) ≤ (prec : ℤ) := Int.natCast_nonneg _
    have hp0 : (prec : ℤ) = 0 ∧ k = max (Int.log 2 |q|) emin := by omega
    have hu : (2 : ℚ) ^ (max (Int.log 2 |q|) emin - ((prec : ℤ) - 1)) = 2 ^ (k + 1) := by
      congr 1
      omega
    have hhalf : q / 2 ^ (max (Int.log 2 |q|) emin - ((prec : ℤ) - 1)) ≤ 1 / 2 := by
      rw [hu, div_le_iff₀ (two_zpow_pos _), zpow_add₀ (by norm_num : (2 : ℚ) ≠ 0), zpow_one]
      linarith
    have hn0 : roundHalfEven (q / 2 ^ (max (Int.log 2 |q|) emin - ((prec : ℤ) - 1))) = 0 := by
      have hx0 : 0 ≤ q / 2 ^ (max (Int.log 2 |q|) emin - ((prec : ℤ) - 1)) :=
        div_nonneg hq.le (two_zpow_pos _).le
      have hf : ⌊q / 2 ^ (max (Int.log 2 |q|) emin - ((prec : ℤ) - 1))⌋ = 0 :=
        Int.floor_eq_zero_iff.mpr ⟨hx0, by linarith⟩
      unfold roundHalfEven
      rw [hf]
      split_ifs <;> first | rfl | (exfalso; simp at *; linarith) | (exfalso; omega)
    have hz : ¬ (2 : ℚ) ^ emax ≤ 0 := not_le.mpr (two_zpow_pos emax)
    refine ⟨0, ?_, le_refl _, (two_zpow_pos k).le⟩
    unfold roundBinary
    simp only [hn0]
    simp [hz]
  · obtain ⟨m2, hm2⟩ := Int.eq_ofNat_of_zero_le (not_lt.mp hprec)
    have hvb2 : (((2 : ℤ) ^ m2 : ℤ) : ℚ) * 2 ^ (max (Int.log 2 |q|) emin - ((prec : ℤ) - 1))
        = 2 ^ k := by
      push_cast
      rw [← zpow_natCast, ← zpow_add₀ (by norm_num : (2 : ℚ) ≠ 0), ← hm2]
      congr 1
      ring
    rcases roundBinary_sandwich prec emin emax q hq _ rfl 0 ((2 : ℤ) ^ m2) (le_refl 0)
        (by simpa using hq.le) (by rw [hvb2]; exact h) with ⟨r, e1, e2, e3, _⟩ | ⟨_, e2⟩
    · rw [hvb2] at e3
      exact ⟨r, e1, by simpa using e2, e3⟩
    · rw [hvb2] at e2
      exact absurd (lt_of_le_of_lt e2 (zpow_lt_zpow_right₀ (by norm_num) hk2)) (lt_irrefl _)

/-- A positive value that is at least the least positive value of the format
is not rounded to zero. -/
theorem roundBinary_pos (prec : Nat) (emin emax : ℤ) (q : ℚ) (hp : 1 ≤ prec)
    (h : (2 : ℚ) ^ (emin - ((prec : ℤ) - 1)) ≤ q) :
    roundBinary prec emin emax (fin q) = inf false
      ∨ ∃ r, roundBinary prec emin emax (fin q) = fin r ∧ 0 < r := by
  have hq : (0 : ℚ) < q := lt_of_lt_of_le (two_zpow_pos _) h
  by_cases hn : (2 : ℚ) ^ emin ≤ q
  · rcases roundBinary_ge_zpow prec emin emax q emin hp (le_refl _) hn with e | ⟨r, e, hr⟩
    · exact Or.inl e
    · exact Or.inr ⟨r, e, lt_of_lt_of_le (two_zpow_pos _) hr⟩
  · have hl : Int.log 2 |q| < emin := (log_two_abs_lt q hq emin).mp (not_le.mp hn)
    have hmax : max (Int.log 2 |q|) emin = emin := max_eq_right hl.le
    obtain ⟨m, hm⟩ : ∃ m : ℕ, prec = m + 1 := ⟨prec - 1, by omega⟩
    have hvb : (((2 : ℤ) ^ m : ℤ) : ℚ) * 2 ^ (emin - ((prec : ℤ) - 1)) = 2 ^ emin := by
      push_cast
      rw [← zpow_natCast, ← zpow_add₀ (by norm_num : (2 : ℚ) ≠ 0), hm]
      congr 1
      push_cast
      ring
    rcases roundBinary_sandwich prec emin emax q hq emin hmax 1 ((2 : ℤ) ^ m) (by norm_num)
        (by simpa using h) (by rw [hvb]; exact (not_le.mp hn).le) with
      ⟨r, e1, e2, _, _⟩ | ⟨e1, _⟩
    · rw [Int.cast_one, one_mul] at e2
      exact Or.inr ⟨r, e1, lt_of_lt_of_le (two_zpow_pos _) e2⟩
    · exact Or.inl e1

theorem roundBinary_fin_lt (prec : Nat) (emin emax : ℤ) (x : FloatVal) (r : ℚ)
    (h : roundBinary prec emin emax x = fin r) : |r| < (2 : ℚ) ^ emax := by
  cases x with
  | fin q =>
    unfold roundBinary at h
    dsimp only at h
    split_ifs at h with hov
    cases h
    exact not_le.mp hov
  | inf n => simp [roundBinary] at h
  | nan => simp [roundBinary] at h

/-- A value between two powers of two within the range of the exponent stays
between them. -/
theorem roundBinary_between (prec : Nat) (emin emax : ℤ) (q : ℚ) (k1 k2 : ℤ) (hp : 1 ≤ prec)
    (hk1 : emin ≤ k1) (hk2 : k2 < emax) (h1 : (2 : ℚ) ^ k1 ≤ q) (h2 : q ≤ (2 : ℚ) ^ k2) :
    ∃ r, roundBinary prec emin emax (fin q) = fin r ∧ (2 : ℚ) ^ k1 ≤ r ∧ r ≤ (2 : ℚ) ^ k2 := by
  have hq : (0 : ℚ) < q := lt_of_lt_of_le (two_zpow_pos _) h1
  have hk : k1 ≤ k2 := by
    by_contra hc
    have := zpow_lt_zpow_right₀ (by norm_num : (1 : ℚ) < 2) (not_le.mp hc)
    linarith
  obtain ⟨r, e, _, hr2⟩ := roundBinary_le_zpow prec emin emax q k2 hq (le_trans hk1 hk) hk2 h2
  rcases roundBinary_ge_zpow prec emin emax q k1 hp hk1 h1 with e2 | ⟨r2, e2, hr1⟩
  · rw [e] at e2
    cases e2
  · rw [e] at e2
    cases e2
    exact ⟨r, e, hr1, hr2⟩

theorem roundHalfEven_error (x : ℚ) : |(roundHalfEven x : ℚ) - x| ≤ 1 / 2 := by
  have h1 := Int.floor_le x
  have h2 := Int.lt_floor_add_one x
  unfold roundHalfEven
  split_ifs with a b c
  · rw [abs_le]
    constructor <;> linarith
  · push_cast
    rw [abs_le]
    constructor <;> linarith
  · rw [abs_le]
    constructor <;> linarith
  · push_cast
    rw [abs_le]
    constructor <;> linarith

/-- In the range of the normal values the rounding error is at most the value
times `2 ^ (-prec)`. -/
theorem roundBinary_error (prec : Nat) (emin emax : ℤ) (q : ℚ)
    (h : (2 : ℚ) ^ emin ≤ q) (r : ℚ) (hr : roundBinary prec emin emax (fin q) = fin r) :
    |r - q| ≤ q * 2 ^ (-(prec : ℤ)) := by
  have hq : (0 : ℚ) < q := lt_of_lt_of_le (two_zpow_pos _) h
  have hl : emin ≤ Int.log 2 |q| := (log_two_abs q hq emin).mp h
  have hmax : max (Int.log 2 |q|) emin = Int.log 2 |q| := max_eq_left hl
  have hlow : (2 : ℚ) ^ Int.log 2 |q| ≤ q := (log_two_abs q hq _).mpr (le_refl _)
  have hu : (0 : ℚ) < 2 ^ (Int.log 2 |q| - ((prec : ℤ) - 1)) := two_zpow_pos _
  unfold roundBinary at hr
  dsimp only at hr
  rw [hmax] at hr
  split_ifs at hr
  cases hr
  have herr := roundHalfEven_error (q / 2 ^ (Int.log 2 |q| - ((prec : ℤ) - 1)))
  have e1 : (roundHalfEven (q / 2 ^ (Int.log 2 |q| - ((prec : ℤ) - 1))) : ℚ)
        * 2 ^ (Int.log 2 |q| - ((prec : ℤ) - 1)) - q
      = ((roundHalfEven (q / 2 ^ (Int.log 2 |q| - ((prec : ℤ) - 1))) : ℚ)
          - q / 2 ^ (Int.log 2 |q| - ((prec : ℤ) - 1)))
        * 2 ^ (Int.log 2 |q| - ((prec : ℤ) - 1)) := by
    field_simp
  rw [e1, abs_mul, abs_of_pos hu]
  have e2 : (1 / 2 : ℚ) * 2 ^ (Int.log 2 |q| - ((prec : ℤ) - 1))
      = 2 ^ Int.log 2 |q| * 2 ^ (-(prec : ℤ)) := by
    rw [← zpow_add₀ (by norm_num : (2 : ℚ) ≠ 0)]
    have : Int.log 2 |q| - ((prec : ℤ) - 1) = (Int.log 2 |q| + -(prec : ℤ)) + 1 := by ring
    rw [this, zpow_add₀ (by norm_num : (2 : ℚ) ≠ 0) _ 1, zpow_one]
    ring
  calc |(roundHalfEven (q / 2 ^ (Int.log 2 |q| - ((prec : ℤ) - 1))) : ℚ)
          - q / 2 ^ (Int.log 2 |q| - ((prec : ℤ) - 1))|
        * 2 ^ (Int.log 2 |q| - ((prec : ℤ) - 1))
      ≤ (1 / 2) * 2 ^ (Int.log 2 |q| - ((prec : ℤ) - 1)) :=
        mul_le_mul_of_nonneg_right herr hu.le
    _ = 2 ^ Int.log 2 |q| * 2 ^ (-(prec : ℤ)) := e2
    _ ≤ q * 2 ^ (-(prec : ℤ)) := mul_le_mul_of_nonneg_right hlow (two_zpow_pos _).le

end FloatVal

namespace Mela

variable {d : Dims}

theorem toFloat32_zpow (z : ℤ) (h1 : -149 ≤ z) :
    (FloatVal.fin ((2 : ℚ) ^ z)).toFloat32
      = if (2 : ℚ) ^ (128 : ℤ) ≤ 2 ^ z then FloatVal.inf false else FloatVal.fin (2 ^ z) :=
  FloatVal.roundBinary_zpow 24 (-126) 128 z (by norm_num) (by norm_num; omega)

theorem toDouble_zpow (z : ℤ) (h1 : -1074 ≤ z) (h2 : z < 1024) :
    (FloatVal.fin ((2 : ℚ) ^ z)).toDouble = FloatVal.fin (2 ^ z) := by
  have h := FloatVal.roundBinary_zpow 53 (-1022) 1024 z (by norm_num) (by norm_num; omega)
  have hlt : ¬ (2 : ℚ) ^ (1024 : ℤ) ≤ 2 ^ z :=
    not_le.mpr (zpow_lt_zpow_right₀ (by norm_num) h2)
  rw [if_neg hlt] at h
  exact h

/-- The stored value for a power of two that is a value of the type `float`:
the reciprocal, unless it is `2 ^ 128` or more, which is infinite in single
precision. -/
theorem storedConstant32_zpow (z : ℤ) (h1 : -149 ≤ z) (h2 : z < 128) :
    storedConstant32 (FloatVal.fin ((2 : ℚ) ^ z))
      = if z ≤ -128 then FloatVal.inf false else FloatVal.fin (2 ^ (-z)) := by
  have hlt : ¬ (2 : ℚ) ^ (128 : ℤ) ≤ 2 ^ z :=
    not_le.mpr (zpow_lt_zpow_right₀ (by norm_num) h2)
  have hpos : ¬ (2 : ℚ) ^ z ≤ 0 := not_le.mpr (FloatVal.two_zpow_pos z)
  have hinv : (1 : ℚ) / 2 ^ z = 2 ^ (-z) := by rw [zpow_neg, one_div]
  unfold storedConstant32
  rw [toFloat32_zpow z h1, if_neg hlt]
  simp only [FloatVal.isnan, FloatVal.isinf, FloatVal.leZero, FloatVal.toRat, Bool.false_or,
    decide_eq_true_eq, if_neg hpos, hinv]
  rw [toDouble_zpow (-z) (by omega) (by omega), toFloat32_zpow (-z) (by omega)]
  by_cases hz : z ≤ -128
  · rw [if_pos hz, if_pos (zpow_le_zpow_right₀ (by norm_num) (by omega))]
  · rw [if_neg hz, if_neg (not_le.mpr (zpow_lt_zpow_right₀ (by norm_num) (by omega)))]

theorem storedConstant32_nan : storedConstant32 FloatVal.nan = FloatVal.fin 0 := rfl

theorem storedConstant32_inf (n : Bool) : storedConstant32 (FloatVal.inf n) = FloatVal.fin 0 :=
  rfl

/-- In single precision, too, a value that is zero or negative stores 0. -/
theorem storedConstant32_nonpos (q : ℚ) (h : q ≤ 0) :
    storedConstant32 (FloatVal.fin q) = FloatVal.fin 0 := by
  unfold storedConstant32
  rcases FloatVal.roundBinary_nonpos 24 (-126) 128 q h with e | e
  · simp [FloatVal.toFloat32, e]
  · simp [FloatVal.toFloat32, e]

/-- A positive value of the handles below half the least positive `float` is
zero when it is tested, a value of `2 ^ 128` or more is infinite: 0 is
stored. -/
theorem storedConstant32_out_of_range (q : ℚ) (hq : 0 < q)
    (h : q < 2 ^ (-150 : ℤ) ∨ (2 : ℚ) ^ (128 : ℤ) ≤ q) :
    storedConstant32 (FloatVal.fin q) = FloatVal.fin 0 := by
  unfold storedConstant32
  rcases h with h | h
  · have e : (FloatVal.fin q).toFloat32 = FloatVal.fin 0 :=
      FloatVal.roundBinary_underflow 24 (-126) 128 q hq (by
        have e : (-126 : ℤ) - ((24 : ℕ) : ℤ) = -150 := by norm_num
        rw [e]
        exact h)
    simp [e, FloatVal.isnan, FloatVal.isinf, FloatVal.leZero]
  · have e : (FloatVal.fin q).toFloat32 = FloatVal.inf false :=
      FloatVal.roundBinary_overflow 24 (-126) 128 q (by norm_num) (by norm_num) h
    simp [e, FloatVal.isnan, FloatVal.isinf]

/-- For every value from the least positive `float` up to `2 ^ (-128)` the
test of line 1626 is passed and the reciprocal is infinite in single
precision. -/
theorem storedConstant32_subnormal (q : ℚ) (h1 : (2 : ℚ) ^ (-149 : ℤ) ≤ q)
    (h2 : q ≤ 2 ^ (-128 : ℤ)) : storedConstant32 (FloatVal.fin q) = FloatVal.inf false := by
  have hq : (0 : ℚ) < q := lt_of_lt_of_le (FloatVal.two_zpow_pos _) h1
  have hu : (2 : ℚ) ^ ((-126 : ℤ) - (((24 : ℕ) : ℤ) - 1)) = 2 ^ (-149 : ℤ) := by norm_num
  have hb : ((2097152 : ℤ) : ℚ) * 2 ^ (-149 : ℤ) = 2 ^ (-128 : ℤ) := by
    have e : (2 : ℚ) ^ (-128 : ℤ) = 2 ^ (21 : ℤ) * 2 ^ (-149 : ℤ) := by
      rw [← zpow_add₀ (by norm_num : (2 : ℚ) ≠ 0)]
      norm_num
    rw [e]
    norm_num
  have ha : ((1 : ℤ) : ℚ) * 2 ^ (-149 : ℤ) = 2 ^ (-149 : ℤ) := by
    rw [Int.cast_one, one_mul]
  obtain ⟨r, e1, e2, e3⟩ := FloatVal.roundBinary_subnormal 24 (-126) 128 q hq
    (lt_of_le_of_lt h2 (zpow_lt_zpow_right₀ (by norm_num) (by norm_num))) 1 2097152
    (by norm_num) (by rw [hu, ha]; exact h1) (by rw [hu, hb]; exact h2)
    (by rw [hu, hb]; exact zpow_lt_zpow_right₀ (by norm_num) (by norm_num))
  rw [hu] at e2 e3
  rw [hb] at e3
  rw [ha] at e2
  have hr : (0 : ℚ) < r := lt_of_lt_of_le (FloatVal.two_zpow_pos _) e2
  have hrec : (2 : ℚ) ^ (128 : ℤ) ≤ 1 / r := by
    rw [le_div_iff₀ hr]
    calc (2 : ℚ) ^ (128 : ℤ) * r ≤ 2 ^ (128 : ℤ) * 2 ^ (-128 : ℤ) :=
          mul_le_mul_of_nonneg_left e3 (FloatVal.two_zpow_pos _).le
      _ = 1 := by rw [← zpow_add₀ (by norm_num : (2 : ℚ) ≠ 0)]; norm_num
  have e1f : (FloatVal.fin q).toFloat32 = FloatVal.fin r := e1
  have hnp : ¬ r ≤ 0 := not_le.mpr hr
  unfold storedConstant32
  simp only [e1f, FloatVal.isnan, FloatVal.isinf, FloatVal.leZero, FloatVal.toRat, Bool.false_or,
    decide_eq_true_eq, if_neg hnp]
  rcases FloatVal.roundBinary_ge_zpow 53 (-1022) 1024 (1 / r) 128 (by norm_num) (by norm_num)
      hrec with e | ⟨r2, e, hr2⟩
  · have ed : (FloatVal.fin (1 / r)).toDouble = FloatVal.inf false := e
    rw [ed]
    rfl
  · have ed : (FloatVal.fin (1 / r)).toDouble = FloatVal.fin r2 := e
    rw [ed]
    exact FloatVal.roundBinary_overflow 24 (-126) 128 r2 (by norm_num) (by norm_num) hr2

/-- The value stored by the code is the rounding, to `double` and then to
`float`, of the value that the exact arithmetic stores for the `float` held
in `constant`. -/
theorem storedConstant32_eq_round (c : FloatVal) :
    storedConstant32 c = (FloatVal.fin (storedConstant c.toFloat32)).toDouble.toFloat32 := by
  unfold storedConstant32 storedConstant
  dsimp only
  split_ifs
  · simp [FloatVal.toDouble, FloatVal.toFloat32, FloatVal.roundBinary_zero]
  · rfl

/-- In single precision, too, 0 is stored exactly for the values that fail the
test of line 1626: the reciprocal of a positive `float` is not rounded to
zero. -/
theorem storedConstant32_eq_zero_iff (c : FloatVal) :
    storedConstant32 c = FloatVal.fin 0
      ↔ (c.toFloat32.isnan || c.toFloat32.isinf || c.toFloat32.leZero) = true := by
  constructor
  · intro h
    by_contra hn
    unfold storedConstant32 at h
    dsimp only at h
    rw [if_neg hn] at h
    cases hc : c.toFloat32 with
    | nan => exact hn (by simp [hc, FloatVal.isnan])
    | inf n => exact hn (by simp [hc, FloatVal.isinf])
    | fin r =>
      rw [hc] at h
      have hr : 0 < r := by
        by_contra hle
        exact hn (by simp [hc, FloatVal.leZero, not_lt.mp hle])
      have hlt : |r| < (2 : ℚ) ^ (128 : ℤ) :=
        FloatVal.roundBinary_fin_lt 24 (-126) 128 c r hc
      rw [abs_of_pos hr] at hlt
      have hrec : (2 : ℚ) ^ (-128 : ℤ) ≤ 1 / r := by
        rw [le_div_iff₀ hr]
        calc (2 : ℚ) ^ (-128 : ℤ) * r ≤ 2 ^ (-128 : ℤ) * 2 ^ (128 : ℤ) :=
              mul_le_mul_of_nonneg_left hlt.le (FloatVal.two_zpow_pos _).le
          _ = 1 := by rw [← zpow_add₀ (by norm_num : (2 : ℚ) ≠ 0)]; norm_num
      simp only [FloatVal.toRat] at h
      rcases FloatVal.roundBinary_ge_zpow 53 (-1022) 1024 (1 / r) (-128) (by norm_num)
          (by norm_num) hrec with e | ⟨r2, e, hr2⟩
      · have ed : (FloatVal.fin (1 / r)).toDouble = FloatVal.inf false := e
        rw [ed] at h
        cases h
      · have ed : (FloatVal.fin (1 / r)).toDouble = FloatVal.fin r2 := e
        rw [ed] at h
        have h149 : (2 : ℚ) ^ ((-126 : ℤ) - (((24 : ℕ) : ℤ) - 1)) ≤ r2 :=
          le_trans (zpow_le_zpow_right₀ (by norm_num) (by norm_num)) hr2
        rcases FloatVal.roundBinary_pos 24 (-126) 128 r2 (by norm_num) h149 with
          e3 | ⟨r3, e3, hr3⟩
        · have ef : (FloatVal.fin r2).toFloat32 = FloatVal.inf false := e3
          rw [ef] at h
          cases h
        · have ef : (FloatVal.fin r2).toFloat32 = FloatVal.fin r3 := e3
          rw [ef] at h
          cases h
          exact lt_irrefl _ hr3
  · intro h
    unfold storedConstant32
    dsimp only
    rw [if_pos h]

/-- For a value of the handles in the range of the normal values of `float`
whose reciprocal is in that range too, the stored constant is finite, positive
and equal to the reciprocal to within a relative error of `2 ^ (-22)`. -/
theorem storedConstant32_normal (q : ℚ) (h1 : (2 : ℚ) ^ (-126 : ℤ) ≤ q)
    (h2 : q ≤ (2 : ℚ) ^ (126 : ℤ)) :
    ∃ r3, storedConstant32 (FloatVal.fin q) = FloatVal.fin r3
      ∧ (2 : ℚ) ^ (-126 : ℤ) ≤ r3 ∧ r3 ≤ (2 : ℚ) ^ (126 : ℤ)
      ∧ |r3 * q - 1| ≤ 2 ^ (-22 : ℤ) := by
  have hq : (0 : ℚ) < q := lt_of_lt_of_le (FloatVal.two_zpow_pos _) h1
  have inv_bounds : ∀ x : ℚ, (2 : ℚ) ^ (-126 : ℤ) ≤ x → x ≤ (2 : ℚ) ^ (126 : ℤ) →
      (2 : ℚ) ^ (-126 : ℤ) ≤ 1 / x ∧ 1 / x ≤ (2 : ℚ) ^ (126 : ℤ) := by
    intro x a b
    have hx : (0 : ℚ) < x := lt_of_lt_of_le (FloatVal.two_zpow_pos _) a
    have e : (2 : ℚ) ^ (-126 : ℤ) * 2 ^ (126 : ℤ) = 1 := by
      rw [← zpow_add₀ (by norm_num : (2 : ℚ) ≠ 0)]; norm_num
    constructor
    · rw [le_div_iff₀ hx]
      calc (2 : ℚ) ^ (-126 : ℤ) * x ≤ 2 ^ (-126 : ℤ) * 2 ^ (126 : ℤ) :=
            mul_le_mul_of_nonneg_left b (FloatVal.two_zpow_pos _).le
        _ = 1 := e
    · rw [div_le_iff₀ hx]
      calc (1 : ℚ) = 2 ^ (-126 : ℤ) * 2 ^ (126 : ℤ) := e.symm
        _ = 2 ^ (126 : ℤ) * 2 ^ (-126 : ℤ) := mul_comm _ _
        _ ≤ 2 ^ (126 : ℤ) * x := mul_le_mul_of_nonneg_left a (FloatVal.two_zpow_pos _).le
  obtain ⟨r, er, hr1, hr2⟩ := FloatVal.roundBinary_between 24 (-126) 128 q (-126) 126
    (by norm_num) (by norm_num) (by norm_num) h1 h2
  have herr1 := FloatVal.roundBinary_error 24 (-126) 128 q h1 r er
  have hr : (0 : ℚ) < r := lt_of_lt_of_le (FloatVal.two_zpow_pos _) hr1
  obtain ⟨hi1, hi2⟩ := inv_bounds r hr1 hr2
  obtain ⟨r2, ed, hd1, hd2⟩ := FloatVal.roundBinary_between 53 (-1022) 1024 (1 / r) (-126) 126
    (by norm_num) (by norm_num) (by norm_num) hi1 hi2
  have herr2 := FloatVal.roundBinary_error 53 (-1022) 1024 (1 / r)
    (le_trans (zpow_le_zpow_right₀ (by norm_num) (by norm_num)) hi1) r2 ed
  have hr2p : (0 : ℚ) < r2 := lt_of_lt_of_le (FloatVal.two_zpow_pos _) hd1
  obtain ⟨r3, ef, hf1, hf2⟩ := FloatVal.roundBinary_between 24 (-126) 128 r2 (-126) 126
    (by norm_num) (by norm_num) (by norm_num) hd1 hd2
  have herr3 := FloatVal.roundBinary_error 24 (-126) 128 r2 hd1 r3 ef
  have hr3p : (0 : ℚ) < r3 := lt_of_lt_of_le (FloatVal.two_zpow_pos _) hf1
  have e1f : (FloatVal.fin q).toFloat32 = FloatVal.fin r := er
  have e2f : (FloatVal.fin (1 / r)).toDouble = FloatVal.fin r2 := ed
  have e3f : (FloatVal.fin r2).toFloat32 = FloatVal.fin r3 := ef
  have hnp : ¬ r ≤ 0 := not_le.mpr hr
  refine ⟨r3, ?_, hf1, hf2, ?_⟩
  · unfold storedConstant32
    simp only [e1f, FloatVal.isnan, FloatVal.isinf, FloatVal.leZero, FloatVal.toRat,
      Bool.false_or, decide_eq_true_eq, if_neg hnp]
    rw [e2f, e3f]
  · have c24 : (2 : ℚ) ^ (-((24 : ℕ) : ℤ)) = 1 / 16777216 := by norm_num
    have c53 : (2 : ℚ) ^ (-((53 : ℕ) : ℤ)) = 1 / 9007199254740992 := by norm_num
    have c22 : (2 : ℚ) ^ (-22 : ℤ) = 1 / 4194304 := by norm_num
    rw [c24] at herr1 herr3
    rw [c53] at herr2
    rw [c22]
    rw [abs_le] at herr1 herr2 herr3 ⊢
    obtain ⟨a1, a2⟩ := herr1
    obtain ⟨b1, b2⟩ := herr2
    obtain ⟨d1, d2⟩ := herr3
    -- r2 * r is within 2 ^ (-53) of 1
    have hrr : (1 / r) * r = 1 := by field_simp
    have b1r : (1 - 1 / 9007199254740992) ≤ r2 * r := by
      have := mul_le_mul_of_nonneg_right (show 1 / r - 1 / r * (1 / 9007199254740992) ≤ r2 by
        linarith) hr.le
      calc (1 - 1 / 9007199254740992 : ℚ)
          = (1 / r - 1 / r * (1 / 9007199254740992)) * r := by rw [sub_mul, mul_right_comm, hrr]; ring
        _ ≤ r2 * r := this
    have b2r : r2 * r ≤ (1 + 1 / 9007199254740992) := by
      have := mul_le_mul_of_nonneg_right (show r2 ≤ 1 / r + 1 / r * (1 / 9007199254740992) by
        linarith) hr.le
      calc r2 * r ≤ (1 / r + 1 / r * (1 / 9007199254740992)) * r := this
        _ = (1 + 1 / 9007199254740992 : ℚ) := by rw [add_mul, mul_right_comm, hrr]; ring
    -- r3 * r against r2 * r
    have u1 : r3 * r ≤ (r2 * r) * (1 + 1 / 16777216) := by
      have := mul_le_mul_of_nonneg_right (show r3 ≤ r2 * (1 + 1 / 16777216) by linarith) hr.le
      linarith
    have l1 : (r2 * r) * (1 - 1 / 16777216) ≤ r3 * r := by
      have := mul_le_mul_of_nonneg_right (show r2 * (1 - 1 / 16777216) ≤ r3 by linarith) hr.le
      linarith
    -- r3 * q against r3 * r
    have u2 : (r3 * q) * (1 - 1 / 16777216) ≤ r3 * r := by
      have := mul_le_mul_of_nonneg_left (show q * (1 - 1 / 16777216) ≤ r by linarith) hr3p.le
      linarith
    have l2 : r3 * r ≤ (r3 * q) * (1 + 1 / 16777216) := by
      have := mul_le_mul_of_nonneg_left (show r ≤ q * (1 + 1 / 16777216) by linarith) hr3p.le
      linarith
    have hA : (r2 * r) * (1 + 1 / 16777216)
        ≤ (1 + 1 / 9007199254740992) * (1 + 1 / 16777216) :=
      mul_le_mul_of_nonneg_right b2r (by norm_num)
    have hB : (1 - 1 / 9007199254740992) * (1 - 1 / 16777216)
        ≤ (r2 * r) * (1 - 1 / 16777216) :=
      mul_le_mul_of_nonneg_right b1r (by norm_num)
    constructor
    · linarith
    · linarith

theorem rawConstant_extTiny :
    rawConstant Example.extTiny Example.melaDirty = FloatVal.fin (2 ^ (-130 : ℤ)) := by
  simp [rawConstant, Example.melaDirty, Example.mela, Example.cand, MELACandidate.getSortedV,
    MELABoson.getNDaughters, daughterId, MELABoson.getDaughter, Example.lepton,
    Example.extTiny, Example.ext, getConstant_4l, idprod, handles_4l, sumHandles, FloatVal.add]

theorem toFloat32_half : (FloatVal.fin (1 / 2)).toFloat32 = FloatVal.fin (1 / 2) := by
  have h := toFloat32_zpow (-1) (by norm_num)
  rw [if_neg (by norm_num)] at h
  have e : (2 : ℚ) ^ (-1 : ℤ) = 1 / 2 := by norm_num
  rw [e] at h
  exact h

theorem toFloat32_four : (FloatVal.fin 4).toFloat32 = FloatVal.fin 4 := by
  have h := toFloat32_zpow 2 (by norm_num)
  rw [if_neg (by norm_num)] at h
  have e : (2 : ℚ) ^ (2 : ℤ) = 4 := by norm_num
  rw [e] at h
  exact h

theorem storedConstant32_two : storedConstant32 (FloatVal.fin 2) = FloatVal.fin (1 / 2) := by
  have h := storedConstant32_zpow 1 (by norm_num) (by norm_num)
  rw [if_neg (by norm_num)] at h
  have e1 : (2 : ℚ) ^ (1 : ℤ) = 2 := by norm_num
  have e2 : (2 : ℚ) ^ (-(1 : ℤ)) = 1 / 2 := by norm_num
  rw [e1, e2] at h
  exact h

theorem toFloat32_zero : (FloatVal.fin 0).toFloat32 = FloatVal.fin 0 :=
  FloatVal.roundBinary_zero 24 (-126) 128

theorem computeConstant32_of_zero (ext : Externals d) (s : Mela d) (q : ℚ)
    (h : setConstant32 ext s = FloatVal.fin 0) :
    computeConstant32 ext s (FloatVal.fin q) = FloatVal.fin 0 := by
  unfold computeConstant32
  rw [h, toFloat32_zero]
  dsimp only
  have e : FloatVal.mul (FloatVal.fin q) (FloatVal.fin 0) = FloatVal.fin 0 := by
    simp only [FloatVal.mul, mul_zero]
  rw [e, toFloat32_zero]

/-- Claim C12 (the code at the failing input): the handle evaluates to
`2 ^ (-130)`, a finite and strictly positive value of the type `float`; it
passes the test of line 1626, its reciprocal `2 ^ 130` exceeds the range of
`float`, and the constant handed to `setMEConst` is infinite, so that
`computeConstant` turns the probability 8 into infinity and the probability 0
into not-a-number; in exact arithmetic the stored value is `2 ^ 130`.  The
same holds for the handle value 1e-40.  At the handle value 2 the stored
constant is 1/2 and the probability 8 becomes 4; at the handle values 0, -1,
not-a-number and infinity 0 is stored and the probability becomes 0; the
handle values 1e-50 and 1e39 are zero and infinite as values of `float` and
store 0. -/
theorem reciprocal_overflows_single_precision :
    rawConstant Example.extTiny Example.melaDirty = FloatVal.fin (2 ^ (-130 : ℤ))
    ∧ (0 : ℚ) < 2 ^ (-130 : ℤ)
    ∧ (FloatVal.fin ((2 : ℚ) ^ (-130 : ℤ))).toFloat32 = FloatVal.fin (2 ^ (-130 : ℤ))
    ∧ setConstant32 Example.extTiny Example.melaDirty = FloatVal.inf false
    ∧ (setConstant Example.extTiny Example.melaDirty).getConstant = 2 ^ (130 : ℤ)
    ∧ computeConstant32 Example.extTiny Example.melaDirty (FloatVal.fin 8) = FloatVal.inf false
    ∧ computeConstant32 Example.extTiny Example.melaDirty (FloatVal.fin 0) = FloatVal.nan
    ∧ storedConstant32 (FloatVal.fin (1 / 10 ^ 40)) = FloatVal.inf false
    ∧ rawConstant Example.extHandles Example.melaDirty = FloatVal.fin 2
    ∧ setConstant32 Example.extHandles Example.melaDirty = FloatVal.fin (1 / 2)
    ∧ computeConstant32 Example.extHandles Example.melaDirty (FloatVal.fin 8) = FloatVal.fin 4
    ∧ rawConstant Example.extHandles Example.melaJHUGen = FloatVal.fin 0
    ∧ setConstant32 Example.extHandles Example.melaJHUGen = FloatVal.fin 0
    ∧ rawConstant Example.extHandles Example.melaZJets = FloatVal.fin (-1)
    ∧ setConstant32 Example.extHandles Example.melaZJets = FloatVal.fin 0
    ∧ computeConstant32 Example.extHandles Example.melaZJets (FloatVal.fin 8) = FloatVal.fin 0
    ∧ rawConstant Example.extHandles Example.melaBkg = FloatVal.nan
    ∧ setConstant32 Example.extHandles Example.melaBkg = FloatVal.fin 0
    ∧ rawConstant Example.extHandles Example.melaBkgQQB = FloatVal.inf false
    ∧ setConstant32 Example.extHandles Example.melaBkgQQB = FloatVal.fin 0
    ∧ storedConstant32 (FloatVal.fin (1 / 10 ^ 50)) = FloatVal.fin 0
    ∧ storedConstant32 (FloatVal.fin (10 ^ 39)) = FloatVal.fin 0 := by
  have hraw := rawConstant_extTiny
  have hfl : (FloatVal.fin ((2 : ℚ) ^ (-130 : ℤ))).toFloat32 = FloatVal.fin (2 ^ (-130 : ℤ)) := by
    have h := toFloat32_zpow (-130) (by norm_num)
    rw [if_neg (not_le.mpr (zpow_lt_zpow_right₀ (by norm_num) (by norm_num)))] at h
    exact h
  have hst : setConstant32 Example.extTiny Example.melaDirty = FloatVal.inf false := by
    unfold setConstant32
    rw [hraw, storedConstant32_zpow (-130) (by norm_num) (by norm_num), if_pos (by norm_num)]
  have hst2 : setConstant32 Example.extHandles Example.melaDirty = FloatVal.fin (1 / 2) := by
    unfold setConstant32
    rw [rawConstant_melaDirty, storedConstant32_two]
  have z1 : setConstant32 Example.extHandles Example.melaJHUGen = FloatVal.fin 0 := by
    unfold setConstant32
    rw [rawConstant_melaJHUGen]
    exact storedConstant32_nonpos 0 (le_refl 0)
  have z2 : setConstant32 Example.extHandles Example.melaZJets = FloatVal.fin 0 := by
    unfold setConstant32
    rw [rawConstant_melaZJets]
    exact storedConstant32_nonpos (-1) (by norm_num)
  have z3 : setConstant32 Example.extHandles Example.melaBkg = FloatVal.fin 0 := by
    unfold setConstant32
    rw [rawConstant_melaBkg]
    exact storedConstant32_nan
  have z4 : setConstant32 Example.extHandles Example.melaBkgQQB = FloatVal.fin 0 := by
    unfold setConstant32
    rw [rawConstant_melaBkgQQB]
    exact storedConstant32_inf false
  refine ⟨hraw, FloatVal.two_zpow_pos _, hfl, hst, ?_, ?_, ?_,
    storedConstant32_subnormal _ (by norm_num) (by norm_num), rawConstant_melaDirty, hst2, ?_,
    rawConstant_melaJHUGen, z1, rawConstant_melaZJets, z2,
    computeConstant32_of_zero _ _ 8 z2, rawConstant_melaBkg, z3, rawConstant_melaBkgQQB, z4,
    storedConstant32_out_of_range _ (by norm_num) (Or.inl (by norm_num)),
    storedConstant32_out_of_range _ (by norm_num) (Or.inr (by norm_num))⟩
  · rw [setConstant_getConstant, hraw, storedConstant_fin_pos _ (FloatVal.two_zpow_pos _)]
    rw [one_div, ← zpow_neg]
    norm_num
  · unfold computeConstant32
    rw [hst]
    simp [FloatVal.toFloat32, FloatVal.roundBinary, FloatVal.mul, FloatVal.signNeg]
  · unfold computeConstant32
    rw [hst]
    simp [FloatVal.toFloat32, FloatVal.roundBinary, FloatVal.mul]
  · unfold computeConstant32
    rw [hst2, toFloat32_half]
    dsimp only
    have e : FloatVal.mul (FloatVal.fin 8) (FloatVal.fin (1 / 2)) = FloatVal.fin 4 := by
      simp only [FloatVal.mul]
      norm_num
    rw [e, toFloat32_four]

end Mela

namespace Mela

variable {d : Dims}

/-! ### No handle selected -/

theorem storedConstant_one : storedConstant (FloatVal.fin 1) = 1 := by
  rw [storedConstant_fin_pos 1 one_pos]
  norm_num

theorem identity_of_raw_one (ext : Externals d) (s : Mela d) (prob : ℚ)
    (h : rawConstant ext s = FloatVal.fin 1) :
    (setConstant ext s).getConstant = 1 ∧ (setConstant ext s).getConstant ≠ 0
      ∧ (computeConstant ext s prob).2 = prob := by
  rw [computeConstant_snd, setConstant_getConstant, h, storedConstant_one]
  exact ⟨rfl, one_ne_zero, mul_one _⟩

theorem sumHandles_none (ext : Externals d) (s : Mela d) :
    sumHandles ext s [none, none] = FloatVal.fin 1 := rfl

theorem rawConstant_null (ext : Externals d) (s : Mela d) (h : s.melaCand = none) :
    rawConstant ext s = FloatVal.fin 1 := by
  unfold rawConstant
  rw [h]

theorem getConstant_JHUGenUndecayed_other (ext : Externals d) (s : Mela d)
    (h1 : s.myProduction_ ≠ TVar.Production.JQCD) (h2 : s.myProduction_ ≠ TVar.Production.JJQCD)
    (h3 : s.myProduction_ ≠ TVar.Production.JJVBF) :
    getConstant_JHUGenUndecayed ext s = FloatVal.fin 1 := by
  unfold getConstant_JHUGenUndecayed
  cases s.melaCand with
  | none => rfl
  | some cand =>
    dsimp only
    rw [if_neg h1, if_neg h2, if_neg h3]

theorem rawConstant_some (ext : Externals d) (s : Mela d) (cand : MELACandidate)
    (h : s.melaCand = some cand) :
    rawConstant ext s
      = if isUndecayedSelector s then getConstant_JHUGenUndecayed ext s
        else if is4lFinalState ext cand then sumHandles ext s (handlesOf4l s cand)
        else if is2l2qFinalState ext cand then sumHandles ext s (handles_2l2q s)
        else FloatVal.fin 1 := by
  unfold rawConstant getConstant_4l getConstant_2l2q handlesOf4l
  rw [h]

/-- Claim C13: `setConstant` stores exactly 1, which is not the 0 stored for
an invalid handle value, and `computeConstant` returns the probability
unchanged, in each case in which no calibration handle is selected: a null
candidate reference; engine JHUGen with an undecayed-Higgs production mode
other than JQCD, JJQCD and JJVBF; a final state that is neither four leptons
nor two leptons and two jets; and a four-lepton or two-lepton-two-jet final
state for which the selector picks no handle; `getConstant_JHUGenUndecayed`
itself returns 1 for every production mode other than JQCD, JJQCD and JJVBF. -/
theorem no_handle_stores_one (ext : Externals d) (s : Mela d) (prob : ℚ) :
    (s.melaCand = none →
        (setConstant ext s).getConstant = 1 ∧ (setConstant ext s).getConstant ≠ 0
        ∧ (computeConstant ext s prob).2 = prob)
    ∧ (s.myME_ = TVar.MatrixElement.JHUGen →
        (s.myProduction_ = TVar.Production.Lep_ZH ∨ s.myProduction_ = TVar.Production.Had_ZH
          ∨ s.myProduction_ = TVar.Production.Lep_WH ∨ s.myProduction_ = TVar.Production.Had_WH
          ∨ s.myProduction_ = TVar.Production.GammaH
          ∨ s.myProduction_ = TVar.Production.ttH ∨ s.myProduction_ = TVar.Production.bbH) →
        (setConstant ext s).getConstant = 1 ∧ (setConstant ext s).getConstant ≠ 0
        ∧ (computeConstant ext s prob).2 = prob)
    ∧ (∀ cand, s.melaCand = some cand → ¬ isUndecayedSelector s →
        ¬ is4lFinalState ext cand → ¬ is2l2qFinalState ext cand →
        (setConstant ext s).getConstant = 1 ∧ (setConstant ext s).getConstant ≠ 0
        ∧ (computeConstant ext s prob).2 = prob)
    ∧ (∀ cand, s.melaCand = some cand → ¬ isUndecayedSelector s →
        is4lFinalState ext cand → handlesOf4l s cand = [none, none] →
        (setConstant ext s).getConstant = 1 ∧ (setConstant ext s).getConstant ≠ 0
        ∧ (computeConstant ext s prob).2 = prob)
    ∧ (∀ cand, s.melaCand = some cand → ¬ isUndecayedSelector s →
        ¬ is4lFinalState ext cand → is2l2qFinalState ext cand →
        handles_2l2q s = [none, none] →
        (setConstant ext s).getConstant = 1 ∧ (setConstant ext s).getConstant ≠ 0
        ∧ (computeConstant ext s prob).2 = prob)
    ∧ (s.myProduction_ ≠ TVar.Production.JQCD → s.myProduction_ ≠ TVar.Production.JJQCD →
        s.myProduction_ ≠ TVar.Production.JJVBF →
        getConstant_JHUGenUndecayed ext s = FloatVal.fin 1) := by
  refine ⟨fun h => identity_of_raw_one ext s prob (rawConstant_null ext s h),
    fun hme hp => ?_, fun cand hc hu h4 h2 => ?_, fun cand hc hu h4 hh => ?_,
    fun cand hc hu h4 h2 hh => ?_,
    fun h1 h2 h3 => getConstant_JHUGenUndecayed_other ext s h1 h2 h3⟩
  · apply identity_of_raw_one
    cases hc : s.melaCand with
    | none => exact rawConstant_null ext s hc
    | some cand =>
      have hu : isUndecayedSelector s := by
        refine ⟨hme, ?_⟩
        rcases hp with h | h | h | h | h | h | h <;> simp [h]
      rw [rawConstant_some ext s cand hc, if_pos hu]
      apply getConstant_JHUGenUndecayed_other <;>
        rcases hp with h | h | h | h | h | h | h <;> simp [h]
  · apply identity_of_raw_one
    rw [rawConstant_some ext s cand hc, if_neg hu, if_neg h4, if_neg h2]
  · apply identity_of_raw_one
    rw [rawConstant_some ext s cand hc, if_neg hu, if_pos h4, hh]
    rfl
  · apply identity_of_raw_one
    rw [rawConstant_some ext s cand hc, if_neg hu, if_neg h4, if_pos h2, hh]
    rfl

/-- Claim C13 at instances with a null candidate reference, with the selector
(JHUGen, ttH), with a boson without daughters, and with the process H0minus
under MCFM for four muons and for two muons and two quarks; every handle of
`Example.extHandles` would give a value other than 1. -/
theorem no_handle_stores_one_witness :
    (Example.mela.melaCand = none
      ∧ (setConstant Example.extHandles Example.mela).getConstant = 1
      ∧ (computeConstant Example.extHandles Example.mela 6).2 = 6)
    ∧ (Example.melaTTH.myME_ = TVar.MatrixElement.JHUGen
      ∧ Example.melaTTH.myProduction_ = TVar.Production.ttH
      ∧ (setConstant Example.extHandles Example.melaTTH).getConstant = 1
      ∧ (computeConstant Example.extHandles Example.melaTTH 6).2 = 6)
    ∧ (Example.melaDirtyUndecayed.melaCand = some Example.candUndecayed
      ∧ ¬ isUndecayedSelector Example.melaDirtyUndecayed
      ∧ ¬ is4lFinalState Example.extHandles Example.candUndecayed
      ∧ ¬ is2l2qFinalState Example.extHandles Example.candUndecayed
      ∧ (setConstant Example.extHandles Example.melaDirtyUndecayed).getConstant = 1
      ∧ (computeConstant Example.extHandles Example.melaDirtyUndecayed 6).2 = 6)
    ∧ (Example.melaH0minus.melaCand = some Example.cand
      ∧ ¬ isUndecayedSelector Example.melaH0minus
      ∧ is4lFinalState Example.extHandles Example.cand
      ∧ handlesOf4l Example.melaH0minus Example.cand = [none, none]
      ∧ (setConstant Example.extHandles Example.melaH0minus).getConstant = 1
      ∧ (computeConstant Example.extHandles Example.melaH0minus 6).2 = 6)
    ∧ (Example.melaH0minus2l2q.melaCand = some Example.cand2l2q
      ∧ ¬ isUndecayedSelector Example.melaH0minus2l2q
      ∧ ¬ is4lFinalState Example.extHandles Example.cand2l2q
      ∧ is2l2qFinalState Example.extHandles Example.cand2l2q
      ∧ handles_2l2q Example.melaH0minus2l2q = [none, none]
      ∧ (setConstant Example.extHandles Example.melaH0minus2l2q).getConstant = 1
      ∧ (computeConstant Example.extHandles Example.melaH0minus2l2q 6).2 = 6)
    ∧ (Example.melaTTH.myProduction_ ≠ TVar.Production.JQCD
      ∧ Example.melaTTH.myProduction_ ≠ TVar.Production.JJQCD
      ∧ Example.melaTTH.myProduction_ ≠ TVar.Production.JJVBF
      ∧ getConstant_JHUGenUndecayed Example.extHandles Example.melaTTH = FloatVal.fin 1) :=
  ⟨⟨rfl, ((no_handle_stores_one Example.extHandles Example.mela 6).1 rfl).1,
      ((no_handle_stores_one Example.extHandles Example.mela 6).1 rfl).2.2⟩,
    ⟨rfl, rfl,
      ((no_handle_stores_one Example.extHandles Example.melaTTH 6).2.1 rfl
        (Or.inr (Or.inr (Or.inr (Or.inr (Or.inr (Or.inl rfl))))))).1,
      ((no_handle_stores_one Example.extHandles Example.melaTTH 6).2.1 rfl
        (Or.inr (Or.inr (Or.inr (Or.inr (Or.inr (Or.inl rfl))))))).2.2⟩,
    ⟨rfl, by decide, by decide, by decide,
      ((no_handle_stores_one Example.extHandles Example.melaDirtyUndecayed 6).2.2.1
        Example.candUndecayed rfl (by decide) (by decide) (by decide)).1,
      ((no_handle_stores_one Example.extHandles Example.melaDirtyUndecayed 6).2.2.1
        Example.candUndecayed rfl (by decide) (by decide) (by decide)).2.2⟩,
    ⟨rfl, by decide, by decide, by decide,
      ((no_handle_stores_one Example.extHandles Example.melaH0minus 6).2.2.2.1
        Example.cand rfl (by decide) (by decide) (by decide)).1,
      ((no_handle_stores_one Example.extHandles Example.melaH0minus 6).2.2.2.1
        Example.cand rfl (by decide) (by decide) (by decide)).2.2⟩,
    ⟨rfl, by decide, by decide, by decide, by decide,
      ((no_handle_stores_one Example.extHandles Example.melaH0minus2l2q 6).2.2.2.2.1
        Example.cand2l2q rfl (by decide) (by decide) (by decide) (by decide)).1,
      ((no_handle_stores_one Example.extHandles Example.melaH0minus2l2q 6).2.2.2.2.1
        Example.cand2l2q rfl (by decide) (by decide) (by decide) (by decide)).2.2⟩,
    ⟨by decide, by decide, by decide,
      (no_handle_stores_one Example.extHandles Example.melaTTH 6).2.2.2.2.2
        (by decide) (by decide) (by decide)⟩⟩

end Mela

/-! ## The analytic engine -/

namespace Mela

variable {d : Dims}

/-- With the analytic engine and a current candidate, `computeP` is the
analytic branch followed by the constant, between the opening and the cleanup. -/
theorem computeP_analytic_run (ext : Externals d) (s : Mela d) (prob : ℚ) (useConstant : Bool)
    (cand : MELACandidate) (hme : s.myME_ = TVar.MatrixElement.ANALYTICAL)
    (hcur : s.ZZME.currentCand = some cand) :
    computeP ext s prob useConstant
      = ((applyConstant (computeConstant ext) useConstant
            (computeP_analytic ext s.beginEvaluation prob)).1.endEvaluation,
          (applyConstant (computeConstant ext) useConstant
            (computeP_analytic ext s.beginEvaluation prob)).2) := by
  have hb : s.beginEvaluation.melaCand = some cand := hcur
  have hme2 : s.beginEvaluation.myME_ = TVar.MatrixElement.ANALYTICAL := hme
  rw [computeP_eq_entry]
  unfold entry guarded
  rw [hb]
  dsimp only
  rw [computeP_body_eq]
  unfold decaySelect
  rw [if_pos hme2]

/-- The analytic branch in terms of the configuration on `analyticInput`. -/
theorem computeP_analytic_input (ext : Externals d) (s : Mela d) (prob : ℚ) (cand : MELACandidate)
    (hcur : s.ZZME.currentCand = some cand) :
    computeP_analytic ext s.beginEvaluation prob
      = (releaseY (configureAnalyticalPDFs ext (analyticInput ext s)).1,
          if (configureAnalyticalPDFs ext (analyticInput ext s)).2 then
            if (configureAnalyticalPDFs ext (analyticInput ext s)).1.myProduction_
                = TVar.Production.ZZINDEPENDENT then
              ext.pdfIntegral (configureAnalyticalPDFs ext (analyticInput ext s)).1.ana
            else ext.pdfGetVal (configureAnalyticalPDFs ext (analyticInput ext s)).1.ana
          else prob) :=
  computeP_analytic_eq ext s.beginEvaluation prob cand hcur

theorem computeP_analytic_value (ext : Externals d) (s : Mela d) (prob : ℚ)
    (cand : MELACandidate) (hme : s.myME_ = TVar.MatrixElement.ANALYTICAL)
    (hcur : s.ZZME.currentCand = some cand) :
    (computeP ext s prob false).2
      = if (configureAnalyticalPDFs ext (analyticInput ext s)).2 then
          if (configureAnalyticalPDFs ext (analyticInput ext s)).1.myProduction_
              = TVar.Production.ZZINDEPENDENT then
            ext.pdfIntegral (configureAnalyticalPDFs ext (analyticInput ext s)).1.ana
          else ext.pdfGetVal (configureAnalyticalPDFs ext (analyticInput ext s)).1.ana
        else prob := by
  rw [computeP_analytic_run ext s prob false cand hme hcur,
    computeP_analytic_input ext s prob cand hcur]
  rfl

theorem applyConstant_ana (ext : Externals d) (useConstant : Bool) (r : Mela d × ℚ) :
    (applyConstant (computeConstant ext) useConstant r).1.ana = r.1.ana := by
  cases useConstant <;> rfl

theorem computeP_analytic_ana (ext : Externals d) (s : Mela d) (prob : ℚ) (useConstant : Bool)
    (cand : MELACandidate) (hme : s.myME_ = TVar.MatrixElement.ANALYTICAL)
    (hcur : s.ZZME.currentCand = some cand) :
    (computeP ext s prob useConstant).1.ana
      = (releaseY (configureAnalyticalPDFs ext (analyticInput ext s)).1).ana := by
  rw [computeP_analytic_run ext s prob useConstant cand hme hcur,
    computeP_analytic_input ext s prob cand hcur]
  show (applyConstant (computeConstant ext) useConstant _).1.ana = _
  rw [applyConstant_ana]

/-- The branches of lines 1379-1380: for a process other than `bkgZZ` and a
two-jet or vector-boson-associated production mode nothing is configured and
success is returned. -/
theorem configureAnalyticalPDFs_unselected (ext : Externals d) (x : Mela d)
    (hm : x.myModel_ ≠ TVar.Process.bkgZZ)
    (hp : (x.myProduction_ = TVar.Production.JJQCD ∨ x.myProduction_ = TVar.Production.JJVBF)
      ∨ isVHProduction x.myProduction_ = true) :
    configureAnalyticalPDFs ext x = (x, true) := by
  unfold configureAnalyticalPDFs
  rw [if_neg hm]
  by_cases hjj : x.myProduction_ = TVar.Production.JJQCD ∨ x.myProduction_ = TVar.Production.JJVBF
  · rw [if_pos hjj]
  · rw [if_neg hjj, if_pos (hp.resolve_left hjj)]

theorem analyticInput_frame (ext : Externals d) (s : Mela d) :
    (analyticInput ext s).myModel_ = s.myModel_
    ∧ (analyticInput ext s).myProduction_ = s.myProduction_
    ∧ (analyticInput ext s).myME_ = s.myME_
    ∧ (analyticInput ext s).coupl = s.coupl
    ∧ (analyticInput ext s).ana.pdf = s.ana.pdf
    ∧ (analyticInput ext s).ana.spin1Model = s.ana.spin1Model
    ∧ (analyticInput ext s).ana.spin2Model = s.ana.spin2Model
    ∧ (analyticInput ext s).ana.ggSpin0Model = s.ana.ggSpin0Model :=
  ⟨rfl, rfl, rfl, rfl, rfl, rfl, rfl, rfl⟩

theorem melaAnaBkg_leaves_background :
    (computeP Example.extPdf Example.melaAnaBkg 0 false).1.ana.pdf = some PdfRef.qqZZmodel := by
  rw [computeP_analytic_ana Example.extPdf Example.melaAnaBkg 0 false Example.cand rfl rfl]
  rfl

/-- Claim C14 (the code at the failing input): after an evaluation of the
analytic background, which selects the background shape and returns its value
7, the selectors (HSMHiggs, ANALYTICAL, JJVBF) and (HSMHiggs, ANALYTICAL,
Had_ZH) make `configureAnalyticalPDFs` return success without changing
anything, and `computeP` returns 7, the value of the background shape left by
the earlier call, in place of the 5 held by `prob`; on an instance on which no
PDF was ever selected success is returned with `pdf` still unset; whereas for the
process bkgWW under production ZZGG, which has no analytic PDF either, failure
is returned and `prob` keeps its 5. -/
theorem analytic_success_without_selection :
    (computeP Example.extPdf Example.melaAnaBkg 5 false).2 = 7
    ∧ Example.melaStaleVBF.ana.pdf = some PdfRef.qqZZmodel
    ∧ configureAnalyticalPDFs Example.extPdf (analyticInput Example.extPdf Example.melaStaleVBF)
        = (analyticInput Example.extPdf Example.melaStaleVBF, true)
    ∧ (computeP Example.extPdf Example.melaStaleVBF 5 false).2 = 7
    ∧ configureAnalyticalPDFs Example.extPdf (analyticInput Example.extPdf Example.melaStaleVH)
        = (analyticInput Example.extPdf Example.melaStaleVH, true)
    ∧ (computeP Example.extPdf Example.melaStaleVH 5 false).2 = 7
    ∧ (configureAnalyticalPDFs Example.extPdf
        (analyticInput Example.extPdf Example.melaFreshVBF)).2 = true
    ∧ (configureAnalyticalPDFs Example.extPdf
        (analyticInput Example.extPdf Example.melaFreshVBF)).1.ana.pdf = none
    ∧ (configureAnalyticalPDFs Example.extPdf
        (analyticInput Example.extPdf Example.melaStaleWW)).2 = false
    ∧ (computeP Example.extPdf Example.melaStaleWW 5 false).2 = 5 := by
  have hVBF := configureAnalyticalPDFs_unselected Example.extPdf
    (analyticInput Example.extPdf Example.melaStaleVBF) (by decide) (Or.inl (Or.inr rfl))
  have hVH := configureAnalyticalPDFs_unselected Example.extPdf
    (analyticInput Example.extPdf Example.melaStaleVH) (by decide) (Or.inr (by decide))
  have hFresh := configureAnalyticalPDFs_unselected Example.extPdf
    (analyticInput Example.extPdf Example.melaFreshVBF) (by decide) (Or.inl (Or.inr rfl))
  have hWW : (configureAnalyticalPDFs Example.extPdf
      (analyticInput Example.extPdf Example.melaStaleWW)).2 = false := by
    decide
  refine ⟨?_, melaAnaBkg_leaves_background, hVBF, ?_, hVH, ?_, ?_, ?_, hWW, ?_⟩
  · rw [computeP_analytic_value Example.extPdf Example.melaAnaBkg 5 Example.cand rfl rfl]
    rfl
  · rw [computeP_analytic_value Example.extPdf Example.melaStaleVBF 5 Example.cand rfl rfl, hVBF]
    rfl
  · rw [computeP_analytic_value Example.extPdf Example.melaStaleVH 5 Example.cand rfl rfl, hVH]
    rfl
  · rw [hFresh]
  · rw [hFresh]
    rfl
  · rw [computeP_analytic_value Example.extPdf Example.melaStaleWW 5 Example.cand rfl rfl, hWW]
    rfl

/-! ### Complex couplings -/

theorem any_imaginary {n : Nat} (t : Tab2 n) (h : ∃ i, i < n ∧ get2 t i 1 ≠ 0) :
    (List.range n).any (fun i => decide (get2 t i 1 ≠ 0)) = true := by
  obtain ⟨i, hi, hne⟩ := h
  rw [List.any_eq_true]
  exact ⟨i, List.mem_range.2 hi, by simpa using hne⟩

/-- Lines 1472-1481 for a self-defined spin-1 process with a complex coupling:
failure, with `g1Val` and `g2Val` as they were. -/
theorem configureAnalyticalPDFs_spin1_complex (ext : Externals d) (x : Mela d)
    (hjj : x.myProduction_ ≠ TVar.Production.JJQCD ∧ x.myProduction_ ≠ TVar.Production.JJVBF)
    (hvh : isVHProduction x.myProduction_ = false)
    (hm : x.myModel_ = TVar.Process.SelfDefine_spin1)
    (hacc : ext.spin1Configure TVar.Process.SelfDefine_spin1 = false)
    (him : ∃ i, i < d.SIZE_ZVV ∧ get2 x.coupl.spin1.selfDZvvcoupl i 1 ≠ 0) :
    (configureAnalyticalPDFs ext x).2 = false
    ∧ (configureAnalyticalPDFs ext x).1.ana.spin1Model.g1Val = x.ana.spin1Model.g1Val
    ∧ (configureAnalyticalPDFs ext x).1.ana.spin1Model.g2Val = x.ana.spin1Model.g2Val
    ∧ (configureAnalyticalPDFs ext x).1.ana.pdf = some PdfRef.spin1Model := by
  have h1 : ¬ x.myModel_ = TVar.Process.bkgZZ := by rw [hm]; decide
  have h2 : ¬ (x.myProduction_ = TVar.Production.JJQCD ∨ x.myProduction_ = TVar.Production.JJVBF) :=
    fun h => h.elim hjj.1 hjj.2
  have h3 : ¬ (isVHProduction x.myProduction_ = true) := by rw [hvh]; decide
  have h4 : ¬ (isAnaSpin0Model x.myModel_ = true) := by rw [hm]; decide
  have h5 := any_imaginary x.coupl.spin1.selfDZvvcoupl him
  unfold configureAnalyticalPDFs
  rw [if_neg h1, if_neg h2, if_neg h3, if_neg h4]
  simp only [hm, hacc, h5, if_true]
  refine ⟨?_, ?_, ?_, ?_⟩ <;> trivial

/-- Lines 1483-1556 for a self-defined spin-2 process with a complex coupling:
failure, with `bList` and the polarisation fractions as they were and the
parameters left floating. -/
theorem configureAnalyticalPDFs_spin2_complex (ext : Externals d) (x : Mela d)
    (hjj : x.myProduction_ ≠ TVar.Production.JJQCD ∧ x.myProduction_ ≠ TVar.Production.JJVBF)
    (hvh : isVHProduction x.myProduction_ = false)
    (hm : x.myModel_ = TVar.Process.SelfDefine_spin2)
    (hacc : ext.spin1Configure TVar.Process.SelfDefine_spin2 = true)
    (him : ∃ i, i < d.SIZE_GVV ∧ get2 x.coupl.spin2.selfDGvvcoupl i 1 ≠ 0) :
    (configureAnalyticalPDFs ext x).2 = false
    ∧ (configureAnalyticalPDFs ext x).1.ana.spin2Model.bList = x.ana.spin2Model.bList
    ∧ (configureAnalyticalPDFs ext x).1.ana.spin2Model.tensorPolarization
        = x.ana.spin2Model.tensorPolarization
    ∧ (configureAnalyticalPDFs ext x).1.ana.spin2Model.paramsConst = false
    ∧ (configureAnalyticalPDFs ext x).1.ana.pdf = some PdfRef.spin2Model := by
  have h1 : ¬ x.myModel_ = TVar.Process.bkgZZ := by rw [hm]; decide
  have h2 : ¬ (x.myProduction_ = TVar.Production.JJQCD ∨ x.myProduction_ = TVar.Production.JJVBF) :=
    fun h => h.elim hjj.1 hjj.2
  have h3 : ¬ (isVHProduction x.myProduction_ = true) := by rw [hvh]; decide
  have h4 : ¬ (isAnaSpin0Model x.myModel_ = true) := by rw [hm]; decide
  have h5 := any_imaginary x.coupl.spin2.selfDGvvcoupl him
  have hacc2 : ¬ (ext.spin1Configure x.myModel_ = false) := by rw [hm, hacc]; decide
  have h6 : isAnaSpin2Model x.myModel_ = true := by rw [hm]; decide
  have hC : configureAnalyticalPDFs ext x
      = ({ x with ana := { x.ana with
            spin1Model := { x.ana.spin1Model with configured := some x.myModel_ },
            pdf := some PdfRef.spin2Model,
            spin2Model := (configureSpin2 ext { x with ana := { x.ana with
              spin1Model := { x.ana.spin1Model with configured := some x.myModel_ } } }).1 } },
          !(configureSpin2 ext { x with ana := { x.ana with
              spin1Model := { x.ana.spin1Model with configured := some x.myModel_ } } }).2) := by
    unfold configureAnalyticalPDFs
    rw [if_neg h1, if_neg h2, if_neg h3, if_neg h4]
    dsimp only
    rw [if_neg hacc2, if_pos h6]
  have hsnd : (configureSpin2 ext { x with ana := { x.ana with
      spin1Model := { x.ana.spin1Model with configured := some x.myModel_ } } }).2 = true := by
    rw [configureSpin2_snd]
    simp only [hm, h5, decide_True, Bool.and_self]
  rw [hC]
  refine ⟨by rw [hsnd]; rfl, ?_, ?_, ?_, rfl⟩
  · show (configureSpin2 ext _).1.bList = _
    rw [configureSpin2_bList, hsnd, if_neg (by simp)]
  · show (configureSpin2 ext _).1.tensorPolarization = _
    rw [configureSpin2_tensorPolarization, hsnd, if_pos rfl]
  · show (configureSpin2 ext _).1.paramsConst = _
    rw [configureSpin2_paramsConst, hsnd]
    rfl

theorem computeP_spin1_complex (ext : Externals d) (s : Mela d) (prob : ℚ) (useConstant : Bool)
    (cand : MELACandidate) (hme : s.myME_ = TVar.MatrixElement.ANALYTICAL)
    (hcur : s.ZZME.currentCand = some cand)
    (hjj : s.myProduction_ ≠ TVar.Production.JJQCD ∧ s.myProduction_ ≠ TVar.Production.JJVBF)
    (hvh : isVHProduction s.myProduction_ = false)
    (hm : s.myModel_ = TVar.Process.SelfDefine_spin1)
    (hacc : ext.spin1Configure TVar.Process.SelfDefine_spin1 = false)
    (him : ∃ i, i < d.SIZE_ZVV ∧ get2 s.coupl.spin1.selfDZvvcoupl i 1 ≠ 0) :
    (configureAnalyticalPDFs ext (analyticInput ext s)).2 = false
    ∧ (computeP ext s prob false).2 = prob
    ∧ (computeP ext s prob useConstant).1.ana.spin1Model.g1Val = s.ana.spin1Model.g1Val
    ∧ (computeP ext s prob useConstant).1.ana.spin1Model.g2Val = s.ana.spin1Model.g2Val := by
  obtain ⟨c1, c2, c3, _⟩ := configureAnalyticalPDFs_spin1_complex ext (analyticInput ext s)
    hjj hvh hm hacc him
  refine ⟨c1, ?_, ?_, ?_⟩
  · rw [computeP_analytic_value ext s prob cand hme hcur, c1]
    rfl
  · rw [computeP_analytic_ana ext s prob useConstant cand hme hcur]
    exact c2
  · rw [computeP_analytic_ana ext s prob useConstant cand hme hcur]
    exact c3

theorem computeP_spin2_complex (ext : Externals d) (s : Mela d) (prob : ℚ) (useConstant : Bool)
    (cand : MELACandidate) (hme : s.myME_ = TVar.MatrixElement.ANALYTICAL)
    (hcur : s.ZZME.currentCand = some cand)
    (hjj : s.myProduction_ ≠ TVar.Production.JJQCD ∧ s.myProduction_ ≠ TVar.Production.JJVBF)
    (hvh : isVHProduction s.myProduction_ = false)
    (hm : s.myModel_ = TVar.Process.SelfDefine_spin2)
    (hacc : ext.spin1Configure TVar.Process.SelfDefine_spin2 = true)
    (him : ∃ i, i < d.SIZE_GVV ∧ get2 s.coupl.spin2.selfDGvvcoupl i 1 ≠ 0) :
    (configureAnalyticalPDFs ext (analyticInput ext s)).2 = false
    ∧ (computeP ext s prob false).2 = prob
    ∧ (computeP ext s prob useConstant).1.ana.spin2Model.bList = s.ana.spin2Model.bList
    ∧ (computeP ext s prob useConstant).1.ana.spin2Model.tensorPolarization
        = s.ana.spin2Model.tensorPolarization
    ∧ (computeP ext s prob useConstant).1.ana.spin2Model.paramsConst = false := by
  obtain ⟨c1, c2, c3, c4, _⟩ := configureAnalyticalPDFs_spin2_complex ext (analyticInput ext s)
    hjj hvh hm hacc him
  refine ⟨c1, ?_, ?_, ?_, ?_⟩
  · rw [computeP_analytic_value ext s prob cand hme hcur, c1]
    rfl
  · rw [computeP_analytic_ana ext s prob useConstant cand hme hcur]
    exact c2
  · rw [computeP_analytic_ana ext s prob useConstant cand hme hcur]
    exact c3
  · rw [computeP_analytic_ana ext s prob useConstant cand hme hcur]
    exact c4

theorem extPdf_spin1 (a : AnaState) (h : a.pdf = some PdfRef.spin1Model) :
    Example.extPdf.pdfGetVal a = 11 := by
  simp [Example.extPdf, h]

theorem extPdf_spin2 (a : AnaState) (h : a.pdf = some PdfRef.spin2Model) :
    Example.extPdf.pdfGetVal a = 13 := by
  simp [Example.extPdf, h]

theorem melaSpin1Complex_imaginary :
    ∃ i, i < Example.dims.SIZE_ZVV
      ∧ get2 Example.melaSpin1Complex.coupl.spin1.selfDZvvcoupl i 1 ≠ 0 :=
  ⟨0, by decide, by
    simp [Example.melaSpin1Complex, setProcess, get2, set2, Example.dims]⟩

theorem melaSpin2Complex_imaginary :
    ∃ i, i < Example.dims.SIZE_GVV
      ∧ get2 Example.melaSpin2Complex.coupl.spin2.selfDGvvcoupl i 1 ≠ 0 :=
  ⟨0, by decide, by
    simp [Example.melaSpin2Complex, setProcess, get2, set2, Example.dims]⟩

/-- Claim C15 as stated fails: with the analytic engine, a self-defined spin-1
process and the coupling `1 + i` in `selfDZvvcoupl[0]`, `configureAnalyticalPDFs`
reports failure, `g1Val` keeps its 0 and does not receive the real part 1, and
`computeP` returns the 5 that `prob` held and not the value 11 of the spin-1
PDF; likewise for a self-defined spin-2 process with `selfDGvvcoupl[0] = 1 + i`,
where `bList[0][0]` keeps its 0 and the value 13 of the spin-2 PDF is not
returned. -/
theorem complex_couplings_not_evaluated :
    (get2 Example.melaSpin1Complex.coupl.spin1.selfDZvvcoupl 0 0 = 1
      ∧ get2 Example.melaSpin1Complex.coupl.spin1.selfDZvvcoupl 0 1 = 1
      ∧ (configureAnalyticalPDFs Example.extPdf
          (analyticInput Example.extPdf Example.melaSpin1Complex)).2 = false
      ∧ (computeP Example.extPdf Example.melaSpin1Complex 5 false).1.ana.spin1Model.g1Val = 0
      ∧ (computeP Example.extPdf Example.melaSpin1Complex 5 false).2 = 5
      ∧ Example.extPdf.pdfGetVal (configureAnalyticalPDFs Example.extPdf
          (analyticInput Example.extPdf Example.melaSpin1Complex)).1.ana = 11)
    ∧ (get2 Example.melaSpin2Complex.coupl.spin2.selfDGvvcoupl 0 0 = 1
      ∧ get2 Example.melaSpin2Complex.coupl.spin2.selfDGvvcoupl 0 1 = 1
      ∧ (configureAnalyticalPDFs Example.extPdf
          (analyticInput Example.extPdf Example.melaSpin2Complex)).2 = false
      ∧ (computeP Example.extPdf Example.melaSpin2Complex 5 false).1.ana.spin2Model.bList (0, 0)
          = 0
      ∧ (computeP Example.extPdf Example.melaSpin2Complex 5 false).2 = 5
      ∧ Example.extPdf.pdfGetVal (configureAnalyticalPDFs Example.extPdf
          (analyticInput Example.extPdf Example.melaSpin2Complex)).1.ana = 13) := by
  have h1 := computeP_spin1_complex Example.extPdf Example.melaSpin1Complex 5 false Example.cand
    rfl rfl (by decide) (by decide) rfl (by decide) melaSpin1Complex_imaginary
  have h2 := computeP_spin2_complex Example.extPdf Example.melaSpin2Complex 5 false Example.cand
    rfl rfl (by decide) (by decide) rfl (by decide) melaSpin2Complex_imaginary
  have p1 := configureAnalyticalPDFs_spin1_complex Example.extPdf
    (analyticInput Example.extPdf Example.melaSpin1Complex) (by decide) (by decide) rfl
    (by decide) melaSpin1Complex_imaginary
  have p2 := configureAnalyticalPDFs_spin2_complex Example.extPdf
    (analyticInput Example.extPdf Example.melaSpin2Complex) (by decide) (by decide) rfl
    (by decide) melaSpin2Complex_imaginary
  refine ⟨⟨?_, ?_, h1.1, ?_, h1.2.1, ?_⟩, ⟨?_, ?_, h2.1, ?_, h2.2.1, ?_⟩⟩
  · simp [Example.melaSpin1Complex, setProcess, get2, set2, Example.dims]
  · simp [Example.melaSpin1Complex, setProcess, get2, set2, Example.dims]
  · rw [h1.2.2.1]
    rfl
  · exact extPdf_spin1 _ p1.2.2.2
  · simp [Example.melaSpin2Complex, setProcess, get2, set2, Example.dims]
  · simp [Example.melaSpin2Complex, setProcess, get2, set2, Example.dims]
  · rw [h2.2.2.1]
    rfl
  · exact extPdf_spin2 _ p2.2.2.2.2

/-- Claim C15, amended: for the analytic engine, a current candidate, a
production mode that is neither two-jet nor vector-boson-associated, and a
self-defined spin-1 process (which the spin-1 factory accepts) or spin-2
process (which it does not) whose vector-boson couplings `selfDZvvcoupl`
or `selfDGvvcoupl` have a non-zero imaginary part, the configuration is
refused: `configureAnalyticalPDFs` reports failure, `computeP` returns `prob`
as it was on entry without evaluating the PDF, and no coupling parameter of
the backend is written (`g1Val`, `g2Val`; `bList` and the polarisation
fractions, with the spin-2 parameters left floating). -/
theorem complex_couplings_rejected (ext : Externals d) (s : Mela d) (prob : ℚ)
    (useConstant : Bool) (cand : MELACandidate)
    (hme : s.myME_ = TVar.MatrixElement.ANALYTICAL) (hcur : s.ZZME.currentCand = some cand)
    (hjj : s.myProduction_ ≠ TVar.Production.JJQCD ∧ s.myProduction_ ≠ TVar.Production.JJVBF)
    (hvh : isVHProduction s.myProduction_ = false) :
    (s.myModel_ = TVar.Process.SelfDefine_spin1 →
      ext.spin1Configure TVar.Process.SelfDefine_spin1 = false →
      (∃ i, i < d.SIZE_ZVV ∧ get2 s.coupl.spin1.selfDZvvcoupl i 1 ≠ 0) →
        (configureAnalyticalPDFs ext (analyticInput ext s)).2 = false
        ∧ (computeP ext s prob false).2 = prob
        ∧ (computeP ext s prob useConstant).1.ana.spin1Model.g1Val = s.ana.spin1Model.g1Val
        ∧ (computeP ext s prob useConstant).1.ana.spin1Model.g2Val = s.ana.spin1Model.g2Val)
    ∧ (s.myModel_ = TVar.Process.SelfDefine_spin2 →
      ext.spin1Configure TVar.Process.SelfDefine_spin2 = true →
      (∃ i, i < d.SIZE_GVV ∧ get2 s.coupl.spin2.selfDGvvcoupl i 1 ≠ 0) →
        (configureAnalyticalPDFs ext (analyticInput ext s)).2 = false
        ∧ (computeP ext s prob false).2 = prob
        ∧ (computeP ext s prob useConstant).1.ana.spin2Model.bList = s.ana.spin2Model.bList
        ∧ (computeP ext s prob useConstant).1.ana.spin2Model.tensorPolarization
            = s.ana.spin2Model.tensorPolarization
        ∧ (computeP ext s prob useConstant).1.ana.spin2Model.paramsConst = false) :=
  ⟨fun hm hacc him => computeP_spin1_complex ext s prob useConstant cand hme hcur hjj hvh hm hacc him,
    fun hm hacc him => computeP_spin2_complex ext s prob useConstant cand hme hcur hjj hvh hm hacc him⟩

/-- Claim C15, amended, at the instances with the couplings `1 + i`. -/
theorem complex_couplings_rejected_witness :
    (Example.melaSpin1Complex.myME_ = TVar.MatrixElement.ANALYTICAL
      ∧ Example.melaSpin1Complex.ZZME.currentCand = some Example.cand
      ∧ (Example.melaSpin1Complex.myProduction_ ≠ TVar.Production.JJQCD
        ∧ Example.melaSpin1Complex.myProduction_ ≠ TVar.Production.JJVBF)
      ∧ isVHProduction Example.melaSpin1Complex.myProduction_ = false
      ∧ Example.melaSpin1Complex.myModel_ = TVar.Process.SelfDefine_spin1
      ∧ Example.extPdf.spin1Configure TVar.Process.SelfDefine_spin1 = false
      ∧ (∃ i, i < Example.dims.SIZE_ZVV
          ∧ get2 Example.melaSpin1Complex.coupl.spin1.selfDZvvcoupl i 1 ≠ 0)
      ∧ (computeP Example.extPdf Example.melaSpin1Complex 5 false).2 = 5)
    ∧ (Example.melaSpin2Complex.myME_ = TVar.MatrixElement.ANALYTICAL
      ∧ Example.melaSpin2Complex.ZZME.currentCand = some Example.cand
      ∧ (Example.melaSpin2Complex.myProduction_ ≠ TVar.Production.JJQCD
        ∧ Example.melaSpin2Complex.myProduction_ ≠ TVar.Production.JJVBF)
      ∧ isVHProduction Example.melaSpin2Complex.myProduction_ = false
      ∧ Example.melaSpin2Complex.myModel_ = TVar.Process.SelfDefine_spin2
      ∧ Example.extPdf.spin1Configure TVar.Process.SelfDefine_spin2 = true
      ∧ (∃ i, i < Example.dims.SIZE_GVV
          ∧ get2 Example.melaSpin2Complex.coupl.spin2.selfDGvvcoupl i 1 ≠ 0)
      ∧ (computeP Example.extPdf Example.melaSpin2Complex 5 false).2 = 5) :=
  ⟨⟨rfl, rfl, by decide, by decide, rfl, by decide, melaSpin1Complex_imaginary,
      ((complex_couplings_rejected Example.extPdf Example.melaSpin1Complex 5 false Example.cand
        rfl rfl (by decide) (by decide)).1 rfl (by decide) melaSpin1Complex_imaginary).2.1⟩,
    ⟨rfl, rfl, by decide, by decide, rfl, by decide, melaSpin2Complex_imaginary,
      ((complex_couplings_rejected Example.extPdf Example.melaSpin2Complex 5 false Example.cand
        rfl rfl (by decide) (by decide)).2 rfl (by decide) melaSpin2Complex_imaginary).2.1⟩⟩

end Mela

/-! ## The combined production-and-decay entry point -/

namespace Mela

variable {d : Dims}

/-- `computeProdDecP` with the cascade of `hasFailed` as one test. -/
theorem computeProdDecP_eq (ext : Externals d) (s : Mela d) (prob : ℚ) (useConstant : Bool) :
    computeProdDecP ext s prob useConstant
      = if s.myME_ ≠ TVar.MatrixElement.MCFM ∨ ¬ (isProdDecProduction s.myProduction_ = true)
            ∨ s.ZZME.currentCand = none then
          (s.beginEvaluation.endEvaluation, 0)
        else
          ((applyConstant (computeConstant ext) useConstant
              (evalXS ext s.beginEvaluation XSEntry.computeProdXS_VVHVV
                (Handed.spinZero s.coupl.spin0))).1.endEvaluation,
            (applyConstant (computeConstant ext) useConstant
              (evalXS ext s.beginEvaluation XSEntry.computeProdXS_VVHVV
                (Handed.spinZero s.coupl.spin0))).2) := by
  have h1 : s.beginEvaluation.myME_ = s.myME_ := rfl
  have h2 : s.beginEvaluation.myProduction_ = s.myProduction_ := rfl
  have h3 : s.beginEvaluation.melaCand = s.ZZME.currentCand := rfl
  have h4 : s.beginEvaluation.coupl = s.coupl := rfl
  unfold computeProdDecP
  simp only [h1, h2, h3, h4]
  by_cases a : s.myME_ = TVar.MatrixElement.MCFM <;>
    by_cases b : isProdDecProduction s.myProduction_ = true <;>
    by_cases c : s.ZZME.currentCand = none <;> simp [a, b, c]

theorem isProdDecProduction_iff (p : TVar.Production) :
    isProdDecProduction p = true ↔
      p ∈ [TVar.Production.Had_WH, TVar.Production.Had_ZH, TVar.Production.Lep_WH,
        TVar.Production.Lep_ZH, TVar.Production.JJVBF, TVar.Production.JJEW,
        TVar.Production.JJEWQCD, TVar.Production.JJQCD,
        TVar.Production.Had_WH_S, TVar.Production.Had_ZH_S, TVar.Production.Lep_WH_S,
        TVar.Production.Lep_ZH_S, TVar.Production.JJVBF_S, TVar.Production.JJEW_S,
        TVar.Production.JJEWQCD_S, TVar.Production.JJQCD_S,
        TVar.Production.Had_WH_TU, TVar.Production.Had_ZH_TU, TVar.Production.Lep_WH_TU,
        TVar.Production.Lep_ZH_TU, TVar.Production.JJVBF_TU, TVar.Production.JJEW_TU,
        TVar.Production.JJEWQCD_TU, TVar.Production.JJQCD_TU] := by
  cases p <;> simp [isProdDecProduction]

/-- Claim C16: if the engine is not MCFM, or the production mode is not one of
the 24 modes of the list, or the generator holds no current candidate,
`computeProdDecP` returns probability 0 and the instance after the opening and
the cleanup of the entry point, whatever the generator is and with its record
untouched; otherwise its result is that of one evaluation by the entry point
`computeProdXS_VVHVV` of the generator with the spin-0 tables handed over,
followed by the constant if requested. -/
theorem computeProdDecP_contract (ext : Externals d) (s : Mela d) (prob : ℚ)
    (useConstant : Bool) :
    ((s.myME_ ≠ TVar.MatrixElement.MCFM
        ∨ ¬ (s.myProduction_ ∈ [TVar.Production.Had_WH, TVar.Production.Had_ZH,
          TVar.Production.Lep_WH, TVar.Production.Lep_ZH, TVar.Production.JJVBF,
          TVar.Production.JJEW, TVar.Production.JJEWQCD, TVar.Production.JJQCD,
          TVar.Production.Had_WH_S, TVar.Production.Had_ZH_S, TVar.Production.Lep_WH_S,
          TVar.Production.Lep_ZH_S, TVar.Production.JJVBF_S, TVar.Production.JJEW_S,
          TVar.Production.JJEWQCD_S, TVar.Production.JJQCD_S,
          TVar.Production.Had_WH_TU, TVar.Production.Had_ZH_TU, TVar.Production.Lep_WH_TU,
          TVar.Production.Lep_ZH_TU, TVar.Production.JJVBF_TU, TVar.Production.JJEW_TU,
          TVar.Production.JJEWQCD_TU, TVar.Production.JJQCD_TU])
        ∨ s.ZZME.currentCand = none) →
      (computeProdDecP ext s prob useConstant).2 = 0
      ∧ (computeProdDecP ext s prob useConstant).1 = s.beginEvaluation.endEvaluation
      ∧ (computeProdDecP ext s prob useConstant).1.ZZME = s.ZZME)
    ∧ (∀ cand, s.myME_ = TVar.MatrixElement.MCFM →
        s.myProduction_ ∈ [TVar.Production.Had_WH, TVar.Production.Had_ZH,
          TVar.Production.Lep_WH, TVar.Production.Lep_ZH, TVar.Production.JJVBF,
          TVar.Production.JJEW, TVar.Production.JJEWQCD, TVar.Production.JJQCD,
          TVar.Production.Had_WH_S, TVar.Production.Had_ZH_S, TVar.Production.Lep_WH_S,
          TVar.Production.Lep_ZH_S, TVar.Production.JJVBF_S, TVar.Production.JJEW_S,
          TVar.Production.JJEWQCD_S, TVar.Production.JJQCD_S,
          TVar.Production.Had_WH_TU, TVar.Production.Had_ZH_TU, TVar.Production.Lep_WH_TU,
          TVar.Production.Lep_ZH_TU, TVar.Production.JJVBF_TU, TVar.Production.JJEW_TU,
          TVar.Production.JJEWQCD_TU, TVar.Production.JJQCD_TU] →
        s.ZZME.currentCand = some cand →
      computeProdDecP ext s prob useConstant
          = ((applyConstant (computeConstant ext) useConstant
                (evalXS ext s.beginEvaluation XSEntry.computeProdXS_VVHVV
                  (Handed.spinZero s.coupl.spin0))).1.endEvaluation,
              (applyConstant (computeConstant ext) useConstant
                (evalXS ext s.beginEvaluation XSEntry.computeProdXS_VVHVV
                  (Handed.spinZero s.coupl.spin0))).2)
      ∧ (computeProdDecP ext s prob false).2
          = (ext.xs XSEntry.computeProdXS_VVHVV s.ZZME.process (some cand)
              (Handed.spinZero s.coupl.spin0)).1
      ∧ (computeProdDecP ext s prob false).1.ZZME.record.weights
          = (ext.xs XSEntry.computeProdXS_VVHVV s.ZZME.process (some cand)
              (Handed.spinZero s.coupl.spin0)).2) := by
  refine ⟨fun h => ?_, fun cand hme hp hc => ?_⟩
  · have hf : s.myME_ ≠ TVar.MatrixElement.MCFM ∨ ¬ (isProdDecProduction s.myProduction_ = true)
        ∨ s.ZZME.currentCand = none := by
      rcases h with h | h | h
      · exact Or.inl h
      · exact Or.inr (Or.inl (fun hp => h ((isProdDecProduction_iff _).1 hp)))
      · exact Or.inr (Or.inr h)
    rw [computeProdDecP_eq, if_pos hf]
    exact ⟨rfl, rfl, rfl⟩
  · have hf : ¬ (s.myME_ ≠ TVar.MatrixElement.MCFM ∨ ¬ (isProdDecProduction s.myProduction_ = true)
        ∨ s.ZZME.currentCand = none) := by
      rintro (h | h | h)
      · exact h hme
      · exact h ((isProdDecProduction_iff _).2 hp)
      · rw [hc] at h
        exact Option.some_ne_none _ h
    have hcur : s.beginEvaluation.ZZME.currentCand = some cand := hc
    rw [computeProdDecP_eq, computeProdDecP_eq, if_neg hf, if_neg hf]
    refine ⟨rfl, ?_, ?_⟩
    · simp only [applyConstant, Bool.false_eq_true, if_false, evalXS, hcur]
      rfl
    · simp only [applyConstant, Bool.false_eq_true, if_false, evalXS, hcur]
      rfl

/-- Claim C16 at `Example.melaDirty`, whose production mode `ZZGG` is not in the
list (probability 0 although the generator would return 1 for the coupling
written), and at `Example.melaProdDec`, whose selector is (MCFM, `Had_ZH_S`)
and whose table holds a coupling 1 (one evaluation, which returns 1). -/
theorem computeProdDecP_contract_witness :
    ¬ (Example.melaDirty.myProduction_ ∈ [TVar.Production.Had_WH, TVar.Production.Had_ZH,
          TVar.Production.Lep_WH, TVar.Production.Lep_ZH, TVar.Production.JJVBF,
          TVar.Production.JJEW, TVar.Production.JJEWQCD, TVar.Production.JJQCD,
          TVar.Production.Had_WH_S, TVar.Production.Had_ZH_S, TVar.Production.Lep_WH_S,
          TVar.Production.Lep_ZH_S, TVar.Production.JJVBF_S, TVar.Production.JJEW_S,
          TVar.Production.JJEWQCD_S, TVar.Production.JJQCD_S,
          TVar.Production.Had_WH_TU, TVar.Production.Had_ZH_TU, TVar.Production.Lep_WH_TU,
          TVar.Production.Lep_ZH_TU, TVar.Production.JJVBF_TU, TVar.Production.JJEW_TU,
          TVar.Production.JJEWQCD_TU, TVar.Production.JJQCD_TU])
    ∧ (computeProdDecP Example.ext Example.melaDirty 5 false).2 = 0
    ∧ Example.melaProdDec.myME_ = TVar.MatrixElement.MCFM
    ∧ Example.melaProdDec.myProduction_ = TVar.Production.Had_ZH_S
    ∧ Example.melaProdDec.ZZME.currentCand = some Example.cand
    ∧ (computeProdDecP Example.ext Example.melaProdDec 5 false).2 = 1 :=
  ⟨by decide,
    ((computeProdDecP_contract Example.ext Example.melaDirty 5 false).1
      (Or.inr (Or.inl (by decide)))).1,
    rfl, rfl, rfl,
    ((computeProdDecP_contract Example.ext Example.melaProdDec 5 false).2 Example.cand rfl
      (by decide) rfl).2.1.trans
      (by simp [Example.ext, Example.melaProdDec, setProcess, Example.melaDirty, Example.mela,
        set3, get3, Example.dims])⟩

end Mela

/-! ## The selector, the decay angles and the reset state -/

namespace Mela

variable {d : Dims}

/-- `setProcess` in closed form. -/
theorem setProcess_eq (s : Mela d) (m : TVar.Process) (e : TVar.MatrixElement)
    (p : TVar.Production) :
    s.setProcess m e p
      = { s with myModel_ := m, myME_ := e, myProduction_ := storedProduction e p,
                 ZZME := { s.ZZME with process := ⟨m, e, storedProduction e p⟩ } } := by
  unfold setProcess storedProduction
  dsimp only
  split_ifs <;> rfl

theorem storedProduction_idem (e : TVar.MatrixElement) (p : TVar.Production) :
    storedProduction e (storedProduction e p) = storedProduction e p := by
  by_cases he : e = TVar.MatrixElement.JHUGen
  · subst he
    cases p <;> simp [storedProduction]
  · simp [storedProduction, he]

theorem storedProduction_other (e : TVar.MatrixElement) (p : TVar.Production)
    (he : e ≠ TVar.MatrixElement.JHUGen) : storedProduction e p = p := by
  unfold storedProduction
  rw [if_neg he]

theorem storedProduction_plain (p : TVar.Production)
    (h1 : p ≠ TVar.Production.Had_ZH_S) (h2 : p ≠ TVar.Production.Had_WH_S)
    (h3 : p ≠ TVar.Production.Lep_ZH_S) (h4 : p ≠ TVar.Production.Lep_WH_S)
    (h5 : p ≠ TVar.Production.JJVBF_S) (h6 : p ≠ TVar.Production.JJQCD_S) :
    storedProduction TVar.MatrixElement.JHUGen p = p := by
  unfold storedProduction
  rw [if_pos rfl, if_neg h1, if_neg h2, if_neg h3, if_neg h4, if_neg h5, if_neg h6]

/-- Claim C17: `setProcess` stores the process and the engine as given, in the
instance and in the generator, together with the production mode; with engine
JHUGen the six s-channel variants are stored as their plain modes and every
other production mode is stored unchanged; under any other engine every
production mode is stored unchanged; nothing else of the instance changes, and
calling `setProcess` again with the stored triple changes nothing. -/
theorem setProcess_stores_canonical_triple (s : Mela d) (m : TVar.Process)
    (e : TVar.MatrixElement) (p : TVar.Production) :
    (s.setProcess m e p).myModel_ = m
    ∧ (s.setProcess m e p).myME_ = e
    ∧ (s.setProcess m e p).ZZME.process = ⟨m, e, (s.setProcess m e p).myProduction_⟩
    ∧ (s.setProcess m TVar.MatrixElement.JHUGen TVar.Production.Had_ZH_S).myProduction_
        = TVar.Production.Had_ZH
    ∧ (s.setProcess m TVar.MatrixElement.JHUGen TVar.Production.Had_WH_S).myProduction_
        = TVar.Production.Had_WH
    ∧ (s.setProcess m TVar.MatrixElement.JHUGen TVar.Production.Lep_ZH_S).myProduction_
        = TVar.Production.Lep_ZH
    ∧ (s.setProcess m TVar.MatrixElement.JHUGen TVar.Production.Lep_WH_S).myProduction_
        = TVar.Production.Lep_WH
    ∧ (s.setProcess m TVar.MatrixElement.JHUGen TVar.Production.JJVBF_S).myProduction_
        = TVar.Production.JJVBF
    ∧ (s.setProcess m TVar.MatrixElement.JHUGen TVar.Production.JJQCD_S).myProduction_
        = TVar.Production.JJQCD
    ∧ (p ≠ TVar.Production.Had_ZH_S → p ≠ TVar.Production.Had_WH_S
        → p ≠ TVar.Production.Lep_ZH_S → p ≠ TVar.Production.Lep_WH_S
        → p ≠ TVar.Production.JJVBF_S → p ≠ TVar.Production.JJQCD_S
        → (s.setProcess m TVar.MatrixElement.JHUGen p).myProduction_ = p)
    ∧ (e ≠ TVar.MatrixElement.JHUGen → (s.setProcess m e p).myProduction_ = p)
    ∧ (s.setProcess m e p).coupl = s.coupl
    ∧ (s.setProcess m e p).melaCand = s.melaCand
    ∧ (s.setProcess m e p).auxiliaryProb = s.auxiliaryProb
    ∧ (s.setProcess m e p).ZZME.currentCand = s.ZZME.currentCand
    ∧ (s.setProcess m e p).ZZME.record = s.ZZME.record
    ∧ (s.setProcess m e p).ana = s.ana
    ∧ (s.setProcess m e p).setProcess (s.setProcess m e p).myModel_ (s.setProcess m e p).myME_
          (s.setProcess m e p).myProduction_
        = s.setProcess m e p := by
  have hm : (s.setProcess m e p).myModel_ = m := by rw [setProcess_eq]
  have he : (s.setProcess m e p).myME_ = e := by rw [setProcess_eq]
  have hp : ∀ (e2 : TVar.MatrixElement) (p2 : TVar.Production),
      (s.setProcess m e2 p2).myProduction_ = storedProduction e2 p2 := by
    intro e2 p2
    rw [setProcess_eq]
  refine ⟨hm, he, by rw [setProcess_eq], by rw [hp]; rfl, by rw [hp]; rfl, by rw [hp]; rfl,
    by rw [hp]; rfl, by rw [hp]; rfl, by rw [hp]; rfl, ?_, ?_, by rw [setProcess_eq],
    by rw [setProcess_eq], by rw [setProcess_eq], by rw [setProcess_eq], by rw [setProcess_eq],
    by rw [setProcess_eq], ?_⟩
  · intro h1 h2 h3 h4 h5 h6
    rw [hp]
    exact storedProduction_plain p h1 h2 h3 h4 h5 h6
  · intro h
    rw [hp]
    exact storedProduction_other e p h
  · rw [hm, he, hp, setProcess_eq (s.setProcess m e p), storedProduction_idem, setProcess_eq]

/-- Claim C17 at the instance `Example.mela`: under JHUGen the plain mode
`JJVBF` and under MCFM the s-channel variant `JJVBF_S` are stored unchanged. -/
theorem setProcess_stores_canonical_triple_witness :
    (TVar.Production.JJVBF ≠ TVar.Production.Had_ZH_S
      ∧ TVar.Production.JJVBF ≠ TVar.Production.Had_WH_S
      ∧ TVar.Production.JJVBF ≠ TVar.Production.Lep_ZH_S
      ∧ TVar.Production.JJVBF ≠ TVar.Production.Lep_WH_S
      ∧ TVar.Production.JJVBF ≠ TVar.Production.JJVBF_S
      ∧ TVar.Production.JJVBF ≠ TVar.Production.JJQCD_S)
    ∧ (Example.mela.setProcess TVar.Process.HSMHiggs TVar.MatrixElement.JHUGen
        TVar.Production.JJVBF).myProduction_ = TVar.Production.JJVBF
    ∧ TVar.MatrixElement.MCFM ≠ TVar.MatrixElement.JHUGen
    ∧ (Example.mela.setProcess TVar.Process.HSMHiggs TVar.MatrixElement.MCFM
        TVar.Production.JJVBF_S).myProduction_ = TVar.Production.JJVBF_S :=
  ⟨⟨by decide, by decide, by decide, by decide, by decide, by decide⟩,
    (setProcess_stores_canonical_triple Example.mela TVar.Process.HSMHiggs
      TVar.MatrixElement.JHUGen TVar.Production.JJVBF).2.2.2.2.2.2.2.2.2.1
      (by decide) (by decide) (by decide) (by decide) (by decide) (by decide),
    by decide,
    (setProcess_stores_canonical_triple Example.mela TVar.Process.HSMHiggs
      TVar.MatrixElement.MCFM TVar.Production.JJVBF_S).2.2.2.2.2.2.2.2.2.2.1 (by decide)⟩

/-! ### `computeDecayAngles` -/

theorem computeDecayAngles_none (ext : Externals d) (s : Mela d)
    (hcand : s.melaCand = none) (hcur : s.ZZME.currentCand = none) :
    computeDecayAngles ext s
      = (s, ⟨0, 0, 0, FloatVal.fin 0, FloatVal.fin 0, FloatVal.fin 0, FloatVal.fin 0,
          FloatVal.fin 0⟩) := by
  obtain ⟨s1, s2, s3, s4, s5, s6, s7, s8, s9, s10, s11⟩ := s
  simp only at hcand hcur
  subst hcand
  simp only [computeDecayAngles, getCurrentCandidate, hcur, if_true]

/-- Claim C18: when the candidate reference of the instance is null and the
generator has no current candidate, `computeDecayAngles` returns with all
eight outputs equal to zero and leaves the instance as it was; the outputs are
assigned zero on entry, so the result does not depend on what they held. -/
theorem decay_angles_zero_without_candidate (ext : Externals d) (s : Mela d)
    (hcand : s.melaCand = none) (hcur : s.ZZME.currentCand = none) :
    (computeDecayAngles ext s).2.qH = 0
    ∧ (computeDecayAngles ext s).2.m1 = 0
    ∧ (computeDecayAngles ext s).2.m2 = 0
    ∧ (computeDecayAngles ext s).2.costheta1 = FloatVal.fin 0
    ∧ (computeDecayAngles ext s).2.costheta2 = FloatVal.fin 0
    ∧ (computeDecayAngles ext s).2.Phi = FloatVal.fin 0
    ∧ (computeDecayAngles ext s).2.costhetastar = FloatVal.fin 0
    ∧ (computeDecayAngles ext s).2.Phi1 = FloatVal.fin 0
    ∧ (computeDecayAngles ext s).1 = s := by
  rw [computeDecayAngles_none ext s hcand hcur]
  exact ⟨rfl, rfl, rfl, rfl, rfl, rfl, rfl, rfl, rfl⟩

/-- Claim C18 at the instance `Example.melaEmpty`, with an angle routine that
would give not-a-number. -/
theorem decay_angles_zero_without_candidate_witness :
    Example.melaEmpty.melaCand = none
    ∧ Example.melaEmpty.ZZME.currentCand = none
    ∧ (computeDecayAngles Example.extNaNAngles Example.melaEmpty).2.qH = 0
    ∧ (computeDecayAngles Example.extNaNAngles Example.melaEmpty).2.costhetastar = FloatVal.fin 0 :=
  ⟨rfl, rfl,
    (decay_angles_zero_without_candidate Example.extNaNAngles Example.melaEmpty rfl rfl).1,
    (decay_angles_zero_without_candidate Example.extNaNAngles Example.melaEmpty rfl
      rfl).2.2.2.2.2.2.1⟩

theorem computeDecayAngles_some (ext : Externals d) (s : Mela d) (cand : MELACandidate)
    (hcand : s.melaCand = some cand ∨ (s.melaCand = none ∧ s.ZZME.currentCand = some cand)) :
    (computeDecayAngles ext s).2
      = if (cand.getSortedV 0).getNDaughters ≥ 1 ∧ (cand.getSortedV 1).getNDaughters ≥ 1 then
          ⟨cand.m, (cand.getSortedV 0).m, (cand.getSortedV 1).m,
            protectNaN (anglesOf ext cand).costheta1, protectNaN (anglesOf ext cand).costheta2,
            protectNaN (anglesOf ext cand).Phi, protectNaN (anglesOf ext cand).costhetastar,
            protectNaN (anglesOf ext cand).Phi1⟩
        else
          ⟨cand.m, (cand.getSortedV 0).m, (cand.getSortedV 1).m, FloatVal.fin 0, FloatVal.fin 0,
            FloatVal.fin 0, FloatVal.fin 0, FloatVal.fin 0⟩ := by
  have hm : (if s.melaCand = none then { s with melaCand := s.getCurrentCandidate } else s).melaCand
      = some cand := by
    rcases hcand with h | ⟨h1, h2⟩
    · rw [if_neg (by rw [h]; exact Option.some_ne_none _)]
      exact h
    · rw [if_pos h1]
      exact h2
  unfold computeDecayAngles
  simp only [hm]
  split_ifs <;> rfl

theorem protectNaN_isnan (x : FloatVal) : (protectNaN x).isnan = false := by
  unfold protectNaN
  cases x <;> simp [FloatVal.isnan]

/-- Claim C19: for a candidate that is not null (held by the instance, or
fetched from the generator when the reference of the instance is null), if
both sorted bosons have a daughter each of the five angle outputs is 0 when
the angle routine gave not-a-number for it and is the value of the routine
otherwise; if either sorted boson has no daughter all five are 0; in both
cases no angle output is not-a-number. -/
theorem decay_angles_never_nan (ext : Externals d) (s : Mela d) (cand : MELACandidate)
    (hcand : s.melaCand = some cand ∨ (s.melaCand = none ∧ s.ZZME.currentCand = some cand)) :
    (((cand.getSortedV 0).getNDaughters ≥ 1 ∧ (cand.getSortedV 1).getNDaughters ≥ 1) →
        (computeDecayAngles ext s).2.costhetastar
            = (if (anglesOf ext cand).costhetastar.isnan then FloatVal.fin 0
               else (anglesOf ext cand).costhetastar)
        ∧ (computeDecayAngles ext s).2.costheta1
            = (if (anglesOf ext cand).costheta1.isnan then FloatVal.fin 0
               else (anglesOf ext cand).costheta1)
        ∧ (computeDecayAngles ext s).2.costheta2
            = (if (anglesOf ext cand).costheta2.isnan then FloatVal.fin 0
               else (anglesOf ext cand).costheta2)
        ∧ (computeDecayAngles ext s).2.Phi
            = (if (anglesOf ext cand).Phi.isnan then FloatVal.fin 0 else (anglesOf ext cand).Phi)
        ∧ (computeDecayAngles ext s).2.Phi1
            = (if (anglesOf ext cand).Phi1.isnan then FloatVal.fin 0
               else (anglesOf ext cand).Phi1))
    ∧ (¬ ((cand.getSortedV 0).getNDaughters ≥ 1 ∧ (cand.getSortedV 1).getNDaughters ≥ 1) →
        (computeDecayAngles ext s).2.costhetastar = FloatVal.fin 0
        ∧ (computeDecayAngles ext s).2.costheta1 = FloatVal.fin 0
        ∧ (computeDecayAngles ext s).2.costheta2 = FloatVal.fin 0
        ∧ (computeDecayAngles ext s).2.Phi = FloatVal.fin 0
        ∧ (computeDecayAngles ext s).2.Phi1 = FloatVal.fin 0)
    ∧ ((computeDecayAngles ext s).2.costhetastar.isnan = false
        ∧ (computeDecayAngles ext s).2.costheta1.isnan = false
        ∧ (computeDecayAngles ext s).2.costheta2.isnan = false
        ∧ (computeDecayAngles ext s).2.Phi.isnan = false
        ∧ (computeDecayAngles ext s).2.Phi1.isnan = false)
    ∧ (computeDecayAngles ext s).2.qH = cand.m
    ∧ (computeDecayAngles ext s).2.m1 = (cand.getSortedV 0).m
    ∧ (computeDecayAngles ext s).2.m2 = (cand.getSortedV 1).m := by
  rw [computeDecayAngles_some ext s cand hcand]
  refine ⟨fun h => ?_, fun h => ?_, ?_, ?_, ?_, ?_⟩
  · rw [if_pos h]
    exact ⟨rfl, rfl, rfl, rfl, rfl⟩
  · rw [if_neg h]
    exact ⟨rfl, rfl, rfl, rfl, rfl⟩
  · split_ifs
    · exact ⟨protectNaN_isnan _, protectNaN_isnan _, protectNaN_isnan _, protectNaN_isnan _,
        protectNaN_isnan _⟩
    · exact ⟨rfl, rfl, rfl, rfl, rfl⟩
  · split_ifs <;> rfl
  · split_ifs <;> rfl
  · split_ifs <;> rfl

/-- Claim C19 at the instance `Example.mela`, whose bosons have two daughters
each, with an angle routine that gives not-a-number for `costhetastar` and
`costheta2`, and at `Example.melaUndecayed`, whose second boson has none. -/
theorem decay_angles_never_nan_witness :
    (Example.mela.melaCand = none ∧ Example.mela.ZZME.currentCand = some Example.cand)
    ∧ ((Example.cand.getSortedV 0).getNDaughters ≥ 1
        ∧ (Example.cand.getSortedV 1).getNDaughters ≥ 1)
    ∧ (computeDecayAngles Example.extNaNAngles Example.mela).2.costhetastar = FloatVal.fin 0
    ∧ (computeDecayAngles Example.extNaNAngles Example.mela).2.costheta1 = FloatVal.fin (1 / 2)
    ∧ (computeDecayAngles Example.extNaNAngles Example.mela).2.costheta2 = FloatVal.fin 0
    ∧ (computeDecayAngles Example.extNaNAngles Example.mela).2.Phi = FloatVal.fin (-1)
    ∧ (computeDecayAngles Example.extNaNAngles Example.mela).2.Phi1 = FloatVal.fin 2
    ∧ (Example.melaUndecayed.melaCand = none
        ∧ Example.melaUndecayed.ZZME.currentCand = some Example.candUndecayed)
    ∧ ¬ ((Example.candUndecayed.getSortedV 0).getNDaughters ≥ 1
        ∧ (Example.candUndecayed.getSortedV 1).getNDaughters ≥ 1)
    ∧ (computeDecayAngles Example.extNaNAngles Example.melaUndecayed).2.costhetastar
        = FloatVal.fin 0
    ∧ (computeDecayAngles Example.extNaNAngles Example.melaUndecayed).2.Phi1 = FloatVal.fin 0 :=
  ⟨⟨rfl, rfl⟩, by decide,
    ((decay_angles_never_nan Example.extNaNAngles Example.mela Example.cand
      (Or.inr ⟨rfl, rfl⟩)).1 (by decide)).1,
    ((decay_angles_never_nan Example.extNaNAngles Example.mela Example.cand
      (Or.inr ⟨rfl, rfl⟩)).1 (by decide)).2.1,
    ((decay_angles_never_nan Example.extNaNAngles Example.mela Example.cand
      (Or.inr ⟨rfl, rfl⟩)).1 (by decide)).2.2.1,
    ((decay_angles_never_nan Example.extNaNAngles Example.mela Example.cand
      (Or.inr ⟨rfl, rfl⟩)).1 (by decide)).2.2.2.1,
    ((decay_angles_never_nan Example.extNaNAngles Example.mela Example.cand
      (Or.inr ⟨rfl, rfl⟩)).1 (by decide)).2.2.2.2,
    ⟨rfl, rfl⟩, by decide,
    ((decay_angles_never_nan Example.extNaNAngles Example.melaUndecayed Example.candUndecayed
      (Or.inr ⟨rfl, rfl⟩)).2.1 (by decide)).1,
    ((decay_angles_never_nan Example.extNaNAngles Example.melaUndecayed Example.candUndecayed
      (Or.inr ⟨rfl, rfl⟩)).2.1 (by decide)).2.2.2.2⟩

/-! ### `reset_SelfDCouplings` -/

theorem reset_SelfDCouplings_idem (s : Mela d) :
    s.reset_SelfDCouplings.reset_SelfDCouplings = s.reset_SelfDCouplings := by
  simp only [reset_SelfDCouplings, resetCouplings_eq]

/-- Claim C20: after `reset_SelfDCouplings` every real and imaginary component
of every coupling table is 0, every form-factor coefficient is 0, every
form-factor scale is 100 and `differentiate_HWW_HZZ` is false; the tables are
the same from whatever state `s` or `t` the call started; nothing but the
tables changes; and a second call changes nothing. -/
theorem reset_yields_fixed_default (s t : Mela d) :
    (∀ jh ic im, s.reset_SelfDCouplings.coupl.spin0.selfDHggcoupl jh ic im = 0)
    ∧ (∀ jh ic im, s.reset_SelfDCouplings.coupl.spin0.selfDHg4g4coupl jh ic im = 0)
    ∧ (∀ jh ic im, s.reset_SelfDCouplings.coupl.spin0.selfDHqqcoupl jh ic im = 0)
    ∧ (∀ jh ic im, s.reset_SelfDCouplings.coupl.spin0.selfDHbbcoupl jh ic im = 0)
    ∧ (∀ jh ic im, s.reset_SelfDCouplings.coupl.spin0.selfDHttcoupl jh ic im = 0)
    ∧ (∀ jh ic im, s.reset_SelfDCouplings.coupl.spin0.selfDHb4b4coupl jh ic im = 0)
    ∧ (∀ jh ic im, s.reset_SelfDCouplings.coupl.spin0.selfDHt4t4coupl jh ic im = 0)
    ∧ (∀ jh ic im, s.reset_SelfDCouplings.coupl.spin0.selfDHzzcoupl jh ic im = 0)
    ∧ (∀ jh ic im, s.reset_SelfDCouplings.coupl.spin0.selfDHwwcoupl jh ic im = 0)
    ∧ (∀ ic im, s.reset_SelfDCouplings.coupl.spin1.selfDZvvcoupl ic im = 0)
    ∧ (∀ ic im, s.reset_SelfDCouplings.coupl.spin1.selfDZqqcoupl ic im = 0)
    ∧ (∀ ic im, s.reset_SelfDCouplings.coupl.spin2.selfDGvvcoupl ic im = 0)
    ∧ (∀ ic im, s.reset_SelfDCouplings.coupl.spin2.selfDGggcoupl ic im = 0)
    ∧ (∀ ic im, s.reset_SelfDCouplings.coupl.spin2.selfDGqqcoupl ic im = 0)
    ∧ (∀ jh ik, s.reset_SelfDCouplings.coupl.spin0.selfDHzzCLambda_qsq jh ik = 0)
    ∧ (∀ jh ik, s.reset_SelfDCouplings.coupl.spin0.selfDHwwCLambda_qsq jh ik = 0)
    ∧ (∀ jh ic ik, s.reset_SelfDCouplings.coupl.spin0.selfDHzzLambda_qsq jh ic ik = 100)
    ∧ (∀ jh ic ik, s.reset_SelfDCouplings.coupl.spin0.selfDHwwLambda_qsq jh ic ik = 100)
    ∧ s.reset_SelfDCouplings.coupl.spin0.differentiate_HWW_HZZ = false
    ∧ s.reset_SelfDCouplings.coupl = t.reset_SelfDCouplings.coupl
    ∧ s.reset_SelfDCouplings = { s with coupl := t.reset_SelfDCouplings.coupl }
    ∧ s.reset_SelfDCouplings.reset_SelfDCouplings = s.reset_SelfDCouplings := by
  have hs := reset_SelfDCouplings_coupl s
  have ht := reset_SelfDCouplings_coupl t
  refine ⟨?_, ?_, ?_, ?_, ?_, ?_, ?_, ?_, ?_, ?_, ?_, ?_, ?_, ?_, ?_, ?_, ?_, ?_, ?_, ?_, ?_,
    reset_SelfDCouplings_idem s⟩
  any_goals (rw [hs]; intros; rfl)
  · rw [hs, ht]
  · rw [ht]
    simp only [reset_SelfDCouplings, resetCouplings_eq]

end Mela

/-! ## The reset of the auxiliary probability -/

namespace Mela

variable {d : Dims}

theorem computeDecayAngles_auxiliaryProb (ext : Externals d) (s : Mela d) :
    (computeDecayAngles ext s).1.auxiliaryProb = s.auxiliaryProb := by
  unfold computeDecayAngles
  dsimp only
  split <;> split <;> rfl

theorem gridAverage_auxiliaryProb (ext : Externals d) (x : Mela d) (cand : MELACandidate)
    (o : DecayOutputs) : (gridAverage ext x cand o).1.auxiliaryProb = x.auxiliaryProb := by
  unfold gridAverage
  dsimp only
  refine forRange_keep (fun acc : Mela d × ℚ => acc.1.auxiliaryProb = x.auxiliaryProb)
    (fun i acc hacc => ?_) rfl
  refine forRange_keep (fun acc : Mela d × ℚ => acc.1.auxiliaryProb = x.auxiliaryProb)
    (fun j acc hacc => ?_) hacc
  exact hacc

theorem computeP_analytic_auxiliaryProb (ext : Externals d) (x : Mela d) (prob : ℚ) :
    (computeP_analytic ext x prob).1.auxiliaryProb = x.auxiliaryProb := by
  unfold computeP_analytic
  dsimp only
  rw [show ∀ y : Mela d, (releaseY y).auxiliaryProb = y.auxiliaryProb from fun _ => rfl,
    configureAnalyticalPDFs_frame]
  exact computeDecayAngles_auxiliaryProb ext x

theorem computeP_generator_auxiliaryProb (ext : Externals d) (x : Mela d) (cand : MELACandidate) :
    (computeP_generator ext x cand).1.auxiliaryProb = x.auxiliaryProb := by
  unfold computeP_generator
  split
  · rfl
  · dsimp only
    rw [gridAverage_auxiliaryProb]
    exact computeDecayAngles_auxiliaryProb ext x

theorem computeP_getPAux (ext : Externals d) (s : Mela d) (prob : ℚ) (useConstant : Bool) :
    (computeP ext s prob useConstant).1.getPAux = 1 := by
  show (computeP ext s prob useConstant).1.auxiliaryProb = 1
  unfold computeP
  dsimp only
  rw [endEvaluation_auxiliaryProb]
  cases h : s.beginEvaluation.melaCand with
  | none => rfl
  | some cand =>
    dsimp only
    unfold computeP_body
    dsimp only
    rw [applyConstant_auxiliaryProb]
    split_ifs
    · rw [computeP_analytic_auxiliaryProb]
      rfl
    · rw [computeP_generator_auxiliaryProb]
      rfl
    · rfl

theorem computeProdDecP_getPAux (ext : Externals d) (s : Mela d) (prob : ℚ) (useConstant : Bool) :
    (computeProdDecP ext s prob useConstant).1.getPAux = 1 := by
  show (computeProdDecP ext s prob useConstant).1.auxiliaryProb = 1
  rw [computeProdDecP_eq]
  split
  · rfl
  · show (applyConstant (computeConstant ext) useConstant _).1.endEvaluation.auxiliaryProb = 1
    rw [endEvaluation_auxiliaryProb, applyConstant_auxiliaryProb]
    rfl

theorem computeProdP_VH_getPAux (ext : Externals d) (s : Mela d) (prob : ℚ)
    (includeHiggsDecay useConstant : Bool) :
    (computeProdP_VH ext s prob includeHiggsDecay useConstant).1.getPAux = 1 := by
  show (computeProdP_VH ext s prob includeHiggsDecay useConstant).1.auxiliaryProb = 1
  unfold computeProdP_VH
  dsimp only
  rw [endEvaluation_auxiliaryProb]
  cases h : s.beginEvaluation.melaCand with
  | none => rfl
  | some cand =>
    dsimp only
    split
    · rw [applyConstant_auxiliaryProb]
      rfl
    · rfl

theorem computeProdP_ttH_getPAux (ext : Externals d) (s : Mela d) (prob : ℚ)
    (topProcess topDecay : Int) (useConstant : Bool) :
    (computeProdP_ttH ext s prob topProcess topDecay useConstant).1.getPAux = 1 := by
  show (computeProdP_ttH ext s prob topProcess topDecay useConstant).1.auxiliaryProb = 1
  unfold computeProdP_ttH
  dsimp only
  rw [endEvaluation_auxiliaryProb]
  cases h : s.beginEvaluation.melaCand with
  | none => rfl
  | some cand =>
    dsimp only
    rw [applyConstant_auxiliaryProb]
    rfl

theorem computePM4l_body_fst (ext : Externals d) (x : Mela d) (cand : MELACandidate)
    (syst : TVar.SuperMelaSyst) (prob : ℚ) :
    (computePM4l_body ext x cand syst prob).1.auxiliaryProb = x.auxiliaryProb := by
  unfold computePM4l_body
  split
  · split
    · rfl
    · dsimp only
      split_ifs <;> rfl
  · rfl

theorem computePM4l_getPAux (ext : Externals d) (s : Mela d) (syst : TVar.SuperMelaSyst) :
    (computePM4l ext s syst).1.getPAux = 1 := by
  show (computePM4l ext s syst).1.auxiliaryProb = 1
  unfold computePM4l
  dsimp only
  rw [endEvaluation_auxiliaryProb]
  cases h : s.beginEvaluation.melaCand with
  | none => rfl
  | some cand =>
    dsimp only
    rw [computePM4l_body_fst]
    rfl

theorem computeProdP_getPAux (ext : Externals d) (s : Mela d) (prob : ℚ) (useConstant : Bool)
    (hpath : ∀ cand, s.ZZME.currentCand = some cand → isJet2Fake s.beginEvaluation cand = false) :
    (computeProdP ext s prob useConstant).1.getPAux = 1 := by
  unfold computeProdP
  split
  · exact computeProdP_ttH_getPAux ext s prob 2 0 useConstant
  · split
    · exact computeProdP_VH_getPAux ext s prob false useConstant
    · show (Mela.endEvaluation _).auxiliaryProb = 1
      rw [endEvaluation_auxiliaryProb]
      cases h : s.beginEvaluation.melaCand with
      | none => rfl
      | some cand =>
        dsimp only
        unfold computeProdP_body
        dsimp only
        rw [applyConstant_auxiliaryProb, hpath cand h]
        simp only [Bool.false_eq_true, if_false]
        split_ifs <;> rfl

theorem isJet2Fake_false (s : Mela d) (cand : MELACandidate)
    (h : ¬ ((s.myProduction_ = TVar.Production.JJQCD ∨ s.myProduction_ = TVar.Production.JJVBF)
      ∧ (findFirstJet cand).1 = 1)) : isJet2Fake s.beginEvaluation cand = false := by
  unfold isJet2Fake jetSearch
  show (isTwoJetProduction s.myProduction_
    && decide ((if isTwoJetProduction s.myProduction_ = true then findFirstJet cand
      else (0, 0, nullVector)).1 = 1)) = false
  by_cases hp : isTwoJetProduction s.myProduction_ = true
  · have hp2 := (isTwoJetProduction_iff _).1 hp
    have hj : ¬ (findFirstJet cand).1 = 1 := fun hj => h ⟨hp2, hj⟩
    simp [hp, hj]
  · simp [hp]

/-- Claim C21: whatever the auxiliary probability was before the call,
`getPAux` yields exactly 1 after `computeP`, `computeProdDecP`,
`computeProdP_VH`, `computeProdP_ttH` and `computePM4l`, and after
`computeProdP` on every path that does not run the missing-jet integration,
that is, unless the production mode is JJQCD or JJVBF and the current
candidate has exactly one selected jet. -/
theorem auxiliary_probability_reset (ext : Externals d) (s : Mela d) (prob : ℚ)
    (useConstant includeHiggsDecay : Bool) (topProcess topDecay : Int)
    (syst : TVar.SuperMelaSyst) :
    (computeP ext s prob useConstant).1.getPAux = 1
    ∧ (computeProdDecP ext s prob useConstant).1.getPAux = 1
    ∧ (computeProdP_VH ext s prob includeHiggsDecay useConstant).1.getPAux = 1
    ∧ (computeProdP_ttH ext s prob topProcess topDecay useConstant).1.getPAux = 1
    ∧ (computePM4l ext s syst).1.getPAux = 1
    ∧ ((∀ cand, s.ZZME.currentCand = some cand →
          ¬ ((s.myProduction_ = TVar.Production.JJQCD ∨ s.myProduction_ = TVar.Production.JJVBF)
            ∧ (findFirstJet cand).1 = 1)) →
        (computeProdP ext s prob useConstant).1.getPAux = 1) :=
  ⟨computeP_getPAux ext s prob useConstant, computeProdDecP_getPAux ext s prob useConstant,
    computeProdP_VH_getPAux ext s prob includeHiggsDecay useConstant,
    computeProdP_ttH_getPAux ext s prob topProcess topDecay useConstant,
    computePM4l_getPAux ext s syst,
    fun h => computeProdP_getPAux ext s prob useConstant
      (fun cand hc => isJet2Fake_false s cand (h cand hc))⟩

/-- Claim C21 at instances whose auxiliary probability is 7 before the call:
`Example.melaAux` (production ZZGG) and `Example.melaVBFNoJet` (production
JJVBF, a candidate without jets). -/
theorem auxiliary_probability_reset_witness :
    Example.melaAux.getPAux = 7
    ∧ (computeP Example.ext Example.melaAux 0 true).1.getPAux = 1
    ∧ (∀ cand, Example.melaAux.ZZME.currentCand = some cand →
        ¬ ((Example.melaAux.myProduction_ = TVar.Production.JJQCD
            ∨ Example.melaAux.myProduction_ = TVar.Production.JJVBF)
          ∧ (findFirstJet cand).1 = 1))
    ∧ (computeProdP Example.ext Example.melaAux 0 true).1.getPAux = 1
    ∧ (∀ cand, Example.melaVBFNoJet.ZZME.currentCand = some cand →
        ¬ ((Example.melaVBFNoJet.myProduction_ = TVar.Production.JJQCD
            ∨ Example.melaVBFNoJet.myProduction_ = TVar.Production.JJVBF)
          ∧ (findFirstJet cand).1 = 1))
    ∧ (computeProdP Example.ext Example.melaVBFNoJet 0 true).1.getPAux = 1 :=
  have h1 : ∀ cand, Example.melaAux.ZZME.currentCand = some cand →
      ¬ ((Example.melaAux.myProduction_ = TVar.Production.JJQCD
          ∨ Example.melaAux.myProduction_ = TVar.Production.JJVBF)
        ∧ (findFirstJet cand).1 = 1) :=
    fun _ _ h => absurd h.1 (by decide)
  have h2 : ∀ cand, Example.melaVBFNoJet.ZZME.currentCand = some cand →
      ¬ ((Example.melaVBFNoJet.myProduction_ = TVar.Production.JJQCD
          ∨ Example.melaVBFNoJet.myProduction_ = TVar.Production.JJVBF)
        ∧ (findFirstJet cand).1 = 1) :=
    fun cand hc h => by
      have e : cand = Example.candB := (Option.some.inj hc).symm
      subst e
      exact absurd h.2 (by decide)
  ⟨rfl, (auxiliary_probability_reset Example.ext Example.melaAux 0 true false 0 0
      TVar.SuperMelaSyst.SMSyst_None).1, h1,
    (auxiliary_probability_reset Example.ext Example.melaAux 0 true false 0 0
      TVar.SuperMelaSyst.SMSyst_None).2.2.2.2.2 h1, h2,
    (auxiliary_probability_reset Example.ext Example.melaVBFNoJet 0 true false 0 0
      TVar.SuperMelaSyst.SMSyst_None).2.2.2.2.2 h2⟩

end Mela

/-! ## The candidate reference inside composite routines -/

namespace Mela

variable {d : Dims}

theorem ggScale_eq_one (ext : Externals d) (s : Mela d) :
    (setConstant ext (ggEvaluations ext s).2.2.1).getConstant = 1 := by
  have h : (ggEvaluations ext s).2.2.1.melaCand = none := computeP_melaCand _ _ _ _
  rw [setConstant_getConstant, rawConstant_null ext _ h, storedConstant_one]

/-- `computeD_gg` for engine MCFM, type D_gg10 and a candidate that is not
null, in terms of its four evaluations. -/
theorem computeD_gg_eq (ext : Externals d) (s : Mela d) (cand : MELACandidate)
    (hcur : s.ZZME.currentCand = some cand) :
    computeD_gg ext s TVar.MatrixElement.MCFM TVar.Process.D_gg10
      = ((qqEvaluation ext s).1.endEvaluation,
          constructDggr ext (qqEvaluation ext s).2
            (if (setConstant ext (ggEvaluations ext s).2.2.1).getConstant > 0 then
              (ggEvaluations ext s).1.2 / (setConstant ext (ggEvaluations ext s).2.2.1).getConstant
             else (ggEvaluations ext s).1.2)
            (if (setConstant ext (ggEvaluations ext s).2.2.1).getConstant > 0 then
              (ggEvaluations ext s).2.1.2
                / (setConstant ext (ggEvaluations ext s).2.2.1).getConstant
             else (ggEvaluations ext s).2.1.2)
            ((if (setConstant ext (ggEvaluations ext s).2.2.1).getConstant > 0 then
                (ggEvaluations ext s).2.2.2
                  / (setConstant ext (ggEvaluations ext s).2.2.1).getConstant
              else (ggEvaluations ext s).2.2.2)
              - (if (setConstant ext (ggEvaluations ext s).2.2.1).getConstant > 0 then
                  (ggEvaluations ext s).2.1.2
                    / (setConstant ext (ggEvaluations ext s).2.2.1).getConstant
                else (ggEvaluations ext s).2.1.2)
              - (if (setConstant ext (ggEvaluations ext s).2.2.1).getConstant > 0 then
                  (ggEvaluations ext s).1.2
                    / (setConstant ext (ggEvaluations ext s).2.2.1).getConstant
                else (ggEvaluations ext s).1.2)) 10) := by
  have hm : s.getCurrentCandidate = some cand := hcur
  unfold computeD_gg
  rw [if_neg (by simp)]
  dsimp only
  rw [hm]
  rfl

/-- Claim C26: in `computeD_gg` with engine MCFM, type D_gg10 and a candidate
that is not null, the scale read by `getConstant` after `setConstant` of line
1354 is exactly 1, for every candidate, every generator and every calibration
handle, because the third `computeP` has cleared the candidate reference; the
three probabilities enter the discriminant as `computeP` returned them and
the interference term is their difference. -/
theorem ggScale_is_one (ext : Externals d) (s : Mela d) (cand : MELACandidate)
    (hcur : s.ZZME.currentCand = some cand) :
    (ggEvaluations ext s).2.2.1.melaCand = none
    ∧ (setConstant ext (ggEvaluations ext s).2.2.1).getConstant = 1
    ∧ (computeD_gg ext s TVar.MatrixElement.MCFM TVar.Process.D_gg10).2
        = constructDggr ext (qqEvaluation ext s).2 (ggEvaluations ext s).1.2
            (ggEvaluations ext s).2.1.2
            ((ggEvaluations ext s).2.2.2 - (ggEvaluations ext s).2.1.2
              - (ggEvaluations ext s).1.2) 10 := by
  refine ⟨computeP_melaCand _ _ _ _, ggScale_eq_one ext s, ?_⟩
  rw [computeD_gg_eq ext s cand hcur, ggScale_eq_one ext s]
  simp only [gt_iff_lt, zero_lt_one, if_true, div_one]

/-- Claim C26 at the four-muon instance `Example.melaDirty` with the handles of
`Example.extHandles`, of which the one selected for (bkgZZ_SMHiggs, MCFM, ZZGG)
with a candidate present would give not-a-number. -/
theorem ggScale_is_one_witness :
    Example.melaDirty.ZZME.currentCand = some Example.cand
    ∧ (setConstant Example.extHandles (ggEvaluations Example.extHandles Example.melaDirty).2.2.1).getConstant
        = 1 :=
  ⟨rfl, (ggScale_is_one Example.extHandles Example.melaDirty Example.cand rfl).2.1⟩

/-! ### `computeDecayAngles` called directly -/

/-- Claim C27 (the code at the failing input): `computeDecayAngles` is called
directly with candidate `Example.cand` current (mass 120, boson masses 91 and
30, first daughter id 13) and leaves the candidate reference set; then
`Example.candB` (mass 200, boson masses 90 and 60, first daughter id 11) is
made the current candidate; the second direct call returns the masses and the
angle of `Example.cand` again. -/
theorem decay_angles_report_stale_candidate :
    (computeDecayAngles Example.extAngleId Example.mela).2.qH = 120
    ∧ (computeDecayAngles Example.extAngleId Example.mela).1.melaCand = some Example.cand
    ∧ ((computeDecayAngles Example.extAngleId Example.mela).1.setCurrentCandidate
        (some Example.candB)).getCurrentCandidate = some Example.candB
    ∧ (computeDecayAngles Example.extAngleId
        ((computeDecayAngles Example.extAngleId Example.mela).1.setCurrentCandidate
          (some Example.candB))).2.qH = 120
    ∧ (computeDecayAngles Example.extAngleId
        ((computeDecayAngles Example.extAngleId Example.mela).1.setCurrentCandidate
          (some Example.candB))).2.m1 = 91
    ∧ (computeDecayAngles Example.extAngleId
        ((computeDecayAngles Example.extAngleId Example.mela).1.setCurrentCandidate
          (some Example.candB))).2.m2 = 30
    ∧ (computeDecayAngles Example.extAngleId
        ((computeDecayAngles Example.extAngleId Example.mela).1.setCurrentCandidate
          (some Example.candB))).2.costheta1 = FloatVal.fin 13
    ∧ Example.candB.m = 200
    ∧ (Example.candB.getSortedV 0).m = 90
    ∧ (Example.candB.getSortedV 1).m = 60
    ∧ (anglesOf Example.extAngleId Example.candB).costheta1 = FloatVal.fin 11 := by
  have h1 : (computeDecayAngles Example.extAngleId Example.mela).1.melaCand = some Example.cand :=
    rfl
  have h2 := computeDecayAngles_some Example.extAngleId
    ((computeDecayAngles Example.extAngleId Example.mela).1.setCurrentCandidate
      (some Example.candB)) Example.cand (Or.inl h1)
  have h0 := computeDecayAngles_some Example.extAngleId Example.mela Example.cand
    (Or.inr ⟨rfl, rfl⟩)
  rw [if_pos (by decide)] at h0 h2
  refine ⟨?_, h1, rfl, ?_, ?_, ?_, ?_, rfl, rfl, rfl, ?_⟩
  · rw [h0]
    rfl
  · rw [h2]
    rfl
  · rw [h2]
    rfl
  · rw [h2]
    rfl
  · rw [h2]
    simp [anglesOf, Example.extAngleId, protectNaN, FloatVal.isnan, daughterArg,
      MELACandidate.getSortedV, MELABoson.getDaughter, Example.cand, Example.lepton]
  · simp [anglesOf, Example.extAngleId, daughterArg,
      MELACandidate.getSortedV, MELABoson.getDaughter, Example.candB, Example.lepton]

/-! ### `compute4FermionWeight` -/

/-- For a candidate that passes the tests of lines 1217-1235 the routine
reaches line 1252 with the candidate reference cleared by `computeP`. -/
theorem compute4FermionWeight_null (ext : Externals d) (s : Mela d) (w : ℚ)
    (id_original : Nat → Nat → Int) (dXsec : ℚ × ℚ) (cand : MELACandidate)
    (hcur : s.ZZME.currentCand = some cand)
    (h0 : isZOrPhotonPair ext (cand.getSortedV 0) = true)
    (h1 : isZOrPhotonPair ext (cand.getSortedV 1) = true)
    (l00 : ext.isALepton (daughterId (cand.getSortedV 0) 0) = true)
    (l01 : ext.isALepton (daughterId (cand.getSortedV 0) 1) = true)
    (l10 : ext.isALepton (daughterId (cand.getSortedV 1) 0) = true)
    (l11 : ext.isALepton (daughterId (cand.getSortedV 1) 1) = true) :
    compute4FermionWeight ext s w id_original dXsec = none := by
  have hb : s.beginEvaluation.melaCand = some cand := hcur
  have hc : (computeP ext s.beginEvaluation dXsec.1 false).1.melaCand = none :=
    computeP_melaCand _ _ _ _
  unfold compute4FermionWeight
  simp only [hb, h0, h1, not_true_eq_false, if_false, if_true, l00, l01, l10, l11,
    Bool.not_true, Bool.or_self, Bool.false_eq_true, one_ne_zero, zero_ne_one, hc]

/-- Claim C25 (the code at the failing input): for the four-muon candidate
`Example.cand`, whose sorted bosons are Z bosons with two lepton daughters
each, the candidate reference is null after the first inner `computeP`, and
the routine dereferences it at line 1252. -/
theorem compute4FermionWeight_uses_cleared_reference :
    Example.mela.ZZME.currentCand = some Example.cand
    ∧ isZOrPhotonPair Example.ext (Example.cand.getSortedV 0) = true
    ∧ isZOrPhotonPair Example.ext (Example.cand.getSortedV 1) = true
    ∧ Example.ext.isALepton (daughterId (Example.cand.getSortedV 0) 0) = true
    ∧ Example.ext.isALepton (daughterId (Example.cand.getSortedV 0) 1) = true
    ∧ Example.ext.isALepton (daughterId (Example.cand.getSortedV 1) 0) = true
    ∧ Example.ext.isALepton (daughterId (Example.cand.getSortedV 1) 1) = true
    ∧ (computeP Example.ext Example.mela.beginEvaluation 0 false).1.melaCand = none
    ∧ compute4FermionWeight Example.ext Example.mela 0 (fun _ _ => 0) (0, 0) = none :=
  ⟨rfl, by decide, by decide, by decide, by decide, by decide, by decide,
    computeP_melaCand _ _ _ _,
    compute4FermionWeight_null Example.ext Example.mela 0 (fun _ _ => 0) (0, 0) Example.cand rfl
      (by decide) (by decide) (by decide) (by decide) (by decide) (by decide)⟩

end Mela

/-! ## The collision energy of the calibration files -/

namespace Mela

/-- The loop of lines 1895-1898 unrolled. -/
theorem chsqrts_eq (L : ℚ) :
    chsqrts L
      = if |L - 13| < (if |L - 8| < (if |L - 7| < 99 then |L - 7| else 99) then |L - 8|
            else (if |L - 7| < 99 then |L - 7| else 99)) then 13
        else if |L - 8| < (if |L - 7| < 99 then |L - 7| else 99) then 8
        else 7 := by
  unfold chsqrts
  simp only [forRange, List.range_succ, List.range_zero, List.nil_append, List.cons_append,
    List.foldl_cons, List.foldl_nil, List.getD_cons_zero, List.getD_cons_succ]
  split_ifs <;> simp_all

/-- Below 112 TeV the energy chosen is the element of 7, 8, 13 closest to
`LHCsqrts`, the smaller one when two are equally close. -/
theorem chsqrts_closest (L : ℚ) (h : L < 112) :
    (chsqrts L = 7 ∨ chsqrts L = 8 ∨ chsqrts L = 13)
    ∧ |L - chsqrts L| ≤ |L - 7| ∧ |L - chsqrts L| ≤ |L - 8| ∧ |L - chsqrts L| ≤ |L - 13|
    ∧ (|L - 7| = |L - chsqrts L| → chsqrts L ≤ 7)
    ∧ (|L - 8| = |L - chsqrts L| → chsqrts L ≤ 8)
    ∧ (|L - 13| = |L - chsqrts L| → chsqrts L ≤ 13) := by
  rw [chsqrts_eq]
  rcases abs_cases (L - 7) with ⟨e7, p7⟩ | ⟨e7, p7⟩ <;>
    rcases abs_cases (L - 8) with ⟨e8, p8⟩ | ⟨e8, p8⟩ <;>
    rcases abs_cases (L - 13) with ⟨e13, p13⟩ | ⟨e13, p13⟩ <;>
    simp only [e7, e8, e13] <;>
    split_ifs <;>
    simp only [e7, e8, e13] <;>
    (refine ⟨by norm_num, ?_, ?_, ?_, ?_, ?_, ?_⟩ <;> (try intro _) <;>
      (first | linarith | norm_num))

theorem abs_num (a b : ℚ) (h : 0 ≤ a) (e : a = b) : |a| = b := by
  rw [abs_of_nonneg h, e]

/-- Claim C24 (the code at the failing input): for `LHCsqrts = 150` the
energy chosen is 7 although 13 is closer, and likewise for 112, because no
distance is below the initial value 99 of `sqrtsdiff`; at 111 the choice is
13, and at the midpoints 15/2 and 21/2 the smaller neighbour is chosen. -/
theorem chsqrts_far_energy :
    chsqrts 150 = 7
    ∧ |(150 : ℚ) - 13| < |(150 : ℚ) - 7|
    ∧ chsqrts 112 = 7
    ∧ |(112 : ℚ) - 13| < |(112 : ℚ) - 7|
    ∧ chsqrts 111 = 13
    ∧ chsqrts (15 / 2) = 7
    ∧ chsqrts (21 / 2) = 8 := by
  have a1 : |(150 : ℚ) - 7| = 143 := abs_num _ _ (by norm_num) (by norm_num)
  have a2 : |(150 : ℚ) - 8| = 142 := abs_num _ _ (by norm_num) (by norm_num)
  have a3 : |(150 : ℚ) - 13| = 137 := abs_num _ _ (by norm_num) (by norm_num)
  have b1 : |(112 : ℚ) - 7| = 105 := abs_num _ _ (by norm_num) (by norm_num)
  have b2 : |(112 : ℚ) - 8| = 104 := abs_num _ _ (by norm_num) (by norm_num)
  have b3 : |(112 : ℚ) - 13| = 99 := abs_num _ _ (by norm_num) (by norm_num)
  have c1 : |(111 : ℚ) - 7| = 104 := abs_num _ _ (by norm_num) (by norm_num)
  have c2 : |(111 : ℚ) - 8| = 103 := abs_num _ _ (by norm_num) (by norm_num)
  have c3 : |(111 : ℚ) - 13| = 98 := abs_num _ _ (by norm_num) (by norm_num)
  have d1 : |(15 / 2 : ℚ) - 7| = 1 / 2 := abs_num _ _ (by norm_num) (by norm_num)
  have d2 : |(15 / 2 : ℚ) - 8| = 1 / 2 := by
    rw [abs_sub_comm]
    exact abs_num _ _ (by norm_num) (by norm_num)
  have d3 : |(15 / 2 : ℚ) - 13| = 11 / 2 := by
    rw [abs_sub_comm]
    exact abs_num _ _ (by norm_num) (by norm_num)
  have e1 : |(21 / 2 : ℚ) - 7| = 7 / 2 := abs_num _ _ (by norm_num) (by norm_num)
  have e2 : |(21 / 2 : ℚ) - 8| = 5 / 2 := abs_num _ _ (by norm_num) (by norm_num)
  have e3 : |(21 / 2 : ℚ) - 13| = 5 / 2 := by
    rw [abs_sub_comm]
    exact abs_num _ _ (by norm_num) (by norm_num)
  refine ⟨?_, ?_, ?_, ?_, ?_, ?_, ?_⟩
  · rw [chsqrts_eq, a1, a2, a3]
    norm_num
  · rw [a1, a3]
    norm_num
  · rw [chsqrts_eq, b1, b2, b3]
    norm_num
  · rw [b1, b3]
    norm_num
  · rw [chsqrts_eq, c1, c2, c3]
    norm_num
  · rw [chsqrts_eq, d1, d2, d3]
    norm_num
  · rw [chsqrts_eq, e1, e2, e3]
    norm_num

end Mela

/-! ## The lepton flavours of the four-lepton constant -/

namespace Mela

variable {d : Dims}

/-- Without a flavour flag `getConstant_4l` selects a handle only for the
selector (MCFM, JJQCD, bkgZJets). -/
theorem handles_4l_no_flag (s : Mela d) :
    handles_4l s false false false
      = if s.myME_ = TVar.MatrixElement.MCFM ∧ s.myProduction_ = TVar.Production.JJQCD
            ∧ s.myModel_ = TVar.Process.bkgZJets then
          [some PConstantHandle.MCFM_JJQCD_bkgZJets_2l2q, none]
        else [none, none] := by
  unfold handles_4l
  simp only [Bool.false_eq_true, if_false, ite_self]
  by_cases h1 : s.myME_ = TVar.MatrixElement.JHUGen
  · have h2 : ¬ s.myME_ = TVar.MatrixElement.MCFM := by rw [h1]; decide
    simp [h1]
  · by_cases h2 : s.myME_ = TVar.MatrixElement.MCFM
    · by_cases h3 : s.myProduction_ = TVar.Production.ZZQQB
      · simp [h1, h2, h3]
      · by_cases h4 : s.myProduction_ = TVar.Production.ZZGG
        · simp [h1, h2, h3, h4]
        · by_cases h5 : s.myProduction_ = TVar.Production.JJQCD
          · by_cases h6 : s.myModel_ = TVar.Process.bkgZJets <;> simp [h2, h5, h6]
          · simp [h1, h2, h3, h4, h5]
    · simp [h1, h2]

theorem handlesOf4l_no_flag (s : Mela d) (cand : MELACandidate)
    (h1 : ¬ idprod cand = 28561) (h2 : ¬ (idprod cand = 14641 ∨ idprod cand = 50625))
    (h3 : ¬ (idprod cand = 20449 ∨ idprod cand = 27225 ∨ idprod cand = 38025)) :
    handlesOf4l s cand
      = if s.myME_ = TVar.MatrixElement.MCFM ∧ s.myProduction_ = TVar.Production.JJQCD
            ∧ s.myModel_ = TVar.Process.bkgZJets then
          [some PConstantHandle.MCFM_JJQCD_bkgZJets_2l2q, none]
        else [none, none] := by
  have e1 : decide (idprod cand = 28561) = false := decide_eq_false h1
  have e2 : (decide (idprod cand = 14641) || decide (idprod cand = 50625)) = false := by
    simpa using h2
  have e3 : (decide (idprod cand = 20449) || decide (idprod cand = 27225)
      || decide (idprod cand = 38025)) = false := by
    simpa [not_or, and_assoc] using h3
  unfold handlesOf4l
  rw [e1, e2, e3]
  exact handles_4l_no_flag s

theorem flavour_products (a b c e : Int) (ha : a = 11 ∨ a = 13 ∨ a = 15)
    (hb : b = 11 ∨ b = 13 ∨ b = 15) (hc : c = 11 ∨ c = 13 ∨ c = 15)
    (he : e = 11 ∨ e = 13 ∨ e = 15) :
    (a * b * c * e = 28561 ↔ ∀ x ∈ [a, b, c, e], x = 13)
    ∧ ((a * b * c * e = 14641 ∨ a * b * c * e = 50625)
        ↔ ((∀ x ∈ [a, b, c, e], x = 11) ∨ (∀ x ∈ [a, b, c, e], x = 15)))
    ∧ ((a * b * c * e = 20449 ∨ a * b * c * e = 27225 ∨ a * b * c * e = 38025)
        ↔ ∃ f ∈ [(11 : Int), 13, 15], ∃ g ∈ [(11 : Int), 13, 15],
            f ≠ g ∧ [a, b, c, e].count f = 2 ∧ [a, b, c, e].count g = 2) := by
  rcases ha with rfl | rfl | rfl <;> rcases hb with rfl | rfl | rfl <;>
    rcases hc with rfl | rfl | rfl <;> rcases he with rfl | rfl | rfl <;> decide

theorem flavours_in_range (cand : MELACandidate)
    (h : ∀ x ∈ daughterFlavours cand, x = 11 ∨ x = 13 ∨ x = 15) :
    (|daughterId (cand.getSortedV 0) 0| = 11 ∨ |daughterId (cand.getSortedV 0) 0| = 13
      ∨ |daughterId (cand.getSortedV 0) 0| = 15)
    ∧ (|daughterId (cand.getSortedV 0) 1| = 11 ∨ |daughterId (cand.getSortedV 0) 1| = 13
      ∨ |daughterId (cand.getSortedV 0) 1| = 15)
    ∧ (|daughterId (cand.getSortedV 1) 0| = 11 ∨ |daughterId (cand.getSortedV 1) 0| = 13
      ∨ |daughterId (cand.getSortedV 1) 0| = 15)
    ∧ (|daughterId (cand.getSortedV 1) 1| = 11 ∨ |daughterId (cand.getSortedV 1) 1| = 13
      ∨ |daughterId (cand.getSortedV 1) 1| = 15) := by
  refine ⟨h _ ?_, h _ ?_, h _ ?_, h _ ?_⟩ <;> simp [daughterFlavours]

/-- Claim C23, amended: for four daughter ids with absolute values among 11,
13 and 15, `is4mu` holds exactly when all four are muons, `is4e` exactly when
all four are electrons or all four are taus, `is2mu2e` exactly when two
flavours occur twice each, and at most one flag holds; when none holds no
flavour-dependent handle is selected: `getConstant_4l` then selects a handle
only for the selector (MCFM, JJQCD, bkgZJets), whose single handle is chosen
without looking at the flags. -/
theorem lepton_flavour_classification (s : Mela d) (cand : MELACandidate)
    (hflav : ∀ x ∈ daughterFlavours cand, x = 11 ∨ x = 13 ∨ x = 15) :
    (idprod cand = 28561 ↔ ∀ x ∈ daughterFlavours cand, x = 13)
    ∧ ((idprod cand = 14641 ∨ idprod cand = 50625)
        ↔ ((∀ x ∈ daughterFlavours cand, x = 11) ∨ (∀ x ∈ daughterFlavours cand, x = 15)))
    ∧ ((idprod cand = 20449 ∨ idprod cand = 27225 ∨ idprod cand = 38025)
        ↔ ∃ f ∈ [(11 : Int), 13, 15], ∃ g ∈ [(11 : Int), 13, 15],
            f ≠ g ∧ (daughterFlavours cand).count f = 2 ∧ (daughterFlavours cand).count g = 2)
    ∧ ¬ (idprod cand = 28561 ∧ (idprod cand = 14641 ∨ idprod cand = 50625))
    ∧ ¬ (idprod cand = 28561
        ∧ (idprod cand = 20449 ∨ idprod cand = 27225 ∨ idprod cand = 38025))
    ∧ ¬ ((idprod cand = 14641 ∨ idprod cand = 50625)
        ∧ (idprod cand = 20449 ∨ idprod cand = 27225 ∨ idprod cand = 38025))
    ∧ (¬ idprod cand = 28561 → ¬ (idprod cand = 14641 ∨ idprod cand = 50625) →
        ¬ (idprod cand = 20449 ∨ idprod cand = 27225 ∨ idprod cand = 38025) →
        handlesOf4l s cand
          = if s.myME_ = TVar.MatrixElement.MCFM ∧ s.myProduction_ = TVar.Production.JJQCD
                ∧ s.myModel_ = TVar.Process.bkgZJets then
              [some PConstantHandle.MCFM_JJQCD_bkgZJets_2l2q, none]
            else [none, none]) := by
  obtain ⟨ha, hb, hc, he⟩ := flavours_in_range cand hflav
  obtain ⟨p1, p2, p3⟩ := flavour_products _ _ _ _ ha hb hc he
  refine ⟨p1, p2, p3, ?_, ?_, ?_, handlesOf4l_no_flag s cand⟩
  · rintro ⟨h1, h2 | h2⟩ <;> rw [h1] at h2 <;> exact absurd h2 (by decide)
  · rintro ⟨h1, h2 | h2 | h2⟩ <;> rw [h1] at h2 <;> exact absurd h2 (by decide)
  · rintro ⟨h1 | h1, h2 | h2 | h2⟩ <;> rw [h1] at h2 <;> exact absurd h2 (by decide)

/-- Claim C23, amended, at the candidate with three muons and one electron
under the selector (HSMHiggs, MCFM, ZZGG): no flag holds and no handle is
selected. -/
theorem lepton_flavour_classification_witness :
    (∀ x ∈ daughterFlavours Example.cand3mu1e, x = 11 ∨ x = 13 ∨ x = 15)
    ∧ ¬ idprod Example.cand3mu1e = 28561
    ∧ ¬ (idprod Example.cand3mu1e = 14641 ∨ idprod Example.cand3mu1e = 50625)
    ∧ ¬ (idprod Example.cand3mu1e = 20449 ∨ idprod Example.cand3mu1e = 27225
        ∨ idprod Example.cand3mu1e = 38025)
    ∧ handlesOf4l Example.melaDirty3mu1e Example.cand3mu1e = [none, none] :=
  ⟨by decide, by decide, by decide, by decide,
    ((lepton_flavour_classification Example.melaDirty3mu1e Example.cand3mu1e
      (by decide)).2.2.2.2.2.2 (by decide) (by decide) (by decide)).trans (by decide)⟩

/-- Claim C23 as stated fails: for three muons and one electron no flag holds,
yet under the selector (MCFM, JJQCD, bkgZJets) `getConstant_4l` selects the
handle of the Z+jets background and `setConstant` evaluates it: with a handle
value of -1 the stored constant is 0 and not the 1 of the no-handle case. -/
theorem flavour_independent_handle :
    daughterFlavours Example.cand3mu1e = [13, 13, 13, 11]
    ∧ ¬ idprod Example.cand3mu1e = 28561
    ∧ ¬ (idprod Example.cand3mu1e = 14641 ∨ idprod Example.cand3mu1e = 50625)
    ∧ ¬ (idprod Example.cand3mu1e = 20449 ∨ idprod Example.cand3mu1e = 27225
        ∨ idprod Example.cand3mu1e = 38025)
    ∧ is4lFinalState Example.extHandles Example.cand3mu1e
    ∧ handlesOf4l Example.melaZJets3mu1e Example.cand3mu1e
        = [some PConstantHandle.MCFM_JJQCD_bkgZJets_2l2q, none]
    ∧ handlesOf4l Example.melaZJets3mu1e Example.cand3mu1e ≠ [none, none]
    ∧ rawConstant Example.extHandles Example.melaZJets3mu1e = FloatVal.fin (-1)
    ∧ (setConstant Example.extHandles Example.melaZJets3mu1e).getConstant = 0 := by
  have hraw : rawConstant Example.extHandles Example.melaZJets3mu1e = FloatVal.fin (-1) := by
    simp [rawConstant, Example.melaZJets3mu1e, Example.melaZJets, setProcess, Example.melaDirty,
      Example.mela, Example.cand3mu1e, Example.cand, MELACandidate.getSortedV,
      MELABoson.getNDaughters, daughterId, MELABoson.getDaughter, Example.lepton,
      Example.extHandles, Example.ext, getConstant_4l, idprod, handles_4l, sumHandles,
      FloatVal.add]
  refine ⟨by decide, by decide, by decide, by decide, by decide, by decide, by decide, hraw, ?_⟩
  rw [setConstant_getConstant, hraw, storedConstant_fin_nonpos (-1) (by norm_num)]

end Mela

/-! ## The tables of `computeD_CP` -/

namespace Mela

variable {d : Dims}

theorem applyConstant_selector (ext : Externals d) (useConstant : Bool) (r : Mela d × ℚ) :
    (applyConstant (computeConstant ext) useConstant r).1.myModel_ = r.1.myModel_
    ∧ (applyConstant (computeConstant ext) useConstant r).1.myME_ = r.1.myME_
    ∧ (applyConstant (computeConstant ext) useConstant r).1.myProduction_ = r.1.myProduction_ := by
  cases useConstant <;> exact ⟨rfl, rfl, rfl⟩

/-- `computeP` leaves the selector of the instance as it was. -/
theorem computeP_selector (ext : Externals d) (s : Mela d) (prob : ℚ) (useConstant : Bool) :
    (computeP ext s prob useConstant).1.myModel_ = s.myModel_
    ∧ (computeP ext s prob useConstant).1.myME_ = s.myME_
    ∧ (computeP ext s prob useConstant).1.myProduction_ = s.myProduction_ := by
  unfold computeP
  dsimp only
  cases h : s.beginEvaluation.melaCand with
  | none => exact ⟨rfl, rfl, rfl⟩
  | some cand =>
    dsimp only
    show (computeP_body ext s.beginEvaluation cand prob useConstant).1.myModel_ = s.myModel_
      ∧ (computeP_body ext s.beginEvaluation cand prob useConstant).1.myME_ = s.myME_
      ∧ (computeP_body ext s.beginEvaluation cand prob useConstant).1.myProduction_
          = s.myProduction_
    unfold computeP_body
    dsimp only
    obtain ⟨a1, a2, a3⟩ := applyConstant_selector ext useConstant
      (if s.beginEvaluation.myME_ = TVar.MatrixElement.ANALYTICAL then
        computeP_analytic ext s.beginEvaluation prob
      else if s.beginEvaluation.myME_ = TVar.MatrixElement.JHUGen
          ∨ s.beginEvaluation.myME_ = TVar.MatrixElement.MCFM then
        computeP_generator ext s.beginEvaluation cand
      else (s.beginEvaluation, prob))
    rw [a1, a2, a3]
    split_ifs
    · rw [computeP_analytic_eq ext s.beginEvaluation prob cand h]
      show (configureAnalyticalPDFs ext _).1.myModel_ = s.myModel_
        ∧ (configureAnalyticalPDFs ext _).1.myME_ = s.myME_
        ∧ (configureAnalyticalPDFs ext _).1.myProduction_ = s.myProduction_
      rw [configureAnalyticalPDFs_myModel, configureAnalyticalPDFs_myME,
        configureAnalyticalPDFs_myProduction]
      exact ⟨rfl, rfl, rfl⟩
    · have hc := core_computeP_generator ext s.beginEvaluation cand cand h
      have h1 := congrArg Mela.myModel_ hc
      have h2 := congrArg Mela.myME_ hc
      have h3 := congrArg Mela.myProduction_ hc
      exact ⟨h1, h2, h3⟩
    · exact ⟨rfl, rfl, rfl⟩

theorem computeP_selfDspin0_selector (ext : Externals d) (s : Mela d)
    (t : Tab3 d.nSupportedHiggses d.SIZE_HVV) (prob : ℚ) (useConstant : Bool) :
    (computeP_selfDspin0 ext s t prob useConstant).1.myModel_ = s.myModel_
    ∧ (computeP_selfDspin0 ext s t prob useConstant).1.myME_ = s.myME_
    ∧ (computeP_selfDspin0 ext s t prob useConstant).1.myProduction_ = s.myProduction_ := by
  unfold computeP_selfDspin0
  exact computeP_selector ext _ prob useConstant

/-- Claim C29: for each of the eleven supported discriminant types the mixed
table of `computeD_CP` is the entry-wise sum of the two pure tables, the first
pure table is 1 at the real part of operator 0 of resonance 0 and 0 elsewhere,
and the second pure table is a non-zero value at one entry of resonance 0,
with operator index from 1 to 30, and 0 elsewhere; for any other type the
three tables are zero; in both cases the result is `pMix - p1 - p2` of three
`computeP_selfDspin0` evaluations with the constant, each entered with
process SelfDefine_spin0, the engine given and production ZZGG. -/
theorem computeD_CP_decomposition (ext : Externals d) (s : Mela d) (myME : TVar.MatrixElement)
    (myType : TVar.Process) (pMix p1 p2 : ℚ) :
    (myType ∈ [TVar.Process.D_g1g4, TVar.Process.D_g1g4_pi_2, TVar.Process.D_g1g2,
        TVar.Process.D_g1g2_pi_2, TVar.Process.D_g1g1prime2, TVar.Process.D_zzzg,
        TVar.Process.D_zzgg, TVar.Process.D_zzzg_PS, TVar.Process.D_zzgg_PS,
        TVar.Process.D_zzzg_g1prime2, TVar.Process.D_zzzg_g1prime2_pi_2] →
      (∀ jh ic im, (couplD_CP d myType).1 jh ic im
          = (couplD_CP d myType).2.1 jh ic im + (couplD_CP d myType).2.2 jh ic im)
      ∧ (∀ jh ic im, (couplD_CP d myType).2.1 jh ic im
          = if jh.val = 0 ∧ ic.val = 0 ∧ im.val = 0 then 1 else 0)
      ∧ ∃ ic0 im0 : Nat, ∃ v : ℚ, 1 ≤ ic0 ∧ ic0 ≤ 30 ∧ im0 < 2 ∧ v ≠ 0
          ∧ ∀ jh ic im, (couplD_CP d myType).2.2 jh ic im
              = if jh.val = 0 ∧ ic.val = ic0 ∧ im.val = im0 then v else 0)
    ∧ (myType ∉ [TVar.Process.D_g1g4, TVar.Process.D_g1g4_pi_2, TVar.Process.D_g1g2,
        TVar.Process.D_g1g2_pi_2, TVar.Process.D_g1g1prime2, TVar.Process.D_zzzg,
        TVar.Process.D_zzgg, TVar.Process.D_zzzg_PS, TVar.Process.D_zzgg_PS,
        TVar.Process.D_zzzg_g1prime2, TVar.Process.D_zzzg_g1prime2_pi_2] →
      ∀ jh ic im, (couplD_CP d myType).1 jh ic im = 0 ∧ (couplD_CP d myType).2.1 jh ic im = 0
        ∧ (couplD_CP d myType).2.2 jh ic im = 0)
    ∧ (computeD_CP ext s myME myType pMix p1 p2).2
        = (D_CP_mix ext s myME myType pMix).2 - (D_CP_first ext s myME myType pMix p1).2
          - (D_CP_second ext s myME myType pMix p1 p2).2
    ∧ (computeD_CP ext s myME myType pMix p1 p2).1 = (D_CP_second ext s myME myType pMix p1 p2).1
    ∧ ((s.setProcess TVar.Process.SelfDefine_spin0 myME TVar.Production.ZZGG).myModel_
          = TVar.Process.SelfDefine_spin0
        ∧ (s.setProcess TVar.Process.SelfDefine_spin0 myME TVar.Production.ZZGG).myME_ = myME
        ∧ (s.setProcess TVar.Process.SelfDefine_spin0 myME TVar.Production.ZZGG).myProduction_
          = TVar.Production.ZZGG)
    ∧ ((D_CP_mix ext s myME myType pMix).1.myModel_ = TVar.Process.SelfDefine_spin0
        ∧ (D_CP_mix ext s myME myType pMix).1.myME_ = myME
        ∧ (D_CP_mix ext s myME myType pMix).1.myProduction_ = TVar.Production.ZZGG)
    ∧ ((D_CP_first ext s myME myType pMix p1).1.myModel_ = TVar.Process.SelfDefine_spin0
        ∧ (D_CP_first ext s myME myType pMix p1).1.myME_ = myME
        ∧ (D_CP_first ext s myME myType pMix p1).1.myProduction_ = TVar.Production.ZZGG) := by
  have hs : (s.setProcess TVar.Process.SelfDefine_spin0 myME TVar.Production.ZZGG).myModel_
        = TVar.Process.SelfDefine_spin0
      ∧ (s.setProcess TVar.Process.SelfDefine_spin0 myME TVar.Production.ZZGG).myME_ = myME
      ∧ (s.setProcess TVar.Process.SelfDefine_spin0 myME TVar.Production.ZZGG).myProduction_
        = TVar.Production.ZZGG := by
    rw [setProcess_eq]
    refine ⟨rfl, rfl, ?_⟩
    show storedProduction myME TVar.Production.ZZGG = TVar.Production.ZZGG
    unfold storedProduction
    split <;> rfl
  have hmix : (D_CP_mix ext s myME myType pMix).1.myModel_ = TVar.Process.SelfDefine_spin0
      ∧ (D_CP_mix ext s myME myType pMix).1.myME_ = myME
      ∧ (D_CP_mix ext s myME myType pMix).1.myProduction_ = TVar.Production.ZZGG := by
    obtain ⟨a, b, c⟩ := computeP_selfDspin0_selector ext
      (s.setProcess TVar.Process.SelfDefine_spin0 myME TVar.Production.ZZGG)
      (couplD_CP d myType).1 pMix true
    exact ⟨a.trans hs.1, b.trans hs.2.1, c.trans hs.2.2⟩
  have hfirst : (D_CP_first ext s myME myType pMix p1).1.myModel_ = TVar.Process.SelfDefine_spin0
      ∧ (D_CP_first ext s myME myType pMix p1).1.myME_ = myME
      ∧ (D_CP_first ext s myME myType pMix p1).1.myProduction_ = TVar.Production.ZZGG := by
    obtain ⟨a, b, c⟩ := computeP_selfDspin0_selector ext (D_CP_mix ext s myME myType pMix).1
      (couplD_CP d myType).2.1 p1 true
    exact ⟨a.trans hmix.1, b.trans hmix.2.1, c.trans hmix.2.2⟩
  refine ⟨fun h => ?_, fun h => ?_, rfl, rfl, hs, hmix, hfirst⟩
  · simp only [List.mem_cons, List.mem_singleton, List.not_mem_nil, or_false] at h
    rcases h with rfl | rfl | rfl | rfl | rfl | rfl | rfl | rfl | rfl | rfl | rfl
    · refine ⟨fun jh ic im => ?_, fun jh ic im => rfl, ⟨3, 0, 2521 / 1000, by norm_num,
        by norm_num, by norm_num, by norm_num, fun jh ic im => rfl⟩⟩
      simp only [couplD_CP, set3]
      split_ifs <;> first | omega | norm_num
    · refine ⟨fun jh ic im => ?_, fun jh ic im => rfl, ⟨3, 1, 2521 / 1000, by norm_num,
        by norm_num, by norm_num, by norm_num, fun jh ic im => rfl⟩⟩
      simp only [couplD_CP, set3]
      split_ifs <;> first | omega | norm_num
    · refine ⟨fun jh ic im => ?_, fun jh ic im => rfl, ⟨1, 0, 1638 / 1000, by norm_num,
        by norm_num, by norm_num, by norm_num, fun jh ic im => rfl⟩⟩
      simp only [couplD_CP, set3]
      split_ifs <;> first | omega | norm_num
    · refine ⟨fun jh ic im => ?_, fun jh ic im => rfl, ⟨1, 1, 1638 / 1000, by norm_num,
        by norm_num, by norm_num, by norm_num, fun jh ic im => rfl⟩⟩
      simp only [couplD_CP, set3]
      split_ifs <;> first | omega | norm_num
    · refine ⟨fun jh ic im => ?_, fun jh ic im => rfl, ⟨11, 0, 1204601 / 100, by norm_num,
        by norm_num, by norm_num, by norm_num, fun jh ic im => rfl⟩⟩
      simp only [couplD_CP, set3]
      split_ifs <;> first | omega | norm_num
    · refine ⟨fun jh ic im => ?_, fun jh ic im => rfl, ⟨4, 0, 688 / 10000, by norm_num,
        by norm_num, by norm_num, by norm_num, fun jh ic im => rfl⟩⟩
      simp only [couplD_CP, set3]
      split_ifs <;> first | omega | norm_num
    · refine ⟨fun jh ic im => ?_, fun jh ic im => rfl, ⟨7, 0, -(898 / 10000), by norm_num,
        by norm_num, by norm_num, by norm_num, fun jh ic im => rfl⟩⟩
      simp only [couplD_CP, set3]
      split_ifs <;> first | omega | norm_num
    · refine ⟨fun jh ic im => ?_, fun jh ic im => rfl, ⟨6, 0, 855 / 10000, by norm_num,
        by norm_num, by norm_num, by norm_num, fun jh ic im => rfl⟩⟩
      simp only [couplD_CP, set3]
      split_ifs <;> first | omega | norm_num
    · refine ⟨fun jh ic im => ?_, fun jh ic im => rfl, ⟨9, 0, -(907 / 10000), by norm_num,
        by norm_num, by norm_num, by norm_num, fun jh ic im => rfl⟩⟩
      simp only [couplD_CP, set3]
      split_ifs <;> first | omega | norm_num
    · refine ⟨fun jh ic im => ?_, fun jh ic im => rfl, ⟨30, 0, -(7591914 / 1000), by norm_num,
        by norm_num, by norm_num, by norm_num, fun jh ic im => rfl⟩⟩
      simp only [couplD_CP, set3]
      split_ifs <;> first | omega | norm_num
    · refine ⟨fun jh ic im => ?_, fun jh ic im => rfl, ⟨30, 1, -(7591914 / 1000), by norm_num,
        by norm_num, by norm_num, by norm_num, fun jh ic im => rfl⟩⟩
      simp only [couplD_CP, set3]
      split_ifs <;> first | omega | norm_num
  · intro jh ic im
    cases myType <;> first
      | exact ⟨rfl, rfl, rfl⟩
      | exact absurd (by simp) h

/-- Witness of claim C29 at the type D_g1g4: the type is supported and the
mixed table is the entry-wise sum of the two pure tables. -/
theorem computeD_CP_decomposition_witness :
    TVar.Process.D_g1g4 ∈ [TVar.Process.D_g1g4, TVar.Process.D_g1g4_pi_2, TVar.Process.D_g1g2,
        TVar.Process.D_g1g2_pi_2, TVar.Process.D_g1g1prime2, TVar.Process.D_zzzg,
        TVar.Process.D_zzgg, TVar.Process.D_zzzg_PS, TVar.Process.D_zzgg_PS,
        TVar.Process.D_zzzg_g1prime2, TVar.Process.D_zzzg_g1prime2_pi_2]
    ∧ ∀ jh ic im, (couplD_CP Example.dims TVar.Process.D_g1g4).1 jh ic im
        = (couplD_CP Example.dims TVar.Process.D_g1g4).2.1 jh ic im
          + (couplD_CP Example.dims TVar.Process.D_g1g4).2.2 jh ic im :=
  ⟨by simp, ((computeD_CP_decomposition Example.ext Example.mela TVar.MatrixElement.JHUGen
    TVar.Process.D_g1g4 0 0 0).1 (by simp)).1⟩

end Mela

/-! ## The empirical correction of the undecayed constant -/

namespace FloatVal

end FloatVal

namespace Mela

variable {d : Dims}

end Mela

/-! ## The self-defined wrappers -/

theorem get2_fin {a b : Nat} (t : Fin a → Fin b → ℚ) (x : Fin a) (y : Fin b) :
    get2 t x.val y.val = t x y := by
  simp [get2, x.isLt, y.isLt]

theorem get3_fin {a b c : Nat} (t : Fin a → Fin b → Fin c → ℚ) (x : Fin a) (y : Fin b)
    (z : Fin c) : get3 t x.val y.val z.val = t x y z := by
  simp [get3, x.isLt, y.isLt, z.isLt]

/-- A loop that copies column `im` of a table into a member through a setter
that only replaces that member. -/
theorem forRange_copy_column {σ : Type} {a : Nat} (getF : σ → Tab2 a) (setF : σ → Tab2 a → σ)
    (h1 : ∀ c t, getF (setF c t) = t) (h2 : ∀ c t u, setF (setF c t) u = setF c u)
    (h3 : ∀ c, setF c (getF c) = c) (t : Tab2 a) (im n : Nat) (c : σ) :
    forRange n (fun ic c => setF c (set2 (getF c) ic im (get2 t ic im))) c
      = setF c (fun x y => if x.val < n ∧ y.val = im then t x y else getF c x y) := by
  induction n with
  | zero =>
    rw [forRange_zero]
    simp [h3]
  | succ k ih =>
    rw [forRange_succ, ih, h1, h2]
    congr 1
    funext x y
    simp only [set2]
    by_cases hx : x.val = k
    · by_cases hy : y.val = im
      · have e : get2 t k im = t x y := by rw [← hx, ← hy]; exact get2_fin t x y
        simp [hx, hy, e]
      · simp [hy]
    · by_cases hy : y.val = im
      · have : (x.val < k + 1) ↔ x.val < k := by omega
        simp [hx, hy, this]
      · simp [hy]

namespace Mela

variable {d : Dims}

theorem computeP_selfDspin0_enter (ext : Externals d) (s : Mela d)
    (input : Tab3 d.nSupportedHiggses d.SIZE_HVV) (prob : ℚ) (useConstant : Bool) :
    computeP_selfDspin0 ext s input prob useConstant
      = computeP ext (enter_selfDspin0 s input) prob useConstant := rfl

theorem spin1_copy_qq (c : Spin1Couplings d) (t : Tab2 d.SIZE_ZQQ) (im : Nat) :
    forRange d.SIZE_ZQQ (fun ic c =>
      ({ c with selfDZqqcoupl := set2 c.selfDZqqcoupl ic im (get2 t ic im) } : Spin1Couplings d)) c
      = { c with selfDZqqcoupl := fun x y =>
            if x.val < d.SIZE_ZQQ ∧ y.val = im then t x y else c.selfDZqqcoupl x y } :=
  forRange_copy_column (fun c : Spin1Couplings d => c.selfDZqqcoupl)
    (fun c t => { c with selfDZqqcoupl := t }) (fun _ _ => rfl) (fun _ _ _ => rfl) (fun _ => rfl)
    t im d.SIZE_ZQQ c

theorem spin1_copy_vv (c : Spin1Couplings d) (t : Tab2 d.SIZE_ZVV) (im : Nat) :
    forRange d.SIZE_ZVV (fun ic c =>
      ({ c with selfDZvvcoupl := set2 c.selfDZvvcoupl ic im (get2 t ic im) } : Spin1Couplings d)) c
      = { c with selfDZvvcoupl := fun x y =>
            if x.val < d.SIZE_ZVV ∧ y.val = im then t x y else c.selfDZvvcoupl x y } :=
  forRange_copy_column (fun c : Spin1Couplings d => c.selfDZvvcoupl)
    (fun c t => { c with selfDZvvcoupl := t }) (fun _ _ => rfl) (fun _ _ _ => rfl) (fun _ => rfl)
    t im d.SIZE_ZVV c

theorem column_copy_both {a : Nat} (t f : Tab2 a) :
    (fun (x : Fin a) (y : Fin 2) => if x.val < a ∧ y.val = 1 then t x y
      else (if x.val < a ∧ y.val = 0 then t x y else f x y)) = t := by
  funext x y
  have hy : y.val = 0 ∨ y.val = 1 := by omega
  rcases hy with hy | hy <;> simp [hy, x.isLt]

theorem enter_selfDspin1_coupl (s : Mela d) (qq : Tab2 d.SIZE_ZQQ) (vv : Tab2 d.SIZE_ZVV) :
    enter_selfDspin1 s qq vv
      = { s with coupl := { s.coupl with spin1 := { selfDZqqcoupl := qq, selfDZvvcoupl := vv } } } := by
  unfold enter_selfDspin1
  simp only [forRange_succ, forRange_zero, spin1_copy_qq, spin1_copy_vv, column_copy_both]

theorem enter_selfDspin1_vv_coupl (s : Mela d) (vv : Tab2 d.SIZE_ZVV) :
    enter_selfDspin1_vv s vv
      = { s with coupl := { s.coupl with spin1 :=
            { selfDZqqcoupl := set2 (set2 s.coupl.spin1.selfDZqqcoupl 0 0 1) 1 0 1,
              selfDZvvcoupl := vv } } } := by
  unfold enter_selfDspin1_vv
  simp only [forRange_succ, forRange_zero, spin1_copy_vv, column_copy_both]

theorem spin2_copy_gg (c : Spin2Couplings d) (t : Tab2 d.SIZE_GGG) (im : Nat) :
    forRange d.SIZE_GGG (fun ic c =>
      ({ c with selfDGggcoupl := set2 c.selfDGggcoupl ic im (get2 t ic im) } : Spin2Couplings d)) c
      = { c with selfDGggcoupl := fun x y =>
            if x.val < d.SIZE_GGG ∧ y.val = im then t x y else c.selfDGggcoupl x y } :=
  forRange_copy_column (fun c : Spin2Couplings d => c.selfDGggcoupl)
    (fun c t => { c with selfDGggcoupl := t }) (fun _ _ => rfl) (fun _ _ _ => rfl) (fun _ => rfl)
    t im d.SIZE_GGG c

theorem spin2_copy_qq (c : Spin2Couplings d) (t : Tab2 d.SIZE_GQQ) (im : Nat) :
    forRange d.SIZE_GQQ (fun ic c =>
      ({ c with selfDGqqcoupl := set2 c.selfDGqqcoupl ic im (get2 t ic im) } : Spin2Couplings d)) c
      = { c with selfDGqqcoupl := fun x y =>
            if x.val < d.SIZE_GQQ ∧ y.val = im then t x y else c.selfDGqqcoupl x y } :=
  forRange_copy_column (fun c : Spin2Couplings d => c.selfDGqqcoupl)
    (fun c t => { c with selfDGqqcoupl := t }) (fun _ _ => rfl) (fun _ _ _ => rfl) (fun _ => rfl)
    t im d.SIZE_GQQ c

theorem spin2_copy_vv (c : Spin2Couplings d) (t : Tab2 d.SIZE_GVV) (im : Nat) :
    forRange d.SIZE_GVV (fun ic c =>
      ({ c with selfDGvvcoupl := set2 c.selfDGvvcoupl ic im (get2 t ic im) } : Spin2Couplings d)) c
      = { c with selfDGvvcoupl := fun x y =>
            if x.val < d.SIZE_GVV ∧ y.val = im then t x y else c.selfDGvvcoupl x y } :=
  forRange_copy_column (fun c : Spin2Couplings d => c.selfDGvvcoupl)
    (fun c t => { c with selfDGvvcoupl := t }) (fun _ _ => rfl) (fun _ _ _ => rfl) (fun _ => rfl)
    t im d.SIZE_GVV c

theorem enter_selfDspin2_coupl (s : Mela d) (gg : Tab2 d.SIZE_GGG) (qq : Tab2 d.SIZE_GQQ)
    (vv : Tab2 d.SIZE_GVV) :
    enter_selfDspin2 s gg qq vv
      = { s with coupl := { s.coupl with spin2 :=
            { selfDGqqcoupl := qq, selfDGggcoupl := gg, selfDGvvcoupl := vv } } } := by
  unfold enter_selfDspin2
  simp only [forRange_succ, forRange_zero, spin2_copy_gg, spin2_copy_qq, spin2_copy_vv,
    column_copy_both]

theorem enter_selfDspin2_vv_coupl (s : Mela d) (gg : Tab2 d.SIZE_GGG) (vv : Tab2 d.SIZE_GVV) :
    enter_selfDspin2_vv s gg vv
      = { s with coupl := { s.coupl with spin2 :=
            { selfDGqqcoupl := set2 (set2 s.coupl.spin2.selfDGqqcoupl 0 0 1) 1 0 1,
              selfDGggcoupl := gg, selfDGvvcoupl := vv } } } := by
  unfold enter_selfDspin2_vv
  simp only [forRange_succ, forRange_zero, spin2_copy_gg, spin2_copy_vv, column_copy_both]

/-- The loop of lines 371-375 in closed form. -/
theorem unit_Hqq_Hgg (c : Spin0Couplings d) (n : Nat) :
    forRange n (fun jh c =>
        let c : Spin0Couplings d := { c with selfDHqqcoupl := set3 c.selfDHqqcoupl jh 0 0 1 }
        { c with selfDHggcoupl := set3 c.selfDHggcoupl jh 0 0 1 }) c
      = { c with
          selfDHqqcoupl := fun x y z =>
            if x.val < n ∧ y.val = 0 ∧ z.val = 0 then 1 else c.selfDHqqcoupl x y z,
          selfDHggcoupl := fun x y z =>
            if x.val < n ∧ y.val = 0 ∧ z.val = 0 then 1 else c.selfDHggcoupl x y z } := by
  induction n with
  | zero => rw [forRange_zero]; simp
  | succ k ih =>
    rw [forRange_succ, ih]
    simp only [Spin0Couplings.mk.injEq, true_and, and_true]
    constructor <;>
    · funext x y z
      simp only [set3]
      by_cases hx : x.val = k
      · simp [hx]
      · have : (x.val < k + 1) ↔ x.val < k := by omega
        simp [hx, this]

/-- The loop of lines 378-382 in closed form. -/
theorem unit_Htt_Hbb (c : Spin0Couplings d) (n : Nat) :
    forRange n (fun jh c =>
        let c : Spin0Couplings d := { c with selfDHttcoupl := set3 c.selfDHttcoupl jh 0 0 1 }
        { c with selfDHbbcoupl := set3 c.selfDHbbcoupl jh 0 0 1 }) c
      = { c with
          selfDHttcoupl := fun x y z =>
            if x.val < n ∧ y.val = 0 ∧ z.val = 0 then 1 else c.selfDHttcoupl x y z,
          selfDHbbcoupl := fun x y z =>
            if x.val < n ∧ y.val = 0 ∧ z.val = 0 then 1 else c.selfDHbbcoupl x y z } := by
  induction n with
  | zero => rw [forRange_zero]; simp
  | succ k ih =>
    rw [forRange_succ, ih]
    simp only [Spin0Couplings.mk.injEq, true_and, and_true]
    constructor <;>
    · funext x y z
      simp only [set3]
      by_cases hx : x.val = k
      · simp [hx]
      · have : (x.val < k + 1) ↔ x.val < k := by omega
        simp [hx, this]

/-- The innermost loop of `copyHVV` in closed form. -/
theorem copyHVV_inner (c : Spin0Couplings d) (a b : Tab3 d.nSupportedHiggses d.SIZE_HVV)
    (jh im n : Nat) :
    forRange n (fun ic c =>
        let c : Spin0Couplings d :=
          { c with selfDHzzcoupl := set3 c.selfDHzzcoupl jh ic im (get3 a jh ic im) }
        { c with selfDHwwcoupl := set3 c.selfDHwwcoupl jh ic im (get3 b jh ic im) }) c
      = { c with
          selfDHzzcoupl := fun x y z =>
            if x.val = jh ∧ y.val < n ∧ z.val = im then a x y z else c.selfDHzzcoupl x y z,
          selfDHwwcoupl := fun x y z =>
            if x.val = jh ∧ y.val < n ∧ z.val = im then b x y z else c.selfDHwwcoupl x y z } := by
  induction n with
  | zero => rw [forRange_zero]; simp
  | succ k ih =>
    rw [forRange_succ, ih]
    simp only [Spin0Couplings.mk.injEq, true_and, and_true]
    constructor
    · funext x y z
      simp only [set3]
      by_cases hx : x.val = jh
      · by_cases hz : z.val = im
        · by_cases hy : y.val = k
          · have e : get3 a jh k im = a x y z := by
              rw [← hx, ← hy, ← hz]; exact get3_fin a x y z
            simp [hx, hy, hz, e]
          · have : (y.val < k + 1) ↔ y.val < k := by omega
            simp [hx, hy, hz, this]
        · simp [hz]
      · simp [hx]
    · funext x y z
      simp only [set3]
      by_cases hx : x.val = jh
      · by_cases hz : z.val = im
        · by_cases hy : y.val = k
          · have e : get3 b jh k im = b x y z := by
              rw [← hx, ← hy, ← hz]; exact get3_fin b x y z
            simp [hx, hy, hz, e]
          · have : (y.val < k + 1) ↔ y.val < k := by omega
            simp [hx, hy, hz, this]
        · simp [hz]
      · simp [hx]

/-- The two passes over `im` of `copyHVV` in closed form. -/
theorem copyHVV_middle (c : Spin0Couplings d) (a b : Tab3 d.nSupportedHiggses d.SIZE_HVV)
    (jh : Nat) :
    forRange 2 (fun im c =>
        forRange d.SIZE_HVV (fun ic c =>
          let c : Spin0Couplings d :=
            { c with selfDHzzcoupl := set3 c.selfDHzzcoupl jh ic im (get3 a jh ic im) }
          { c with selfDHwwcoupl := set3 c.selfDHwwcoupl jh ic im (get3 b jh ic im) }) c) c
      = { c with
          selfDHzzcoupl := fun x y z => if x.val = jh then a x y z else c.selfDHzzcoupl x y z,
          selfDHwwcoupl := fun x y z => if x.val = jh then b x y z else c.selfDHwwcoupl x y z } := by
  simp only [forRange_succ, forRange_zero, copyHVV_inner]
  simp only [Spin0Couplings.mk.injEq, true_and, and_true]
  constructor <;>
  · funext x y z
    have hz : z.val = 0 ∨ z.val = 1 := by omega
    by_cases hx : x.val = jh <;> rcases hz with hz | hz <;> simp [hx, hz, y.isLt]

/-- The copy loop writes the two caller tables and nothing else. -/
theorem copyHVV_eq (c : Spin0Couplings d) (a b : Tab3 d.nSupportedHiggses d.SIZE_HVV) :
    copyHVV c a b = { c with selfDHzzcoupl := a, selfDHwwcoupl := b } := by
  have key : ∀ n, forRange n (fun jh c =>
      forRange 2 (fun im c =>
        forRange d.SIZE_HVV (fun ic c =>
          let c : Spin0Couplings d :=
            { c with selfDHzzcoupl := set3 c.selfDHzzcoupl jh ic im (get3 a jh ic im) }
          { c with selfDHwwcoupl := set3 c.selfDHwwcoupl jh ic im (get3 b jh ic im) }) c) c) c
      = { c with
          selfDHzzcoupl := fun x y z => if x.val < n then a x y z else c.selfDHzzcoupl x y z,
          selfDHwwcoupl := fun x y z => if x.val < n then b x y z else c.selfDHwwcoupl x y z } := by
    intro n
    induction n with
    | zero => rw [forRange_zero]; simp
    | succ k ih =>
      rw [forRange_succ, ih, copyHVV_middle]
      simp only [Spin0Couplings.mk.injEq, true_and, and_true]
      constructor <;>
      · funext x y z
        by_cases hx : x.val = k
        · simp [hx]
        · have : (x.val < k + 1) ↔ x.val < k := by omega
          simp [hx, this]
  unfold copyHVV
  rw [key]
  simp only [Spin0Couplings.mk.injEq, true_and, and_true]
  constructor <;>
  · funext x y z
    simp [x.isLt]

/-- The tables with which `computeP_selfDspin0` enters `computeP`, in closed
form. -/
theorem enter_selfDspin0_coupl (s : Mela d) (input : Tab3 d.nSupportedHiggses d.SIZE_HVV) :
    enter_selfDspin0 s input
      = { s with coupl := { s.coupl with spin0 := { s.coupl.spin0 with
            selfDHzzcoupl := input, selfDHwwcoupl := input,
            selfDHqqcoupl := fun x y z =>
              if s.myME_ = TVar.MatrixElement.JHUGen ∧ y.val = 0 ∧ z.val = 0 then 1
              else s.coupl.spin0.selfDHqqcoupl x y z,
            selfDHggcoupl := fun x y z =>
              if s.myME_ = TVar.MatrixElement.JHUGen ∧ y.val = 0 ∧ z.val = 0 then 1
              else s.coupl.spin0.selfDHggcoupl x y z,
            selfDHttcoupl := fun x y z =>
              if s.myME_ = TVar.MatrixElement.MCFM ∧ y.val = 0 ∧ z.val = 0 then 1
              else s.coupl.spin0.selfDHttcoupl x y z,
            selfDHbbcoupl := fun x y z =>
              if s.myME_ = TVar.MatrixElement.MCFM ∧ y.val = 0 ∧ z.val = 0 then 1
              else s.coupl.spin0.selfDHbbcoupl x y z } } } := by
  unfold enter_selfDspin0
  simp only [copyHVV_eq, unit_Hqq_Hgg, unit_Htt_Hbb]
  by_cases h1 : s.myME_ = TVar.MatrixElement.JHUGen
  · have h2 : ¬ s.myME_ = TVar.MatrixElement.MCFM := by rw [h1]; decide
    simp [h1, Fin.is_lt]
  · by_cases h2 : s.myME_ = TVar.MatrixElement.MCFM
    · simp [h2, Fin.is_lt]
    · simp [h1, h2]

/-- Claim C22: from the reset state, `computeP_selfDspin0` enters `computeP`
with Hzz and Hww equal to the input table, with the real parts of Hqq[.][0]
and Hgg[.][0] equal to 1 under engine JHUGen, of Htt[.][0] and Hbb[.][0] equal
to 1 under engine MCFM, and with no production-side coupling set under any
other engine; the spin-1 and spin-2 overloads without quark couplings enter
with the real parts of quark couplings 0 and 1 equal to 1, those with quark
couplings with the table of the caller; the boson and gluon tables are those of
the caller, and every other member has its reset value. -/
theorem selfD_wrappers_unit_defaults (ext : Externals d) (s : Mela d)
    (hreset : s.coupl = defaultCouplings d) :
    (∀ input prob useConstant, computeP_selfDspin0 ext s input prob useConstant
        = computeP ext (enter_selfDspin0 s input) prob useConstant)
    ∧ (∀ input, enter_selfDspin0 s input
        = { s with coupl := { (defaultCouplings d) with spin0 := { (defaultCouplings d).spin0 with
              selfDHzzcoupl := input, selfDHwwcoupl := input,
              selfDHqqcoupl := fun _ y z =>
                if s.myME_ = TVar.MatrixElement.JHUGen ∧ y.val = 0 ∧ z.val = 0 then 1 else 0,
              selfDHggcoupl := fun _ y z =>
                if s.myME_ = TVar.MatrixElement.JHUGen ∧ y.val = 0 ∧ z.val = 0 then 1 else 0,
              selfDHttcoupl := fun _ y z =>
                if s.myME_ = TVar.MatrixElement.MCFM ∧ y.val = 0 ∧ z.val = 0 then 1 else 0,
              selfDHbbcoupl := fun _ y z =>
                if s.myME_ = TVar.MatrixElement.MCFM ∧ y.val = 0 ∧ z.val = 0 then 1 else 0 } } })
    ∧ (∀ qq vv prob useConstant, computeP_selfDspin1 ext s qq vv prob useConstant
        = computeP ext (enter_selfDspin1 s qq vv) prob useConstant)
    ∧ (∀ qq vv, enter_selfDspin1 s qq vv
        = { s with coupl := { (defaultCouplings d) with
              spin1 := { selfDZqqcoupl := qq, selfDZvvcoupl := vv } } })
    ∧ (∀ vv prob useConstant, computeP_selfDspin1_vv ext s vv prob useConstant
        = computeP ext (enter_selfDspin1_vv s vv) prob useConstant)
    ∧ (∀ vv, enter_selfDspin1_vv s vv
        = { s with coupl := { (defaultCouplings d) with
              spin1 := {
                selfDZqqcoupl := fun x y => if (x.val = 0 ∨ x.val = 1) ∧ y.val = 0 then 1 else 0,
                selfDZvvcoupl := vv } } })
    ∧ (∀ gg qq vv prob useConstant, computeP_selfDspin2 ext s gg qq vv prob useConstant
        = computeP ext (enter_selfDspin2 s gg qq vv) prob useConstant)
    ∧ (∀ gg qq vv, enter_selfDspin2 s gg qq vv
        = { s with coupl := { (defaultCouplings d) with
              spin2 := { selfDGqqcoupl := qq, selfDGggcoupl := gg, selfDGvvcoupl := vv } } })
    ∧ (∀ gg vv prob useConstant, computeP_selfDspin2_vv ext s gg vv prob useConstant
        = computeP ext (enter_selfDspin2_vv s gg vv) prob useConstant)
    ∧ (∀ gg vv, enter_selfDspin2_vv s gg vv
        = { s with coupl := { (defaultCouplings d) with
              spin2 := {
                selfDGqqcoupl := fun x y => if (x.val = 0 ∨ x.val = 1) ∧ y.val = 0 then 1 else 0,
                selfDGggcoupl := gg, selfDGvvcoupl := vv } } }) := by
  refine ⟨fun _ _ _ => rfl, fun input => ?_, fun _ _ _ _ => rfl, fun qq vv => ?_,
    fun _ _ _ => rfl, fun vv => ?_, fun _ _ _ _ _ => rfl, fun gg qq vv => ?_,
    fun _ _ _ _ => rfl, fun gg vv => ?_⟩
  · rw [enter_selfDspin0_coupl, hreset]
    rfl
  · rw [enter_selfDspin1_coupl, hreset]
  · rw [enter_selfDspin1_vv_coupl, hreset]
    have e : set2 (set2 (defaultCouplings d).spin1.selfDZqqcoupl 0 0 1) 1 0 1
        = fun x y => if (x.val = 0 ∨ x.val = 1) ∧ y.val = 0 then 1 else 0 := by
      funext x y
      simp only [set2, defaultCouplings]
      by_cases h0 : x.val = 0 <;> by_cases h1 : x.val = 1 <;> by_cases hy : y.val = 0 <;>
        simp [h0, h1, hy]
    rw [e]
  · rw [enter_selfDspin2_coupl, hreset]
  · rw [enter_selfDspin2_vv_coupl, hreset]
    have e : set2 (set2 (defaultCouplings d).spin2.selfDGqqcoupl 0 0 1) 1 0 1
        = fun x y => if (x.val = 0 ∨ x.val = 1) ∧ y.val = 0 then 1 else 0 := by
      funext x y
      simp only [set2, defaultCouplings]
      by_cases h0 : x.val = 0 <;> by_cases h1 : x.val = 1 <;> by_cases hy : y.val = 0 <;>
        simp [h0, h1, hy]
    rw [e]

/-- Witness of claim C22 at the example state, which is in the reset state
under engine MCFM: on entry Htt[1][0] has real part 1, Hqq[1][0] real part 0
and Hzz[0][3] the real part 2 of the input. -/
theorem selfD_wrappers_unit_defaults_witness :
    Example.mela.coupl = defaultCouplings Example.dims
    ∧ get3 (enter_selfDspin0 Example.mela (fun _ _ _ => 2)).coupl.spin0.selfDHttcoupl 1 0 0 = 1
    ∧ get3 (enter_selfDspin0 Example.mela (fun _ _ _ => 2)).coupl.spin0.selfDHqqcoupl 1 0 0 = 0
    ∧ get3 (enter_selfDspin0 Example.mela (fun _ _ _ => 2)).coupl.spin0.selfDHzzcoupl 0 3 0 = 2 := by
  have h := (selfD_wrappers_unit_defaults Example.ext Example.mela rfl).2.1 (fun _ _ _ => 2)
  rw [h]
  refine ⟨rfl, ?_, ?_, ?_⟩ <;> simp [get3, Example.dims, Example.mela]

end Mela

/-! ## The grid of the missing-jet integration -/

theorem getD_insertIdx (x : ℚ) : ∀ (l : List ℚ) (k i : Nat), k ≤ l.length →
    (l.insertIdx k x).getD i 0
      = if i < k then l.getD i 0 else if i = k then x else l.getD (i - 1) 0
  | l, 0, 0, _ => by simp
  | l, 0, i + 1, _ => by simp
  | [], k + 1, i, h => by simp at h
  | a :: l, k + 1, 0, _ => by simp
  | a :: l, k + 1, i + 1, h => by
    have ih := getD_insertIdx x l k i (by simpa using h)
    simp only [List.insertIdx_succ_cons, List.getD_cons_succ, ih, Nat.add_lt_add_iff_right,
      Nat.add_right_cancel_iff, Nat.add_sub_cancel]
    by_cases h1 : i < k
    · simp [h1]
    · by_cases h2 : i = k
      · simp [h2]
      · simp only [h1, h2, if_false]
        obtain ⟨j, rfl⟩ : ∃ j, i = j + 1 := ⟨i - 1, by omega⟩
        simp

theorem pairwise_lt_getD (l : List ℚ) :
    l.Pairwise (fun a b => a < b) ↔ ∀ i j, i < j → j < l.length → l.getD i 0 < l.getD j 0 := by
  rw [List.pairwise_iff_getElem]
  constructor
  · intro h i j hij hj
    have hi : i < l.length := by omega
    rw [List.getD_eq_getElem l 0 hi, List.getD_eq_getElem l 0 hj]
    exact h i j hi hj hij
  · intro h i j hi hj hij
    have := h i j hij hj
    rwa [List.getD_eq_getElem l 0 hi, List.getD_eq_getElem l 0 hj] at this

theorem fillGrid_length (l : List ℚ) : fillGrid l.length l = l := by
  apply List.ext_getElem
  · simp [fillGrid]
  · intro i h1 h2
    simp [fillGrid, List.getD_eq_getElem?_getD, List.getElem?_eq_getElem h2]

/-- Inserting a value that lies strictly between two neighbours keeps the
array strictly increasing, and keeps its first and last entry. -/
theorem insert_between (l : List ℚ) (k : Nat) (x : ℚ) (hk : k + 1 < l.length)
    (hs : l.Pairwise (fun a b => a < b)) (h1 : l.getD k 0 < x) (h2 : x < l.getD (k + 1) 0) :
    (l.insertIdx (k + 1) x).Pairwise (fun a b => a < b)
      ∧ (l.insertIdx (k + 1) x).getD 0 0 = l.getD 0 0
      ∧ (l.insertIdx (k + 1) x).getD l.length 0 = l.getD (l.length - 1) 0 := by
  have hle : k + 1 ≤ l.length := by omega
  have hlen : (l.insertIdx (k + 1) x).length = l.length + 1 := List.length_insertIdx _ _ hle
  have hs0 := (pairwise_lt_getD l).mp hs
  have mono : ∀ i j, i ≤ j → j < l.length → l.getD i 0 ≤ l.getD j 0 := by
    intro i j hij hj
    rcases Nat.eq_or_lt_of_le hij with e | e
    · rw [e]
    · exact (hs0 i j e hj).le
  refine ⟨(pairwise_lt_getD _).mpr ?_, ?_, ?_⟩
  · intro i j hij hj
    rw [hlen] at hj
    rw [getD_insertIdx x l (k + 1) i hle, getD_insertIdx x l (k + 1) j hle]
    by_cases hi1 : i < k + 1
    · rw [if_pos hi1]
      have a1 := mono i k (by omega) (by omega)
      by_cases hj1 : j < k + 1
      · rw [if_pos hj1]
        exact hs0 i j hij (by omega)
      · rw [if_neg hj1]
        by_cases hj2 : j = k + 1
        · rw [if_pos hj2]
          linarith
        · rw [if_neg hj2]
          have a2 := mono (k + 1) (j - 1) (by omega) (by omega)
          linarith
    · rw [if_neg hi1]
      have hj1 : ¬ j < k + 1 := by omega
      have hj2 : ¬ j = k + 1 := by omega
      rw [if_neg hj1, if_neg hj2]
      by_cases hi2 : i = k + 1
      · rw [if_pos hi2]
        have a2 := mono (k + 1) (j - 1) (by omega) (by omega)
        linarith
      · rw [if_neg hi2]
        exact hs0 (i - 1) (j - 1) (by omega) (by omega)
  · rw [getD_insertIdx x l (k + 1) 0 hle]
    simp
  · rw [getD_insertIdx x l (k + 1) l.length hle]
    have a : ¬ l.length < k + 1 := by omega
    have b : ¬ l.length = k + 1 := by omega
    rw [if_neg a, if_neg b]

/-- The shape of one pass of the refinement loop: the arrays are left as they
are, or one abscissa, the midpoint of entries `iG` and `iG + 1`, and one value
are inserted at position `iG + 1`. -/
theorem refineStep_shape {σ : Type} (spline : List ℚ → List ℚ → ℚ → ℚ → ℚ → ℚ)
    (smp : σ → ℚ → σ × ℚ) (r r' : RefineState σ) (hlen : r.etaArray.length = r.nGrid)
    (hstep : refineStep spline smp r = some r') :
    r.iG + 1 < r.nGrid
      ∧ ((r'.nGrid = r.nGrid ∧ r'.etaArray = r.etaArray ∧ r'.pArray = r.pArray)
        ∨ (r.etaArray.getD r.iG 0 ≠ r.etaArray.getD (r.iG + 1) 0
          ∧ r'.nGrid = r.nGrid + 1
          ∧ r'.etaArray = r.etaArray.insertIdx (r.iG + 1)
              ((r.etaArray.getD r.iG 0 + r.etaArray.getD (r.iG + 1) 0) * (1 / 2))
          ∧ ∃ y, r'.pArray = r.pArray.insertIdx (r.iG + 1) y)) := by
  unfold refineStep at hstep
  by_cases hcond : r.iG + 1 < r.nGrid
  · rw [if_pos hcond] at hstep
    refine ⟨hcond, ?_⟩
    by_cases hp : r.pArray.getD r.iG 0 = r.pArray.getD (r.iG + 1) 0
    · rw [if_pos hp] at hstep
      cases Option.some.inj hstep
      exact Or.inl ⟨rfl, rfl, rfl⟩
    · rw [if_neg hp] at hstep
      by_cases he : r.etaArray.getD r.iG 0 = r.etaArray.getD (r.iG + 1) 0
      · rw [if_pos he] at hstep
        cases Option.some.inj hstep
        exact Or.inl ⟨rfl, rfl, rfl⟩
      · rw [if_neg he] at hstep
        have hfill : fillGrid r.nGrid r.etaArray = r.etaArray := by
          rw [← hlen]; exact fillGrid_length _
        dsimp only at hstep
        rw [hfill] at hstep
        right
        split at hstep <;> split at hstep <;> cases Option.some.inj hstep <;>
          exact ⟨he, rfl, rfl, ⟨_, rfl⟩⟩
  · rw [if_neg hcond] at hstep
    exact absurd hstep (by simp)

/-- One pass of the refinement loop keeps the grid invariant. -/
theorem refineStep_invariant {σ : Type} (spline : List ℚ → List ℚ → ℚ → ℚ → ℚ → ℚ)
    (smp : σ → ℚ → σ × ℚ) (em : ℚ) (r r' : RefineState σ) (hinv : GridInvariant em r)
    (hstep : refineStep spline smp r = some r') : GridInvariant em r' := by
  obtain ⟨h1, h2, h3, h4, h5, h6⟩ := hinv
  obtain ⟨hc, hsh⟩ := refineStep_shape spline smp r r' h1 hstep
  rcases hsh with ⟨e1, e2, e3⟩ | ⟨hne, e1, e2, y, e3⟩
  · unfold GridInvariant
    rw [e1, e2, e3]
    exact ⟨h1, h2, h3, h4, h5, h6⟩
  · have hk : r.iG + 1 < r.etaArray.length := by omega
    have hlt := (pairwise_lt_getD _).mp h4 r.iG (r.iG + 1) (by omega) hk
    have hb := insert_between r.etaArray r.iG
      ((r.etaArray.getD r.iG 0 + r.etaArray.getD (r.iG + 1) 0) * (1 / 2)) hk h4
      (by linarith) (by linarith)
    unfold GridInvariant
    rw [e1, e2, e3]
    refine ⟨?_, ?_, by omega, hb.1, hb.2.1.trans h5, ?_⟩
    · rw [List.length_insertIdx _ _ (le_of_lt hk), h1]
    · rw [List.length_insertIdx _ _ (by omega), h2]
    · have := hb.2.2
      rw [h1] at this
      rw [Nat.add_sub_cancel, this, h6]

theorem refineIterate_invariant {σ : Type} (spline : List ℚ → List ℚ → ℚ → ℚ → ℚ → ℚ)
    (smp : σ → ℚ → σ × ℚ) (em : ℚ) (r : RefineState σ) (hinv : GridInvariant em r) (n : Nat) :
    GridInvariant em (refineIterate spline smp n r) := by
  induction n with
  | zero => exact hinv
  | succ k ih =>
    show GridInvariant em ((refineStep spline smp (refineIterate spline smp k r)).getD _)
    cases hs : refineStep spline smp (refineIterate spline smp k r) with
    | none => exact ih
    | some r' => exact refineStep_invariant spline smp em _ r' ih hs

theorem refineIterate_of_none {σ : Type} (spline : List ℚ → List ℚ → ℚ → ℚ → ℚ → ℚ)
    (smp : σ → ℚ → σ × ℚ) (r : RefineState σ) (h : refineStep spline smp r = none) (n : Nat) :
    refineIterate spline smp n r = r := by
  induction n with
  | zero => rfl
  | succ k ih =>
    show (refineStep spline smp (refineIterate spline smp k r)).getD _ = r
    rw [ih, h]
    rfl

theorem refineIterate_succ_front {σ : Type} (spline : List ℚ → List ℚ → ℚ → ℚ → ℚ → ℚ)
    (smp : σ → ℚ → σ × ℚ) (r r1 : RefineState σ) (h : refineStep spline smp r = some r1)
    (n : Nat) : refineIterate spline smp (n + 1) r = refineIterate spline smp n r1 := by
  induction n with
  | zero =>
    show (refineStep spline smp r).getD r = r1
    rw [h]
    rfl
  | succ k ih =>
    show (refineStep spline smp (refineIterate spline smp (k + 1) r)).getD _
      = (refineStep spline smp (refineIterate spline smp k r1)).getD _
    rw [ih]

/-- The exit of the loop is the state after as many passes as the loop was
allowed. -/
theorem refineLoop_eq_iterate {σ : Type} (spline : List ℚ → List ℚ → ℚ → ℚ → ℚ → ℚ)
    (smp : σ → ℚ → σ × ℚ) : ∀ (fuel : Nat) (r r' : RefineState σ),
    refineLoop spline smp fuel r = some r' → refineIterate spline smp fuel r = r'
  | 0, r, r', h => by simp [refineLoop] at h
  | fuel + 1, r, r', h => by
    rw [refineLoop] at h
    cases hs : refineStep spline smp r with
    | none =>
      rw [hs] at h
      cases Option.some.inj h
      exact refineIterate_of_none spline smp r hs _
    | some r1 =>
      rw [hs] at h
      rw [refineIterate_succ_front spline smp r r1 hs]
      exact refineLoop_eq_iterate spline smp fuel r1 r' h

theorem refine_eq_iterate {σ : Type} (spline : List ℚ → List ℚ → ℚ → ℚ → ℚ → ℚ)
    (smp : σ → ℚ → σ × ℚ) (r : RefineState σ) (hlen : r.etaArray.length = r.nGrid) :
    refine spline smp r = refineIterate spline smp (refineBound r) r :=
  (refineLoop_eq_iterate spline smp _ r _ (refineLoop_bound spline smp r hlen).1).symm

namespace Mela

variable {d : Dims}

theorem etaMax_ge (ext : Externals d) (v : TLorentzVector) : 10 ≤ etaMax ext v := by
  unfold etaMax
  split_ifs
  · exact le_max_left _ _
  · exact le_refl _

theorem scanEta_lt (em : ℚ) (hem : 0 < em) (i j : Nat) (hij : i < j) :
    scanEta 11 (-em) em i < scanEta 11 (-em) em j := by
  unfold scanEta
  have h : (i : ℚ) < (j : ℚ) := by exact_mod_cast hij
  have e : ((11 : Nat) : ℚ) - 1 = 10 := by norm_num
  rw [e]
  have : (i : ℚ) * (em - -em) < (j : ℚ) * (em - -em) := by nlinarith
  have := div_lt_div_of_pos_right this (by norm_num : (0 : ℚ) < 10)
  linarith

/-- The initial scan satisfies the grid invariant. -/
theorem initialScan_invariant (ext : Externals d) (ctx : FakeJetContext) (s : Mela d) :
    GridInvariant (etaMax ext ctx.jet2massless) (initialScan ext ctx s) := by
  obtain ⟨h1, _, _, _, h5, h6⟩ := initialScan_spec ext ctx s
  have hem : (0 : ℚ) < etaMax ext ctx.jet2massless := by
    have := etaMax_ge ext ctx.jet2massless
    linarith
  unfold GridInvariant
  rw [h1, h5, h6]
  refine ⟨by simp, by simp, le_refl _, ?_, ?_, ?_⟩
  · exact List.Pairwise.map _ (fun a b hab => scanEta_lt _ hem a b hab) (List.pairwise_lt_range 11)
  · simp [List.range_succ, scanEta]
  · simp only [List.range_succ, List.range_zero, List.nil_append, List.cons_append, List.map_cons,
      List.map_nil]
    simp only [scanEta]
    norm_num

theorem gridAfter_invariant (ext : Externals d) (ctx : FakeJetContext) (s : Mela d) (n : Nat) :
    GridInvariant (etaMax ext ctx.jet2massless) (gridAfter ext ctx s n) :=
  refineIterate_invariant _ _ _ _ (initialScan_invariant ext ctx s) n

theorem findGLast_le (n : Nat) (p : List ℚ) : findGLast n p ≤ n - 1 := by
  unfold findGLast
  split
  · rename_i iG h
    have hm := List.mem_of_find?_eq_some h
    simp only [List.mem_reverse, List.mem_range] at hm
    omega
  · exact le_refl _

/-- Claim C28: after the initial scan and after every pass of the refinement
loop the abscissa array and the value array have length nGrid, the abscissae
increase strictly from -eta_max to eta_max, with eta_max at least 10; a pass
leaves the arrays as they are or inserts at position iG+1 the midpoint of the
abscissae iG and iG+1, which is then the midpoint of its two neighbours; the
two end-slope denominators of the spline are not zero; and at the exit of the
loop the accumulation makes no pass or the span it divides by is positive. -/
theorem missing_jet_grid_invariant (ext : Externals d) (ctx : FakeJetContext) (s : Mela d)
    (n : Nat) :
    10 ≤ etaMax ext ctx.jet2massless
    ∧ gridAfter ext ctx s 0 = initialScan ext ctx s
    ∧ (gridAfter ext ctx s n).etaArray.length = (gridAfter ext ctx s n).nGrid
    ∧ (gridAfter ext ctx s n).pArray.length = (gridAfter ext ctx s n).nGrid
    ∧ 11 ≤ (gridAfter ext ctx s n).nGrid
    ∧ (gridAfter ext ctx s n).etaArray.Pairwise (fun a b => a < b)
    ∧ (gridAfter ext ctx s n).etaArray.getD 0 0 = -etaMax ext ctx.jet2massless
    ∧ (gridAfter ext ctx s n).etaArray.getD ((gridAfter ext ctx s n).nGrid - 1) 0
        = etaMax ext ctx.jet2massless
    ∧ gridAfter ext ctx s (n + 1)
        = (refineStep ext.spline (sampleAt ext ctx) (gridAfter ext ctx s n)).getD
            (gridAfter ext ctx s n)
    ∧ (((gridAfter ext ctx s (n + 1)).nGrid = (gridAfter ext ctx s n).nGrid
          ∧ (gridAfter ext ctx s (n + 1)).etaArray = (gridAfter ext ctx s n).etaArray
          ∧ (gridAfter ext ctx s (n + 1)).pArray = (gridAfter ext ctx s n).pArray)
        ∨ ((gridAfter ext ctx s (n + 1)).nGrid = (gridAfter ext ctx s n).nGrid + 1
          ∧ (gridAfter ext ctx s n).iG + 1 < (gridAfter ext ctx s n).nGrid
          ∧ (gridAfter ext ctx s (n + 1)).etaArray
              = (gridAfter ext ctx s n).etaArray.insertIdx ((gridAfter ext ctx s n).iG + 1)
                  (((gridAfter ext ctx s n).etaArray.getD (gridAfter ext ctx s n).iG 0
                    + (gridAfter ext ctx s n).etaArray.getD ((gridAfter ext ctx s n).iG + 1) 0)
                    * (1 / 2))
          ∧ (gridAfter ext ctx s (n + 1)).etaArray.getD ((gridAfter ext ctx s n).iG + 1) 0
              = ((gridAfter ext ctx s (n + 1)).etaArray.getD (gridAfter ext ctx s n).iG 0
                  + (gridAfter ext ctx s (n + 1)).etaArray.getD
                      ((gridAfter ext ctx s n).iG + 2) 0) * (1 / 2)
          ∧ ∃ y, (gridAfter ext ctx s (n + 1)).pArray
              = (gridAfter ext ctx s n).pArray.insertIdx ((gridAfter ext ctx s n).iG + 1) y))
    ∧ (fillGrid (gridAfter ext ctx s n).nGrid (gridAfter ext ctx s n).etaArray).getD 1 0
        - (fillGrid (gridAfter ext ctx s n).nGrid (gridAfter ext ctx s n).etaArray).getD 0 0 ≠ 0
    ∧ (fillGrid (gridAfter ext ctx s n).nGrid (gridAfter ext ctx s n).etaArray).getD
          ((gridAfter ext ctx s n).nGrid - 1) 0
        - (fillGrid (gridAfter ext ctx s n).nGrid (gridAfter ext ctx s n).etaArray).getD
          ((gridAfter ext ctx s n).nGrid - 2) 0 ≠ 0
    ∧ refine ext.spline (sampleAt ext ctx) (initialScan ext ctx s)
        = gridAfter ext ctx s (refineBound (initialScan ext ctx s))
    ∧ refineStep ext.spline (sampleAt ext ctx)
        (refine ext.spline (sampleAt ext ctx) (initialScan ext ctx s)) = none
    ∧ (findGLast (refine ext.spline (sampleAt ext ctx) (initialScan ext ctx s)).nGrid
            (refine ext.spline (sampleAt ext ctx) (initialScan ext ctx s)).pArray - 1
          - findGFirst (refine ext.spline (sampleAt ext ctx) (initialScan ext ctx s)).nGrid
            (refine ext.spline (sampleAt ext ctx) (initialScan ext ctx s)).pArray = 0
        ∨ 0 < (refine ext.spline (sampleAt ext ctx) (initialScan ext ctx s)).etaArray.getD
              (findGLast (refine ext.spline (sampleAt ext ctx) (initialScan ext ctx s)).nGrid
                (refine ext.spline (sampleAt ext ctx) (initialScan ext ctx s)).pArray) 0
            - (refine ext.spline (sampleAt ext ctx) (initialScan ext ctx s)).etaArray.getD
              (findGFirst (refine ext.spline (sampleAt ext ctx) (initialScan ext ctx s)).nGrid
                (refine ext.spline (sampleAt ext ctx) (initialScan ext ctx s)).pArray) 0) := by
  have hinv := gridAfter_invariant ext ctx s n
  obtain ⟨h1, h2, h3, h4, h5, h6⟩ := hinv
  have hidx := (pairwise_lt_getD _).mp h4
  have hfill : fillGrid (gridAfter ext ctx s n).nGrid (gridAfter ext ctx s n).etaArray
      = (gridAfter ext ctx s n).etaArray := by
    rw [← h1]; exact fillGrid_length _
  have hrefine : refine ext.spline (sampleAt ext ctx) (initialScan ext ctx s)
      = gridAfter ext ctx s (refineBound (initialScan ext ctx s)) :=
    refine_eq_iterate ext.spline (sampleAt ext ctx) (initialScan ext ctx s)
      (initialScan_invariant ext ctx s).1
  refine ⟨etaMax_ge ext _, rfl, h1, h2, h3, h4, h5, h6, rfl, ?_, ?_, ?_, hrefine,
    (refineLoop_bound ext.spline (sampleAt ext ctx) (initialScan ext ctx s)
      (initialScan_invariant ext ctx s).1).2.1, ?_⟩
  · have e : gridAfter ext ctx s (n + 1)
        = (refineStep ext.spline (sampleAt ext ctx) (gridAfter ext ctx s n)).getD
            (gridAfter ext ctx s n) := rfl
    cases hs : refineStep ext.spline (sampleAt ext ctx) (gridAfter ext ctx s n) with
    | none =>
      rw [hs] at e
      left
      rw [e]
      exact ⟨rfl, rfl, rfl⟩
    | some r' =>
      rw [hs] at e
      have e2 : gridAfter ext ctx s (n + 1) = r' := e
      obtain ⟨hc, hsh⟩ := refineStep_shape _ _ _ r' h1 hs
      rw [e2]
      rcases hsh with h | ⟨_, a1, a2, a3⟩
      · exact Or.inl h
      · right
        have hk : (gridAfter ext ctx s n).iG + 1 ≤ (gridAfter ext ctx s n).etaArray.length := by
          omega
        refine ⟨a1, hc, a2, ?_, a3⟩
        rw [a2, getD_insertIdx _ _ _ _ hk, getD_insertIdx _ _ _ _ hk, getD_insertIdx _ _ _ _ hk]
        simp
  · rw [hfill]
    have := hidx 0 1 (by omega) (by omega)
    linarith
  · rw [hfill]
    have := hidx ((gridAfter ext ctx s n).nGrid - 2) ((gridAfter ext ctx s n).nGrid - 1)
      (by omega) (by omega)
    linarith
  · rw [hrefine]
    obtain ⟨k1, k2, k3, k4, k5, k6⟩ :=
      gridAfter_invariant ext ctx s (refineBound (initialScan ext ctx s))
    have hL := findGLast_le (gridAfter ext ctx s (refineBound (initialScan ext ctx s))).nGrid
      (gridAfter ext ctx s (refineBound (initialScan ext ctx s))).pArray
    by_cases hz : findGLast (gridAfter ext ctx s (refineBound (initialScan ext ctx s))).nGrid
          (gridAfter ext ctx s (refineBound (initialScan ext ctx s))).pArray - 1
        - findGFirst (gridAfter ext ctx s (refineBound (initialScan ext ctx s))).nGrid
          (gridAfter ext ctx s (refineBound (initialScan ext ctx s))).pArray = 0
    · exact Or.inl hz
    · right
      have := (pairwise_lt_getD _).mp k4 _ _
        (show findGFirst (gridAfter ext ctx s (refineBound (initialScan ext ctx s))).nGrid
            (gridAfter ext ctx s (refineBound (initialScan ext ctx s))).pArray
          < findGLast (gridAfter ext ctx s (refineBound (initialScan ext ctx s))).nGrid
            (gridAfter ext ctx s (refineBound (initialScan ext ctx s))).pArray by omega)
        (by omega)
      exact sub_pos.mpr this

end Mela
